import Mathlib

/-! Vulkan Phong-shading renderer: swapchain selection, memory-type search, layout
transitions and frame pacing.

A shallow embedding of the decision logic of `main.cpp` (class `HelloTriangleApplication`).
Machine integers are natural numbers (or integers for C `int`) with explicit reduction
modulo `2 ^ 32`; calls into Vulkan and GLFW are recorded in a call trace and their
results are supplied by explicit environment records.
-/

namespace VulkanPhong

/-! ## Machine arithmetic and Vulkan constants (values of the Vulkan headers) -/

/-- Largest value of a `uint32_t`. -/
def UINT32_MAX : Nat := 4294967295

/-- Conversion of a C `int` to `uint32_t` (`static_cast<uint32_t>`): reduction modulo `2 ^ 32`. -/
def toUint32 (x : Int) : Nat := (x % 4294967296).toNat

/-- Result codes of Vulkan calls (`VkResult`), kept as integers. -/
abbrev VkResult := Int

def VK_SUCCESS : VkResult := 0
def VK_SUBOPTIMAL_KHR : VkResult := 1000001003
def VK_ERROR_OUT_OF_DATE_KHR : VkResult := -1000001004

def VK_NULL_HANDLE : Nat := 0
def VK_FORMAT_B8G8R8A8_UNORM : Nat := 44
def VK_COLOR_SPACE_SRGB_NONLINEAR_KHR : Nat := 0
def VK_PRESENT_MODE_MAILBOX_KHR : Nat := 1
def VK_PRESENT_MODE_FIFO_KHR : Nat := 2
def VK_SHARING_MODE_EXCLUSIVE : Nat := 0
def VK_SHARING_MODE_CONCURRENT : Nat := 1
def VK_IMAGE_USAGE_COLOR_ATTACHMENT_BIT : Nat := 16
def VK_COMPOSITE_ALPHA_OPAQUE_BIT_KHR : Nat := 1
def VK_IMAGE_LAYOUT_UNDEFINED : Nat := 0
def VK_IMAGE_LAYOUT_SHADER_READ_ONLY_OPTIMAL : Nat := 5
def VK_IMAGE_LAYOUT_TRANSFER_DST_OPTIMAL : Nat := 7
def VK_ACCESS_SHADER_READ_BIT : Nat := 32
def VK_ACCESS_TRANSFER_WRITE_BIT : Nat := 4096
def VK_PIPELINE_STAGE_TOP_OF_PIPE_BIT : Nat := 1
def VK_PIPELINE_STAGE_FRAGMENT_SHADER_BIT : Nat := 128
def VK_PIPELINE_STAGE_COLOR_ATTACHMENT_OUTPUT_BIT : Nat := 1024
def VK_PIPELINE_STAGE_TRANSFER_BIT : Nat := 4096
def VK_QUEUE_FAMILY_IGNORED : Nat := 4294967295
def VK_IMAGE_ASPECT_COLOR_BIT : Nat := 1
def VK_COMMAND_BUFFER_LEVEL_PRIMARY : Nat := 0
def VK_COMMAND_BUFFER_USAGE_ONE_TIME_SUBMIT_BIT : Nat := 1

/-- Maximum number of frames processed concurrently (`const int MAX_FRAMES_IN_FLIGHT = 2`). -/
def MAX_FRAMES_IN_FLIGHT : Nat := 2

/-- Why a member function does not return normally: a C++ exception with its message, an
access the language leaves undefined (an index past the end of a `std::vector`), or a wait
that has not come back within the environment observed so far. -/
inductive Fault where
  | thrown (what : String)
  | undefinedBehaviour (what : String)
  | blocked (what : String)
deriving DecidableEq, Repr

/-! ## Resource allocator: `findMemoryType` -/

/-- One entry of `VkPhysicalDeviceMemoryProperties::memoryTypes`. -/
structure VkMemoryType where
  propertyFlags : Nat
  heapIndex : Nat
deriving DecidableEq, Repr, Inhabited

/-- What `vkGetPhysicalDeviceMemoryProperties` reports: the count and the array of memory
types (the array has `VK_MAX_MEMORY_TYPES = 32` slots; slots past the list read as zero). -/
structure VkPhysicalDeviceMemoryProperties where
  memoryTypeCount : Nat
  memoryTypes : List VkMemoryType
deriving Repr

/-- The test of the `if` in the loop of `findMemoryType`:
`(typeFilter & (1 << i)) && (memoryTypes[i].propertyFlags & properties) == properties`,
with `1 << i` converted to `uint32_t` for the `&`. -/
def memoryTypeTest (memProperties : VkPhysicalDeviceMemoryProperties)
    (typeFilter properties i : Nat) : Bool :=
  (typeFilter &&& ((1 <<< i) % 4294967296) != 0) &&
    (((memProperties.memoryTypes.getD i default).propertyFlags &&& properties) == properties)

/-- The `for` loop of `findMemoryType` from index `i` with `remaining` iterations left
(`remaining = memoryTypeCount - i`); falling out of the loop throws. -/
def findMemoryTypeFrom (memProperties : VkPhysicalDeviceMemoryProperties)
    (typeFilter properties : Nat) (i : Nat) : Nat → Except Fault Nat
  | 0 => .error (.thrown "failed to find suitable memory type!")
  | remaining + 1 =>
    if memoryTypeTest memProperties typeFilter properties i then .ok i
    else findMemoryTypeFrom memProperties typeFilter properties (i + 1) remaining

/-- Embedding of `findMemoryType(typeFilter, properties)`; the device's memory properties are
the value the query call returns. -/
def findMemoryType (memProperties : VkPhysicalDeviceMemoryProperties)
    (typeFilter properties : Nat) : Except Fault Nat :=
  findMemoryTypeFrom memProperties typeFilter properties 0 memProperties.memoryTypeCount

/-- The property the specification asks of a memory-type index, in the specification's words:
bit `i` of the requirements mask is set and the type's flags are a superset of the request. -/
def MemoryTypeSuitable (memProperties : VkPhysicalDeviceMemoryProperties)
    (typeFilter properties i : Nat) : Prop :=
  typeFilter.testBit i = true ∧
    (memProperties.memoryTypes.getD i default).propertyFlags &&& properties = properties

/-! ## Swapchain manager: format, present mode, extent, image count, sharing mode -/

/-- A surface format as reported by the device (`VkSurfaceFormatKHR`). -/
structure VkSurfaceFormatKHR where
  format : Nat
  colorSpace : Nat
deriving DecidableEq, Repr

/-- The test of the `if` in `chooseSwapSurfaceFormat`: 8-bit BGRA with SRGB-nonlinear space. -/
def isPreferredFormat (availableFormat : VkSurfaceFormatKHR) : Bool :=
  availableFormat.format == VK_FORMAT_B8G8R8A8_UNORM &&
    availableFormat.colorSpace == VK_COLOR_SPACE_SRGB_NONLINEAR_KHR

/-- The range-`for` of `chooseSwapSurfaceFormat`: the entry it returns from inside the loop,
if any. -/
def chooseSwapSurfaceFormatLoop : List VkSurfaceFormatKHR → Option VkSurfaceFormatKHR
  | [] => none
  | availableFormat :: rest =>
    if isPreferredFormat availableFormat then some availableFormat
    else chooseSwapSurfaceFormatLoop rest

/-- Embedding of `chooseSwapSurfaceFormat`: the loop, then `availableFormats[0]`, which is an
undefined read when the vector is empty. -/
def chooseSwapSurfaceFormat (availableFormats : List VkSurfaceFormatKHR) :
    Except Fault VkSurfaceFormatKHR :=
  match chooseSwapSurfaceFormatLoop availableFormats with
  | some availableFormat => .ok availableFormat
  | none =>
    match availableFormats with
    | first :: _ => .ok first
    | [] => .error (.undefinedBehaviour "availableFormats[0]")

/-- Embedding of `chooseSwapPresentMode`: MAILBOX when the loop meets it, FIFO after the loop. -/
def chooseSwapPresentMode : List Nat → Nat
  | [] => VK_PRESENT_MODE_FIFO_KHR
  | availablePresentMode :: rest =>
    if availablePresentMode = VK_PRESENT_MODE_MAILBOX_KHR then availablePresentMode
    else chooseSwapPresentMode rest

/-- A two-dimensional extent (`VkExtent2D`), both components `uint32_t`. -/
structure VkExtent2D where
  width : Nat
  height : Nat
deriving DecidableEq, Repr

/-- The fields of `VkSurfaceCapabilitiesKHR` that the program reads. -/
structure VkSurfaceCapabilitiesKHR where
  minImageCount : Nat
  maxImageCount : Nat
  currentExtent : VkExtent2D
  minImageExtent : VkExtent2D
  maxImageExtent : VkExtent2D
  currentTransform : Nat
deriving DecidableEq, Repr

/-- Embedding of `chooseSwapExtent`; `framebufferSize` is the pair of C `int`s that
`glfwGetFramebufferSize` writes, cast to `uint32_t` before `std::min` / `std::max`. -/
def chooseSwapExtent (capabilities : VkSurfaceCapabilitiesKHR) (framebufferSize : Int × Int) :
    VkExtent2D :=
  if capabilities.currentExtent.width ≠ UINT32_MAX then
    capabilities.currentExtent
  else
    let actualExtent : VkExtent2D := ⟨toUint32 framebufferSize.1, toUint32 framebufferSize.2⟩
    { width := max capabilities.minImageExtent.width
        (min capabilities.maxImageExtent.width actualExtent.width)
      height := max capabilities.minImageExtent.height
        (min capabilities.maxImageExtent.height actualExtent.height) }

/-- Clamping in the specification's sense: the value itself inside `[lo, hi]`, the nearer end
outside. -/
def clampInto (lo hi v : Nat) : Nat :=
  if v < lo then lo else if hi < v then hi else v

/-- Queue family indices (`struct QueueFamilyIndices`), each a `std::optional<uint32_t>`. -/
structure QueueFamilyIndices where
  graphicsFamily : Option Nat
  presentFamily : Option Nat
deriving DecidableEq, Repr

/-- Accessor `std::optional::value()`: throws `std::bad_optional_access` when empty. -/
def optionalValue (o : Option Nat) : Except Fault Nat :=
  match o with
  | some v => .ok v
  | none => .error (.thrown "bad optional access")

/-- What `querySwapChainSupport` returns (`struct SwapChainSupportDetails`). -/
structure SwapChainSupportDetails where
  capabilities : VkSurfaceCapabilitiesKHR
  formats : List VkSurfaceFormatKHR
  presentModes : List Nat
deriving Repr

/-- The create-info record handed to `vkCreateSwapchainKHR`. A null `pQueueFamilyIndices`
is `none`; otherwise it points at the local array `queueFamilyIndices`. -/
structure VkSwapchainCreateInfoKHR where
  surface : Nat
  minImageCount : Nat
  imageFormat : Nat
  imageColorSpace : Nat
  imageExtent : VkExtent2D
  imageArrayLayers : Nat
  imageUsage : Nat
  imageSharingMode : Nat
  queueFamilyIndexCount : Nat
  pQueueFamilyIndices : Option (List Nat)
  preTransform : Nat
  compositeAlpha : Nat
  presentMode : Nat
  clipped : Bool
  oldSwapchain : Nat
deriving DecidableEq, Repr

/-- The image count computed at the head of `createSwapChain`: `minImageCount + 1` in
`uint32_t`, replaced by `maxImageCount` when that is positive and exceeded. -/
def createSwapChainImageCount (capabilities : VkSurfaceCapabilitiesKHR) : Nat :=
  let imageCount := (capabilities.minImageCount + 1) % 4294967296
  if capabilities.maxImageCount > 0 ∧ imageCount > capabilities.maxImageCount then
    capabilities.maxImageCount
  else imageCount

/-- The part of `createSwapChain` that fills the create-info record, up to the call of
`vkCreateSwapchainKHR`. -/
def createSwapChainInfo (surface : Nat) (swapChainSupport : SwapChainSupportDetails)
    (framebufferSize : Int × Int) (indices : QueueFamilyIndices) :
    Except Fault VkSwapchainCreateInfoKHR := do
  let surfaceFormat ← chooseSwapSurfaceFormat swapChainSupport.formats
  let presentMode := chooseSwapPresentMode swapChainSupport.presentModes
  let extent := chooseSwapExtent swapChainSupport.capabilities framebufferSize
  let imageCount := createSwapChainImageCount swapChainSupport.capabilities
  let graphicsIndex ← optionalValue indices.graphicsFamily
  let presentIndex ← optionalValue indices.presentFamily
  let queueFamilyIndices := [graphicsIndex, presentIndex]
  let concurrent : Bool := indices.graphicsFamily != indices.presentFamily
  pure {
    surface := surface
    minImageCount := imageCount
    imageFormat := surfaceFormat.format
    imageColorSpace := surfaceFormat.colorSpace
    imageExtent := extent
    imageArrayLayers := 1
    imageUsage := VK_IMAGE_USAGE_COLOR_ATTACHMENT_BIT
    imageSharingMode := if concurrent then VK_SHARING_MODE_CONCURRENT else VK_SHARING_MODE_EXCLUSIVE
    queueFamilyIndexCount := if concurrent then 2 else 0
    pQueueFamilyIndices := if concurrent then some queueFamilyIndices else none
    preTransform := swapChainSupport.capabilities.currentTransform
    compositeAlpha := VK_COMPOSITE_ALPHA_OPAQUE_BIT_KHR
    presentMode := presentMode
    clipped := true
    oldSwapchain := VK_NULL_HANDLE }

/-- The queue families Vulkan reads from a create-info record: the first
`queueFamilyIndexCount` entries behind `pQueueFamilyIndices`. -/
def VkSwapchainCreateInfoKHR.familyList (createInfo : VkSwapchainCreateInfoKHR) : List Nat :=
  (createInfo.pQueueFamilyIndices.getD []).take createInfo.queueFamilyIndexCount

/-! ## Call traces and the execution monad -/

/-- An image memory barrier as filled in by `transitionImageLayout`. -/
structure VkImageMemoryBarrier where
  srcAccessMask : Nat
  dstAccessMask : Nat
  oldLayout : Nat
  newLayout : Nat
  srcQueueFamilyIndex : Nat
  dstQueueFamilyIndex : Nat
  image : Nat
  aspectMask : Nat
  baseMipLevel : Nat
  levelCount : Nat
  baseArrayLayer : Nat
  layerCount : Nat
deriving DecidableEq, Repr

/-- A buffer copy region as filled in by `copyBuffer` (`VkBufferCopy copyRegion = {}` with
`size` assigned). -/
structure VkBufferCopy where
  srcOffset : Nat
  dstOffset : Nat
  size : Nat
deriving DecidableEq, Repr

/-- A buffer-to-image copy region as filled in by `copyBufferToImage`. -/
structure VkBufferImageCopy where
  bufferOffset : Nat
  bufferRowLength : Nat
  bufferImageHeight : Nat
  aspectMask : Nat
  mipLevel : Nat
  baseArrayLayer : Nat
  layerCount : Nat
  imageOffset : Int × Int × Int
  imageExtent : Nat × Nat × Nat
deriving DecidableEq, Repr

/-- One queue-create record of `createLogicalDevice` (`VkDeviceQueueCreateInfo`); the
priority behind `pQueuePriorities` is the constant `1.0f`. -/
structure VkDeviceQueueCreateInfo where
  queueFamilyIndex : Nat
  queueCount : Nat
deriving DecidableEq, Repr

/-- The kinds of Vulkan objects the program creates and destroys. -/
inductive ObjectKind where
  | swapchain | image | imageView | memory | renderPass | shaderModule | pipelineLayout
  | pipeline | framebuffer | buffer | descriptorPool | descriptorSet | commandBuffer
  | semaphore | fence | descriptorSetLayout | commandPool | sampler
deriving DecidableEq, Repr

/-- One call into Vulkan or GLFW (or one host write), with the arguments the program
passes; `vkCreate` and `vkDestroy` stand for the creating and destroying calls of each kind
of object; `enter` marks the entry into a member function. Handles are natural numbers,
`VK_NULL_HANDLE` is 0. -/
inductive Call where
  | vkAllocateCommandBuffers (commandPool level count : Nat) (commandBuffers : List Nat)
  | vkBeginCommandBuffer (commandBuffer flags : Nat)
  | vkCmdPipelineBarrier (commandBuffer srcStageMask dstStageMask : Nat)
      (imageMemoryBarriers : List VkImageMemoryBarrier)
  | vkCmdCopyBuffer (commandBuffer srcBuffer dstBuffer : Nat) (regions : List VkBufferCopy)
  | vkCmdCopyBufferToImage (commandBuffer srcBuffer dstImage dstImageLayout : Nat)
      (regions : List VkBufferImageCopy)
  | vkEndCommandBuffer (commandBuffer : Nat)
  | vkQueueSubmit (queue : Nat) (waitSemaphores waitDstStageMask commandBuffers
      signalSemaphores : List Nat) (fence : Nat)
  | vkQueueWaitIdle (queue : Nat)
  | vkFreeCommandBuffers (commandPool : Nat) (commandBuffers : List Nat)
  | vkWaitForFences (fences : List Nat)
  | vkResetFences (fences : List Nat)
  | vkAcquireNextImageKHR (swapChain semaphore fence : Nat)
  | vkMapMemory (memory : Nat)
  | memcpy (memory : Nat)
  | vkUnmapMemory (memory : Nat)
  | vkQueuePresentKHR (queue : Nat) (waitSemaphores swapChains imageIndices : List Nat)
  | glfwGetFramebufferSize
  | glfwWaitEvents
  | vkDeviceWaitIdle
  | vkCreateSwapchainKHR (createInfo : VkSwapchainCreateInfoKHR) (result : VkResult)
      (swapChain : Nat)
  | vkCreateFence (flags : Nat) (result : VkResult) (fence : Nat)
  | vkCreate (kind : ObjectKind) (result : VkResult) (handle : Nat)
  | vkDestroy (kind : ObjectKind) (handle : Nat)
  | vkCreateBuffer (size usage : Nat) (result : VkResult) (buffer : Nat)
  | vkCreateImage (width height format tiling initialLayout usage : Nat) (result : VkResult)
      (image : Nat)
  | vkAllocateMemory (allocationSize memoryTypeIndex : Nat) (result : VkResult)
      (memory : Nat)
  | vkBindMemory (resource memory : Nat) (result : VkResult)
  | vkAllocateDescriptorSets (descriptorPool count : Nat) (result : VkResult)
      (descriptorSets : List Nat)
  | vkUpdateDescriptorSets (descriptorSet uniformBuffer lightingBuffer imageLayout imageView
      sampler : Nat)
  | vkCreateFramebuffer (renderPass : Nat) (attachments : List Nat) (width height : Nat)
      (result : VkResult) (framebuffer : Nat)
  | vkCreateDevice (queueCreateInfos : List VkDeviceQueueCreateInfo) (result : VkResult)
      (device : Nat)
  | vkGetDeviceQueue (queueFamilyIndex queueIndex queue : Nat)
  | vkCmdBeginRenderPass (commandBuffer renderPass framebuffer : Nat)
  | vkCmdBindPipeline (commandBuffer pipeline : Nat)
  | vkCmdBindVertexBuffers (commandBuffer vertexBuffer : Nat)
  | vkCmdBindIndexBuffer (commandBuffer indexBuffer : Nat)
  | vkCmdBindDescriptorSets (commandBuffer pipelineLayout descriptorSet : Nat)
  | vkCmdDrawIndexed (commandBuffer : Nat)
  | vkCmdEndRenderPass (commandBuffer : Nat)
  | enter (function : String)
deriving DecidableEq, Repr

/-- What running a member function yields: its result (a value, or the fault that ended
it), the object state it leaves, and the calls it made, in order. -/
structure Run (σ α : Type) where
  result : Except Fault α
  state : σ
  trace : List Call

/-- A member function over object state `σ`. -/
def Exec (σ α : Type) : Type := σ → Run σ α

/-- Running a member function from a state. -/
def Exec.run {σ α : Type} (m : Exec σ α) (s : σ) : Run σ α := m s

/-- Normal return of a value. -/
def Exec.pure {σ α : Type} (a : α) : Exec σ α := fun s => ⟨.ok a, s, []⟩

/-- Sequencing of statements: a fault in the first ends the run there. -/
def Exec.bind {σ α β : Type} (m : Exec σ α) (f : α → Exec σ β) : Exec σ β := fun s =>
  match (m s).result with
  | .ok a => ⟨(f a (m s).state).result, (f a (m s).state).state,
      (m s).trace ++ (f a (m s).state).trace⟩
  | .error e => ⟨.error e, (m s).state, (m s).trace⟩

instance {σ : Type} : Monad (Exec σ) where
  pure := Exec.pure
  bind := Exec.bind

/-- Reading the object state. -/
def getState {σ : Type} : Exec σ σ := fun s => ⟨.ok s, s, []⟩

/-- An assignment to members of the object. -/
def modifyState {σ : Type} (f : σ → σ) : Exec σ Unit := fun s => ⟨.ok (), f s, []⟩

/-- A call recorded in the trace. -/
def call {σ : Type} (c : Call) : Exec σ Unit := fun s => ⟨.ok (), s, [c]⟩

/-- The fault that ends the run: `throw std::runtime_error(what)` and the like. -/
def fail {σ α : Type} (e : Fault) : Exec σ α := fun s => ⟨.error e, s, []⟩

/-- Element `v[i]` of a `std::vector`; past the end the behaviour is undefined. -/
def index {σ : Type} (v : List Nat) (i : Nat) (what : String) : Exec σ Nat :=
  match v[i]? with
  | some x => Exec.pure x
  | none => fail (.undefinedBehaviour what)

/-- Whether the run returned normally. -/
def Run.returned {σ α : Type} (r : Run σ α) : Bool :=
  match r.result with
  | .ok _ => true
  | .error _ => false

/-! ## Object state of `HelloTriangleApplication` -/

/-- Members written once during `initVulkan`, outside the swapchain creation pass. -/
structure StaticHandles where
  surface : Nat
  graphicsQueue : Nat
  presentQueue : Nat
  descriptorSetLayout : Nat
  commandPool : Nat
  vertexBuffer : Nat
  vertexBufferMemory : Nat
  indexBuffer : Nat
  indexBufferMemory : Nat
  textureImage : Nat
  textureImageMemory : Nat
  textureImageView : Nat
  textureSampler : Nat
deriving DecidableEq, Repr

/-- Members written by the swapchain creation pass (`createSwapChain` up to
`createCommandBuffers`). -/
structure SwapChainObjects where
  swapChain : Nat
  swapChainImages : List Nat
  swapChainImageFormat : Nat
  swapChainExtent : VkExtent2D
  swapChainImageViews : List Nat
  renderPass : Nat
  pipelineLayout : Nat
  graphicsPipeline : Nat
  swapChainFramebuffers : List Nat
  uniformBuffers : List Nat
  uniformBuffersMemory : List Nat
  lightingBuffers : List Nat
  lightingBuffersMemory : List Nat
  descriptorPool : Nat
  descriptorSets : List Nat
  depthImage : Nat
  depthImageMemory : Nat
  depthImageView : Nat
  commandBuffers : List Nat
deriving DecidableEq, Repr

/-- Members of the frame synchronisation controller, and the window size the resize
callback stores. -/
structure FrameSync where
  imageAvailableSemaphores : List Nat
  renderFinishedSemaphores : List Nat
  inFlightFences : List Nat
  imagesInFlight : List Nat
  currentFrame : Nat
  framebufferResized : Bool
  width : Int
  height : Int
deriving DecidableEq, Repr

/-- The object state: the data members of `HelloTriangleApplication` that hold handles,
indices and flags. -/
structure App extends StaticHandles, SwapChainObjects, FrameSync
deriving DecidableEq, Repr

/-! ## Transfer engine -/

/-- Embedding of `beginSingleTimeCommands`; `commandBuffer` is the handle that
`vkAllocateCommandBuffers` writes. Return codes are not inspected by the source. -/
def beginSingleTimeCommands (commandBuffer : Nat) : Exec App Nat := do
  let s ← getState
  call (.vkAllocateCommandBuffers s.commandPool VK_COMMAND_BUFFER_LEVEL_PRIMARY 1
    [commandBuffer])
  call (.vkBeginCommandBuffer commandBuffer VK_COMMAND_BUFFER_USAGE_ONE_TIME_SUBMIT_BIT)
  pure commandBuffer

/-- Embedding of `endSingleTimeCommands`. -/
def endSingleTimeCommands (commandBuffer : Nat) : Exec App Unit := do
  let s ← getState
  call (.vkEndCommandBuffer commandBuffer)
  call (.vkQueueSubmit s.graphicsQueue [] [] [commandBuffer] [] VK_NULL_HANDLE)
  call (.vkQueueWaitIdle s.graphicsQueue)
  call (.vkFreeCommandBuffers s.commandPool [commandBuffer])

/-- The `if` / `else if` / `else` of `transitionImageLayout`: access masks and stages of
the two supported transitions, `none` for the `else` branch that throws. The components are
source access, destination access, source stage, destination stage. -/
def transitionMasks (oldLayout newLayout : Nat) : Option (Nat × Nat × Nat × Nat) :=
  if oldLayout = VK_IMAGE_LAYOUT_UNDEFINED ∧
      newLayout = VK_IMAGE_LAYOUT_TRANSFER_DST_OPTIMAL then
    some (0, VK_ACCESS_TRANSFER_WRITE_BIT,
      VK_PIPELINE_STAGE_TOP_OF_PIPE_BIT, VK_PIPELINE_STAGE_TRANSFER_BIT)
  else if oldLayout = VK_IMAGE_LAYOUT_TRANSFER_DST_OPTIMAL ∧
      newLayout = VK_IMAGE_LAYOUT_SHADER_READ_ONLY_OPTIMAL then
    some (VK_ACCESS_TRANSFER_WRITE_BIT, VK_ACCESS_SHADER_READ_BIT,
      VK_PIPELINE_STAGE_TRANSFER_BIT, VK_PIPELINE_STAGE_FRAGMENT_SHADER_BIT)
  else none

/-- Embedding of `transitionImageLayout(image, format, oldLayout, newLayout)`;
`commandBuffer` is the handle the allocation inside `beginSingleTimeCommands` yields. -/
def transitionImageLayout (commandBuffer : Nat) (image _format oldLayout newLayout : Nat) :
    Exec App Unit := do
  let commandBuffer ← beginSingleTimeCommands commandBuffer
  match transitionMasks oldLayout newLayout with
  | some (srcAccessMask, dstAccessMask, sourceStage, destinationStage) =>
    let barrier : VkImageMemoryBarrier := {
      srcAccessMask := srcAccessMask
      dstAccessMask := dstAccessMask
      oldLayout := oldLayout
      newLayout := newLayout
      srcQueueFamilyIndex := VK_QUEUE_FAMILY_IGNORED
      dstQueueFamilyIndex := VK_QUEUE_FAMILY_IGNORED
      image := image
      aspectMask := VK_IMAGE_ASPECT_COLOR_BIT
      baseMipLevel := 0
      levelCount := 1
      baseArrayLayer := 0
      layerCount := 1 }
    call (.vkCmdPipelineBarrier commandBuffer sourceStage destinationStage [barrier])
    endSingleTimeCommands commandBuffer
  | none => fail (.thrown "unsupported layout transition!")

/-- Embedding of `copyBuffer(srcBuffer, dstBuffer, size)`; `commandBuffer` is the handle the
allocation inside `beginSingleTimeCommands` yields. -/
def copyBuffer (commandBuffer : Nat) (srcBuffer dstBuffer size : Nat) : Exec App Unit := do
  let commandBuffer ← beginSingleTimeCommands commandBuffer
  let copyRegion : VkBufferCopy := { srcOffset := 0, dstOffset := 0, size := size }
  call (.vkCmdCopyBuffer commandBuffer srcBuffer dstBuffer [copyRegion])
  endSingleTimeCommands commandBuffer

/-- Embedding of `copyBufferToImage(buffer, image, width, height)`; `commandBuffer` is the
handle the allocation inside `beginSingleTimeCommands` yields. -/
def copyBufferToImage (commandBuffer : Nat) (buffer image width height : Nat) :
    Exec App Unit := do
  let commandBuffer ← beginSingleTimeCommands commandBuffer
  let region : VkBufferImageCopy := {
    bufferOffset := 0
    bufferRowLength := 0
    bufferImageHeight := 0
    aspectMask := VK_IMAGE_ASPECT_COLOR_BIT
    mipLevel := 0
    baseArrayLayer := 0
    layerCount := 1
    imageOffset := (0, 0, 0)
    imageExtent := (width, height, 1) }
  call (.vkCmdCopyBufferToImage commandBuffer buffer image
    VK_IMAGE_LAYOUT_TRANSFER_DST_OPTIMAL [region])
  endSingleTimeCommands commandBuffer

/-- Whether a call frees the given command buffer back to its pool. -/
def Call.freesCommandBuffer (commandBuffer : Nat) : Call → Bool
  | .vkFreeCommandBuffers _ commandBuffers => commandBuffers.contains commandBuffer
  | _ => false

/-- Whether a call records a pipeline barrier. -/
def Call.isPipelineBarrier : Call → Bool
  | .vkCmdPipelineBarrier _ _ _ _ => true
  | _ => false

/-- Whether a call is a submission to the given queue. -/
def Call.isSubmitTo (queue : Nat) : Call → Bool
  | .vkQueueSubmit q _ _ _ _ _ => q == queue
  | _ => false

/-- Whether a call is a queue submission (to any queue). -/
def Call.isSubmit : Call → Bool
  | .vkQueueSubmit _ _ _ _ _ _ => true
  | _ => false

/-! ## Swapchain creation pass -/

def VK_FORMAT_D32_SFLOAT : Nat := 126
def VK_FORMAT_D24_UNORM_S8_UINT : Nat := 129
def VK_FORMAT_D32_SFLOAT_S8_UINT : Nat := 130
def VK_IMAGE_TILING_OPTIMAL : Nat := 0
def VK_IMAGE_TILING_LINEAR : Nat := 1
def VK_FORMAT_FEATURE_DEPTH_STENCIL_ATTACHMENT_BIT : Nat := 512
def VK_IMAGE_USAGE_DEPTH_STENCIL_ATTACHMENT_BIT : Nat := 32
def VK_IMAGE_ASPECT_DEPTH_BIT : Nat := 2
def VK_MEMORY_PROPERTY_DEVICE_LOCAL_BIT : Nat := 1
def VK_MEMORY_PROPERTY_HOST_VISIBLE_BIT : Nat := 2
def VK_MEMORY_PROPERTY_HOST_COHERENT_BIT : Nat := 4
def VK_BUFFER_USAGE_UNIFORM_BUFFER_BIT : Nat := 16
def VK_FENCE_CREATE_SIGNALED_BIT : Nat := 1

/-- `std::vector::resize(n, fill)`: keeps the first `n` elements, pads with `fill`. -/
def resize (v : List Nat) (n : Nat) (fill : Nat) : List Nat :=
  v.take n ++ List.replicate (n - v.length) fill

/-- A counted `for (i = start; ...; i++)` loop with `count` iterations left; a fault in the
body ends the loop. -/
def forRange {σ : Type} (body : Nat → Exec σ Unit) : Nat → Nat → Exec σ Unit
  | _, 0 => Exec.pure ()
  | i, count + 1 => Exec.bind (body i) (fun _ => forRange body (i + 1) count)

/-- A member function of the creation pass run on the whole object: it reads and writes the
swapchain-derived members only. -/
def liftObjects {α : Type} (m : Exec SwapChainObjects α) : Exec App α := fun s =>
  match m s.toSwapChainObjects with
  | ⟨r, o, t⟩ => ⟨r, { s with toSwapChainObjects := o }, t⟩

/-- What the driver answers during one `createBuffer` or `createImage` call: result and
handle of the creating call, the memory requirements it reports, result and handle of
`vkAllocateMemory`, and the result of the bind call. -/
structure AllocationEnv where
  resource : VkResult × Nat
  memorySize : Nat
  memoryTypeBits : Nat
  memory : VkResult × Nat
  bindResult : VkResult

/-- Size in bytes of `UniformBufferObject`: three `glm::mat4`. -/
def sizeofUniformBufferObject : Nat := 192

/-- Size in bytes of `LightingConstants`: four `glm::vec4` and eight `float`. -/
def sizeofLightingConstants : Nat := 96

/-- What the driver, the window system and the file system answer during one swapchain
creation pass: for every creating call its result code and the handle it writes. -/
structure CreationEnv where
  swapChainSupport : SwapChainSupportDetails
  framebufferSize : Int × Int
  indices : QueueFamilyIndices
  swapChain : VkResult × Nat
  swapChainImages : List Nat
  imageView : Nat → VkResult × Nat
  linearTilingFeatures : Nat → Nat
  optimalTilingFeatures : Nat → Nat
  renderPass : VkResult × Nat
  vertShaderFile : Bool
  fragShaderFile : Bool
  vertShaderModule : VkResult × Nat
  fragShaderModule : VkResult × Nat
  pipelineLayoutResponse : VkResult × Nat
  graphicsPipelineResponse : VkResult × Nat
  memProperties : VkPhysicalDeviceMemoryProperties
  depthAllocation : AllocationEnv
  depthImageViewResponse : VkResult × Nat
  framebuffer : Nat → VkResult × Nat
  uniformAllocation : Nat → AllocationEnv
  lightingAllocation : Nat → AllocationEnv
  descriptorPoolResponse : VkResult × Nat
  descriptorSetsResult : VkResult
  descriptorSet : Nat → Nat
  commandBuffersResult : VkResult
  commandBuffer : Nat → Nat
  beginCommandBuffer : Nat → VkResult
  endCommandBuffer : Nat → VkResult

/-- Embedding of `createSwapChain`. -/
def createSwapChain (env : CreationEnv) (ctx : StaticHandles) : Exec SwapChainObjects Unit :=
  match createSwapChainInfo ctx.surface env.swapChainSupport env.framebufferSize
      env.indices with
  | .error e => fail e
  | .ok createInfo => do
    call (.vkCreateSwapchainKHR createInfo env.swapChain.1 env.swapChain.2)
    if env.swapChain.1 ≠ VK_SUCCESS then
      fail (.thrown "failed to create swap chain!")
    else
      modifyState fun o => { o with
        swapChain := env.swapChain.2
        swapChainImages := env.swapChainImages
        swapChainImageFormat := createInfo.imageFormat
        swapChainExtent := createInfo.imageExtent }

/-- Embedding of `createImageView`; `response` is what `vkCreateImageView` answers. -/
def createImageView {σ : Type} (response : VkResult × Nat) (_image _format _aspectFlags : Nat) :
    Exec σ Nat := do
  call (.vkCreate .imageView response.1 response.2)
  if response.1 ≠ VK_SUCCESS then
    fail (.thrown "failed to create texture image view!")
  else pure response.2

/-- Embedding of `createImageViews`. -/
def createImageViews (env : CreationEnv) : Exec SwapChainObjects Unit := do
  modifyState fun o => { o with
    swapChainImageViews := resize o.swapChainImageViews o.swapChainImages.length 0 }
  let o ← getState
  forRange (fun i => do
    let o ← getState
    let image ← index o.swapChainImages i "swapChainImages[i]"
    let view ← createImageView (env.imageView i) image o.swapChainImageFormat
      VK_IMAGE_ASPECT_COLOR_BIT
    modifyState fun o => { o with swapChainImageViews := o.swapChainImageViews.set i view })
    0 o.swapChainImages.length

/-- Embedding of the loop of `findSupportedFormat`. -/
def findSupportedFormat {σ : Type} (env : CreationEnv) (tiling features : Nat) :
    List Nat → Exec σ Nat
  | [] => fail (.thrown "failed to find supported format!")
  | format :: rest =>
    if tiling = VK_IMAGE_TILING_LINEAR ∧
        env.linearTilingFeatures format &&& features = features then pure format
    else if tiling = VK_IMAGE_TILING_OPTIMAL ∧
        env.optimalTilingFeatures format &&& features = features then pure format
    else findSupportedFormat env tiling features rest

/-- Embedding of `findDepthFormat`. -/
def findDepthFormat {σ : Type} (env : CreationEnv) : Exec σ Nat :=
  findSupportedFormat env VK_IMAGE_TILING_OPTIMAL VK_FORMAT_FEATURE_DEPTH_STENCIL_ATTACHMENT_BIT
    [VK_FORMAT_D32_SFLOAT, VK_FORMAT_D32_SFLOAT_S8_UINT, VK_FORMAT_D24_UNORM_S8_UINT]

/-- Embedding of `createRenderPass` (the attachment descriptions are configuration). -/
def createRenderPass (env : CreationEnv) : Exec SwapChainObjects Unit := do
  let _depthFormat ← findDepthFormat env
  call (.vkCreate .renderPass env.renderPass.1 env.renderPass.2)
  if env.renderPass.1 ≠ VK_SUCCESS then
    fail (.thrown "failed to create render pass!")
  else modifyState fun o => { o with renderPass := env.renderPass.2 }

/-- Embedding of `readFile`: throws when the file cannot be opened. -/
def readFile {σ : Type} (opened : Bool) : Exec σ Unit :=
  if opened then pure () else fail (.thrown "failed to open file!")

/-- Embedding of `createShaderModule`. -/
def createShaderModule {σ : Type} (response : VkResult × Nat) : Exec σ Nat := do
  call (.vkCreate .shaderModule response.1 response.2)
  if response.1 ≠ VK_SUCCESS then
    fail (.thrown "failed to create shader module!")
  else pure response.2

/-- Embedding of `createGraphicsPipeline` (the fixed-function state is configuration). -/
def createGraphicsPipeline (env : CreationEnv) : Exec SwapChainObjects Unit := do
  readFile env.vertShaderFile
  readFile env.fragShaderFile
  let vertShaderModule ← createShaderModule env.vertShaderModule
  let fragShaderModule ← createShaderModule env.fragShaderModule
  call (.vkCreate .pipelineLayout env.pipelineLayoutResponse.1 env.pipelineLayoutResponse.2)
  if env.pipelineLayoutResponse.1 ≠ VK_SUCCESS then
    fail (.thrown "failed to create pipeline layout!")
  else
    modifyState fun o => { o with pipelineLayout := env.pipelineLayoutResponse.2 }
    call (.vkCreate .pipeline env.graphicsPipelineResponse.1 env.graphicsPipelineResponse.2)
    if env.graphicsPipelineResponse.1 ≠ VK_SUCCESS then
      fail (.thrown "failed to create graphics pipeline!")
    else
      modifyState fun o => { o with graphicsPipeline := env.graphicsPipelineResponse.2 }
      call (.vkDestroy .shaderModule fragShaderModule)
      call (.vkDestroy .shaderModule vertShaderModule)

/-- A fallible pure computation run as a statement. -/
def liftExcept {σ α : Type} (x : Except Fault α) : Exec σ α :=
  match x with
  | .ok a => pure a
  | .error e => fail e

/-- Embedding of `createImage`: returns the image and its memory. The result of
`vkBindImageMemory` is not inspected by the source. -/
def createImage {σ : Type} (memProperties : VkPhysicalDeviceMemoryProperties)
    (env : AllocationEnv) (width height format tiling usage properties : Nat) :
    Exec σ (Nat × Nat) := do
  call (.vkCreateImage width height format tiling VK_IMAGE_LAYOUT_UNDEFINED usage
    env.resource.1 env.resource.2)
  if env.resource.1 ≠ VK_SUCCESS then
    fail (.thrown "failed to create image!")
  else
    let memoryTypeIndex ← liftExcept
      (findMemoryType memProperties env.memoryTypeBits properties)
    call (.vkAllocateMemory env.memorySize memoryTypeIndex env.memory.1 env.memory.2)
    if env.memory.1 ≠ VK_SUCCESS then
      fail (.thrown "failed to allocate image memory!")
    else
      call (.vkBindMemory env.resource.2 env.memory.2 env.bindResult)
      pure (env.resource.2, env.memory.2)

/-- Embedding of `createBuffer`: returns the buffer and its memory. The result of
`vkBindBufferMemory` is not inspected by the source. -/
def createBuffer {σ : Type} (memProperties : VkPhysicalDeviceMemoryProperties)
    (env : AllocationEnv) (size usage properties : Nat) : Exec σ (Nat × Nat) := do
  call (.vkCreateBuffer size usage env.resource.1 env.resource.2)
  if env.resource.1 ≠ VK_SUCCESS then
    fail (.thrown "failed to create buffer!")
  else
    let memoryTypeIndex ← liftExcept
      (findMemoryType memProperties env.memoryTypeBits properties)
    call (.vkAllocateMemory env.memorySize memoryTypeIndex env.memory.1 env.memory.2)
    if env.memory.1 ≠ VK_SUCCESS then
      fail (.thrown "failed to allocate buffer memory!")
    else
      call (.vkBindMemory env.resource.2 env.memory.2 env.bindResult)
      pure (env.resource.2, env.memory.2)

/-- Embedding of `createDepthResources`. -/
def createDepthResources (env : CreationEnv) : Exec SwapChainObjects Unit := do
  let depthFormat ← findDepthFormat env
  let o ← getState
  let (image, memory) ← createImage env.memProperties env.depthAllocation
    o.swapChainExtent.width o.swapChainExtent.height depthFormat VK_IMAGE_TILING_OPTIMAL
    VK_IMAGE_USAGE_DEPTH_STENCIL_ATTACHMENT_BIT VK_MEMORY_PROPERTY_DEVICE_LOCAL_BIT
  modifyState fun o => { o with depthImage := image, depthImageMemory := memory }
  let view ← createImageView env.depthImageViewResponse image depthFormat
    VK_IMAGE_ASPECT_DEPTH_BIT
  modifyState fun o => { o with depthImageView := view }

/-- Embedding of `createFramebuffers`. -/
def createFramebuffers (env : CreationEnv) : Exec SwapChainObjects Unit := do
  modifyState fun o => { o with
    swapChainFramebuffers := resize o.swapChainFramebuffers o.swapChainImageViews.length 0 }
  let o ← getState
  forRange (fun i => do
    let o ← getState
    let attachment ← index o.swapChainImageViews i "swapChainImageViews[i]"
    call (.vkCreateFramebuffer o.renderPass [attachment, o.depthImageView]
      o.swapChainExtent.width o.swapChainExtent.height (env.framebuffer i).1
      (env.framebuffer i).2)
    if (env.framebuffer i).1 ≠ VK_SUCCESS then
      fail (.thrown "failed to create framebuffer!")
    else
      modifyState fun o => { o with
        swapChainFramebuffers := o.swapChainFramebuffers.set i (env.framebuffer i).2 })
    0 o.swapChainImageViews.length

/-- Embedding of `createUniformBuffers`. -/
def createUniformBuffers (env : CreationEnv) : Exec SwapChainObjects Unit := do
  modifyState fun o => { o with
    uniformBuffers := resize o.uniformBuffers o.swapChainImages.length 0
    uniformBuffersMemory := resize o.uniformBuffersMemory o.swapChainImages.length 0
    lightingBuffers := resize o.lightingBuffers o.swapChainImages.length 0
    lightingBuffersMemory := resize o.lightingBuffersMemory o.swapChainImages.length 0 }
  let o ← getState
  forRange (fun i => do
    let (buffer, memory) ← createBuffer env.memProperties (env.uniformAllocation i)
      sizeofUniformBufferObject VK_BUFFER_USAGE_UNIFORM_BUFFER_BIT
      (VK_MEMORY_PROPERTY_HOST_VISIBLE_BIT ||| VK_MEMORY_PROPERTY_HOST_COHERENT_BIT)
    modifyState fun o => { o with
      uniformBuffers := o.uniformBuffers.set i buffer
      uniformBuffersMemory := o.uniformBuffersMemory.set i memory }
    let (lightingBuffer, lightingMemory) ← createBuffer env.memProperties
      (env.lightingAllocation i) sizeofLightingConstants VK_BUFFER_USAGE_UNIFORM_BUFFER_BIT
      (VK_MEMORY_PROPERTY_HOST_VISIBLE_BIT ||| VK_MEMORY_PROPERTY_HOST_COHERENT_BIT)
    modifyState fun o => { o with
      lightingBuffers := o.lightingBuffers.set i lightingBuffer
      lightingBuffersMemory := o.lightingBuffersMemory.set i lightingMemory })
    0 o.swapChainImages.length

/-- Embedding of `createDescriptorPool`. -/
def createDescriptorPool (env : CreationEnv) : Exec SwapChainObjects Unit := do
  call (.vkCreate .descriptorPool env.descriptorPoolResponse.1 env.descriptorPoolResponse.2)
  if env.descriptorPoolResponse.1 ≠ VK_SUCCESS then
    fail (.thrown "failed to create descriptor pool!")
  else modifyState fun o => { o with descriptorPool := env.descriptorPoolResponse.2 }

/-- Embedding of `createDescriptorSets`. -/
def createDescriptorSets (env : CreationEnv) (ctx : StaticHandles) :
    Exec SwapChainObjects Unit := do
  modifyState fun o => { o with
    descriptorSets := resize o.descriptorSets o.swapChainImages.length 0 }
  let o ← getState
  let sets := (List.range o.swapChainImages.length).map env.descriptorSet
  call (.vkAllocateDescriptorSets o.descriptorPool o.swapChainImages.length
    env.descriptorSetsResult sets)
  if env.descriptorSetsResult ≠ VK_SUCCESS then
    fail (.thrown "failed to allocate descriptor sets!")
  else
    modifyState fun o => { o with descriptorSets := sets }
    forRange (fun i => do
      let o ← getState
      let uniformBuffer ← index o.uniformBuffers i "uniformBuffers[i]"
      let lightingBuffer ← index o.lightingBuffers i "lightingBuffers[i]"
      let descriptorSet ← index o.descriptorSets i "descriptorSets[i]"
      call (.vkUpdateDescriptorSets descriptorSet uniformBuffer lightingBuffer
        VK_IMAGE_LAYOUT_SHADER_READ_ONLY_OPTIMAL ctx.textureImageView ctx.textureSampler))
      0 o.swapChainImages.length

/-- Embedding of `createCommandBuffers`. -/
def createCommandBuffers (env : CreationEnv) (ctx : StaticHandles) :
    Exec SwapChainObjects Unit := do
  modifyState fun o => { o with
    commandBuffers := resize o.commandBuffers o.swapChainFramebuffers.length 0 }
  let o ← getState
  let buffers := (List.range o.commandBuffers.length).map env.commandBuffer
  call (.vkAllocateCommandBuffers ctx.commandPool VK_COMMAND_BUFFER_LEVEL_PRIMARY
    o.commandBuffers.length buffers)
  if env.commandBuffersResult ≠ VK_SUCCESS then
    fail (.thrown "failed to allocate command buffers!")
  else
    modifyState fun o => { o with commandBuffers := buffers }
    forRange (fun i => do
      let o ← getState
      let commandBuffer ← index o.commandBuffers i "commandBuffers[i]"
      call (.vkBeginCommandBuffer commandBuffer 0)
      if env.beginCommandBuffer i ≠ VK_SUCCESS then
        fail (.thrown "failed to begin recording command buffer!")
      else
        let framebuffer ← index o.swapChainFramebuffers i "swapChainFramebuffers[i]"
        call (.vkCmdBeginRenderPass commandBuffer o.renderPass framebuffer)
        call (.vkCmdBindPipeline commandBuffer o.graphicsPipeline)
        call (.vkCmdBindVertexBuffers commandBuffer ctx.vertexBuffer)
        call (.vkCmdBindIndexBuffer commandBuffer ctx.indexBuffer)
        let descriptorSet ← index o.descriptorSets i "descriptorSets[i]"
        call (.vkCmdBindDescriptorSets commandBuffer o.pipelineLayout descriptorSet)
        call (.vkCmdDrawIndexed commandBuffer)
        call (.vkCmdEndRenderPass commandBuffer)
        call (.vkEndCommandBuffer commandBuffer)
        if env.endCommandBuffer i ≠ VK_SUCCESS then
          fail (.thrown "failed to record command buffer!")
        else pure ())
      0 buffers.length

/-! ## Swapchain recreation and the frame loop -/

/-- Embedding of `cleanupSwapChain`: the destroy calls in source order. The members keep
their old handle values. -/
def cleanupSwapChain : Exec App Unit := do
  let s ← getState
  call (.vkDestroy .imageView s.depthImageView)
  call (.vkDestroy .image s.depthImage)
  call (.vkDestroy .memory s.depthImageMemory)
  forRange (fun i => do
    let framebuffer ← index s.swapChainFramebuffers i "swapChainFramebuffers"
    call (.vkDestroy .framebuffer framebuffer)) 0 s.swapChainFramebuffers.length
  call (.vkDestroy .pipeline s.graphicsPipeline)
  call (.vkDestroy .pipelineLayout s.pipelineLayout)
  call (.vkDestroy .renderPass s.renderPass)
  forRange (fun i => do
    let imageView ← index s.swapChainImageViews i "swapChainImageViews"
    call (.vkDestroy .imageView imageView)) 0 s.swapChainImageViews.length
  call (.vkDestroy .swapchain s.swapChain)
  forRange (fun i => do
    let uniformBuffer ← index s.uniformBuffers i "uniformBuffers[i]"
    call (.vkDestroy .buffer uniformBuffer)
    let uniformMemory ← index s.uniformBuffersMemory i "uniformBuffersMemory[i]"
    call (.vkDestroy .memory uniformMemory)
    let lightingBuffer ← index s.lightingBuffers i "lightingBuffers[i]"
    call (.vkDestroy .buffer lightingBuffer)
    let lightingMemory ← index s.lightingBuffersMemory i "lightingBuffersMemory[i]"
    call (.vkDestroy .memory lightingMemory)) 0 s.swapChainImages.length
  call (.vkDestroy .descriptorPool s.descriptorPool)

/-- Embedding of `framebufferResizeCallback(window, width, height)`. -/
def framebufferResizeCallback (size : Int × Int) (s : App) : App :=
  { s with framebufferResized := true, width := size.1, height := size.2 }

/-- One turn of the minimised-window loop of `recreateSwapChain` as the window system
plays it: the size the next `glfwGetFramebufferSize` reports, and the arguments of the
resize callback if `glfwWaitEvents` dispatches it. -/
structure Poll where
  size : Int × Int
  resized : Option (Int × Int)
deriving DecidableEq, Repr

/-- What `glfwWaitEvents` does to the object: it runs `framebufferResizeCallback` when the
window system has a resize to deliver. -/
def dispatchResize : Option (Int × Int) → Exec App Unit
  | some callbackSize => modifyState (framebufferResizeCallback callbackSize)
  | none => Exec.pure ()

/-- The `while (width == 0 || height == 0)` loop of `recreateSwapChain`, entered with the
size last read. When the observed turns run out while the window is still minimised the
call has not come back. -/
def waitWhileMinimized : Int × Int → List Poll → Exec App Unit
  | size, polls =>
    if size.1 = 0 ∨ size.2 = 0 then
      match polls with
      | [] => fail (.blocked "glfwWaitEvents")
      | poll :: rest => do
        call .glfwGetFramebufferSize
        call .glfwWaitEvents
        dispatchResize poll.resized
        waitWhileMinimized poll.size rest
    else pure ()

/-- What the environment answers during one `recreateSwapChain` call. -/
structure RecreateEnv where
  framebufferSize : Int × Int
  polls : List Poll
  creation : CreationEnv

/-- The creation calls of `recreateSwapChain`, `createSwapChain` to `createCommandBuffers`. -/
def recreationPass (env : CreationEnv) (ctx : StaticHandles) : Exec SwapChainObjects Unit := do
  createSwapChain env ctx
  createImageViews env
  createRenderPass env
  createGraphicsPipeline env
  createDepthResources env
  createFramebuffers env
  createUniformBuffers env
  createDescriptorPool env
  createDescriptorSets env ctx
  createCommandBuffers env ctx

/-- Embedding of `recreateSwapChain`. The first entry of its trace marks the entry into
the function. -/
def recreateSwapChain (env : RecreateEnv) : Exec App Unit := do
  call (.enter "recreateSwapChain")
  call .glfwGetFramebufferSize
  waitWhileMinimized env.framebufferSize env.polls
  call .vkDeviceWaitIdle
  cleanupSwapChain
  let s ← getState
  liftObjects (recreationPass env.creation s.toStaticHandles)

/-- Embedding of `updateUniformBuffer(currentImage)`: the host write into the transform
uniform memory of the image (the matrices themselves are floating point and not modelled). -/
def updateUniformBuffer (currentImage : Nat) : Exec App Unit := do
  let s ← getState
  let memory ← index s.uniformBuffersMemory currentImage "uniformBuffersMemory[currentImage]"
  call (.vkMapMemory memory)
  call (.memcpy memory)
  call (.vkUnmapMemory memory)

/-- Embedding of `updateLightingConstants(currentImage)`. -/
def updateLightingConstants (currentImage : Nat) : Exec App Unit := do
  let s ← getState
  let memory ← index s.lightingBuffersMemory currentImage
    "lightingBuffersMemory[currentImage]"
  call (.vkMapMemory memory)
  call (.memcpy memory)
  call (.vkUnmapMemory memory)

/-- What the driver and the window system answer during one `drawFrame` call. -/
structure DrawFrameEnv where
  acquireResult : VkResult
  imageIndex : Nat
  submitResult : VkResult
  presentResult : VkResult
  recreate : RecreateEnv

/-- Embedding of `drawFrame`. -/
def drawFrame (env : DrawFrameEnv) : Exec App Unit := do
  let s ← getState
  let slotFence ← index s.inFlightFences s.currentFrame "inFlightFences[currentFrame]"
  call (.vkWaitForFences [slotFence])
  let imageAvailable ← index s.imageAvailableSemaphores s.currentFrame
    "imageAvailableSemaphores[currentFrame]"
  call (.vkAcquireNextImageKHR s.swapChain imageAvailable VK_NULL_HANDLE)
  if env.acquireResult = VK_ERROR_OUT_OF_DATE_KHR then
    recreateSwapChain env.recreate
  else if env.acquireResult ≠ VK_SUCCESS ∧ env.acquireResult ≠ VK_SUBOPTIMAL_KHR then
    fail (.thrown "failed to acquire swap chain image!")
  else
    let imageFence ← index s.imagesInFlight env.imageIndex "imagesInFlight[imageIndex]"
    (if imageFence ≠ VK_NULL_HANDLE then call (.vkWaitForFences [imageFence]) else pure ())
    modifyState fun s => { s with
      imagesInFlight := s.imagesInFlight.set env.imageIndex slotFence }
    updateUniformBuffer env.imageIndex
    updateLightingConstants env.imageIndex
    let commandBuffer ← index s.commandBuffers env.imageIndex "commandBuffers[imageIndex]"
    let renderFinished ← index s.renderFinishedSemaphores s.currentFrame
      "renderFinishedSemaphores[currentFrame]"
    call (.vkResetFences [slotFence])
    call (.vkQueueSubmit s.graphicsQueue [imageAvailable]
      [VK_PIPELINE_STAGE_COLOR_ATTACHMENT_OUTPUT_BIT] [commandBuffer] [renderFinished]
      slotFence)
    if env.submitResult ≠ VK_SUCCESS then
      fail (.thrown "failed to submit draw command buffer!")
    else
      call (.vkQueuePresentKHR s.presentQueue [renderFinished] [s.swapChain]
        [env.imageIndex])
      let afterPresent ← getState
      (if env.presentResult = VK_ERROR_OUT_OF_DATE_KHR ∨
          env.presentResult = VK_SUBOPTIMAL_KHR ∨ afterPresent.framebufferResized = true then do
        modifyState fun s => { s with framebufferResized := false }
        recreateSwapChain env.recreate
      else if env.presentResult ≠ VK_SUCCESS then
        fail (.thrown "failed to present swap chain image!")
      else pure ())
      modifyState fun s => { s with
        currentFrame := (s.currentFrame + 1) % MAX_FRAMES_IN_FLIGHT }

/-- What the driver answers during `createSyncObjects`: result code and handle of the
three creating calls of each slot. -/
structure SyncEnv where
  imageAvailableSemaphore : Nat → VkResult × Nat
  renderFinishedSemaphore : Nat → VkResult × Nat
  inFlightFence : Nat → VkResult × Nat

/-- The body of the `for` loop of `createSyncObjects` for slot `i`; the `||` of the three
creating calls is evaluated left to right and stops at the first failure. -/
def createSyncObjectsSlot (env : SyncEnv) (i : Nat) : Exec App Unit := do
  call (.vkCreate .semaphore (env.imageAvailableSemaphore i).1
    (env.imageAvailableSemaphore i).2)
  if (env.imageAvailableSemaphore i).1 ≠ VK_SUCCESS then
    fail (.thrown "failed to create semaphores!")
  else
    modifyState fun s => { s with
      imageAvailableSemaphores :=
        s.imageAvailableSemaphores.set i (env.imageAvailableSemaphore i).2 }
    call (.vkCreate .semaphore (env.renderFinishedSemaphore i).1
      (env.renderFinishedSemaphore i).2)
    if (env.renderFinishedSemaphore i).1 ≠ VK_SUCCESS then
      fail (.thrown "failed to create semaphores!")
    else
      modifyState fun s => { s with
        renderFinishedSemaphores :=
          s.renderFinishedSemaphores.set i (env.renderFinishedSemaphore i).2 }
      call (.vkCreateFence VK_FENCE_CREATE_SIGNALED_BIT (env.inFlightFence i).1
        (env.inFlightFence i).2)
      if (env.inFlightFence i).1 ≠ VK_SUCCESS then
        fail (.thrown "failed to create semaphores!")
      else
        modifyState fun s => { s with
          inFlightFences := s.inFlightFences.set i (env.inFlightFence i).2 }

/-- Embedding of `createSyncObjects`. -/
def createSyncObjects (env : SyncEnv) : Exec App Unit := do
  modifyState fun s => { s with
    imageAvailableSemaphores := resize s.imageAvailableSemaphores MAX_FRAMES_IN_FLIGHT 0 }
  modifyState fun s => { s with
    renderFinishedSemaphores := resize s.renderFinishedSemaphores MAX_FRAMES_IN_FLIGHT 0 }
  modifyState fun s => { s with
    inFlightFences := resize s.inFlightFences MAX_FRAMES_IN_FLIGHT 0 }
  modifyState fun s => { s with
    imagesInFlight := resize s.imagesInFlight s.swapChainImages.length VK_NULL_HANDLE }
  forRange (createSyncObjectsSlot env) 0 MAX_FRAMES_IN_FLIGHT

/-- The states the program can be in between two statements of `mainLoop`: the state
`createSyncObjects` leaves at the end of `initVulkan` (entered with `currentFrame == 0`, its
member initialiser), then any number of `glfwPollEvents` turns that dispatch the resize
callback and of `drawFrame` calls, whatever the environment answers. -/
inductive Reachable : App → Prop where
  | init (env : SyncEnv) (s0 : App) :
      s0.currentFrame = 0 → ((createSyncObjects env).run s0).returned = true →
      Reachable ((createSyncObjects env).run s0).state
  | pollEvents (size : Int × Int) (s : App) :
      Reachable s → Reachable (framebufferResizeCallback size s)
  | frame (env : DrawFrameEnv) (s : App) :
      Reachable s → Reachable ((drawFrame env).run s).state

/-! ## Classification of calls -/

/-- Whether a call is a present request. -/
def Call.isPresent : Call → Bool
  | .vkQueuePresentKHR _ _ _ _ => true
  | _ => false

/-- Whether a call resets a fence. -/
def Call.isFenceReset : Call → Bool
  | .vkResetFences _ => true
  | _ => false

/-- Whether a call belongs to a host write of uniform data (map, copy, unmap). -/
def Call.isHostWrite : Call → Bool
  | .vkMapMemory _ => true
  | .memcpy _ => true
  | .vkUnmapMemory _ => true
  | _ => false

/-- Whether a call marks an entry into `recreateSwapChain`. -/
def Call.isRecreateEntry : Call → Bool
  | .enter function => function == "recreateSwapChain"
  | _ => false

/-- A call that neither submits, presents, resets a fence, writes uniform data nor enters
`recreateSwapChain`. -/
def Call.isQuiet (c : Call) : Prop :=
  c.isSubmit = false ∧ c.isPresent = false ∧ c.isFenceReset = false ∧
    c.isHostWrite = false ∧ c.isRecreateEntry = false

/-- The frame-synchronisation members and the static handles are the same in both states,
except that the resize flag (with the stored window size) may have been raised. -/
def SyncKept (s s' : App) : Prop :=
  s'.toStaticHandles = s.toStaticHandles ∧
  s'.imageAvailableSemaphores = s.imageAvailableSemaphores ∧
  s'.renderFinishedSemaphores = s.renderFinishedSemaphores ∧
  s'.inFlightFences = s.inFlightFences ∧
  s'.imagesInFlight = s.imagesInFlight ∧
  s'.currentFrame = s.currentFrame ∧
  (s.framebufferResized = true → s'.framebufferResized = true)

/-- The frame-synchronisation members and the static handles are the same in both states,
the resize flag included. -/
def SyncSame (s s' : App) : Prop :=
  s'.toStaticHandles = s.toStaticHandles ∧ s'.toFrameSync = s.toFrameSync

/-- Whether the minimised-window loop of `recreateSwapChain`, entered with the size last
read and played against the given turns, dispatches the resize callback at least once. -/
def resizeDispatched : Int × Int → List Poll → Bool
  | size, polls =>
    if size.1 = 0 ∨ size.2 = 0 then
      match polls with
      | [] => false
      | poll :: rest => poll.resized.isSome || resizeDispatched poll.size rest
    else false

/-- A run with further calls in front of its trace. -/
def Run.prepend {σ α : Type} (calls : List Call) (r : Run σ α) : Run σ α :=
  ⟨r.result, r.state, calls ++ r.trace⟩

/-- The per-slot arrays are the same in both states, and `currentFrame` is either the same
or below `MAX_FRAMES_IN_FLIGHT`. -/
def SlotsKept (s s' : App) : Prop :=
  s'.imageAvailableSemaphores = s.imageAvailableSemaphores ∧
  s'.renderFinishedSemaphores = s.renderFinishedSemaphores ∧
  s'.inFlightFences = s.inFlightFences ∧
  (s'.currentFrame = s.currentFrame ∨ s'.currentFrame < MAX_FRAMES_IN_FLIGHT)

/-- The lengths of the per-slot arrays are kept, and so is `currentFrame`. -/
def SlotLengthsKept (s s' : App) : Prop :=
  s'.imageAvailableSemaphores.length = s.imageAvailableSemaphores.length ∧
  s'.renderFinishedSemaphores.length = s.renderFinishedSemaphores.length ∧
  s'.inFlightFences.length = s.inFlightFences.length ∧
  s'.currentFrame = s.currentFrame

/-- The frame index is below `MAX_FRAMES_IN_FLIGHT` and each per-slot array has exactly
`MAX_FRAMES_IN_FLIGHT` entries. -/
def SlotsInBounds (s : App) : Prop :=
  s.currentFrame < MAX_FRAMES_IN_FLIGHT ∧
  s.inFlightFences.length = MAX_FRAMES_IN_FLIGHT ∧
  s.imageAvailableSemaphores.length = MAX_FRAMES_IN_FLIGHT ∧
  s.renderFinishedSemaphores.length = MAX_FRAMES_IN_FLIGHT

/-! ## Concrete states and environments used to evaluate the embedding -/

/-- A state as `initVulkan` leaves it for a swapchain of three images. -/
def sampleApp : App := {
  surface := 1, graphicsQueue := 2, presentQueue := 3, descriptorSetLayout := 4,
  commandPool := 5, vertexBuffer := 6, vertexBufferMemory := 7, indexBuffer := 8,
  indexBufferMemory := 9, textureImage := 10, textureImageMemory := 11,
  textureImageView := 12, textureSampler := 13,
  swapChain := 20, swapChainImages := [21, 22, 23], swapChainImageFormat := 44,
  swapChainExtent := ⟨800, 600⟩, swapChainImageViews := [31, 32, 33], renderPass := 40,
  pipelineLayout := 41, graphicsPipeline := 42, swapChainFramebuffers := [51, 52, 53],
  uniformBuffers := [61, 62, 63], uniformBuffersMemory := [71, 72, 73],
  lightingBuffers := [81, 82, 83], lightingBuffersMemory := [91, 92, 93],
  descriptorPool := 100, descriptorSets := [101, 102, 103], depthImage := 110,
  depthImageMemory := 111, depthImageView := 112, commandBuffers := [121, 122, 123],
  imageAvailableSemaphores := [201, 202], renderFinishedSemaphores := [211, 212],
  inFlightFences := [221, 222], imagesInFlight := [0, 0, 0], currentFrame := 0,
  framebufferResized := false, width := 800, height := 600 }

/-- A driver that grants every request of a creation pass, for a surface of fixed extent
800 x 600 with three images; handles are numbered from `base`. -/
def sampleCreation (base : Nat) : CreationEnv := {
  swapChainSupport := ⟨⟨2, 3, ⟨800, 600⟩, ⟨1, 1⟩, ⟨4096, 4096⟩, 1⟩, [⟨44, 0⟩], [2]⟩
  framebufferSize := (800, 600)
  indices := ⟨some 0, some 0⟩
  swapChain := (VK_SUCCESS, base)
  swapChainImages := [base + 1, base + 2, base + 3]
  imageView := fun i => (VK_SUCCESS, base + 10 + i)
  linearTilingFeatures := fun _ => 0
  optimalTilingFeatures := fun _ => 512
  renderPass := (VK_SUCCESS, base + 20)
  vertShaderFile := true
  fragShaderFile := true
  vertShaderModule := (VK_SUCCESS, base + 21)
  fragShaderModule := (VK_SUCCESS, base + 22)
  pipelineLayoutResponse := (VK_SUCCESS, base + 23)
  graphicsPipelineResponse := (VK_SUCCESS, base + 24)
  memProperties := ⟨2, [⟨1, 0⟩, ⟨6, 1⟩]⟩
  depthAllocation := ⟨(VK_SUCCESS, base + 25), 1920000, 3, (VK_SUCCESS, base + 26), VK_SUCCESS⟩
  depthImageViewResponse := (VK_SUCCESS, base + 27)
  framebuffer := fun i => (VK_SUCCESS, base + 30 + i)
  uniformAllocation := fun i =>
    ⟨(VK_SUCCESS, base + 40 + i), 256, 3, (VK_SUCCESS, base + 50 + i), VK_SUCCESS⟩
  lightingAllocation := fun i =>
    ⟨(VK_SUCCESS, base + 60 + i), 256, 3, (VK_SUCCESS, base + 70 + i), VK_SUCCESS⟩
  descriptorPoolResponse := (VK_SUCCESS, base + 80)
  descriptorSetsResult := VK_SUCCESS
  descriptorSet := fun i => base + 81 + i
  commandBuffersResult := VK_SUCCESS
  commandBuffer := fun i => base + 90 + i
  beginCommandBuffer := fun _ => VK_SUCCESS
  endCommandBuffer := fun _ => VK_SUCCESS }

/-- A recreation with the window at 800 x 600 from the start: the minimised loop is not
entered and every creation succeeds. -/
def sampleRecreate : RecreateEnv :=
  { framebufferSize := (800, 600), polls := [], creation := sampleCreation 300 }

/-- A recreation that finds the window minimised. In the first turn of the loop the size
read is still 0 x 0 and `glfwWaitEvents` dispatches the resize callback for the restored
window; in the second turn the size read is 800 x 600 and no resize is pending. -/
def minimizedRecreate : RecreateEnv :=
  { framebufferSize := (0, 0)
    polls := [⟨(0, 0), some (800, 600)⟩, ⟨(800, 600), none⟩]
    creation := sampleCreation 300 }

/-- A recreation in which `vkCreateSwapchainKHR` fails. -/
def failingRecreate : RecreateEnv :=
  { framebufferSize := (800, 600), polls := []
    creation := { sampleCreation 300 with swapChain := (-1, 0) } }

/-- A frame in which acquisition reports the surface out of date. -/
def outOfDateFrame (recreate : RecreateEnv) : DrawFrameEnv :=
  { acquireResult := VK_ERROR_OUT_OF_DATE_KHR, imageIndex := 0, submitResult := VK_SUCCESS,
    presentResult := VK_SUCCESS, recreate := recreate }

/-- A frame in which every call succeeds and image 1 is acquired. -/
def plainFrame : DrawFrameEnv :=
  { acquireResult := VK_SUCCESS, imageIndex := 1, submitResult := VK_SUCCESS,
    presentResult := VK_SUCCESS, recreate := sampleRecreate }

/-- The object as `initVulkan` has it on entry to `createSyncObjects`: no synchronisation
objects yet, `currentFrame` at its initialiser 0. -/
def sampleAppBeforeSync : App :=
  { sampleApp with
    imageAvailableSemaphores := [], renderFinishedSemaphores := [], inFlightFences := [],
    imagesInFlight := [] }

/-- A driver that grants every request of `createSyncObjects`. -/
def sampleSync : SyncEnv :=
  { imageAvailableSemaphore := fun i => (VK_SUCCESS, 201 + i)
    renderFinishedSemaphore := fun i => (VK_SUCCESS, 211 + i)
    inFlightFence := fun i => (VK_SUCCESS, 221 + i) }

/-! ## The run of `drawFrame` written out path by path

These functions are not further source functions: they spell out, stage by stage, the run
of the embedding `drawFrame` above (result, state and trace on each path), and
`drawFrame_run_eq` proves the two equal. -/

/-- What `drawFrame` does after the present request has returned: the recreation branch,
the present failure, or nothing; then the advance of `currentFrame`. -/
def presentOutcome (env : DrawFrameEnv) (s : App) : Run App Unit :=
  if env.presentResult = VK_ERROR_OUT_OF_DATE_KHR ∨
      env.presentResult = VK_SUBOPTIMAL_KHR ∨ s.framebufferResized = true then
    match ((recreateSwapChain env.recreate).run { s with framebufferResized := false }).result
    with
    | .ok _ =>
      ⟨.ok (),
        { ((recreateSwapChain env.recreate).run { s with framebufferResized := false }).state
          with currentFrame :=
            (((recreateSwapChain env.recreate).run
              { s with framebufferResized := false }).state.currentFrame + 1) %
                MAX_FRAMES_IN_FLIGHT },
        ((recreateSwapChain env.recreate).run { s with framebufferResized := false }).trace⟩
    | .error e =>
      ⟨.error e,
        ((recreateSwapChain env.recreate).run { s with framebufferResized := false }).state,
        ((recreateSwapChain env.recreate).run { s with framebufferResized := false }).trace⟩
  else if env.presentResult ≠ VK_SUCCESS then
    ⟨.error (.thrown "failed to present swap chain image!"), s, []⟩
  else
    ⟨.ok (), { s with currentFrame := (s.currentFrame + 1) % MAX_FRAMES_IN_FLIGHT }, []⟩

/-- What `drawFrame` does after the uniform writes: fence reset, queue submission, present
request and what follows it. -/
def submitOutcome (env : DrawFrameEnv) (s : App) (slotFence imageAvailable : Nat) :
    Run App Unit :=
  match s.commandBuffers[env.imageIndex]? with
  | none => ⟨.error (.undefinedBehaviour "commandBuffers[imageIndex]"), s, []⟩
  | some commandBuffer =>
    match s.renderFinishedSemaphores[s.currentFrame]? with
    | none => ⟨.error (.undefinedBehaviour "renderFinishedSemaphores[currentFrame]"), s, []⟩
    | some renderFinished =>
      Run.prepend
        [.vkResetFences [slotFence],
          .vkQueueSubmit s.graphicsQueue [imageAvailable]
            [VK_PIPELINE_STAGE_COLOR_ATTACHMENT_OUTPUT_BIT] [commandBuffer] [renderFinished]
            slotFence]
        (if env.submitResult ≠ VK_SUCCESS then
          ⟨.error (.thrown "failed to submit draw command buffer!"), s, []⟩
        else
          Run.prepend
            [.vkQueuePresentKHR s.presentQueue [renderFinished] [s.swapChain]
              [env.imageIndex]]
            (presentOutcome env s))

/-- What `drawFrame` does once the image-in-flight table has been updated: the two uniform
writes, then submission and presentation. -/
def uniformOutcome (env : DrawFrameEnv) (s : App) (slotFence imageAvailable : Nat) :
    Run App Unit :=
  match s.uniformBuffersMemory[env.imageIndex]? with
  | none => ⟨.error (.undefinedBehaviour "uniformBuffersMemory[currentImage]"), s, []⟩
  | some uniformMemory =>
    Run.prepend
      [.vkMapMemory uniformMemory, .memcpy uniformMemory, .vkUnmapMemory uniformMemory]
      (match s.lightingBuffersMemory[env.imageIndex]? with
      | none => ⟨.error (.undefinedBehaviour "lightingBuffersMemory[currentImage]"), s, []⟩
      | some lightingMemory =>
        Run.prepend
          [.vkMapMemory lightingMemory, .memcpy lightingMemory, .vkUnmapMemory lightingMemory]
          (submitOutcome env s slotFence imageAvailable))

/-- What `drawFrame` does once acquisition has returned success or suboptimal: the wait on
the fence the table names for the image, the table update, and the rest of the frame. -/
def acquiredOutcome (env : DrawFrameEnv) (s : App) (slotFence imageAvailable : Nat) :
    Run App Unit :=
  match s.imagesInFlight[env.imageIndex]? with
  | none => ⟨.error (.undefinedBehaviour "imagesInFlight[imageIndex]"), s, []⟩
  | some imageFence =>
    Run.prepend
      (if imageFence ≠ VK_NULL_HANDLE then [.vkWaitForFences [imageFence]] else [])
      (uniformOutcome env
        { s with imagesInFlight := s.imagesInFlight.set env.imageIndex slotFence }
        slotFence imageAvailable)

/-- The run of `drawFrame` from a state, path by path; `drawFrame_run_eq` proves it equal
to the run of the embedding `drawFrame`. -/
def drawFrameRun (env : DrawFrameEnv) (s : App) : Run App Unit :=
  match s.inFlightFences[s.currentFrame]? with
  | none => ⟨.error (.undefinedBehaviour "inFlightFences[currentFrame]"), s, []⟩
  | some slotFence =>
    Run.prepend [.vkWaitForFences [slotFence]]
      (match s.imageAvailableSemaphores[s.currentFrame]? with
      | none =>
        ⟨.error (.undefinedBehaviour "imageAvailableSemaphores[currentFrame]"), s, []⟩
      | some imageAvailable =>
        Run.prepend [.vkAcquireNextImageKHR s.swapChain imageAvailable VK_NULL_HANDLE]
          (if env.acquireResult = VK_ERROR_OUT_OF_DATE_KHR then
            (recreateSwapChain env.recreate).run s
          else if env.acquireResult ≠ VK_SUCCESS ∧
              env.acquireResult ≠ VK_SUBOPTIMAL_KHR then
            ⟨.error (.thrown "failed to acquire swap chain image!"), s, []⟩
          else acquiredOutcome env s slotFence imageAvailable))

/-! ## Faults a statement can end in -/

/-- Every fault the statement can end in satisfies `q`. -/
structure Throws {σ α : Type} (q : Fault → Prop) (m : Exec σ α) : Prop where
  holds : ∀ s e, (m.run s).result = .error e → q e

/-- The fault is none of the three failures `drawFrame` raises itself. -/
def Fault.notOfFrame (e : Fault) : Prop :=
  e ≠ .thrown "failed to acquire swap chain image!" ∧
  e ≠ .thrown "failed to submit draw command buffer!" ∧
  e ≠ .thrown "failed to present swap chain image!"

instance (e : Fault) : Decidable e.notOfFrame := by
  unfold Fault.notOfFrame
  infer_instance

/-- A fatal result code, `VK_ERROR_DEVICE_LOST`. -/
def VK_ERROR_DEVICE_LOST : VkResult := -4

/-- A result code `vkBindBufferMemory` and `vkBindImageMemory` can fail with. -/
def VK_ERROR_OUT_OF_DEVICE_MEMORY : VkResult := -2

/-- A driver that creates the resource and allocates its memory but fails to bind them. -/
def bindFailure : AllocationEnv :=
  ⟨(VK_SUCCESS, 61), 256, 3, (VK_SUCCESS, 71), VK_ERROR_OUT_OF_DEVICE_MEMORY⟩

/-! ## Command buffers alive along a trace -/

/-- Whether a call frees command buffers back to their pool. -/
def Call.isFreeCommandBuffers : Call → Bool
  | .vkFreeCommandBuffers _ _ => true
  | _ => false

/-- A call that frees no command buffer. -/
def Call.keepsCommandBuffers (c : Call) : Prop :=
  c.isFreeCommandBuffers = false

/-- The command buffers alive after a call, given those alive before it: an allocation the
driver granted adds the buffers it wrote, `vkFreeCommandBuffers` removes the ones it
names; no other call the program makes before `cleanup` changes them. -/
def liveCommandBuffersStep (live : List Nat) : Call → List Nat
  | .vkAllocateCommandBuffers _ _ _ commandBuffers => live ++ commandBuffers
  | .vkFreeCommandBuffers _ commandBuffers =>
    live.filter (fun commandBuffer => !commandBuffers.contains commandBuffer)
  | _ => live

/-- The command buffers alive after a trace in which every allocation was granted. -/
def liveCommandBuffers (live : List Nat) (trace : List Call) : List Nat :=
  trace.foldl liveCommandBuffersStep live

/-- A second recreation, with the window at 800 x 600 and a driver that hands out fresh
handles. -/
def secondRecreate : RecreateEnv :=
  { framebufferSize := (800, 600), polls := [], creation := sampleCreation 400 }

/-! ## The host and the device: `drawFrame` calls interleaved with completions -/

/-- What the step relation tracks of the device: the fences in the signaled state, and the
frame submissions that have not completed yet, each with the fence it will signal and the
swapchain image it targets. -/
structure Gpu where
  signaled : List Nat
  pending : List (Nat × Nat)
deriving DecidableEq, Repr

/-- Effect of one call of the host on the device; `none` when the call does not come back in
this device state. `vkWaitForFences` (called with `waitAll` and no timeout) comes back only
when every fence it names is signaled, `vkDeviceWaitIdle` and `vkQueueWaitIdle` only when no
submission is pending; `vkResetFences` unsignals its fences; a `vkQueueSubmit` the driver
accepted adds a pending submission that will signal its fence; no other call touches
fences or submissions. `accepted` and `image` are the driver's answer to the frame's
submission and the image the frame acquired. -/
def Gpu.execute (accepted : Bool) (image : Nat) (gpu : Gpu) : Call → Option Gpu
  | .vkWaitForFences fences =>
    if fences.all (fun fence => gpu.signaled.contains fence) then some gpu else none
  | .vkResetFences fences =>
    some { gpu with signaled := gpu.signaled.filter (fun fence => !fences.contains fence) }
  | .vkQueueSubmit _ _ _ _ _ fence =>
    if accepted && fence != VK_NULL_HANDLE then
      some { gpu with pending := gpu.pending ++ [(fence, image)] }
    else some gpu
  | .vkDeviceWaitIdle => if gpu.pending.isEmpty then some gpu else none
  | .vkQueueWaitIdle _ => if gpu.pending.isEmpty then some gpu else none
  | _ => some gpu

/-- The program in `mainLoop` together with the device: the object state, the device, the
calls of the running `drawFrame` that the host has not made yet (empty between frames), the
image index and the answer to the submission of the running frame, and whether `mainLoop`
is still running (no `drawFrame` has ended in a fault). The object state is the one the
running `drawFrame` leaves; between its calls the host reads no device state, so the order
of its calls and its final state are fixed by the environment's answers. -/
structure Machine where
  app : App
  gpu : Gpu
  todo : List Call
  image : Nat
  accepted : Bool
  alive : Bool

/-- The steps of the relation: `glfwPollEvents` dispatching the resize callback and the
call of `drawFrame` (both between frames), the host making the next call of the running
frame, and the device completing one pending submission. -/
inductive Event where
  | pollEvents (size : Int × Int)
  | frame (env : DrawFrameEnv)
  | call
  | complete (fence image : Nat)

/-- One step; `none` when the step is not possible in this state. -/
def Machine.step (m : Machine) : Event → Option Machine
  | .pollEvents size =>
    if m.todo.isEmpty && m.alive then
      some { m with app := framebufferResizeCallback size m.app }
    else none
  | .frame env =>
    if m.todo.isEmpty && m.alive then
      some {
        app := ((drawFrame env).run m.app).state
        gpu := m.gpu
        todo := ((drawFrame env).run m.app).trace
        image := env.imageIndex
        accepted := decide (env.submitResult = VK_SUCCESS)
        alive := ((drawFrame env).run m.app).returned }
    else none
  | .call =>
    match m.todo with
    | [] => none
    | c :: rest =>
      match m.gpu.execute m.accepted m.image c with
      | some gpu => some { m with gpu := gpu, todo := rest }
      | none => none
  | .complete fence image =>
    if (fence, image) ∈ m.gpu.pending then
      some { m with
        gpu := { signaled := fence :: m.gpu.signaled
                 pending := m.gpu.pending.erase (fence, image) } }
    else none

/-- A sequence of steps. -/
def Machine.steps : Machine → List Event → Option Machine
  | m, [] => some m
  | m, e :: rest =>
    match m.step e with
    | some m' => m'.steps rest
    | none => none

/-- The fences a trace created in the signaled state. -/
def signaledAtCreation : List Call → List Nat
  | [] => []
  | .vkCreateFence flags result fence :: rest =>
    if flags = VK_FENCE_CREATE_SIGNALED_BIT ∧ result = VK_SUCCESS then
      fence :: signaledAtCreation rest
    else signaledAtCreation rest
  | _ :: rest => signaledAtCreation rest

/-- The program on entry to `mainLoop`: the object as `createSyncObjects` leaves it, the
fences it created signaled, nothing submitted. -/
def Machine.init (env : SyncEnv) (s0 : App) : Machine :=
  { app := ((createSyncObjects env).run s0).state
    gpu := { signaled := signaledAtCreation ((createSyncObjects env).run s0).trace
             pending := [] }
    todo := []
    image := 0
    accepted := false
    alive := ((createSyncObjects env).run s0).returned }

/-- A call that neither submits, resets a fence nor writes uniform data. -/
def Call.isInert (c : Call) : Bool :=
  !c.isSubmit && !c.isFenceReset && !c.isHostWrite

/-- The fence a queue submission will signal. -/
def Call.submitFence : Call → Option Nat
  | .vkQueueSubmit _ _ _ _ _ fence => some fence
  | _ => none

/-- The wait on the fence the image-in-flight table names, if it names one. -/
def imageWait (imageFence : Nat) : List Call :=
  if imageFence ≠ VK_NULL_HANDLE then [.vkWaitForFences [imageFence]] else []

/-- The end of a frame's trace from the fence reset on: nothing (the frame ended before),
or the reset of the slot fence, the submission signalling it, and inert calls. -/
def FrameEnd (slotFence : Nat) (calls : List Call) : Prop :=
  calls = [] ∨
  ∃ submit rest, calls = .vkResetFences [slotFence] :: submit :: rest ∧
    submit.submitFence = some slotFence ∧ ∀ c ∈ rest, c.isInert = true

/-- Every pending submission has a fence of its own, which is one of the in-flight fences
and unsignaled; there are `MAX_FRAMES_IN_FLIGHT` in-flight fences. -/
structure FencesOwned (m : Machine) : Prop where
  nodup : (m.gpu.pending.map Prod.fst).Nodup
  known : ∀ p ∈ m.gpu.pending, p.1 ∈ m.app.inFlightFences
  unsignaled : ∀ p ∈ m.gpu.pending, p.1 ∉ m.gpu.signaled
  slots : m.app.inFlightFences.length = MAX_FRAMES_IN_FLIGHT

/-- If fence handles are never null: every pending submission is recorded in the
image-in-flight table under its image. -/
def Tracked (m : Machine) : Prop :=
  VK_NULL_HANDLE ∉ m.app.inFlightFences →
    ∀ p ∈ m.gpu.pending, m.app.imagesInFlight[p.2]? = some p.1

/-- If fence handles are never null: every pending submission on another image than the
frame's is recorded in the table, and one on the frame's image signals `imageFence`. -/
def TrackedBut (m : Machine) (imageFence : Nat) : Prop :=
  VK_NULL_HANDLE ∉ m.app.inFlightFences →
    ∀ p ∈ m.gpu.pending,
      (p.2 ≠ m.image → m.app.imagesInFlight[p.2]? = some p.1) ∧
      (p.2 = m.image → p.1 = imageFence)

/-- If fence handles are never null: no pending submission targets the frame's image. -/
def ImageFree (m : Machine) : Prop :=
  VK_NULL_HANDLE ∉ m.app.inFlightFences → ∀ p ∈ m.gpu.pending, p.2 ≠ m.image

/-- No pending submission will signal the fence. -/
def SlotFree (m : Machine) (fence : Nat) : Prop :=
  fence ∉ m.gpu.pending.map Prod.fst

/-- How far the running frame has got, with what is known of the device at that point. -/
inductive Phase (m : Machine) : Prop where
  | idle : (∀ c ∈ m.todo, c.isInert = true) → Tracked m → Phase m
  | atSlotWait (slotFence imageFence swapChain semaphore : Nat) (writes rest : List Call) :
      m.todo = .vkWaitForFences [slotFence] ::
        .vkAcquireNextImageKHR swapChain semaphore VK_NULL_HANDLE ::
        (imageWait imageFence ++ (writes ++ rest)) →
      slotFence ∈ m.app.inFlightFences →
      m.app.imagesInFlight[m.image]? = some slotFence →
      (∀ c ∈ writes, c.isHostWrite = true) → FrameEnd slotFence rest →
      TrackedBut m imageFence → Phase m
  | atAcquire (slotFence imageFence swapChain semaphore : Nat) (writes rest : List Call) :
      m.todo = .vkAcquireNextImageKHR swapChain semaphore VK_NULL_HANDLE ::
        (imageWait imageFence ++ (writes ++ rest)) →
      slotFence ∈ m.app.inFlightFences →
      m.app.imagesInFlight[m.image]? = some slotFence →
      (∀ c ∈ writes, c.isHostWrite = true) → FrameEnd slotFence rest →
      TrackedBut m imageFence → SlotFree m slotFence → Phase m
  | atImageWait (slotFence imageFence : Nat) (writes rest : List Call) :
      m.todo = imageWait imageFence ++ (writes ++ rest) →
      slotFence ∈ m.app.inFlightFences →
      m.app.imagesInFlight[m.image]? = some slotFence →
      (∀ c ∈ writes, c.isHostWrite = true) → FrameEnd slotFence rest →
      TrackedBut m imageFence → SlotFree m slotFence → Phase m
  | atWrites (slotFence : Nat) (writes rest : List Call) :
      m.todo = writes ++ rest →
      slotFence ∈ m.app.inFlightFences →
      m.app.imagesInFlight[m.image]? = some slotFence →
      (∀ c ∈ writes, c.isHostWrite = true) → FrameEnd slotFence rest →
      Tracked m → ImageFree m → SlotFree m slotFence → Phase m
  | atSubmit (slotFence : Nat) (submit : Call) (rest : List Call) :
      m.todo = submit :: rest →
      slotFence ∈ m.app.inFlightFences →
      m.app.imagesInFlight[m.image]? = some slotFence →
      submit.submitFence = some slotFence → (∀ c ∈ rest, c.isInert = true) →
      Tracked m → ImageFree m → SlotFree m slotFence →
      slotFence ∉ m.gpu.signaled → Phase m

/-- Two frames on images 1 and 2 with every call of both made and no completion yet. -/
def twoFrames : List Event :=
  [.frame plainFrame, .call, .call, .call, .call, .call, .call, .call, .call, .call, .call,
    .call,
    .frame { plainFrame with imageIndex := 2 }, .call, .call, .call, .call, .call, .call,
    .call, .call, .call, .call, .call]

/-- The state of the program and device after the given steps from the sample start, or
the sample start itself if the steps are not possible. -/
def sampleMachine (events : List Event) : Machine :=
  ((Machine.init sampleSync sampleAppBeforeSync).steps events).getD
    (Machine.init sampleSync sampleAppBeforeSync)

/-! ## Logical device: queue requests -/

/-- The iteration order of `std::set<uint32_t> uniqueQueueFamilies = { graphicsFamily,
presentFamily }`: the distinct values in ascending order. -/
def uniqueQueueFamilies (graphicsFamily presentFamily : Nat) : List Nat :=
  if graphicsFamily = presentFamily then [graphicsFamily]
  else if graphicsFamily < presentFamily then [graphicsFamily, presentFamily]
  else [presentFamily, graphicsFamily]

/-- The loop of `createLogicalDevice` that fills `queueCreateInfos`: one record is pushed
for each element `queueFamily` of the set, and each record's `queueFamilyIndex` is assigned
`indices.graphicsFamily.value()`. -/
def queueCreateInfos (graphicsFamily presentFamily : Nat) : List VkDeviceQueueCreateInfo :=
  (uniqueQueueFamilies graphicsFamily presentFamily).map fun _queueFamily =>
    { queueFamilyIndex := graphicsFamily, queueCount := 1 }

/-- What `findQueueFamilies` and the driver answer during `createLogicalDevice`. -/
structure DeviceEnv where
  indices : QueueFamilyIndices
  device : VkResult × Nat
  graphicsQueue : Nat
  presentQueue : Nat

/-- Embedding of `createLogicalDevice` (device features, extensions and validation layers
are constants of the create-info record and not recorded). -/
def createLogicalDevice (env : DeviceEnv) : Exec App Unit := do
  let graphicsFamily ← liftExcept (optionalValue env.indices.graphicsFamily)
  let presentFamily ← liftExcept (optionalValue env.indices.presentFamily)
  call (.vkCreateDevice (queueCreateInfos graphicsFamily presentFamily) env.device.1
    env.device.2)
  if env.device.1 ≠ VK_SUCCESS then
    fail (.thrown "failed to create logical device!")
  else
    call (.vkGetDeviceQueue graphicsFamily 0 env.graphicsQueue)
    modifyState fun s => { s with graphicsQueue := env.graphicsQueue }
    call (.vkGetDeviceQueue presentFamily 0 env.presentQueue)
    modifyState fun s => { s with presentQueue := env.presentQueue }

/-- A device whose graphics family is 0 and whose presentation family is 1. -/
def splitFamilies : DeviceEnv :=
  { indices := ⟨some 0, some 1⟩, device := (VK_SUCCESS, 900), graphicsQueue := 2,
    presentQueue := 3 }

/-! ## The calls of a frame -/

/-- Whether a call is of one of the kinds `drawFrame` makes itself: fence wait, image
acquisition, host write of uniform data, fence reset, queue submission, present request. -/
def Call.isFrameCall : Call → Bool
  | .vkWaitForFences _ => true
  | .vkAcquireNextImageKHR _ _ _ => true
  | .vkMapMemory _ => true
  | .memcpy _ => true
  | .vkUnmapMemory _ => true
  | .vkResetFences _ => true
  | .vkQueueSubmit _ _ _ _ _ _ => true
  | .vkQueuePresentKHR _ _ _ _ => true
  | _ => false

/-- A call of none of the kinds `drawFrame` makes itself. -/
def Call.outsideFrame (c : Call) : Prop :=
  c.isFrameCall = false

/-- The semaphores a call names. -/
def Call.semaphores : Call → List Nat
  | .vkAcquireNextImageKHR _ semaphore _ => [semaphore]
  | .vkQueueSubmit _ waitSemaphores _ _ signalSemaphores _ =>
    waitSemaphores ++ signalSemaphores
  | .vkQueuePresentKHR _ waitSemaphores _ _ => waitSemaphores
  | _ => []

/-- The fences a call names. -/
def Call.fences : Call → List Nat
  | .vkWaitForFences fences => fences
  | .vkResetFences fences => fences
  | .vkAcquireNextImageKHR _ _ fence => [fence]
  | .vkQueueSubmit _ _ _ _ _ fence => [fence]
  | _ => []

/-- An image acquisition. -/
def Call.isAcquire : Call → Bool
  | .vkAcquireNextImageKHR _ _ _ => true
  | _ => false

/-- A frame in which every call succeeds and image `imageIndex` is acquired. -/
def frameOn (imageIndex : Nat) : DrawFrameEnv :=
  { plainFrame with imageIndex := imageIndex }

/-- The sample state after three frames on the images 0, 1 and 2 in turn (slots 0, 1
and 0). -/
def afterThreeFrames : App :=
  ((drawFrame (frameOn 2)).run
    ((drawFrame (frameOn 1)).run
      ((drawFrame (frameOn 0)).run sampleApp).state).state).state

/-- The slots on which the `drawFrame` calls of a sequence of steps were entered: the value
of `currentFrame` at each `frame` step, in order. -/
def Machine.slotsStarted : Machine → List Event → List Nat
  | _, [] => []
  | m, e :: rest =>
    match m.step e with
    | some m' =>
      (match e with
        | .frame _ => [m.app.currentFrame]
        | _ => []) ++ m'.slotsStarted rest
    | none => []

/-- The image indices of the `drawFrame` calls of a sequence of steps whose acquisition
reported success or suboptimal. -/
def imagesAcquired : List Event → List Nat
  | [] => []
  | .frame env :: rest =>
    if env.acquireResult = VK_SUCCESS ∨ env.acquireResult = VK_SUBOPTIMAL_KHR then
      env.imageIndex :: imagesAcquired rest
    else imagesAcquired rest
  | _ :: rest => imagesAcquired rest

/-- A wait on fences. -/
def Call.isFenceWait : Call → Bool
  | .vkWaitForFences _ => true
  | _ => false

/-- The first frame of the sample run, on image 1, with every call made. -/
def firstFrame : List Event :=
  [.frame plainFrame, .call, .call, .call, .call, .call, .call, .call, .call, .call, .call,
    .call]

/-! ## Staged uploads: vertex buffer, index buffer, texture image -/

def VK_BUFFER_USAGE_TRANSFER_SRC_BIT : Nat := 1
def VK_BUFFER_USAGE_TRANSFER_DST_BIT : Nat := 2
def VK_BUFFER_USAGE_INDEX_BUFFER_BIT : Nat := 64
def VK_BUFFER_USAGE_VERTEX_BUFFER_BIT : Nat := 128
def VK_IMAGE_USAGE_TRANSFER_DST_BIT : Nat := 2
def VK_IMAGE_USAGE_SAMPLED_BIT : Nat := 4
def VK_FORMAT_R8G8B8A8_SRGB : Nat := 43

/-- Size in bytes of `Vertex`: four `Vec3` of three `float`. -/
def sizeofVertex : Nat := 48

/-- Size in bytes of `int`, the element type of `Mesh::indices`. -/
def sizeofInt : Nat := 4

/-- The member `m` as far as the upload functions read it: `m.vertices.size()` and
`m.indices.size()`. A `std::vector` holds at most `max_size()` elements, so the products
with the element size below fit `VkDeviceSize`. -/
structure Mesh where
  vertices : Nat
  indices : Nat
deriving DecidableEq, Repr

/-- What the driver answers during `createVertexBuffer` or `createIndexBuffer`: the memory
properties of the device, the answers to the two `createBuffer` calls, and the handle of the
command buffer that `copyBuffer` allocates. -/
structure UploadEnv where
  memProperties : VkPhysicalDeviceMemoryProperties
  staging : AllocationEnv
  destination : AllocationEnv
  commandBuffer : Nat

/-- Embedding of `createIndexBuffer`. -/
def createIndexBuffer (env : UploadEnv) (m : Mesh) : Exec App Unit := do
  let bufferSize := sizeofInt * m.indices
  let (stagingBuffer, stagingBufferMemory) ← createBuffer env.memProperties env.staging
    bufferSize VK_BUFFER_USAGE_TRANSFER_SRC_BIT
    (VK_MEMORY_PROPERTY_HOST_VISIBLE_BIT ||| VK_MEMORY_PROPERTY_HOST_COHERENT_BIT)
  call (.vkMapMemory stagingBufferMemory)
  call (.memcpy stagingBufferMemory)
  call (.vkUnmapMemory stagingBufferMemory)
  let (indexBuffer, indexBufferMemory) ← createBuffer env.memProperties env.destination
    bufferSize (VK_BUFFER_USAGE_TRANSFER_DST_BIT ||| VK_BUFFER_USAGE_INDEX_BUFFER_BIT)
    VK_MEMORY_PROPERTY_DEVICE_LOCAL_BIT
  modifyState fun s => { s with
    indexBuffer := indexBuffer, indexBufferMemory := indexBufferMemory }
  copyBuffer env.commandBuffer stagingBuffer indexBuffer bufferSize
  call (.vkDestroy .buffer stagingBuffer)
  call (.vkDestroy .memory stagingBufferMemory)

/-- Embedding of `createVertexBuffer`. -/
def createVertexBuffer (env : UploadEnv) (m : Mesh) : Exec App Unit := do
  let bufferSize := sizeofVertex * m.vertices
  let (stagingBuffer, stagingBufferMemory) ← createBuffer env.memProperties env.staging
    bufferSize VK_BUFFER_USAGE_TRANSFER_SRC_BIT
    (VK_MEMORY_PROPERTY_HOST_VISIBLE_BIT ||| VK_MEMORY_PROPERTY_HOST_COHERENT_BIT)
  call (.vkMapMemory stagingBufferMemory)
  call (.memcpy stagingBufferMemory)
  call (.vkUnmapMemory stagingBufferMemory)
  let (vertexBuffer, vertexBufferMemory) ← createBuffer env.memProperties env.destination
    bufferSize (VK_BUFFER_USAGE_TRANSFER_DST_BIT ||| VK_BUFFER_USAGE_VERTEX_BUFFER_BIT)
    VK_MEMORY_PROPERTY_DEVICE_LOCAL_BIT
  modifyState fun s => { s with
    vertexBuffer := vertexBuffer, vertexBufferMemory := vertexBufferMemory }
  copyBuffer env.commandBuffer stagingBuffer vertexBuffer bufferSize
  call (.vkDestroy .buffer stagingBuffer)
  call (.vkDestroy .memory stagingBufferMemory)

/-- What `createTextureImage` finds in the texture file: whether it could be opened, the two
`int` values read into `texWidth` and `texHeight`, and the file length `tellg` reports,
stored in an `int`. -/
structure TextureFile where
  isOpen : Bool
  texWidth : Int
  texHeight : Int
  length : Int
deriving DecidableEq, Repr

/-- Multiplication of two `int` values; signed overflow is undefined behaviour. -/
def intMul (a b : Int) (what : String) : Except Fault Int :=
  if -2147483648 ≤ a * b ∧ a * b ≤ 2147483647 then .ok (a * b)
  else .error (.undefinedBehaviour what)

/-- The part of `createTextureImage` before its first Vulkan call, returning `imageSize`.
The file must open; `size = texWidth * texHeight` and `size * 4` are `int` products; the
two `new unsigned char[n]` throw for a negative `n`; `imageSize` is the `int` value
`texWidth * texHeight * 4`, not negative here; the loop reads `fileContents[i * 3 + 3]` for
every `i < size`, outside the array unless `size * 3 < length`. `new` never yields a null
pointer, so the throw of "failed to load texture image!" is not reached. -/
def loadTexels (file : TextureFile) : Except Fault Nat :=
  if file.isOpen = false then .error (.thrown "failed to open obj file!")
  else
    match intMul file.texWidth file.texHeight "texWidth * texHeight" with
    | .error e => .error e
    | .ok size =>
      if file.length < 0 then .error (.thrown "std::bad_array_new_length")
      else
        match intMul size 4 "size * 4" with
        | .error e => .error e
        | .ok count =>
          if count < 0 then .error (.thrown "std::bad_array_new_length")
          else if 0 < size ∧ file.length ≤ size * 3 then
            .error (.undefinedBehaviour "fileContents[i * 3 + 3]")
          else .ok count.toNat

/-- What the file system and the driver answer during `createTextureImage`: the texture
file, the memory properties of the device, the answers to `createBuffer` and `createImage`,
and the handles of the command buffers that the two `transitionImageLayout` calls and
`copyBufferToImage` allocate. -/
structure TextureEnv where
  file : TextureFile
  memProperties : VkPhysicalDeviceMemoryProperties
  staging : AllocationEnv
  image : AllocationEnv
  transferCommandBuffer : Nat
  copyCommandBuffer : Nat
  shaderReadCommandBuffer : Nat

/-- Embedding of `createTextureImage`. -/
def createTextureImage (env : TextureEnv) : Exec App Unit := do
  let imageSize ← liftExcept (loadTexels env.file)
  let (stagingBuffer, stagingBufferMemory) ← createBuffer env.memProperties env.staging
    imageSize VK_BUFFER_USAGE_TRANSFER_SRC_BIT
    (VK_MEMORY_PROPERTY_HOST_VISIBLE_BIT ||| VK_MEMORY_PROPERTY_HOST_COHERENT_BIT)
  call (.vkMapMemory stagingBufferMemory)
  call (.memcpy stagingBufferMemory)
  call (.vkUnmapMemory stagingBufferMemory)
  let (textureImage, textureImageMemory) ← createImage env.memProperties env.image
    (toUint32 env.file.texWidth) (toUint32 env.file.texHeight) VK_FORMAT_R8G8B8A8_SRGB
    VK_IMAGE_TILING_OPTIMAL (VK_IMAGE_USAGE_TRANSFER_DST_BIT ||| VK_IMAGE_USAGE_SAMPLED_BIT)
    VK_MEMORY_PROPERTY_DEVICE_LOCAL_BIT
  modifyState fun s => { s with
    textureImage := textureImage, textureImageMemory := textureImageMemory }
  transitionImageLayout env.transferCommandBuffer textureImage VK_FORMAT_R8G8B8A8_SRGB
    VK_IMAGE_LAYOUT_UNDEFINED VK_IMAGE_LAYOUT_TRANSFER_DST_OPTIMAL
  copyBufferToImage env.copyCommandBuffer stagingBuffer textureImage
    (toUint32 env.file.texWidth) (toUint32 env.file.texHeight)
  transitionImageLayout env.shaderReadCommandBuffer textureImage VK_FORMAT_R8G8B8A8_SRGB
    VK_IMAGE_LAYOUT_TRANSFER_DST_OPTIMAL VK_IMAGE_LAYOUT_SHADER_READ_ONLY_OPTIMAL
  call (.vkDestroy .buffer stagingBuffer)
  call (.vkDestroy .memory stagingBufferMemory)

/-- A driver that grants the two allocations of a buffer upload. -/
def sampleUpload : UploadEnv :=
  { memProperties := ⟨2, [⟨1, 0⟩, ⟨6, 1⟩]⟩
    staging := ⟨(VK_SUCCESS, 500), 1024, 3, (VK_SUCCESS, 501), VK_SUCCESS⟩
    destination := ⟨(VK_SUCCESS, 502), 1024, 3, (VK_SUCCESS, 503), VK_SUCCESS⟩
    commandBuffer := 504 }

/-- A mesh of one quad: four vertices and six indices. -/
def sampleMesh : Mesh := { vertices := 4, indices := 6 }

/-- A texture file of 2 x 2 texels whose contents are long enough, and a driver that grants
every request of `createTextureImage`. -/
def sampleTexture : TextureEnv :=
  { file := ⟨true, 2, 2, 24⟩
    memProperties := ⟨2, [⟨1, 0⟩, ⟨6, 1⟩]⟩
    staging := ⟨(VK_SUCCESS, 510), 16, 3, (VK_SUCCESS, 511), VK_SUCCESS⟩
    image := ⟨(VK_SUCCESS, 512), 16, 3, (VK_SUCCESS, 513), VK_SUCCESS⟩
    transferCommandBuffer := 514
    copyCommandBuffer := 515
    shaderReadCommandBuffer := 516 }

/-! ## Layout of an image along a trace -/

/-- Whether a call creates the image, names it in a barrier, or copies into it. -/
def Call.touchesImage (image : Nat) : Call → Bool
  | .vkCreateImage _ _ _ _ _ _ _ created => created == image
  | .vkCmdPipelineBarrier _ _ _ barriers => barriers.any (fun barrier => barrier.image == image)
  | .vkCmdCopyBufferToImage _ _ dstImage _ _ => dstImage == image
  | _ => false

/-- The layout of `image` after a list of barriers, tracked from `layout`; `none` when a
barrier on the image declares an old layout that is not the tracked one. -/
def trackBarriers (image : Nat) : Option Nat → List VkImageMemoryBarrier → Option (Option Nat)
  | layout, [] => some layout
  | layout, barrier :: rest =>
    if barrier.image = image then
      if layout = some barrier.oldLayout then trackBarriers image (some barrier.newLayout) rest
      else none
    else trackBarriers image layout rest

/-- The layout of `image` after the calls of a trace, tracked from `layout` (`none`: the
image does not exist yet). A successful `vkCreateImage` of the image starts it in the
`initialLayout` of the call; a barrier on the image moves it from the declared old layout to
the new one; a copy into the image declares the layout the image is in. The outer result is
`none` when a barrier or a copy declares a layout that is not the tracked one. -/
def trackLayout (image : Nat) : Option Nat → List Call → Option (Option Nat)
  | layout, [] => some layout
  | layout, .vkCreateImage _ _ _ _ initialLayout _ result created :: rest =>
    if created = image ∧ result = VK_SUCCESS then trackLayout image (some initialLayout) rest
    else trackLayout image layout rest
  | layout, .vkCmdPipelineBarrier _ _ _ barriers :: rest =>
    match trackBarriers image layout barriers with
    | some next => trackLayout image next rest
    | none => none
  | layout, .vkCmdCopyBufferToImage _ _ dstImage dstImageLayout _ :: rest =>
    if dstImage = image then
      if layout = some dstImageLayout then trackLayout image layout rest else none
    else trackLayout image layout rest
  | layout, _ :: rest => trackLayout image layout rest

/-- The image layout a descriptor write declares for the sampled image. -/
def Call.samplerLayout : Call → Option Nat
  | .vkUpdateDescriptorSets _ _ _ imageLayout _ _ => some imageLayout
  | _ => none

/-- The call declares no other layout for the sampled image than shader-read-only. -/
def Call.samplesShaderReadOnly (c : Call) : Prop :=
  ∀ layout, c.samplerLayout = some layout → layout = VK_IMAGE_LAYOUT_SHADER_READ_ONLY_OPTIMAL

/-- The fault is not the throw of `transitionImageLayout` for a pair of layouts outside its
table. -/
def Fault.notUnsupportedTransition (e : Fault) : Prop :=
  e ≠ .thrown "unsupported layout transition!"

/-- A recreation for a surface that now asks for at least three images: the request is for
four, and the driver creates a swapchain of four images. -/
def fourImageRecreate : RecreateEnv :=
  { framebufferSize := (800, 600), polls := []
    creation :=
      { sampleCreation 400 with
        swapChainSupport := ⟨⟨3, 8, ⟨800, 600⟩, ⟨1, 1⟩, ⟨4096, 4096⟩, 1⟩, [⟨44, 0⟩], [2]⟩
        swapChainImages := [401, 402, 403, 404] } }

/-- The sample state after a frame whose acquisition reported the surface out of date and
whose recreation yielded four images. -/
def afterGrowth : App :=
  ((drawFrame (outOfDateFrame fourImageRecreate)).run sampleApp).state

/-! ## Sizes of the per-image arrays -/

/-- The number of swapchain images followed by the lengths of the per-image arrays: image
views, framebuffers, transform-uniform buffers and memories, lighting buffers and memories,
descriptor sets, command buffers. -/
def sizes (o : SwapChainObjects) : List Nat :=
  [o.swapChainImages.length, o.swapChainImageViews.length, o.swapChainFramebuffers.length,
    o.uniformBuffers.length, o.uniformBuffersMemory.length, o.lightingBuffers.length,
    o.lightingBuffersMemory.length, o.descriptorSets.length, o.commandBuffers.length]

/-- The two states have the same number of images and the same array lengths. -/
def SizesKept (o o' : SwapChainObjects) : Prop :=
  sizes o' = sizes o

/-- Every per-image array has one entry per swapchain image. -/
def PerImageSized (o : SwapChainObjects) : Prop :=
  o.swapChainImageViews.length = o.swapChainImages.length ∧
  o.swapChainFramebuffers.length = o.swapChainImages.length ∧
  o.uniformBuffers.length = o.swapChainImages.length ∧
  o.uniformBuffersMemory.length = o.swapChainImages.length ∧
  o.lightingBuffers.length = o.swapChainImages.length ∧
  o.lightingBuffersMemory.length = o.swapChainImages.length ∧
  o.descriptorSets.length = o.swapChainImages.length ∧
  o.commandBuffers.length = o.swapChainImages.length

/-! ## The creation calls of `initVulkan` -/

/-- Embedding of `createDescriptorSetLayout` (the three bindings are configuration). -/
def createDescriptorSetLayout (response : VkResult × Nat) : Exec App Unit := do
  call (.vkCreate .descriptorSetLayout response.1 response.2)
  if response.1 ≠ VK_SUCCESS then
    fail (.thrown "failed to create descriptor set layout!")
  else modifyState fun s => { s with descriptorSetLayout := response.2 }

/-- Embedding of `createCommandPool`; `indices` is what `findQueueFamilies` returns. -/
def createCommandPool (indices : QueueFamilyIndices) (response : VkResult × Nat) :
    Exec App Unit := do
  let _queueFamilyIndex ← liftExcept (optionalValue indices.graphicsFamily)
  call (.vkCreate .commandPool response.1 response.2)
  if response.1 ≠ VK_SUCCESS then
    fail (.thrown "failed to create command pool!")
  else modifyState fun s => { s with commandPool := response.2 }

/-- Embedding of `createTextureImageView`. -/
def createTextureImageView (response : VkResult × Nat) : Exec App Unit := do
  let s ← getState
  let view ← createImageView response s.textureImage VK_FORMAT_R8G8B8A8_SRGB
    VK_IMAGE_ASPECT_COLOR_BIT
  modifyState fun s => { s with textureImageView := view }

/-- Embedding of `createTextureSampler` (the sampler parameters are configuration). -/
def createTextureSampler (response : VkResult × Nat) : Exec App Unit := do
  call (.vkCreate .sampler response.1 response.2)
  if response.1 ≠ VK_SUCCESS then
    fail (.thrown "failed to create texture sampler!")
  else modifyState fun s => { s with textureSampler := response.2 }

/-- The call `m = ParseObjFile(...)` of `initVulkan` as the rest of `initVulkan` sees it.
`ParseObjFile` reads the object file and builds the mesh; it makes no Vulkan call and
touches no member. What it yields from the file is an input here: the mesh, or the fault
the parse ends in. -/
def ParseObjFile (outcome : Except Fault Mesh) : Exec App Mesh :=
  liftExcept outcome

/-- What the driver, the window system and the file system answer during the creation
calls of `initVulkan`, from `createSwapChain` to `createSyncObjects`. -/
structure StartupEnv where
  creation : CreationEnv
  descriptorSetLayout : VkResult × Nat
  commandPool : VkResult × Nat
  mesh : Except Fault Mesh
  texture : TextureEnv
  textureImageView : VkResult × Nat
  textureSampler : VkResult × Nat
  vertexUpload : UploadEnv
  indexUpload : UploadEnv
  sync : SyncEnv

/-- The statements of `initVulkan` from `createSwapChain` on, in source order. -/
def initVulkanFromSwapChain (env : StartupEnv) : Exec App Unit := do
  let s ← getState
  liftObjects (createSwapChain env.creation s.toStaticHandles)
  liftObjects (createImageViews env.creation)
  liftObjects (createRenderPass env.creation)
  createDescriptorSetLayout env.descriptorSetLayout
  liftObjects (createGraphicsPipeline env.creation)
  createCommandPool env.creation.indices env.commandPool
  liftObjects (createDepthResources env.creation)
  liftObjects (createFramebuffers env.creation)
  let m ← ParseObjFile env.mesh
  createTextureImage env.texture
  createTextureImageView env.textureImageView
  createTextureSampler env.textureSampler
  createVertexBuffer env.vertexUpload m
  createIndexBuffer env.indexUpload m
  liftObjects (createUniformBuffers env.creation)
  liftObjects (createDescriptorPool env.creation)
  let s ← getState
  liftObjects (createDescriptorSets env.creation s.toStaticHandles)
  let s ← getState
  liftObjects (createCommandBuffers env.creation s.toStaticHandles)
  createSyncObjects env.sync

/-- The swapchain-derived members of the two states are the same. -/
def ObjectsKept (s s' : App) : Prop :=
  s'.toSwapChainObjects = s.toSwapChainObjects

/-- The object on entry to `createSwapChain` at startup: surface and queues set, every
other handle null, every array empty. -/
def blankApp : App := {
  surface := 1, graphicsQueue := 2, presentQueue := 3, descriptorSetLayout := 0,
  commandPool := 0, vertexBuffer := 0, vertexBufferMemory := 0, indexBuffer := 0,
  indexBufferMemory := 0, textureImage := 0, textureImageMemory := 0,
  textureImageView := 0, textureSampler := 0,
  swapChain := 0, swapChainImages := [], swapChainImageFormat := 0,
  swapChainExtent := ⟨0, 0⟩, swapChainImageViews := [], renderPass := 0,
  pipelineLayout := 0, graphicsPipeline := 0, swapChainFramebuffers := [],
  uniformBuffers := [], uniformBuffersMemory := [],
  lightingBuffers := [], lightingBuffersMemory := [],
  descriptorPool := 0, descriptorSets := [], depthImage := 0,
  depthImageMemory := 0, depthImageView := 0, commandBuffers := [],
  imageAvailableSemaphores := [], renderFinishedSemaphores := [],
  inFlightFences := [], imagesInFlight := [], currentFrame := 0,
  framebufferResized := false, width := 800, height := 600 }

/-- A startup in which every request is granted, for a swapchain of three images. -/
def sampleStartup : StartupEnv :=
  { creation := sampleCreation 20
    descriptorSetLayout := (VK_SUCCESS, 4)
    commandPool := (VK_SUCCESS, 5)
    mesh := .ok sampleMesh
    texture := sampleTexture
    textureImageView := (VK_SUCCESS, 12)
    textureSampler := (VK_SUCCESS, 13)
    vertexUpload := sampleUpload
    indexUpload :=
      { sampleUpload with
        staging := ⟨(VK_SUCCESS, 505), 1024, 3, (VK_SUCCESS, 506), VK_SUCCESS⟩
        destination := ⟨(VK_SUCCESS, 507), 1024, 3, (VK_SUCCESS, 508), VK_SUCCESS⟩
        commandBuffer := 509 }
    sync := sampleSync }

/-! ## Order of the calls of `recreateSwapChain` -/

/-- A call that destroys an object or frees device memory. -/
def Call.isDestroy : Call → Bool
  | .vkDestroy _ _ => true
  | _ => false

/-- The size with which the `while (width == 0 || height == 0)` loop of
`recreateSwapChain` exits, entered with the size last read: the first size read that has
both dimensions nonzero; `none` when the window is still minimised after the observed
turns. -/
def exitSize : Int × Int → List Poll → Option (Int × Int)
  | size, polls =>
    if size.1 = 0 ∨ size.2 = 0 then
      match polls with
      | [] => none
      | poll :: rest => exitSize poll.size rest
    else some size

/-- The destroy calls of the last loop of `cleanupSwapChain`, image by image: transform
buffer, its memory, lighting buffer, its memory. -/
def perImageDestroys : List Nat → List Nat → List Nat → List Nat → List Call
  | uniformBuffer :: uniformBuffers, uniformMemory :: uniformBuffersMemory,
      lightingBuffer :: lightingBuffers, lightingMemory :: lightingBuffersMemory =>
    [.vkDestroy .buffer uniformBuffer, .vkDestroy .memory uniformMemory,
      .vkDestroy .buffer lightingBuffer, .vkDestroy .memory lightingMemory] ++
      perImageDestroys uniformBuffers uniformBuffersMemory lightingBuffers
        lightingBuffersMemory
  | _, _, _, _ => []

/-- Statements run one after the other; a fault ends the run. -/
def runStages {σ : Type} : List (Exec σ Unit) → Exec σ Unit
  | [] => pure ()
  | stage :: rest => stage >>= fun _ => runStages rest

/-- The object as the sample startup leaves it. -/
def afterStartup : App :=
  ((initVulkanFromSwapChain sampleStartup).run blankApp).state

/-- A framebuffer creation. -/
def Call.isFramebufferCreate : Call → Bool
  | .vkCreateFramebuffer _ _ _ _ _ _ => true
  | _ => false

/-! # Theorems -/

/-! ## Memory-type search -/

theorem memoryTypeTest_iff (mp : VkPhysicalDeviceMemoryProperties) (typeFilter properties i : Nat)
    (hi : i < 32) :
    memoryTypeTest mp typeFilter properties i = true ↔
      MemoryTypeSuitable mp typeFilter properties i := by
  unfold memoryTypeTest MemoryTypeSuitable
  have h2 : (1 <<< i) % 4294967296 = 2 ^ i := by
    rw [Nat.one_shiftLeft]
    apply Nat.mod_eq_of_lt
    calc 2 ^ i < 2 ^ 32 := Nat.pow_lt_pow_right (by norm_num) hi
      _ = 4294967296 := by norm_num
  rw [h2, Nat.and_two_pow]
  cases h : typeFilter.testBit i <;> simp

theorem findMemoryTypeFrom_ok (mp : VkPhysicalDeviceMemoryProperties) (tf props : Nat) :
    ∀ (remaining i r : Nat), findMemoryTypeFrom mp tf props i remaining = .ok r ↔
      (i ≤ r ∧ r < i + remaining ∧ memoryTypeTest mp tf props r = true ∧
        ∀ j, i ≤ j → j < r → memoryTypeTest mp tf props j = false) := by
  intro remaining
  induction remaining with
  | zero =>
    intro i r
    simp [findMemoryTypeFrom]
    intro h1 h2
    omega
  | succ n ih =>
    intro i r
    unfold findMemoryTypeFrom
    by_cases h : memoryTypeTest mp tf props i = true
    · simp only [h, if_true]
      constructor
      · intro hr
        injection hr with hr
        subst hr
        refine ⟨le_refl _, by omega, h, ?_⟩
        intro j h1 h2
        omega
      · rintro ⟨h1, h2, h3, h4⟩
        rcases Nat.eq_or_lt_of_le h1 with heq | hlt
        · rw [heq]
        · have := h4 i (le_refl _) hlt
          rw [h] at this
          cases this
    · have hf : memoryTypeTest mp tf props i = false := by simpa using h
      simp only [hf, Bool.false_eq_true, if_false]
      rw [ih (i + 1) r]
      constructor
      · rintro ⟨h1, h2, h3, h4⟩
        refine ⟨by omega, by omega, h3, ?_⟩
        intro j hj1 hj2
        rcases Nat.eq_or_lt_of_le hj1 with heq | hlt
        · rw [← heq]; exact hf
        · exact h4 j hlt hj2
      · rintro ⟨h1, h2, h3, h4⟩
        have hne : i ≠ r := by
          intro heq
          rw [heq] at hf
          rw [hf] at h3
          cases h3
        refine ⟨by omega, by omega, h3, ?_⟩
        intro j hj1 hj2
        exact h4 j (by omega) hj2

theorem findMemoryTypeFrom_error (mp : VkPhysicalDeviceMemoryProperties) (tf props : Nat) :
    ∀ (remaining i : Nat) (e : Fault), findMemoryTypeFrom mp tf props i remaining = .error e ↔
      (e = .thrown "failed to find suitable memory type!" ∧
        ∀ j, i ≤ j → j < i + remaining → memoryTypeTest mp tf props j = false) := by
  intro remaining
  induction remaining with
  | zero =>
    intro i e
    simp only [findMemoryTypeFrom]
    constructor
    · intro h
      injection h with h
      refine ⟨h.symm, ?_⟩
      intro j h1 h2
      omega
    · rintro ⟨h, -⟩
      rw [h]
  | succ n ih =>
    intro i e
    unfold findMemoryTypeFrom
    by_cases h : memoryTypeTest mp tf props i = true
    · simp only [h, if_true]
      constructor
      · intro hr
        cases hr
      · rintro ⟨-, h4⟩
        have := h4 i (le_refl _) (by omega)
        rw [h] at this
        cases this
    · have hf : memoryTypeTest mp tf props i = false := by simpa using h
      simp only [hf, Bool.false_eq_true, if_false]
      rw [ih (i + 1) e]
      constructor
      · rintro ⟨h1, h4⟩
        refine ⟨h1, ?_⟩
        intro j hj1 hj2
        rcases Nat.eq_or_lt_of_le hj1 with heq | hlt
        · rw [← heq]; exact hf
        · exact h4 j hlt (by omega)
      · rintro ⟨h1, h4⟩
        refine ⟨h1, ?_⟩
        intro j hj1 hj2
        exact h4 j (by omega) (by omega)

/-- C1: for a device reporting at most 32 memory types, `findMemoryType` returns index `i`
exactly when `i` is the least index below `memoryTypeCount` whose bit is set in `typeFilter`
and whose property flags contain every requested property; it throws the
"failed to find suitable memory type!" error exactly when no index below the count passes
both tests, and it never does anything else. -/
theorem findMemoryType_least_suitable (memProperties : VkPhysicalDeviceMemoryProperties)
    (typeFilter properties : Nat) (hcount : memProperties.memoryTypeCount ≤ 32) :
    (∀ i, findMemoryType memProperties typeFilter properties = .ok i ↔
      (i < memProperties.memoryTypeCount ∧
        MemoryTypeSuitable memProperties typeFilter properties i ∧
        ∀ j, j < i → ¬ MemoryTypeSuitable memProperties typeFilter properties j)) ∧
    (findMemoryType memProperties typeFilter properties =
        .error (.thrown "failed to find suitable memory type!") ↔
      ∀ i, i < memProperties.memoryTypeCount →
        ¬ MemoryTypeSuitable memProperties typeFilter properties i) ∧
    ((∃ i, findMemoryType memProperties typeFilter properties = .ok i) ∨
      findMemoryType memProperties typeFilter properties =
        .error (.thrown "failed to find suitable memory type!")) := by
  have hfalse : ∀ j, j < 32 → (memoryTypeTest memProperties typeFilter properties j = false ↔
      ¬ MemoryTypeSuitable memProperties typeFilter properties j) := by
    intro j hj
    rw [← memoryTypeTest_iff memProperties typeFilter properties j hj]
    simp
  refine ⟨?_, ?_, ?_⟩
  · intro i
    unfold findMemoryType
    rw [findMemoryTypeFrom_ok]
    constructor
    · rintro ⟨-, h2, h3, h4⟩
      have hi : i < 32 := by omega
      refine ⟨by omega, (memoryTypeTest_iff _ _ _ _ hi).1 h3, ?_⟩
      intro j hj
      exact (hfalse j (by omega)).1 (h4 j (Nat.zero_le _) hj)
    · rintro ⟨h1, h2, h3⟩
      have hi : i < 32 := by omega
      refine ⟨Nat.zero_le _, by omega, (memoryTypeTest_iff _ _ _ _ hi).2 h2, ?_⟩
      intro j _ hj
      exact (hfalse j (by omega)).2 (h3 j hj)
  · unfold findMemoryType
    rw [findMemoryTypeFrom_error]
    constructor
    · rintro ⟨-, h⟩ i hi
      exact (hfalse i (by omega)).1 (h i (Nat.zero_le _) (by omega))
    · intro h
      refine ⟨rfl, ?_⟩
      intro j _ hj
      exact (hfalse j (by omega)).2 (h j (by omega))
  · unfold findMemoryType
    cases hres : findMemoryTypeFrom memProperties typeFilter properties 0
        memProperties.memoryTypeCount with
    | ok i => exact Or.inl ⟨i, rfl⟩
    | error e =>
      right
      rw [((findMemoryTypeFrom_error _ _ _ _ _ _).1 hres).1]

/-- Witness for C1: a device with three memory types, of which index 1 is the first that has
its bit in the filter `6` and carries both requested property bits. -/
theorem findMemoryType_least_suitable_witness :
    (3 ≤ 32) ∧ findMemoryType ⟨3, [⟨1, 0⟩, ⟨6, 0⟩, ⟨7, 1⟩]⟩ 6 6 = .ok 1 ∧
      findMemoryType ⟨3, [⟨1, 0⟩, ⟨6, 0⟩, ⟨7, 1⟩]⟩ 1 6 =
        .error (.thrown "failed to find suitable memory type!") :=
  ⟨by decide,
    ((findMemoryType_least_suitable ⟨3, [⟨1, 0⟩, ⟨6, 0⟩, ⟨7, 1⟩]⟩ 6 6 (by decide)).1 1).2
      ⟨by decide, ⟨by decide, by decide⟩, by
        intro j hj
        have : j = 0 := by omega
        subst this
        intro h
        exact absurd h.1 (by decide)⟩,
    by rfl⟩

/-! ## Surface format, present mode and extent selection -/

theorem isPreferredFormat_iff (f : VkSurfaceFormatKHR) :
    isPreferredFormat f = true ↔
      (f.format = VK_FORMAT_B8G8R8A8_UNORM ∧ f.colorSpace = VK_COLOR_SPACE_SRGB_NONLINEAR_KHR) := by
  simp [isPreferredFormat]

theorem chooseSwapSurfaceFormatLoop_some :
    ∀ (l : List VkSurfaceFormatKHR) (f : VkSurfaceFormatKHR),
      chooseSwapSurfaceFormatLoop l = some f →
      ∃ before after, l = before ++ f :: after ∧ isPreferredFormat f = true ∧
        ∀ g ∈ before, isPreferredFormat g = false := by
  intro l
  induction l with
  | nil => intro f h; simp [chooseSwapSurfaceFormatLoop] at h
  | cons a rest ih =>
    intro f h
    unfold chooseSwapSurfaceFormatLoop at h
    by_cases ha : isPreferredFormat a = true
    · rw [if_pos ha] at h
      injection h with h
      subst h
      exact ⟨[], rest, rfl, ha, by simp⟩
    · rw [if_neg ha] at h
      obtain ⟨before, after, h1, h2, h3⟩ := ih f h
      refine ⟨a :: before, after, by rw [h1]; rfl, h2, ?_⟩
      intro g hg
      rcases List.mem_cons.1 hg with rfl | hg
      · simpa using ha
      · exact h3 g hg

theorem chooseSwapSurfaceFormatLoop_none :
    ∀ (l : List VkSurfaceFormatKHR),
      chooseSwapSurfaceFormatLoop l = none ↔ ∀ g ∈ l, isPreferredFormat g = false := by
  intro l
  induction l with
  | nil => simp [chooseSwapSurfaceFormatLoop]
  | cons a rest ih =>
    unfold chooseSwapSurfaceFormatLoop
    by_cases ha : isPreferredFormat a = true
    · rw [if_pos ha]
      simp only [List.mem_cons, forall_eq_or_imp, ha]
      simp
    · rw [if_neg ha, ih]
      have hf : isPreferredFormat a = false := by simpa using ha
      simp [hf]

/-- C2: on a non-empty candidate list, when some entry is the 8-bit BGRA format with the
SRGB-nonlinear colour space `chooseSwapSurfaceFormat` returns the first such entry of the
list, whatever stands before or after it; when no entry is, it returns the first entry of the
list; either way the result is a member of the list. -/
theorem chooseSwapSurfaceFormat_preferred_or_first (availableFormats : List VkSurfaceFormatKHR)
    (hne : availableFormats ≠ []) :
    ((∃ f ∈ availableFormats, f.format = VK_FORMAT_B8G8R8A8_UNORM ∧
        f.colorSpace = VK_COLOR_SPACE_SRGB_NONLINEAR_KHR) →
      ∃ before chosen after, availableFormats = before ++ chosen :: after ∧
        (chosen.format = VK_FORMAT_B8G8R8A8_UNORM ∧
          chosen.colorSpace = VK_COLOR_SPACE_SRGB_NONLINEAR_KHR) ∧
        (∀ g ∈ before, ¬ (g.format = VK_FORMAT_B8G8R8A8_UNORM ∧
          g.colorSpace = VK_COLOR_SPACE_SRGB_NONLINEAR_KHR)) ∧
        chooseSwapSurfaceFormat availableFormats = .ok chosen) ∧
    ((∀ f ∈ availableFormats, ¬ (f.format = VK_FORMAT_B8G8R8A8_UNORM ∧
        f.colorSpace = VK_COLOR_SPACE_SRGB_NONLINEAR_KHR)) →
      chooseSwapSurfaceFormat availableFormats = .ok (availableFormats.head hne)) ∧
    (∃ chosen, chooseSwapSurfaceFormat availableFormats = .ok chosen ∧
      chosen ∈ availableFormats) := by
  have hfirst : (∀ f ∈ availableFormats, ¬ (f.format = VK_FORMAT_B8G8R8A8_UNORM ∧
        f.colorSpace = VK_COLOR_SPACE_SRGB_NONLINEAR_KHR)) →
      chooseSwapSurfaceFormat availableFormats = .ok (availableFormats.head hne) := by
    intro hall
    have hnone : chooseSwapSurfaceFormatLoop availableFormats = none := by
      rw [chooseSwapSurfaceFormatLoop_none]
      intro g hg
      have := hall g hg
      rw [← isPreferredFormat_iff] at this
      simpa using this
    unfold chooseSwapSurfaceFormat
    rw [hnone]
    cases availableFormats with
    | nil => exact absurd rfl hne
    | cons a rest => rfl
  have hpref : (∃ f ∈ availableFormats, f.format = VK_FORMAT_B8G8R8A8_UNORM ∧
        f.colorSpace = VK_COLOR_SPACE_SRGB_NONLINEAR_KHR) →
      ∃ before chosen after, availableFormats = before ++ chosen :: after ∧
        (chosen.format = VK_FORMAT_B8G8R8A8_UNORM ∧
          chosen.colorSpace = VK_COLOR_SPACE_SRGB_NONLINEAR_KHR) ∧
        (∀ g ∈ before, ¬ (g.format = VK_FORMAT_B8G8R8A8_UNORM ∧
          g.colorSpace = VK_COLOR_SPACE_SRGB_NONLINEAR_KHR)) ∧
        chooseSwapSurfaceFormat availableFormats = .ok chosen := by
    rintro ⟨f, hf, hp⟩
    cases hloop : chooseSwapSurfaceFormatLoop availableFormats with
    | none =>
      have := (chooseSwapSurfaceFormatLoop_none availableFormats).1 hloop f hf
      rw [(isPreferredFormat_iff f).2 hp] at this
      cases this
    | some chosen =>
      obtain ⟨before, after, h1, h2, h3⟩ := chooseSwapSurfaceFormatLoop_some _ _ hloop
      refine ⟨before, chosen, after, h1, (isPreferredFormat_iff _).1 h2, ?_, ?_⟩
      · intro g hg hgp
        have := h3 g hg
        rw [(isPreferredFormat_iff g).2 hgp] at this
        cases this
      · unfold chooseSwapSurfaceFormat
        rw [hloop]
  refine ⟨hpref, hfirst, ?_⟩
  by_cases hex : ∃ f ∈ availableFormats, f.format = VK_FORMAT_B8G8R8A8_UNORM ∧
        f.colorSpace = VK_COLOR_SPACE_SRGB_NONLINEAR_KHR
  · obtain ⟨before, chosen, after, h1, -, -, h4⟩ := hpref hex
    refine ⟨chosen, h4, ?_⟩
    rw [h1]
    simp
  · refine ⟨availableFormats.head hne, hfirst ?_, List.head_mem hne⟩
    intro f hf hp
    exact hex ⟨f, hf, hp⟩

/-- Witness for C2: the preferred entry stands last in a three-element list and is chosen;
the statement is applied to that list. -/
theorem chooseSwapSurfaceFormat_preferred_or_first_witness :
    ([⟨37, 0⟩, ⟨44, 1⟩, ⟨44, 0⟩] : List VkSurfaceFormatKHR) ≠ [] ∧
      ∃ chosen, chooseSwapSurfaceFormat [⟨37, 0⟩, ⟨44, 1⟩, ⟨44, 0⟩] = .ok chosen ∧
        chosen ∈ ([⟨37, 0⟩, ⟨44, 1⟩, ⟨44, 0⟩] : List VkSurfaceFormatKHR) :=
  ⟨by decide,
    (chooseSwapSurfaceFormat_preferred_or_first [⟨37, 0⟩, ⟨44, 1⟩, ⟨44, 0⟩] (by decide)).2.2⟩

/-- C3: for every candidate list, the empty one included, `chooseSwapPresentMode` returns
MAILBOX exactly when MAILBOX occurs in the list and FIFO otherwise; no third mode is ever
returned. -/
theorem chooseSwapPresentMode_mailbox_or_fifo (availablePresentModes : List Nat) :
    (chooseSwapPresentMode availablePresentModes = VK_PRESENT_MODE_MAILBOX_KHR ↔
      VK_PRESENT_MODE_MAILBOX_KHR ∈ availablePresentModes) ∧
    (VK_PRESENT_MODE_MAILBOX_KHR ∉ availablePresentModes →
      chooseSwapPresentMode availablePresentModes = VK_PRESENT_MODE_FIFO_KHR) ∧
    (chooseSwapPresentMode availablePresentModes = VK_PRESENT_MODE_MAILBOX_KHR ∨
      chooseSwapPresentMode availablePresentModes = VK_PRESENT_MODE_FIFO_KHR) := by
  induction availablePresentModes with
  | nil =>
    simp only [chooseSwapPresentMode, List.not_mem_nil, iff_false, not_false_eq_true,
      forall_true_left, or_true, and_true]
    decide
  | cons a rest ih =>
    obtain ⟨ih1, ih2, ih3⟩ := ih
    unfold chooseSwapPresentMode
    by_cases ha : a = VK_PRESENT_MODE_MAILBOX_KHR
    · rw [if_pos ha]
      refine ⟨?_, ?_, Or.inl ha⟩
      · simp [ha]
      · intro hn
        exact absurd (List.mem_cons.2 (Or.inl ha.symm)) hn
    · rw [if_neg ha]
      refine ⟨?_, ?_, ih3⟩
      · rw [ih1, List.mem_cons]
        constructor
        · exact Or.inr
        · rintro (h | h)
          · exact absurd h.symm ha
          · exact h
      · intro hn
        exact ih2 (fun h => hn (List.mem_cons.2 (Or.inr h)))

/-- Witness for C3: MAILBOX standing third among four modes is the mode chosen. -/
theorem chooseSwapPresentMode_mailbox_or_fifo_witness :
    VK_PRESENT_MODE_MAILBOX_KHR ∈ [0, 2, 1, 3] ∧
      chooseSwapPresentMode [0, 2, 1, 3] = VK_PRESENT_MODE_MAILBOX_KHR :=
  ⟨by decide, (chooseSwapPresentMode_mailbox_or_fifo [0, 2, 1, 3]).1.2 (by decide)⟩

theorem toUint32_of_nonneg (x : Int) (h0 : 0 ≤ x) (h1 : x ≤ 2147483647) :
    toUint32 x = x.toNat := by
  unfold toUint32
  rw [Int.emod_eq_of_lt h0 (by omega)]

theorem max_min_eq_clampInto (lo hi v : Nat) (h : lo ≤ hi) :
    max lo (min hi v) = clampInto lo hi v := by
  unfold clampInto
  split_ifs <;> omega

/-- C4: when the surface defers to the window (`currentExtent.width == UINT32_MAX`) and the
minimum extent is componentwise at most the maximum extent, then for every framebuffer size
(non-negative C `int`s) the chosen width is the window width clamped into
`[minImageExtent.width, maxImageExtent.width]` and the chosen height is the window height
clamped into `[minImageExtent.height, maxImageExtent.height]`; the chosen extent lies inside
the range also when the window size lies outside it. -/
theorem chooseSwapExtent_deferred_clamped (capabilities : VkSurfaceCapabilitiesKHR)
    (width height : Int)
    (hdefer : capabilities.currentExtent.width = UINT32_MAX)
    (hw : capabilities.minImageExtent.width ≤ capabilities.maxImageExtent.width)
    (hh : capabilities.minImageExtent.height ≤ capabilities.maxImageExtent.height)
    (hwidth : 0 ≤ width ∧ width ≤ 2147483647) (hheight : 0 ≤ height ∧ height ≤ 2147483647) :
    (chooseSwapExtent capabilities (width, height)).width =
        clampInto capabilities.minImageExtent.width capabilities.maxImageExtent.width
          width.toNat ∧
    (chooseSwapExtent capabilities (width, height)).height =
        clampInto capabilities.minImageExtent.height capabilities.maxImageExtent.height
          height.toNat ∧
    (capabilities.minImageExtent.width ≤ (chooseSwapExtent capabilities (width, height)).width ∧
      (chooseSwapExtent capabilities (width, height)).width ≤
        capabilities.maxImageExtent.width) ∧
    (capabilities.minImageExtent.height ≤ (chooseSwapExtent capabilities (width, height)).height ∧
      (chooseSwapExtent capabilities (width, height)).height ≤
        capabilities.maxImageExtent.height) := by
  have e : chooseSwapExtent capabilities (width, height) =
      { width := max capabilities.minImageExtent.width
          (min capabilities.maxImageExtent.width width.toNat)
        height := max capabilities.minImageExtent.height
          (min capabilities.maxImageExtent.height height.toNat) } := by
    unfold chooseSwapExtent
    rw [if_neg (by simp [hdefer])]
    simp only [toUint32_of_nonneg width hwidth.1 hwidth.2,
      toUint32_of_nonneg height hheight.1 hheight.2]
  rw [e]
  refine ⟨max_min_eq_clampInto _ _ _ hw, max_min_eq_clampInto _ _ _ hh, ?_, ?_⟩
  · constructor
    · exact le_max_left _ _
    · exact max_le hw (min_le_left _ _)
  · constructor
    · exact le_max_left _ _
    · exact max_le hh (min_le_left _ _)

/-- Witness for C4: a 3000 x 50 window against the range [100, 2000] x [100, 1000] gives the
extent 2000 x 100. -/
theorem chooseSwapExtent_deferred_clamped_witness :
    chooseSwapExtent ⟨2, 3, ⟨4294967295, 4294967295⟩, ⟨100, 100⟩, ⟨2000, 1000⟩, 1⟩ (3000, 50) =
      ⟨2000, 100⟩ ∧
    (chooseSwapExtent ⟨2, 3, ⟨4294967295, 4294967295⟩, ⟨100, 100⟩, ⟨2000, 1000⟩, 1⟩
        (3000, 50)).width = clampInto 100 2000 (3000 : Int).toNat :=
  ⟨by decide,
    (chooseSwapExtent_deferred_clamped
      ⟨2, 3, ⟨4294967295, 4294967295⟩, ⟨100, 100⟩, ⟨2000, 1000⟩, 1⟩ 3000 50
      (by decide) (by decide) (by decide) (by decide) (by decide)).1⟩

/-- C5: when the surface reports a fixed current extent (`currentExtent.width != UINT32_MAX`)
`chooseSwapExtent` returns `currentExtent` in both components, for every window framebuffer
size and every `minImageExtent` / `maxImageExtent`. -/
theorem chooseSwapExtent_fixed_verbatim (capabilities : VkSurfaceCapabilitiesKHR)
    (framebufferSize : Int × Int)
    (hfixed : capabilities.currentExtent.width ≠ UINT32_MAX) :
    chooseSwapExtent capabilities framebufferSize = capabilities.currentExtent ∧
    (chooseSwapExtent capabilities framebufferSize).width = capabilities.currentExtent.width ∧
    (chooseSwapExtent capabilities framebufferSize).height =
      capabilities.currentExtent.height := by
  have e : chooseSwapExtent capabilities framebufferSize = capabilities.currentExtent := by
    unfold chooseSwapExtent
    rw [if_pos hfixed]
  rw [e]
  exact ⟨rfl, rfl, rfl⟩

/-- Witness for C5: a fixed extent 640 x 480 outside the min/max range and unlike the window
size is returned as it is. -/
theorem chooseSwapExtent_fixed_verbatim_witness :
    (640 : Nat) ≠ UINT32_MAX ∧
      chooseSwapExtent ⟨2, 3, ⟨640, 480⟩, ⟨700, 500⟩, ⟨2000, 1000⟩, 1⟩ (1024, 768) =
        ⟨640, 480⟩ :=
  ⟨by decide,
    (chooseSwapExtent_fixed_verbatim ⟨2, 3, ⟨640, 480⟩, ⟨700, 500⟩, ⟨2000, 1000⟩, 1⟩
      (1024, 768) (by decide)).1⟩

/-! ## Swapchain creation: image count and sharing mode -/

theorem chooseSwapSurfaceFormat_defined (availableFormats : List VkSurfaceFormatKHR)
    (hne : availableFormats ≠ []) :
    ∃ chosen, chooseSwapSurfaceFormat availableFormats = .ok chosen := by
  unfold chooseSwapSurfaceFormat
  cases chooseSwapSurfaceFormatLoop availableFormats with
  | some f => exact ⟨f, rfl⟩
  | none =>
    cases availableFormats with
    | nil => exact absurd rfl hne
    | cons a rest => exact ⟨a, rfl⟩


theorem createSwapChainInfo_ok (surface : Nat) (swapChainSupport : SwapChainSupportDetails)
    (framebufferSize : Int × Int) (indices : QueueFamilyIndices)
    (createInfo : VkSwapchainCreateInfoKHR)
    (h : createSwapChainInfo surface swapChainSupport framebufferSize indices = .ok createInfo) :
    ∃ surfaceFormat g p,
      chooseSwapSurfaceFormat swapChainSupport.formats = .ok surfaceFormat ∧
      indices.graphicsFamily = some g ∧ indices.presentFamily = some p ∧
      createInfo.minImageCount = createSwapChainImageCount swapChainSupport.capabilities ∧
      createInfo.imageSharingMode =
        (if g ≠ p then VK_SHARING_MODE_CONCURRENT else VK_SHARING_MODE_EXCLUSIVE) ∧
      createInfo.queueFamilyIndexCount = (if g ≠ p then 2 else 0) ∧
      createInfo.pQueueFamilyIndices = (if g ≠ p then some [g, p] else none) := by
  unfold createSwapChainInfo at h
  cases hfmt : chooseSwapSurfaceFormat swapChainSupport.formats with
  | error e => rw [hfmt] at h; cases h
  | ok surfaceFormat =>
    rcases indices with ⟨_ | g, _ | p⟩
    · rw [hfmt] at h; cases h
    · rw [hfmt] at h; cases h
    · rw [hfmt] at h; cases h
    · rw [hfmt] at h
      simp only [optionalValue, bind, Except.bind, pure, Except.pure] at h
      injection h with h
      subst h
      refine ⟨surfaceFormat, g, p, rfl, rfl, rfl, rfl, ?_, ?_, ?_⟩ <;>
        by_cases hgp : g = p <;> simp [hgp]

theorem createSwapChainInfo_defined (surface : Nat) (swapChainSupport : SwapChainSupportDetails)
    (framebufferSize : Int × Int) (g p : Nat) (hformats : swapChainSupport.formats ≠ []) :
    ∃ createInfo, createSwapChainInfo surface swapChainSupport framebufferSize
      ⟨some g, some p⟩ = .ok createInfo := by
  obtain ⟨chosen, hc⟩ := chooseSwapSurfaceFormat_defined _ hformats
  unfold createSwapChainInfo
  rw [hc]
  exact ⟨_, rfl⟩

/-! ## Transfer engine: layout transitions -/

theorem transitionMasks_eq_none (oldLayout newLayout : Nat) :
    transitionMasks oldLayout newLayout = none ↔
      ¬ ((oldLayout = VK_IMAGE_LAYOUT_UNDEFINED ∧
            newLayout = VK_IMAGE_LAYOUT_TRANSFER_DST_OPTIMAL) ∨
          (oldLayout = VK_IMAGE_LAYOUT_TRANSFER_DST_OPTIMAL ∧
            newLayout = VK_IMAGE_LAYOUT_SHADER_READ_ONLY_OPTIMAL)) := by
  unfold transitionMasks
  split_ifs with h1 h2
  · simp [h1]
  · simp [h2]
  · simp [h1, h2]

theorem transitionImageLayout_run_none (s : App)
    (commandBuffer image format oldLayout newLayout : Nat)
    (h : transitionMasks oldLayout newLayout = none) :
    (transitionImageLayout commandBuffer image format oldLayout newLayout).run s =
      ⟨.error (.thrown "unsupported layout transition!"), s,
        [.vkAllocateCommandBuffers s.commandPool VK_COMMAND_BUFFER_LEVEL_PRIMARY 1
            [commandBuffer],
          .vkBeginCommandBuffer commandBuffer VK_COMMAND_BUFFER_USAGE_ONE_TIME_SUBMIT_BIT]⟩ := by
  simp only [transitionImageLayout, h]
  rfl

theorem transitionImageLayout_run_some (s : App)
    (commandBuffer image format oldLayout newLayout : Nat) (m : Nat × Nat × Nat × Nat)
    (h : transitionMasks oldLayout newLayout = some m) :
    ((transitionImageLayout commandBuffer image format oldLayout newLayout).run s).result =
      .ok () := by
  obtain ⟨a, b, c, d⟩ := m
  simp only [transitionImageLayout, h]
  rfl

/-- C8: `transitionImageLayout` fails with the "unsupported layout transition!" error if and
only if the pair (oldLayout, newLayout) is neither (undefined, transfer-destination) nor
(transfer-destination, shader-read-only); it fails in no other way; and for every failing
pair the calls made contain no pipeline barrier and no queue submission. -/
theorem transitionImageLayout_unsupported_iff (s : App)
    (commandBuffer image format oldLayout newLayout : Nat) :
    (((transitionImageLayout commandBuffer image format oldLayout newLayout).run s).result =
        .error (.thrown "unsupported layout transition!") ↔
      ¬ ((oldLayout = VK_IMAGE_LAYOUT_UNDEFINED ∧
            newLayout = VK_IMAGE_LAYOUT_TRANSFER_DST_OPTIMAL) ∨
          (oldLayout = VK_IMAGE_LAYOUT_TRANSFER_DST_OPTIMAL ∧
            newLayout = VK_IMAGE_LAYOUT_SHADER_READ_ONLY_OPTIMAL))) ∧
    (((transitionImageLayout commandBuffer image format oldLayout newLayout).run s).result =
        .ok () ∨
      ((transitionImageLayout commandBuffer image format oldLayout newLayout).run s).result =
        .error (.thrown "unsupported layout transition!")) ∧
    (((transitionImageLayout commandBuffer image format oldLayout newLayout).run s).result ≠
        .ok () →
      ∀ c ∈ ((transitionImageLayout commandBuffer image format oldLayout newLayout).run s).trace,
        c.isPipelineBarrier = false ∧ c.isSubmit = false) := by
  rw [← transitionMasks_eq_none]
  cases h : transitionMasks oldLayout newLayout with
  | none =>
    rw [transitionImageLayout_run_none s commandBuffer image format oldLayout newLayout h]
    refine ⟨by simp, Or.inr rfl, ?_⟩
    intro _ c hc
    simp only [List.mem_cons, List.mem_singleton, List.not_mem_nil, or_false] at hc
    rcases hc with rfl | rfl <;> exact ⟨rfl, rfl⟩
  | some m =>
    have hok := transitionImageLayout_run_some s commandBuffer image format oldLayout newLayout m h
    rw [hok]
    refine ⟨by simp, Or.inl rfl, ?_⟩
    intro hne
    exact absurd rfl hne

/-- Witness for C8: the reverse pair (transfer-destination, undefined) is outside the
table and fails with the unsupported-transition error. -/
theorem transitionImageLayout_unsupported_iff_witness :
    ((transitionImageLayout 500 10 43 VK_IMAGE_LAYOUT_TRANSFER_DST_OPTIMAL
        VK_IMAGE_LAYOUT_UNDEFINED).run sampleApp).result =
      .error (.thrown "unsupported layout transition!") :=
  (transitionImageLayout_unsupported_iff sampleApp 500 10 43
    VK_IMAGE_LAYOUT_TRANSFER_DST_OPTIMAL VK_IMAGE_LAYOUT_UNDEFINED).1.2 (by decide)

/-! ## Reasoning about runs -/

/-- Every run of `m` relates its initial to its final state by `R` and makes only calls that
satisfy `p`. -/
structure Within {σ α : Type} (R : σ → σ → Prop) (p : Call → Prop) (m : Exec σ α) : Prop where
  holds : ∀ s, R s (m.run s).state ∧ ∀ c ∈ (m.run s).trace, p c

/-- A relation on states that statements can be chained along. -/
structure Chainable {σ : Type} (R : σ → σ → Prop) : Prop where
  refl : ∀ s, R s s
  trans : ∀ a b c, R a b → R b c → R a c

section within
variable {σ α β : Type} {R : σ → σ → Prop} {p : Call → Prop}

theorem within_pure (hR : Chainable R) (a : α) : Within R p (pure a : Exec σ α) :=
  ⟨fun s => ⟨hR.refl s, by intro c hc; cases hc⟩⟩

theorem within_fail (hR : Chainable R) (e : Fault) : Within R p (fail e : Exec σ α) :=
  ⟨fun s => ⟨hR.refl s, by intro c hc; cases hc⟩⟩

theorem within_getState (hR : Chainable R) : Within R p (getState : Exec σ σ) :=
  ⟨fun s => ⟨hR.refl s, by intro c hc; cases hc⟩⟩

theorem within_call (hR : Chainable R) (c : Call) (hc : p c) :
    Within R p (call c : Exec σ Unit) :=
  ⟨fun s => ⟨hR.refl s, by
    intro d hd
    have : d = c := by simpa [call, Exec.run] using hd
    rw [this]; exact hc⟩⟩

theorem within_modifyState (f : σ → σ) (hf : ∀ s, R s (f s)) :
    Within R p (modifyState f : Exec σ Unit) :=
  ⟨fun s => ⟨hf s, by intro c hc; cases hc⟩⟩

theorem within_index (hR : Chainable R) (v : List Nat) (i : Nat) (what : String) :
    Within R p (index v i what : Exec σ Nat) := by
  unfold index
  cases v[i]? with
  | none => exact within_fail hR _
  | some x => exact within_pure hR x

theorem run_bind_ok {m : Exec σ α} {f : α → Exec σ β} {s : σ} {a : α}
    (h : (m.run s).result = .ok a) :
    (m >>= f).run s = ⟨((f a).run (m.run s).state).result, ((f a).run (m.run s).state).state,
      (m.run s).trace ++ ((f a).run (m.run s).state).trace⟩ := by
  show Exec.bind m f s = _
  unfold Exec.bind
  unfold Exec.run at h
  rw [h]
  rfl

theorem run_bind_error {m : Exec σ α} {f : α → Exec σ β} {s : σ} {e : Fault}
    (h : (m.run s).result = .error e) :
    (m >>= f).run s = ⟨.error e, (m.run s).state, (m.run s).trace⟩ := by
  show Exec.bind m f s = _
  unfold Exec.bind
  unfold Exec.run at h
  rw [h]
  rfl

theorem within_bind (hR : Chainable R) {m : Exec σ α} {f : α → Exec σ β}
    (hm : Within R p m) (hf : ∀ a, Within R p (f a)) : Within R p (m >>= f) := by
  constructor
  intro s
  have h1 := hm.holds s
  cases hres : (m.run s).result with
  | error e =>
    rw [run_bind_error hres]
    exact h1
  | ok a =>
    rw [run_bind_ok hres]
    have h2 := (hf a).holds (m.run s).state
    refine ⟨hR.trans _ _ _ h1.1 h2.1, ?_⟩
    intro c hc
    rcases List.mem_append.1 hc with h | h
    · exact h1.2 c h
    · exact h2.2 c h

theorem within_forRange (hR : Chainable R) (body : Nat → Exec σ Unit)
    (hbody : ∀ i, Within R p (body i)) : ∀ count i, Within R p (forRange body i count) := by
  intro count
  induction count with
  | zero => intro i; exact within_pure hR ()
  | succ n ih =>
    intro i
    exact within_bind hR (hbody i) (fun _ => ih (i + 1))

theorem within_liftExcept (hR : Chainable R) (x : Except Fault α) :
    Within R p (liftExcept x : Exec σ α) := by
  cases x with
  | ok a => exact within_pure hR a
  | error e => exact within_fail hR e

end within

theorem within_liftObjects {α : Type} {R : App → App → Prop} {p : Call → Prop}
    (hR : ∀ (s : App) (o : SwapChainObjects), R s { s with toSwapChainObjects := o })
    (m : Exec SwapChainObjects α) (hm : Within (fun _ _ => True) p m) :
    Within R p (liftObjects m) := by
  constructor
  intro s
  have h := (hm.holds s.toSwapChainObjects).2
  unfold Exec.run liftObjects
  unfold Exec.run at h
  rcases hms : m s.toSwapChainObjects with ⟨r, o, t⟩
  rw [hms] at h
  exact ⟨hR s o, h⟩

theorem chainable_true {σ : Type} : Chainable (fun (_ _ : σ) => True) :=
  ⟨fun _ => trivial, fun _ _ _ _ _ => trivial⟩

/-! ## The creation pass makes only quiet calls -/

theorem within_createImageView {σ : Type} {R : σ → σ → Prop} (hR : Chainable R)
    (response : VkResult × Nat) (image format aspectFlags : Nat) :
    Within R Call.isQuiet (createImageView response image format aspectFlags : Exec σ Nat) := by
  unfold createImageView
  repeat' first
    | exact within_pure hR _
    | exact within_fail hR _
    | exact within_call hR _ ⟨rfl, rfl, rfl, rfl, rfl⟩
    | apply within_bind hR
    | split
    | intro _

theorem within_findSupportedFormat {σ : Type} {R : σ → σ → Prop} (hR : Chainable R)
    (env : CreationEnv) (tiling features : Nat) (candidates : List Nat) :
    Within R Call.isQuiet (findSupportedFormat env tiling features candidates : Exec σ Nat) := by
  induction candidates with
  | nil => exact within_fail hR _
  | cons format rest ih =>
    unfold findSupportedFormat
    split
    · exact within_pure hR _
    · split
      · exact within_pure hR _
      · exact ih

theorem within_createShaderModule {σ : Type} {R : σ → σ → Prop} (hR : Chainable R)
    (response : VkResult × Nat) :
    Within R Call.isQuiet (createShaderModule response : Exec σ Nat) := by
  unfold createShaderModule
  repeat' first
    | exact within_pure hR _
    | exact within_fail hR _
    | exact within_call hR _ ⟨rfl, rfl, rfl, rfl, rfl⟩
    | apply within_bind hR
    | split
    | intro _

theorem within_readFile {σ : Type} {R : σ → σ → Prop} (hR : Chainable R) (opened : Bool) :
    Within R Call.isQuiet (readFile opened : Exec σ Unit) := by
  unfold readFile
  split
  · exact within_pure hR _
  · exact within_fail hR _

theorem within_createImage {σ : Type} {R : σ → σ → Prop} (hR : Chainable R)
    (memProperties : VkPhysicalDeviceMemoryProperties) (env : AllocationEnv)
    (width height format tiling usage properties : Nat) :
    Within R Call.isQuiet (createImage memProperties env width height format tiling usage
      properties : Exec σ (Nat × Nat)) := by
  unfold createImage
  repeat' first
    | exact within_pure hR _
    | exact within_fail hR _
    | exact within_liftExcept hR _
    | exact within_call hR _ ⟨rfl, rfl, rfl, rfl, rfl⟩
    | apply within_bind hR
    | split
    | intro _

theorem within_createBuffer {σ : Type} {R : σ → σ → Prop} (hR : Chainable R)
    (memProperties : VkPhysicalDeviceMemoryProperties) (env : AllocationEnv)
    (size usage properties : Nat) :
    Within R Call.isQuiet (createBuffer memProperties env size usage properties :
      Exec σ (Nat × Nat)) := by
  unfold createBuffer
  repeat' first
    | exact within_pure hR _
    | exact within_fail hR _
    | exact within_liftExcept hR _
    | exact within_call hR _ ⟨rfl, rfl, rfl, rfl, rfl⟩
    | apply within_bind hR
    | split
    | intro _

theorem within_createSwapChain (env : CreationEnv) (ctx : StaticHandles) :
    Within (fun _ _ => True) Call.isQuiet (createSwapChain env ctx) := by
  have hR : Chainable (fun (_ _ : SwapChainObjects) => True) := chainable_true
  unfold createSwapChain
  repeat' first
    | exact within_pure hR _
    | exact within_fail hR _
    | exact within_getState hR
    | exact within_index hR _ _ _
    | exact within_createImageView hR _ _ _ _
    | exact within_findSupportedFormat hR _ _ _ _
    | exact within_createShaderModule hR _
    | exact within_readFile hR _
    | exact within_createImage hR _ _ _ _ _ _ _ _
    | exact within_createBuffer hR _ _ _ _ _
    | exact within_call hR _ ⟨rfl, rfl, rfl, rfl, rfl⟩
    | exact within_modifyState _ (fun _ => trivial)
    | apply within_forRange hR
    | apply within_bind hR
    | split
    | intro _

theorem within_createImageViews (env : CreationEnv) :
    Within (fun _ _ => True) Call.isQuiet (createImageViews env) := by
  have hR : Chainable (fun (_ _ : SwapChainObjects) => True) := chainable_true
  unfold createImageViews
  repeat' first
    | exact within_pure hR _
    | exact within_fail hR _
    | exact within_getState hR
    | exact within_index hR _ _ _
    | exact within_createImageView hR _ _ _ _
    | exact within_findSupportedFormat hR _ _ _ _
    | exact within_createShaderModule hR _
    | exact within_readFile hR _
    | exact within_createImage hR _ _ _ _ _ _ _ _
    | exact within_createBuffer hR _ _ _ _ _
    | exact within_call hR _ ⟨rfl, rfl, rfl, rfl, rfl⟩
    | exact within_modifyState _ (fun _ => trivial)
    | apply within_forRange hR
    | apply within_bind hR
    | split
    | intro _

theorem within_createRenderPass (env : CreationEnv) :
    Within (fun _ _ => True) Call.isQuiet (createRenderPass env) := by
  have hR : Chainable (fun (_ _ : SwapChainObjects) => True) := chainable_true
  unfold createRenderPass findDepthFormat
  repeat' first
    | exact within_pure hR _
    | exact within_fail hR _
    | exact within_getState hR
    | exact within_index hR _ _ _
    | exact within_createImageView hR _ _ _ _
    | exact within_findSupportedFormat hR _ _ _ _
    | exact within_createShaderModule hR _
    | exact within_readFile hR _
    | exact within_createImage hR _ _ _ _ _ _ _ _
    | exact within_createBuffer hR _ _ _ _ _
    | exact within_call hR _ ⟨rfl, rfl, rfl, rfl, rfl⟩
    | exact within_modifyState _ (fun _ => trivial)
    | apply within_forRange hR
    | apply within_bind hR
    | split
    | intro _

theorem within_createGraphicsPipeline (env : CreationEnv) :
    Within (fun _ _ => True) Call.isQuiet (createGraphicsPipeline env) := by
  have hR : Chainable (fun (_ _ : SwapChainObjects) => True) := chainable_true
  unfold createGraphicsPipeline
  repeat' first
    | exact within_pure hR _
    | exact within_fail hR _
    | exact within_getState hR
    | exact within_index hR _ _ _
    | exact within_createImageView hR _ _ _ _
    | exact within_findSupportedFormat hR _ _ _ _
    | exact within_createShaderModule hR _
    | exact within_readFile hR _
    | exact within_createImage hR _ _ _ _ _ _ _ _
    | exact within_createBuffer hR _ _ _ _ _
    | exact within_call hR _ ⟨rfl, rfl, rfl, rfl, rfl⟩
    | exact within_modifyState _ (fun _ => trivial)
    | apply within_forRange hR
    | apply within_bind hR
    | split
    | intro _

theorem within_createDepthResources (env : CreationEnv) :
    Within (fun _ _ => True) Call.isQuiet (createDepthResources env) := by
  have hR : Chainable (fun (_ _ : SwapChainObjects) => True) := chainable_true
  unfold createDepthResources findDepthFormat
  repeat' first
    | exact within_pure hR _
    | exact within_fail hR _
    | exact within_getState hR
    | exact within_index hR _ _ _
    | exact within_createImageView hR _ _ _ _
    | exact within_findSupportedFormat hR _ _ _ _
    | exact within_createShaderModule hR _
    | exact within_readFile hR _
    | exact within_createImage hR _ _ _ _ _ _ _ _
    | exact within_createBuffer hR _ _ _ _ _
    | exact within_call hR _ ⟨rfl, rfl, rfl, rfl, rfl⟩
    | exact within_modifyState _ (fun _ => trivial)
    | apply within_forRange hR
    | apply within_bind hR
    | split
    | intro _

theorem within_createFramebuffers (env : CreationEnv) :
    Within (fun _ _ => True) Call.isQuiet (createFramebuffers env) := by
  have hR : Chainable (fun (_ _ : SwapChainObjects) => True) := chainable_true
  unfold createFramebuffers
  repeat' first
    | exact within_pure hR _
    | exact within_fail hR _
    | exact within_getState hR
    | exact within_index hR _ _ _
    | exact within_createImageView hR _ _ _ _
    | exact within_findSupportedFormat hR _ _ _ _
    | exact within_createShaderModule hR _
    | exact within_readFile hR _
    | exact within_createImage hR _ _ _ _ _ _ _ _
    | exact within_createBuffer hR _ _ _ _ _
    | exact within_call hR _ ⟨rfl, rfl, rfl, rfl, rfl⟩
    | exact within_modifyState _ (fun _ => trivial)
    | apply within_forRange hR
    | apply within_bind hR
    | split
    | intro _

theorem within_createUniformBuffers (env : CreationEnv) :
    Within (fun _ _ => True) Call.isQuiet (createUniformBuffers env) := by
  have hR : Chainable (fun (_ _ : SwapChainObjects) => True) := chainable_true
  unfold createUniformBuffers
  repeat' first
    | exact within_pure hR _
    | exact within_fail hR _
    | exact within_getState hR
    | exact within_index hR _ _ _
    | exact within_createImageView hR _ _ _ _
    | exact within_findSupportedFormat hR _ _ _ _
    | exact within_createShaderModule hR _
    | exact within_readFile hR _
    | exact within_createImage hR _ _ _ _ _ _ _ _
    | exact within_createBuffer hR _ _ _ _ _
    | exact within_call hR _ ⟨rfl, rfl, rfl, rfl, rfl⟩
    | exact within_modifyState _ (fun _ => trivial)
    | apply within_forRange hR
    | apply within_bind hR
    | split
    | intro _

theorem within_createDescriptorPool (env : CreationEnv) :
    Within (fun _ _ => True) Call.isQuiet (createDescriptorPool env) := by
  have hR : Chainable (fun (_ _ : SwapChainObjects) => True) := chainable_true
  unfold createDescriptorPool
  repeat' first
    | exact within_pure hR _
    | exact within_fail hR _
    | exact within_getState hR
    | exact within_index hR _ _ _
    | exact within_createImageView hR _ _ _ _
    | exact within_findSupportedFormat hR _ _ _ _
    | exact within_createShaderModule hR _
    | exact within_readFile hR _
    | exact within_createImage hR _ _ _ _ _ _ _ _
    | exact within_createBuffer hR _ _ _ _ _
    | exact within_call hR _ ⟨rfl, rfl, rfl, rfl, rfl⟩
    | exact within_modifyState _ (fun _ => trivial)
    | apply within_forRange hR
    | apply within_bind hR
    | split
    | intro _

theorem within_createDescriptorSets (env : CreationEnv) (ctx : StaticHandles) :
    Within (fun _ _ => True) Call.isQuiet (createDescriptorSets env ctx) := by
  have hR : Chainable (fun (_ _ : SwapChainObjects) => True) := chainable_true
  unfold createDescriptorSets
  repeat' first
    | exact within_pure hR _
    | exact within_fail hR _
    | exact within_getState hR
    | exact within_index hR _ _ _
    | exact within_createImageView hR _ _ _ _
    | exact within_findSupportedFormat hR _ _ _ _
    | exact within_createShaderModule hR _
    | exact within_readFile hR _
    | exact within_createImage hR _ _ _ _ _ _ _ _
    | exact within_createBuffer hR _ _ _ _ _
    | exact within_call hR _ ⟨rfl, rfl, rfl, rfl, rfl⟩
    | exact within_modifyState _ (fun _ => trivial)
    | apply within_forRange hR
    | apply within_bind hR
    | split
    | intro _

theorem within_createCommandBuffers (env : CreationEnv) (ctx : StaticHandles) :
    Within (fun _ _ => True) Call.isQuiet (createCommandBuffers env ctx) := by
  have hR : Chainable (fun (_ _ : SwapChainObjects) => True) := chainable_true
  unfold createCommandBuffers
  repeat' first
    | exact within_pure hR _
    | exact within_fail hR _
    | exact within_getState hR
    | exact within_index hR _ _ _
    | exact within_createImageView hR _ _ _ _
    | exact within_findSupportedFormat hR _ _ _ _
    | exact within_createShaderModule hR _
    | exact within_readFile hR _
    | exact within_createImage hR _ _ _ _ _ _ _ _
    | exact within_createBuffer hR _ _ _ _ _
    | exact within_call hR _ ⟨rfl, rfl, rfl, rfl, rfl⟩
    | exact within_modifyState _ (fun _ => trivial)
    | apply within_forRange hR
    | apply within_bind hR
    | split
    | intro _

theorem within_recreationPass (env : CreationEnv) (ctx : StaticHandles) :
    Within (fun _ _ => True) Call.isQuiet (recreationPass env ctx) := by
  have hR : Chainable (fun (_ _ : SwapChainObjects) => True) := chainable_true
  unfold recreationPass
  repeat' first
    | exact within_createSwapChain env ctx
    | exact within_createImageViews env
    | exact within_createRenderPass env
    | exact within_createGraphicsPipeline env
    | exact within_createDepthResources env
    | exact within_createFramebuffers env
    | exact within_createUniformBuffers env
    | exact within_createDescriptorPool env
    | exact within_createDescriptorSets env ctx
    | exact within_createCommandBuffers env ctx
    | apply within_bind hR
    | intro _

/-! ## Runs of single statements -/

section runs
variable {σ α β : Type}

theorem run_call_bind (c : Call) (f : Unit → Exec σ β) (s : σ) :
    (call c >>= f).run s = ((f ()).run s).prepend [c] :=
  run_bind_ok (m := call c) (f := f) (s := s) (a := ()) rfl

theorem run_getState_bind (f : σ → Exec σ β) (s : σ) :
    (getState >>= f).run s = (f s).run s :=
  run_bind_ok (m := getState) (f := f) (s := s) (a := s) rfl

theorem run_pure_bind (a : α) (f : α → Exec σ β) (s : σ) :
    ((pure a : Exec σ α) >>= f).run s = (f a).run s :=
  run_bind_ok (m := pure a) (f := f) (s := s) (a := a) rfl

theorem run_modifyState_bind (g : σ → σ) (f : Unit → Exec σ β) (s : σ) :
    (modifyState g >>= f).run s = (f ()).run (g s) :=
  run_bind_ok (m := modifyState g) (f := f) (s := s) (a := ()) rfl

theorem run_fail_bind (e : Fault) (f : α → Exec σ β) (s : σ) :
    ((fail e : Exec σ α) >>= f).run s = ⟨.error e, s, []⟩ :=
  run_bind_error (m := fail e) (f := f) (s := s) (e := e) rfl

theorem run_index_bind (v : List Nat) (i : Nat) (what : String) (f : Nat → Exec σ β)
    (s : σ) :
    (index v i what >>= f).run s =
      match v[i]? with
      | some x => (f x).run s
      | none => ⟨.error (.undefinedBehaviour what), s, []⟩ := by
  unfold index
  cases v[i]? with
  | none => exact run_fail_bind _ f s
  | some x => exact run_pure_bind x f s

theorem run_bind_cases (m : Exec σ α) (f : α → Exec σ β) (s : σ) :
    (∃ a, (m.run s).result = .ok a ∧
      (m >>= f).run s = ((f a).run (m.run s).state).prepend (m.run s).trace) ∨
    (∃ e, (m.run s).result = .error e ∧
      (m >>= f).run s = ⟨.error e, (m.run s).state, (m.run s).trace⟩) := by
  cases h : (m.run s).result with
  | ok a => exact Or.inl ⟨a, rfl, run_bind_ok h⟩
  | error e => exact Or.inr ⟨e, rfl, run_bind_error h⟩

theorem prepend_returned (calls : List Call) (r : Run σ α) :
    (r.prepend calls).returned = r.returned := rfl

theorem prepend_state (calls : List Call) (r : Run σ α) :
    (r.prepend calls).state = r.state := rfl

theorem prepend_result (calls : List Call) (r : Run σ α) :
    (r.prepend calls).result = r.result := rfl

theorem prepend_trace (calls : List Call) (r : Run σ α) :
    (r.prepend calls).trace = calls ++ r.trace := rfl

theorem returned_error (e : Fault) (s : σ) (t : List Call) :
    (⟨.error e, s, t⟩ : Run σ α).returned = false := rfl

end runs

/-! ## Frames whose acquisition reports the surface out of date -/

theorem drawFrame_run_outOfDate (env : DrawFrameEnv) (s : App) (slotFence imageAvailable : Nat)
    (hacquire : env.acquireResult = VK_ERROR_OUT_OF_DATE_KHR)
    (hfence : s.inFlightFences[s.currentFrame]? = some slotFence)
    (hsemaphore : s.imageAvailableSemaphores[s.currentFrame]? = some imageAvailable) :
    (drawFrame env).run s =
      ⟨((recreateSwapChain env.recreate).run s).result,
        ((recreateSwapChain env.recreate).run s).state,
        .vkWaitForFences [slotFence] ::
          .vkAcquireNextImageKHR s.swapChain imageAvailable VK_NULL_HANDLE ::
          ((recreateSwapChain env.recreate).run s).trace⟩ := by
  unfold drawFrame
  rw [run_getState_bind, run_index_bind, hfence]
  dsimp only
  rw [run_call_bind, run_index_bind, hsemaphore]
  dsimp only
  rw [run_call_bind, if_pos hacquire]
  rfl

/-! ## What `recreateSwapChain` keeps -/

theorem chainable_syncKept : Chainable SyncKept :=
  ⟨fun _ => ⟨rfl, rfl, rfl, rfl, rfl, rfl, id⟩,
    fun _ _ _ hab hbc =>
      ⟨hbc.1.trans hab.1, hbc.2.1.trans hab.2.1, hbc.2.2.1.trans hab.2.2.1,
        hbc.2.2.2.1.trans hab.2.2.2.1, hbc.2.2.2.2.1.trans hab.2.2.2.2.1,
        hbc.2.2.2.2.2.1.trans hab.2.2.2.2.2.1,
        fun h => hbc.2.2.2.2.2.2 (hab.2.2.2.2.2.2 h)⟩⟩

theorem chainable_syncSame : Chainable SyncSame :=
  ⟨fun _ => ⟨rfl, rfl⟩,
    fun _ _ _ hab hbc => ⟨hbc.1.trans hab.1, hbc.2.trans hab.2⟩⟩

theorem syncKept_of_syncSame {s s' : App} (h : SyncSame s s') : SyncKept s s' := by
  obtain ⟨h1, h2⟩ := h
  refine ⟨h1, ?_, ?_, ?_, ?_, ?_, ?_⟩
  · exact congrArg FrameSync.imageAvailableSemaphores h2
  · exact congrArg FrameSync.renderFinishedSemaphores h2
  · exact congrArg FrameSync.inFlightFences h2
  · exact congrArg FrameSync.imagesInFlight h2
  · exact congrArg FrameSync.currentFrame h2
  · intro h
    have := congrArg FrameSync.framebufferResized h2
    rw [this]; exact h

theorem within_cleanupSwapChain {R : App → App → Prop} (hR : Chainable R) :
    Within R Call.isQuiet cleanupSwapChain := by
  unfold cleanupSwapChain
  repeat' first
    | exact within_pure hR _
    | exact within_getState hR
    | exact within_index hR _ _ _
    | exact within_call hR _ ⟨rfl, rfl, rfl, rfl, rfl⟩
    | apply within_forRange hR
    | apply within_bind hR
    | intro _

theorem within_waitWhileMinimized_kept :
    ∀ (polls : List Poll) (size : Int × Int),
      Within SyncKept Call.isQuiet (waitWhileMinimized size polls) := by
  have hR := chainable_syncKept
  intro polls
  induction polls with
  | nil =>
    intro size
    unfold waitWhileMinimized
    split
    · exact within_fail hR _
    · exact within_pure hR _
  | cons poll rest ih =>
    intro size
    unfold waitWhileMinimized
    split
    · refine within_bind hR (within_call hR _ ⟨rfl, rfl, rfl, rfl, rfl⟩) (fun _ => ?_)
      refine within_bind hR (within_call hR _ ⟨rfl, rfl, rfl, rfl, rfl⟩) (fun _ => ?_)
      refine within_bind hR ?_ (fun _ => ih poll.size)
      unfold dispatchResize
      split
      · exact within_modifyState _ (fun s => ⟨rfl, rfl, rfl, rfl, rfl, rfl, fun _ => rfl⟩)
      · exact within_pure hR _
    · exact within_pure hR _

theorem within_waitWhileMinimized_same :
    ∀ (polls : List Poll) (size : Int × Int), resizeDispatched size polls = false →
      Within SyncSame Call.isQuiet (waitWhileMinimized size polls) := by
  have hR := chainable_syncSame
  intro polls
  induction polls with
  | nil =>
    intro size _
    unfold waitWhileMinimized
    split
    · exact within_fail hR _
    · exact within_pure hR _
  | cons poll rest ih =>
    intro size hq
    unfold waitWhileMinimized
    unfold resizeDispatched at hq
    split
    · rename_i hmin
      rw [if_pos hmin] at hq
      simp only [Bool.or_eq_false_iff] at hq
      refine within_bind hR (within_call hR _ ⟨rfl, rfl, rfl, rfl, rfl⟩) (fun _ => ?_)
      refine within_bind hR (within_call hR _ ⟨rfl, rfl, rfl, rfl, rfl⟩) (fun _ => ?_)
      refine within_bind hR ?_ (fun _ => ih poll.size hq.2)
      cases hres : poll.resized with
      | none => exact within_pure hR _
      | some size' => rw [hres] at hq; simp at hq
    · exact within_pure hR _

theorem waitWhileMinimized_raised :
    ∀ (polls : List Poll) (size : Int × Int) (s : App),
      resizeDispatched size polls = true →
      ((waitWhileMinimized size polls).run s).state.framebufferResized = true := by
  intro polls
  induction polls with
  | nil =>
    intro size s h
    unfold resizeDispatched at h
    split at h <;> cases h
  | cons poll rest ih =>
    intro size s h
    unfold resizeDispatched at h
    unfold waitWhileMinimized
    by_cases hmin : size.1 = 0 ∨ size.2 = 0
    · rw [if_pos hmin] at h
      rw [if_pos hmin]
      dsimp only at h ⊢
      rw [run_call_bind, run_call_bind, prepend_state, prepend_state]
      cases hres : poll.resized with
      | none =>
        rw [hres] at h
        simp only [Option.isSome_none, Bool.false_or] at h
        unfold dispatchResize
        exact ih poll.size s h
      | some size' =>
        unfold dispatchResize
        rw [run_modifyState_bind]
        exact ((within_waitWhileMinimized_kept rest poll.size).holds
          (framebufferResizeCallback size' s)).1.2.2.2.2.2.2 rfl
    · rw [if_neg hmin] at h
      cases h

/-- The run of `recreateSwapChain`: its trace is the entry mark followed by quiet calls
only; it keeps the frame-synchronisation members and static handles; the resize flag
afterwards is the flag before, raised when the minimised-window loop dispatched the resize
callback. -/
theorem recreateSwapChain_run (env : RecreateEnv) (s : App) :
    (∃ rest, ((recreateSwapChain env).run s).trace = .enter "recreateSwapChain" :: rest ∧
      ∀ c ∈ rest, c.isQuiet) ∧
    SyncKept s ((recreateSwapChain env).run s).state ∧
    ((recreateSwapChain env).run s).state.framebufferResized =
      (s.framebufferResized || resizeDispatched env.framebufferSize env.polls) := by
  have hlift : ∀ (R : App → App → Prop), Chainable R →
      (∀ (s : App) (o : SwapChainObjects), R s { s with toSwapChainObjects := o }) →
      Within R Call.isQuiet (waitWhileMinimized env.framebufferSize env.polls) →
      Within R Call.isQuiet (do
        call .glfwGetFramebufferSize
        waitWhileMinimized env.framebufferSize env.polls
        call .vkDeviceWaitIdle
        cleanupSwapChain
        let s ← getState
        liftObjects (recreationPass env.creation s.toStaticHandles) : Exec App Unit) := by
    intro R hR hobj hwait
    refine within_bind hR (within_call hR _ ⟨rfl, rfl, rfl, rfl, rfl⟩) (fun _ => ?_)
    refine within_bind hR hwait (fun _ => ?_)
    refine within_bind hR (within_call hR _ ⟨rfl, rfl, rfl, rfl, rfl⟩) (fun _ => ?_)
    refine within_bind hR (within_cleanupSwapChain hR) (fun _ => ?_)
    refine within_bind hR (within_getState hR) (fun s' => ?_)
    exact within_liftObjects hobj _ (within_recreationPass _ _)
  have hkept := (hlift SyncKept chainable_syncKept
    (fun s o => ⟨rfl, rfl, rfl, rfl, rfl, rfl, id⟩)
    (within_waitWhileMinimized_kept _ _)).holds s
  unfold recreateSwapChain
  rw [run_call_bind]
  refine ⟨⟨_, rfl, hkept.2⟩, hkept.1, ?_⟩
  rw [prepend_state]
  cases hd : resizeDispatched env.framebufferSize env.polls with
  | false =>
    have hsame := (hlift SyncSame chainable_syncSame (fun s o => ⟨rfl, rfl⟩)
      (within_waitWhileMinimized_same _ _ hd)).holds s
    rw [Bool.or_false]
    exact congrArg FrameSync.framebufferResized hsame.1.2
  | true =>
    rw [Bool.or_true, run_call_bind, prepend_state]
    have hraised := waitWhileMinimized_raised env.polls env.framebufferSize s hd
    cases hres : ((waitWhileMinimized env.framebufferSize env.polls).run s).result with
    | error e =>
      rw [run_bind_error hres]
      exact hraised
    | ok a =>
      rw [run_bind_ok hres]
      have htail : Within SyncKept Call.isQuiet (do
          call .vkDeviceWaitIdle
          cleanupSwapChain
          let s ← getState
          liftObjects (recreationPass env.creation s.toStaticHandles) : Exec App Unit) := by
        have hR := chainable_syncKept
        refine within_bind hR (within_call hR _ ⟨rfl, rfl, rfl, rfl, rfl⟩) (fun _ => ?_)
        refine within_bind hR (within_cleanupSwapChain hR) (fun _ => ?_)
        refine within_bind hR (within_getState hR) (fun s' => ?_)
        exact within_liftObjects (fun s o => ⟨rfl, rfl, rfl, rfl, rfl, rfl, id⟩) _
          (within_recreationPass _ _)
      exact (htail.holds _).1.2.2.2.2.2.2 hraised

/-! ## Frames that get past acquisition -/

theorem run_updateUniformBuffer (currentImage : Nat) (s : App) :
    (updateUniformBuffer currentImage).run s =
      match s.uniformBuffersMemory[currentImage]? with
      | some memory =>
        ⟨.ok (), s, [.vkMapMemory memory, .memcpy memory, .vkUnmapMemory memory]⟩
      | none => ⟨.error (.undefinedBehaviour "uniformBuffersMemory[currentImage]"), s, []⟩ := by
  unfold updateUniformBuffer
  rw [run_getState_bind, run_index_bind]
  cases s.uniformBuffersMemory[currentImage]? with
  | none => rfl
  | some memory =>
    dsimp only
    rw [run_call_bind, run_call_bind]
    rfl

theorem run_updateLightingConstants (currentImage : Nat) (s : App) :
    (updateLightingConstants currentImage).run s =
      match s.lightingBuffersMemory[currentImage]? with
      | some memory =>
        ⟨.ok (), s, [.vkMapMemory memory, .memcpy memory, .vkUnmapMemory memory]⟩
      | none =>
        ⟨.error (.undefinedBehaviour "lightingBuffersMemory[currentImage]"), s, []⟩ := by
  unfold updateLightingConstants
  rw [run_getState_bind, run_index_bind]
  cases s.lightingBuffersMemory[currentImage]? with
  | none => rfl
  | some memory =>
    dsimp only
    rw [run_call_bind, run_call_bind]
    rfl

theorem run_bind_of_eq {σ α β : Type} {m : Exec σ α} {f : α → Exec σ β} {s s1 : σ} {a : α}
    {t : List Call} (h : m.run s = ⟨.ok a, s1, t⟩) :
    (m >>= f).run s = ((f a).run s1).prepend t := by
  have hres : (m.run s).result = .ok a := by rw [h]
  rw [run_bind_ok hres, h]
  rfl

theorem run_bind_of_eq_error {σ α β : Type} {m : Exec σ α} {f : α → Exec σ β} {s s1 : σ}
    {e : Fault} {t : List Call} (h : m.run s = ⟨.error e, s1, t⟩) :
    (m >>= f).run s = ⟨.error e, s1, t⟩ := by
  have hres : (m.run s).result = .error e := by rw [h]
  rw [run_bind_error hres, h]

/-- A `drawFrame` call that returns normally without having met an out-of-date surface at
acquisition has advanced `currentFrame` by one modulo `MAX_FRAMES_IN_FLIGHT`. -/
theorem drawFrame_returned_advances (env : DrawFrameEnv) (s : App)
    (hacquire : env.acquireResult ≠ VK_ERROR_OUT_OF_DATE_KHR)
    (hret : ((drawFrame env).run s).returned = true) :
    ((drawFrame env).run s).state.currentFrame =
      (s.currentFrame + 1) % MAX_FRAMES_IN_FLIGHT := by
  revert hret
  unfold drawFrame
  rw [run_getState_bind, run_index_bind]
  cases s.inFlightFences[s.currentFrame]? with
  | none => intro hret; cases hret
  | some slotFence =>
  dsimp only
  rw [run_call_bind, run_index_bind]
  cases s.imageAvailableSemaphores[s.currentFrame]? with
  | none => intro hret; cases hret
  | some imageAvailable =>
  dsimp only
  rw [run_call_bind, if_neg hacquire]
  by_cases hfatal : env.acquireResult ≠ VK_SUCCESS ∧ env.acquireResult ≠ VK_SUBOPTIMAL_KHR
  · rw [if_pos hfatal]; intro hret; cases hret
  rw [if_neg hfatal, run_index_bind]
  cases s.imagesInFlight[env.imageIndex]? with
  | none => intro hret; cases hret
  | some imageFence =>
  dsimp only
  have hwait : ∀ (f : Unit → Exec App Unit) (s0 : App),
      ((if imageFence ≠ VK_NULL_HANDLE then call (.vkWaitForFences [imageFence])
        else pure ()) >>= f).run s0 =
      ((f ()).run s0).prepend
        (if imageFence ≠ VK_NULL_HANDLE then [.vkWaitForFences [imageFence]] else []) := by
    intro f s0
    split
    · exact run_call_bind _ f s0
    · exact run_pure_bind () f s0
  rw [hwait, run_modifyState_bind]
  generalize hs1 : ({ s with imagesInFlight := s.imagesInFlight.set env.imageIndex slotFence }
    : App) = s1
  have hc1 : s1.currentFrame = s.currentFrame := by rw [← hs1]
  have hu := run_updateUniformBuffer env.imageIndex s1
  cases hlookU : s1.uniformBuffersMemory[env.imageIndex]? with
  | none => rw [hlookU] at hu; rw [run_bind_of_eq_error hu]; intro hret; cases hret
  | some uniformMemory =>
  rw [hlookU] at hu
  rw [run_bind_of_eq hu]
  have hl := run_updateLightingConstants env.imageIndex s1
  cases hlookL : s1.lightingBuffersMemory[env.imageIndex]? with
  | none => rw [hlookL] at hl; rw [run_bind_of_eq_error hl]; intro hret; cases hret
  | some lightingMemory =>
  rw [hlookL] at hl
  rw [run_bind_of_eq hl, run_index_bind]
  cases s.commandBuffers[env.imageIndex]? with
  | none => intro hret; cases hret
  | some commandBuffer =>
  dsimp only
  rw [run_index_bind]
  cases s.renderFinishedSemaphores[s.currentFrame]? with
  | none => intro hret; cases hret
  | some renderFinished =>
  dsimp only
  rw [run_call_bind, run_call_bind]
  by_cases hsubmit : env.submitResult ≠ VK_SUCCESS
  · rw [if_pos hsubmit]; intro hret; cases hret
  rw [if_neg hsubmit, run_call_bind, run_getState_bind]
  simp only [prepend_returned, prepend_state]
  by_cases hpresent : env.presentResult = VK_ERROR_OUT_OF_DATE_KHR ∨
      env.presentResult = VK_SUBOPTIMAL_KHR ∨ s1.framebufferResized = true
  · rw [if_pos hpresent]
    generalize hs2 : ({ s1 with framebufferResized := false } : App) = s2
    have hc2 : s2.currentFrame = s.currentFrame := by rw [← hs2]; exact hc1
    have hm : (do
          modifyState fun s => { s with framebufferResized := false }
          recreateSwapChain env.recreate : Exec App Unit).run s1 =
        (recreateSwapChain env.recreate).run s2 := by
      rw [run_modifyState_bind, hs2]
    have hkept := (recreateSwapChain_run env.recreate s2).2.1
    rcases run_bind_cases (do
          modifyState fun s => { s with framebufferResized := false }
          recreateSwapChain env.recreate : Exec App Unit)
        (fun _ => modifyState fun s => { s with
          currentFrame := (s.currentFrame + 1) % MAX_FRAMES_IN_FLIGHT }) s1 with
      ⟨a, -, h⟩ | ⟨e, -, h⟩
    · rw [h, hm]
      intro _
      show (((recreateSwapChain env.recreate).run s2).state.currentFrame + 1) %
        MAX_FRAMES_IN_FLIGHT = _
      rw [hkept.2.2.2.2.2.1, hc2]
    · rw [h]
      intro hret; cases hret
  · rw [if_neg hpresent]
    by_cases hfailed : env.presentResult ≠ VK_SUCCESS
    · rw [if_pos hfailed, run_fail_bind]
      intro hret; cases hret
    · rw [if_neg hfailed, run_pure_bind]
      intro _
      show (s1.currentFrame + 1) % MAX_FRAMES_IN_FLIGHT = _
      rw [hc1]

/-! ## The frame index stays in bounds -/

theorem chainable_slotsKept : Chainable SlotsKept :=
  ⟨fun _ => ⟨rfl, rfl, rfl, Or.inl rfl⟩,
    fun _ _ _ hab hbc =>
      ⟨hbc.1.trans hab.1, hbc.2.1.trans hab.2.1, hbc.2.2.1.trans hab.2.2.1, by
        rcases hbc.2.2.2 with h | h
        · rcases hab.2.2.2 with h' | h'
          · exact Or.inl (h.trans h')
          · exact Or.inr (by rw [h]; exact h')
        · exact Or.inr h⟩⟩

theorem chainable_slotLengthsKept : Chainable SlotLengthsKept :=
  ⟨fun _ => ⟨rfl, rfl, rfl, rfl⟩,
    fun _ _ _ hab hbc =>
      ⟨hbc.1.trans hab.1, hbc.2.1.trans hab.2.1, hbc.2.2.1.trans hab.2.2.1,
        hbc.2.2.2.trans hab.2.2.2⟩⟩

theorem within_recreateSwapChain_slots (env : RecreateEnv) :
    Within SlotsKept (fun _ => True) (recreateSwapChain env) :=
  ⟨fun s => by
    have h := (recreateSwapChain_run env s).2.1
    exact ⟨⟨h.2.1, h.2.2.1, h.2.2.2.1, Or.inl h.2.2.2.2.2.1⟩, fun _ _ => trivial⟩⟩

theorem within_drawFrame_slots (env : DrawFrameEnv) :
    Within SlotsKept (fun _ => True) (drawFrame env) := by
  have hR := chainable_slotsKept
  unfold drawFrame updateUniformBuffer updateLightingConstants
  repeat' first
    | exact within_pure hR _
    | exact within_fail hR _
    | exact within_getState hR
    | exact within_index hR _ _ _
    | exact within_recreateSwapChain_slots _
    | exact within_call hR _ trivial
    | exact within_modifyState _ (fun _ => ⟨rfl, rfl, rfl, Or.inl rfl⟩)
    | exact within_modifyState _
        (fun _ => ⟨rfl, rfl, rfl, Or.inr (Nat.mod_lt _ (by decide))⟩)
    | apply within_bind hR
    | split
    | intro _

theorem length_resize (v : List Nat) (n fill : Nat) : (resize v n fill).length = n := by
  unfold resize
  rw [List.length_append, List.length_take, List.length_replicate]
  omega

theorem within_createSyncObjectsSlot (env : SyncEnv) (i : Nat) :
    Within SlotLengthsKept (fun _ => True) (createSyncObjectsSlot env i) := by
  have hR := chainable_slotLengthsKept
  unfold createSyncObjectsSlot
  repeat' first
    | exact within_fail hR _
    | exact within_call hR _ trivial
    | exact within_modifyState _ (fun _ => ⟨List.length_set _ _ _, rfl, rfl, rfl⟩)
    | exact within_modifyState _ (fun _ => ⟨rfl, List.length_set _ _ _, rfl, rfl⟩)
    | exact within_modifyState _ (fun _ => ⟨rfl, rfl, List.length_set _ _ _, rfl⟩)
    | apply within_bind hR
    | split
    | intro _

/-- After `createSyncObjects` the per-slot arrays have `MAX_FRAMES_IN_FLIGHT` entries and
`currentFrame` is what it was. -/
theorem createSyncObjects_slots (env : SyncEnv) (s : App) :
    ((createSyncObjects env).run s).state.inFlightFences.length = MAX_FRAMES_IN_FLIGHT ∧
    ((createSyncObjects env).run s).state.imageAvailableSemaphores.length =
      MAX_FRAMES_IN_FLIGHT ∧
    ((createSyncObjects env).run s).state.renderFinishedSemaphores.length =
      MAX_FRAMES_IN_FLIGHT ∧
    ((createSyncObjects env).run s).state.currentFrame = s.currentFrame := by
  unfold createSyncObjects
  rw [run_modifyState_bind, run_modifyState_bind, run_modifyState_bind, run_modifyState_bind]
  have key : ∀ s', SlotLengthsKept s'
      ((forRange (createSyncObjectsSlot env) 0 MAX_FRAMES_IN_FLIGHT).run s').state :=
    fun s' => ((within_forRange chainable_slotLengthsKept _
      (within_createSyncObjectsSlot env) MAX_FRAMES_IN_FLIGHT 0).holds s').1
  refine ⟨(key _).2.2.1.trans ?_, (key _).1.trans ?_, (key _).2.1.trans ?_,
    (key _).2.2.2.trans rfl⟩
  · exact length_resize _ _ _
  · exact length_resize _ _ _
  · exact length_resize _ _ _

/-- In every reachable state the frame index and the per-slot arrays are in bounds. -/
theorem reachable_slotsInBounds (s : App) (h : Reachable s) : SlotsInBounds s := by
  induction h with
  | init env s0 h0 _ =>
    obtain ⟨h1, h2, h3, h4⟩ := createSyncObjects_slots env s0
    refine ⟨?_, h1, h2, h3⟩
    rw [h4, h0]
    decide
  | pollEvents size s _ ih => exact ih
  | frame env s _ ih =>
    obtain ⟨h1, h2, h3, h4⟩ := ((within_drawFrame_slots env).holds s).1
    obtain ⟨i1, i2, i3, i4⟩ := ih
    refine ⟨?_, by rw [h3]; exact i2, by rw [h1]; exact i3, by rw [h2]; exact i4⟩
    rcases h4 with h | h
    · rw [h]; exact i1
    · exact h

/-! ## Frame index and the out-of-date path of acquisition -/

theorem reachable_sampleApp : Reachable sampleApp :=
  Reachable.init sampleSync sampleAppBeforeSync rfl rfl

/-- C9: every `drawFrame` call that returns normally and did not take the early return of
an out-of-date acquisition (so it got past acquisition and presentation, with or without a
swapchain recreation after present) ends with `currentFrame` equal to the old value plus one
modulo `MAX_FRAMES_IN_FLIGHT`; and in every state reachable from `currentFrame == 0`,
`currentFrame` is below `MAX_FRAMES_IN_FLIGHT = 2` and below the length of each per-slot
array, so every slot access indexed by `currentFrame` is in bounds. -/
theorem drawFrame_frame_index :
    (∀ (env : DrawFrameEnv) (s : App),
      env.acquireResult ≠ VK_ERROR_OUT_OF_DATE_KHR →
      ((drawFrame env).run s).returned = true →
      ((drawFrame env).run s).state.currentFrame =
        (s.currentFrame + 1) % MAX_FRAMES_IN_FLIGHT) ∧
    (∀ s : App, Reachable s →
      s.currentFrame < MAX_FRAMES_IN_FLIGHT ∧
      s.currentFrame < s.inFlightFences.length ∧
      s.currentFrame < s.imageAvailableSemaphores.length ∧
      s.currentFrame < s.renderFinishedSemaphores.length) ∧
    MAX_FRAMES_IN_FLIGHT = 2 := by
  refine ⟨fun env s h1 h2 => drawFrame_returned_advances env s h1 h2, ?_, rfl⟩
  intro s hs
  obtain ⟨h1, h2, h3, h4⟩ := reachable_slotsInBounds s hs
  exact ⟨h1, by rw [h2]; exact h1, by rw [h3]; exact h1, by rw [h4]; exact h1⟩

/-- Witness for C9: a frame that recreates the swapchain after a suboptimal present, run
from a reachable state with `currentFrame == 0`, returns with `currentFrame == 1`. -/
theorem drawFrame_frame_index_witness :
    Reachable sampleApp ∧
    ((drawFrame { plainFrame with presentResult := VK_SUBOPTIMAL_KHR }).run
      sampleApp).returned = true ∧
    ((drawFrame { plainFrame with presentResult := VK_SUBOPTIMAL_KHR }).run
      sampleApp).state.currentFrame = (0 + 1) % MAX_FRAMES_IN_FLIGHT ∧
    sampleApp.currentFrame < sampleApp.inFlightFences.length :=
  ⟨reachable_sampleApp, rfl,
    drawFrame_frame_index.1 { plainFrame with presentResult := VK_SUBOPTIMAL_KHR } sampleApp
      (by decide) rfl,
    (drawFrame_frame_index.2.1 sampleApp reachable_sampleApp).2.1⟩

/-- C10, the claim as stated fails: from a reachable state with the resize flag down, a
frame whose acquisition reports out-of-date while the window is minimised returns normally
with the resize flag raised (the resize callback runs inside `glfwWaitEvents`); and when
`vkCreateSwapchainKHR` fails during the recreation the call does not return normally. -/
theorem drawFrame_acquire_outOfDate_counterexample :
    Reachable sampleApp ∧
    (outOfDateFrame minimizedRecreate).acquireResult = VK_ERROR_OUT_OF_DATE_KHR ∧
    ((drawFrame (outOfDateFrame minimizedRecreate)).run sampleApp).returned = true ∧
    sampleApp.framebufferResized = false ∧
    ((drawFrame (outOfDateFrame minimizedRecreate)).run sampleApp).state.framebufferResized =
      true ∧
    (outOfDateFrame failingRecreate).acquireResult = VK_ERROR_OUT_OF_DATE_KHR ∧
    ((drawFrame (outOfDateFrame failingRecreate)).run sampleApp).result =
      .error (.thrown "failed to create swap chain!") :=
  ⟨reachable_sampleApp, rfl, rfl, rfl, rfl, rfl, rfl⟩

/-- C10 as amended: in every reachable state, when acquisition reports out-of-date
`drawFrame` waits on the slot fence, acquires, runs `recreateSwapChain` exactly once and does
nothing after it: it returns normally exactly when `recreateSwapChain` does and otherwise
ends with the fault of `recreateSwapChain`. Whichever way it ends, nothing has been
submitted, no present request issued, no fence reset and no uniform data written, and
`currentFrame` and the image-in-flight table are unchanged. The resize flag is not written
by `drawFrame` on this path: afterwards it is the old flag, raised if the resize callback was
dispatched while `recreateSwapChain` waited for a minimised window. -/
theorem drawFrame_acquire_outOfDate (env : DrawFrameEnv) (s : App)
    (hreach : Reachable s)
    (hacquire : env.acquireResult = VK_ERROR_OUT_OF_DATE_KHR) :
    ∃ slotFence imageAvailable rest,
      s.inFlightFences[s.currentFrame]? = some slotFence ∧
      s.imageAvailableSemaphores[s.currentFrame]? = some imageAvailable ∧
      ((recreateSwapChain env.recreate).run s).trace = .enter "recreateSwapChain" :: rest ∧
      (drawFrame env).run s =
        ⟨((recreateSwapChain env.recreate).run s).result,
          ((recreateSwapChain env.recreate).run s).state,
          .vkWaitForFences [slotFence] ::
            .vkAcquireNextImageKHR s.swapChain imageAvailable VK_NULL_HANDLE ::
            .enter "recreateSwapChain" :: rest⟩ ∧
      (((drawFrame env).run s).trace.filter Call.isRecreateEntry).length = 1 ∧
      (((drawFrame env).run s).returned = true ↔
        ((recreateSwapChain env.recreate).run s).returned = true) ∧
      (∀ c ∈ ((drawFrame env).run s).trace,
        c.isSubmit = false ∧ c.isPresent = false ∧ c.isFenceReset = false ∧
          c.isHostWrite = false) ∧
      ((drawFrame env).run s).state.currentFrame = s.currentFrame ∧
      ((drawFrame env).run s).state.imagesInFlight = s.imagesInFlight ∧
      ((drawFrame env).run s).state.framebufferResized =
        (s.framebufferResized ||
          resizeDispatched env.recreate.framebufferSize env.recreate.polls) := by
  obtain ⟨hframe, hfences, hsemaphores, -⟩ := reachable_slotsInBounds s hreach
  have hfence : s.currentFrame < s.inFlightFences.length := by rw [hfences]; exact hframe
  have hsemaphore : s.currentFrame < s.imageAvailableSemaphores.length := by
    rw [hsemaphores]; exact hframe
  obtain ⟨slotFence, h1⟩ : ∃ x, s.inFlightFences[s.currentFrame]? = some x :=
    ⟨_, List.getElem?_eq_getElem hfence⟩
  obtain ⟨imageAvailable, h2⟩ : ∃ x, s.imageAvailableSemaphores[s.currentFrame]? = some x :=
    ⟨_, List.getElem?_eq_getElem hsemaphore⟩
  obtain ⟨⟨rest, htrace, hquiet⟩, hkept, hflag⟩ := recreateSwapChain_run env.recreate s
  have hrun := drawFrame_run_outOfDate env s slotFence imageAvailable hacquire h1 h2
  rw [htrace] at hrun
  refine ⟨slotFence, imageAvailable, rest, h1, h2, htrace, hrun, ?_⟩
  rw [hrun]
  refine ⟨?_, Iff.rfl, ?_, hkept.2.2.2.2.2.1, hkept.2.2.2.2.1, hflag⟩
  · have hnone : rest.filter Call.isRecreateEntry = [] := by
      rw [List.filter_eq_nil_iff]
      intro c hc
      rw [(hquiet c hc).2.2.2.2]
      decide
    show ((Call.vkWaitForFences [slotFence] ::
      Call.vkAcquireNextImageKHR s.swapChain imageAvailable VK_NULL_HANDLE ::
      Call.enter "recreateSwapChain" :: rest).filter Call.isRecreateEntry).length = 1
    have e : (Call.vkWaitForFences [slotFence] ::
        Call.vkAcquireNextImageKHR s.swapChain imageAvailable VK_NULL_HANDLE ::
        Call.enter "recreateSwapChain" :: rest).filter Call.isRecreateEntry =
        Call.enter "recreateSwapChain" :: rest.filter Call.isRecreateEntry := rfl
    rw [e, hnone]
    rfl
  · intro c hc
    simp only [List.mem_cons] at hc
    rcases hc with rfl | rfl | rfl | hc
    · exact ⟨rfl, rfl, rfl, rfl⟩
    · exact ⟨rfl, rfl, rfl, rfl⟩
    · exact ⟨rfl, rfl, rfl, rfl⟩
    · have := hquiet c hc
      exact ⟨this.1, this.2.1, this.2.2.1, this.2.2.2.1⟩

/-- Witness for C10 as amended: the out-of-date frame with the window at full size, run on
the sample state, returns normally and leaves `currentFrame` at 0 and the flag down. -/
theorem drawFrame_acquire_outOfDate_witness :
    Reachable sampleApp ∧
    (outOfDateFrame sampleRecreate).acquireResult = VK_ERROR_OUT_OF_DATE_KHR ∧
    ((drawFrame (outOfDateFrame sampleRecreate)).run sampleApp).returned = true ∧
    ((drawFrame (outOfDateFrame sampleRecreate)).run sampleApp).state.currentFrame = 0 ∧
    ((drawFrame (outOfDateFrame sampleRecreate)).run sampleApp).state.framebufferResized =
      false :=
  ⟨reachable_sampleApp, rfl, rfl,
    (drawFrame_acquire_outOfDate (outOfDateFrame sampleRecreate) sampleApp
      reachable_sampleApp rfl).elim
      (fun _ h => h.elim (fun _ h => h.elim (fun _ h => h.2.2.2.2.2.2.2.1))),
    rfl⟩

/-! ## The run of `drawFrame`, path by path -/

theorem prepend_prepend {σ α : Type} (a b : List Call) (r : Run σ α) :
    (r.prepend b).prepend a = r.prepend (a ++ b) := by
  unfold Run.prepend
  simp

theorem run_presentTail (env : DrawFrameEnv) (s : App) :
    ((do
      (if env.presentResult = VK_ERROR_OUT_OF_DATE_KHR ∨
          env.presentResult = VK_SUBOPTIMAL_KHR ∨ s.framebufferResized = true then do
        modifyState fun s => { s with framebufferResized := false }
        recreateSwapChain env.recreate
      else if env.presentResult ≠ VK_SUCCESS then
        fail (.thrown "failed to present swap chain image!")
      else pure ())
      modifyState fun s => { s with
        currentFrame := (s.currentFrame + 1) % MAX_FRAMES_IN_FLIGHT } : Exec App Unit).run s) =
      presentOutcome env s := by
  unfold presentOutcome
  by_cases hpresent : env.presentResult = VK_ERROR_OUT_OF_DATE_KHR ∨
      env.presentResult = VK_SUBOPTIMAL_KHR ∨ s.framebufferResized = true
  · rw [if_pos hpresent, if_pos hpresent]
    have hm : (do
          modifyState fun s => { s with framebufferResized := false }
          recreateSwapChain env.recreate : Exec App Unit).run s =
        (recreateSwapChain env.recreate).run { s with framebufferResized := false } := by
      rw [run_modifyState_bind]
    cases hres : ((recreateSwapChain env.recreate).run
        { s with framebufferResized := false }).result with
    | ok a =>
      have hres' : ((do
          modifyState fun s => { s with framebufferResized := false }
          recreateSwapChain env.recreate : Exec App Unit).run s).result = .ok a := by
        rw [hm, hres]
      rw [run_bind_ok hres', hm]
      dsimp only
      congr 1
      simp [Exec.run, modifyState]
    | error e =>
      have hres' : ((do
          modifyState fun s => { s with framebufferResized := false }
          recreateSwapChain env.recreate : Exec App Unit).run s).result = .error e := by
        rw [hm, hres]
      rw [run_bind_error hres', hm]
  · rw [if_neg hpresent, if_neg hpresent]
    by_cases hfailed : env.presentResult ≠ VK_SUCCESS
    · rw [if_pos hfailed, if_pos hfailed, run_fail_bind]
    · rw [if_neg hfailed, if_neg hfailed, run_pure_bind]
      rfl

theorem run_submitTail (env : DrawFrameEnv) (s s1 : App) (slotFence imageAvailable : Nat)
    (hcommand : s.commandBuffers = s1.commandBuffers)
    (hfinished : s.renderFinishedSemaphores = s1.renderFinishedSemaphores)
    (hframe : s.currentFrame = s1.currentFrame)
    (hgraphics : s.graphicsQueue = s1.graphicsQueue)
    (hpresentQueue : s.presentQueue = s1.presentQueue)
    (hswap : s.swapChain = s1.swapChain) :
    ((do
      let commandBuffer ← index s.commandBuffers env.imageIndex "commandBuffers[imageIndex]"
      let renderFinished ← index s.renderFinishedSemaphores s.currentFrame
        "renderFinishedSemaphores[currentFrame]"
      call (.vkResetFences [slotFence])
      call (.vkQueueSubmit s.graphicsQueue [imageAvailable]
        [VK_PIPELINE_STAGE_COLOR_ATTACHMENT_OUTPUT_BIT] [commandBuffer] [renderFinished]
        slotFence)
      if env.submitResult ≠ VK_SUCCESS then
        fail (.thrown "failed to submit draw command buffer!")
      else
        call (.vkQueuePresentKHR s.presentQueue [renderFinished] [s.swapChain]
          [env.imageIndex])
        let afterPresent ← getState
        (if env.presentResult = VK_ERROR_OUT_OF_DATE_KHR ∨
            env.presentResult = VK_SUBOPTIMAL_KHR ∨
            afterPresent.framebufferResized = true then do
          modifyState fun s => { s with framebufferResized := false }
          recreateSwapChain env.recreate
        else if env.presentResult ≠ VK_SUCCESS then
          fail (.thrown "failed to present swap chain image!")
        else pure ())
        modifyState fun s => { s with
          currentFrame := (s.currentFrame + 1) % MAX_FRAMES_IN_FLIGHT } :
        Exec App Unit).run s1) =
      submitOutcome env s1 slotFence imageAvailable := by
  unfold submitOutcome
  rw [hcommand, hfinished, hframe, hgraphics, hpresentQueue, hswap, run_index_bind]
  cases s1.commandBuffers[env.imageIndex]? with
  | none => rfl
  | some commandBuffer =>
  dsimp only
  rw [run_index_bind]
  cases s1.renderFinishedSemaphores[s1.currentFrame]? with
  | none => rfl
  | some renderFinished =>
  dsimp only
  rw [run_call_bind, run_call_bind, prepend_prepend]
  by_cases hsubmit : env.submitResult ≠ VK_SUCCESS
  · rw [if_pos hsubmit, if_pos hsubmit]
    rfl
  · rw [if_neg hsubmit, if_neg hsubmit, run_call_bind, run_getState_bind, run_presentTail]
    rfl

/-- The run of `drawFrame` is the one written out path by path. -/
theorem drawFrame_run_eq (env : DrawFrameEnv) (s : App) :
    (drawFrame env).run s = drawFrameRun env s := by
  unfold drawFrame drawFrameRun
  rw [run_getState_bind, run_index_bind]
  cases s.inFlightFences[s.currentFrame]? with
  | none => rfl
  | some slotFence =>
  dsimp only
  rw [run_call_bind, run_index_bind]
  cases s.imageAvailableSemaphores[s.currentFrame]? with
  | none => rfl
  | some imageAvailable =>
  dsimp only
  rw [run_call_bind]
  congr 2
  by_cases hacquire : env.acquireResult = VK_ERROR_OUT_OF_DATE_KHR
  · rw [if_pos hacquire, if_pos hacquire]
  rw [if_neg hacquire, if_neg hacquire]
  by_cases hfatal : env.acquireResult ≠ VK_SUCCESS ∧ env.acquireResult ≠ VK_SUBOPTIMAL_KHR
  · rw [if_pos hfatal, if_pos hfatal]; rfl
  rw [if_neg hfatal, if_neg hfatal, run_index_bind]
  unfold acquiredOutcome
  cases s.imagesInFlight[env.imageIndex]? with
  | none => rfl
  | some imageFence =>
  dsimp only
  have hwait : ∀ (f : Unit → Exec App Unit) (s0 : App),
      ((if imageFence ≠ VK_NULL_HANDLE then call (.vkWaitForFences [imageFence])
        else pure ()) >>= f).run s0 =
      ((f ()).run s0).prepend
        (if imageFence ≠ VK_NULL_HANDLE then [.vkWaitForFences [imageFence]] else []) := by
    intro f s0
    split
    · exact run_call_bind _ f s0
    · exact run_pure_bind () f s0
  rw [hwait, run_modifyState_bind]
  congr 1
  generalize hs1 : ({ s with imagesInFlight := s.imagesInFlight.set env.imageIndex slotFence }
    : App) = s1
  have hcommand : s.commandBuffers = s1.commandBuffers := by rw [← hs1]
  have hfinished : s.renderFinishedSemaphores = s1.renderFinishedSemaphores := by rw [← hs1]
  have hframe : s.currentFrame = s1.currentFrame := by rw [← hs1]
  have hgraphics : s.graphicsQueue = s1.graphicsQueue := by rw [← hs1]
  have hpresentQueue : s.presentQueue = s1.presentQueue := by rw [← hs1]
  have hswap : s.swapChain = s1.swapChain := by rw [← hs1]
  unfold uniformOutcome
  have hu := run_updateUniformBuffer env.imageIndex s1
  cases hlookU : s1.uniformBuffersMemory[env.imageIndex]? with
  | none => rw [hlookU] at hu; rw [run_bind_of_eq_error hu]
  | some uniformMemory =>
  rw [hlookU] at hu
  rw [run_bind_of_eq hu]
  dsimp only
  congr 1
  have hl := run_updateLightingConstants env.imageIndex s1
  cases hlookL : s1.lightingBuffersMemory[env.imageIndex]? with
  | none => rw [hlookL] at hl; rw [run_bind_of_eq_error hl]
  | some lightingMemory =>
  rw [hlookL] at hl
  rw [run_bind_of_eq hl]
  dsimp only
  congr 1
  exact run_submitTail env s s1 slotFence imageAvailable hcommand hfinished hframe hgraphics
    hpresentQueue hswap

/-! ## Faults of the recreation path -/

section throws
variable {σ α β : Type} {q : Fault → Prop}

theorem throws_pure (a : α) : Throws q (pure a : Exec σ α) :=
  ⟨fun _ _ h => by cases h⟩

theorem throws_fail (e : Fault) (he : q e) : Throws q (fail e : Exec σ α) :=
  ⟨fun _ e' h => by
    have : e = e' := by
      have h' : (Except.error e : Except Fault α) = .error e' := h
      cases h'
      rfl
    rw [← this]; exact he⟩

theorem throws_getState : Throws q (getState : Exec σ σ) :=
  ⟨fun _ _ h => by cases h⟩

theorem throws_call (c : Call) : Throws q (call c : Exec σ Unit) :=
  ⟨fun _ _ h => by cases h⟩

theorem throws_modifyState (f : σ → σ) : Throws q (modifyState f : Exec σ Unit) :=
  ⟨fun _ _ h => by cases h⟩

theorem throws_index (v : List Nat) (i : Nat) (what : String)
    (hq : q (.undefinedBehaviour what)) : Throws q (index v i what : Exec σ Nat) := by
  unfold index
  cases v[i]? with
  | none => exact throws_fail _ hq
  | some x => exact throws_pure x

theorem throws_bind {m : Exec σ α} {f : α → Exec σ β}
    (hm : Throws q m) (hf : ∀ a, Throws q (f a)) : Throws q (m >>= f) := by
  constructor
  intro s e
  cases hres : (m.run s).result with
  | error e' =>
    rw [run_bind_error hres]
    intro h
    have : e' = e := by
      have h' : (Except.error e' : Except Fault β) = .error e := h
      cases h'
      rfl
    rw [← this]
    exact hm.holds s e' hres
  | ok a =>
    rw [run_bind_ok hres]
    exact (hf a).holds (m.run s).state e

theorem throws_forRange (body : Nat → Exec σ Unit)
    (hbody : ∀ i, Throws q (body i)) : ∀ count i, Throws q (forRange body i count) := by
  intro count
  induction count with
  | zero => intro i; exact throws_pure ()
  | succ n ih =>
    intro i
    exact throws_bind (hbody i) (fun _ => ih (i + 1))

theorem throws_liftExcept (x : Except Fault α) (hx : ∀ e, x = .error e → q e) :
    Throws q (liftExcept x : Exec σ α) := by
  cases x with
  | ok a => exact throws_pure a
  | error e => exact throws_fail e (hx e rfl)

end throws

theorem throws_liftObjects {α : Type} {q : Fault → Prop}
    (m : Exec SwapChainObjects α) (hm : Throws q m) : Throws q (liftObjects m) := by
  constructor
  intro s e
  have h := hm.holds s.toSwapChainObjects e
  unfold Exec.run liftObjects
  unfold Exec.run at h
  rcases hms : m s.toSwapChainObjects with ⟨r, o, t⟩
  rw [hms] at h
  exact h

theorem findMemoryType_notOfFrame (memProperties : VkPhysicalDeviceMemoryProperties)
    (typeFilter properties : Nat) (e : Fault)
    (h : findMemoryType memProperties typeFilter properties = .error e) : e.notOfFrame := by
  unfold findMemoryType at h
  rw [((findMemoryTypeFrom_error _ _ _ _ _ _).1 h).1]
  decide

theorem throws_findSupportedFormat {σ : Type} (env : CreationEnv) (tiling features : Nat)
    (candidates : List Nat) :
    Throws Fault.notOfFrame (findSupportedFormat env tiling features candidates : Exec σ Nat) := by
  induction candidates with
  | nil => exact throws_fail _ (by decide)
  | cons format rest ih =>
    unfold findSupportedFormat
    split
    · exact throws_pure _
    · split
      · exact throws_pure _
      · exact ih

theorem throws_createImageView {σ : Type} (response : VkResult × Nat) (image format aspectFlags : Nat) :
    Throws Fault.notOfFrame (createImageView response image format aspectFlags : Exec σ Nat) := by
  unfold createImageView
  repeat' first
    | exact throws_pure _
    | exact throws_fail _ (by decide)
    | exact throws_liftExcept _ (findMemoryType_notOfFrame _ _ _)
    | exact throws_call _
    | apply throws_bind
    | split
    | intro _

theorem throws_createShaderModule {σ : Type} (response : VkResult × Nat) :
    Throws Fault.notOfFrame (createShaderModule response : Exec σ Nat) := by
  unfold createShaderModule
  repeat' first
    | exact throws_pure _
    | exact throws_fail _ (by decide)
    | exact throws_liftExcept _ (findMemoryType_notOfFrame _ _ _)
    | exact throws_call _
    | apply throws_bind
    | split
    | intro _

theorem throws_readFile {σ : Type} (opened : Bool) :
    Throws Fault.notOfFrame (readFile opened : Exec σ Unit) := by
  unfold readFile
  split
  · exact throws_pure _
  · exact throws_fail _ (by decide)

theorem throws_createImage {σ : Type} (memProperties : VkPhysicalDeviceMemoryProperties)
    (env : AllocationEnv)
    (width height format tiling usage properties : Nat) :
    Throws Fault.notOfFrame (createImage memProperties env width height format tiling
      usage properties : Exec σ (Nat × Nat)) := by
  unfold createImage
  repeat' first
    | exact throws_pure _
    | exact throws_fail _ (by decide)
    | exact throws_liftExcept _ (findMemoryType_notOfFrame _ _ _)
    | exact throws_call _
    | apply throws_bind
    | split
    | intro _

theorem throws_createBuffer {σ : Type} (memProperties : VkPhysicalDeviceMemoryProperties)
    (env : AllocationEnv)
    (size usage properties : Nat) :
    Throws Fault.notOfFrame (createBuffer memProperties env size usage properties :
      Exec σ (Nat × Nat)) := by
  unfold createBuffer
  repeat' first
    | exact throws_pure _
    | exact throws_fail _ (by decide)
    | exact throws_liftExcept _ (findMemoryType_notOfFrame _ _ _)
    | exact throws_call _
    | apply throws_bind
    | split
    | intro _

theorem createSwapChainInfo_notOfFrame (surface : Nat)
    (swapChainSupport : SwapChainSupportDetails) (framebufferSize : Int × Int)
    (indices : QueueFamilyIndices) (e : Fault)
    (h : createSwapChainInfo surface swapChainSupport framebufferSize indices = .error e) :
    e.notOfFrame := by
  unfold createSwapChainInfo at h
  cases hfmt : chooseSwapSurfaceFormat swapChainSupport.formats with
  | error e1 =>
    rw [hfmt] at h
    have he : e1 = e := by injection h
    rw [← he]
    unfold chooseSwapSurfaceFormat at hfmt
    split at hfmt
    · cases hfmt
    · split at hfmt
      · cases hfmt
      · injection hfmt with hfmt
        rw [← hfmt]
        decide
  | ok surfaceFormat =>
    rw [hfmt] at h
    cases hg : indices.graphicsFamily with
    | none =>
      rw [hg] at h
      have he : Fault.thrown "bad optional access" = e := by injection h
      rw [← he]
      decide
    | some g =>
      rw [hg] at h
      cases hp : indices.presentFamily with
      | none =>
        rw [hp] at h
        have he : Fault.thrown "bad optional access" = e := by injection h
        rw [← he]
        decide
      | some p =>
        rw [hp] at h
        cases h

theorem throws_createSwapChain (env : CreationEnv) (ctx : StaticHandles) :
    Throws Fault.notOfFrame (createSwapChain env ctx) := by
  unfold createSwapChain
  split
  · exact throws_fail _ (createSwapChainInfo_notOfFrame _ _ _ _ _ (by assumption))
  repeat' first
    | exact throws_pure _
    | exact throws_fail _ (by decide)
    | exact throws_getState
    | exact throws_index _ _ _ (by decide)
    | exact throws_createImageView _ _ _ _
    | exact throws_findSupportedFormat _ _ _ _
    | exact throws_createShaderModule _
    | exact throws_readFile _
    | exact throws_createImage _ _ _ _ _ _ _ _
    | exact throws_createBuffer _ _ _ _ _
    | exact throws_call _
    | exact throws_modifyState _
    | apply throws_forRange
    | apply throws_bind
    | split
    | intro _

theorem throws_createImageViews (env : CreationEnv) :
    Throws Fault.notOfFrame (createImageViews env) := by
  unfold createImageViews
  repeat' first
    | exact throws_pure _
    | exact throws_fail _ (by decide)
    | exact throws_getState
    | exact throws_index _ _ _ (by decide)
    | exact throws_createImageView _ _ _ _
    | exact throws_findSupportedFormat _ _ _ _
    | exact throws_createShaderModule _
    | exact throws_readFile _
    | exact throws_createImage _ _ _ _ _ _ _ _
    | exact throws_createBuffer _ _ _ _ _
    | exact throws_call _
    | exact throws_modifyState _
    | apply throws_forRange
    | apply throws_bind
    | split
    | intro _

theorem throws_createRenderPass (env : CreationEnv) :
    Throws Fault.notOfFrame (createRenderPass env) := by
  unfold createRenderPass
  repeat' first
    | exact throws_pure _
    | exact throws_fail _ (by decide)
    | exact throws_getState
    | exact throws_index _ _ _ (by decide)
    | exact throws_createImageView _ _ _ _
    | exact throws_findSupportedFormat _ _ _ _
    | exact throws_createShaderModule _
    | exact throws_readFile _
    | exact throws_createImage _ _ _ _ _ _ _ _
    | exact throws_createBuffer _ _ _ _ _
    | exact throws_call _
    | exact throws_modifyState _
    | apply throws_forRange
    | apply throws_bind
    | split
    | intro _

theorem throws_createGraphicsPipeline (env : CreationEnv) :
    Throws Fault.notOfFrame (createGraphicsPipeline env) := by
  unfold createGraphicsPipeline
  repeat' first
    | exact throws_pure _
    | exact throws_fail _ (by decide)
    | exact throws_getState
    | exact throws_index _ _ _ (by decide)
    | exact throws_createImageView _ _ _ _
    | exact throws_findSupportedFormat _ _ _ _
    | exact throws_createShaderModule _
    | exact throws_readFile _
    | exact throws_createImage _ _ _ _ _ _ _ _
    | exact throws_createBuffer _ _ _ _ _
    | exact throws_call _
    | exact throws_modifyState _
    | apply throws_forRange
    | apply throws_bind
    | split
    | intro _

theorem throws_createDepthResources (env : CreationEnv) :
    Throws Fault.notOfFrame (createDepthResources env) := by
  unfold createDepthResources
  repeat' first
    | exact throws_pure _
    | exact throws_fail _ (by decide)
    | exact throws_getState
    | exact throws_index _ _ _ (by decide)
    | exact throws_createImageView _ _ _ _
    | exact throws_findSupportedFormat _ _ _ _
    | exact throws_createShaderModule _
    | exact throws_readFile _
    | exact throws_createImage _ _ _ _ _ _ _ _
    | exact throws_createBuffer _ _ _ _ _
    | exact throws_call _
    | exact throws_modifyState _
    | apply throws_forRange
    | apply throws_bind
    | split
    | intro _

theorem throws_createFramebuffers (env : CreationEnv) :
    Throws Fault.notOfFrame (createFramebuffers env) := by
  unfold createFramebuffers
  repeat' first
    | exact throws_pure _
    | exact throws_fail _ (by decide)
    | exact throws_getState
    | exact throws_index _ _ _ (by decide)
    | exact throws_createImageView _ _ _ _
    | exact throws_findSupportedFormat _ _ _ _
    | exact throws_createShaderModule _
    | exact throws_readFile _
    | exact throws_createImage _ _ _ _ _ _ _ _
    | exact throws_createBuffer _ _ _ _ _
    | exact throws_call _
    | exact throws_modifyState _
    | apply throws_forRange
    | apply throws_bind
    | split
    | intro _

theorem throws_createUniformBuffers (env : CreationEnv) :
    Throws Fault.notOfFrame (createUniformBuffers env) := by
  unfold createUniformBuffers
  repeat' first
    | exact throws_pure _
    | exact throws_fail _ (by decide)
    | exact throws_getState
    | exact throws_index _ _ _ (by decide)
    | exact throws_createImageView _ _ _ _
    | exact throws_findSupportedFormat _ _ _ _
    | exact throws_createShaderModule _
    | exact throws_readFile _
    | exact throws_createImage _ _ _ _ _ _ _ _
    | exact throws_createBuffer _ _ _ _ _
    | exact throws_call _
    | exact throws_modifyState _
    | apply throws_forRange
    | apply throws_bind
    | split
    | intro _

theorem throws_createDescriptorPool (env : CreationEnv) :
    Throws Fault.notOfFrame (createDescriptorPool env) := by
  unfold createDescriptorPool
  repeat' first
    | exact throws_pure _
    | exact throws_fail _ (by decide)
    | exact throws_getState
    | exact throws_index _ _ _ (by decide)
    | exact throws_createImageView _ _ _ _
    | exact throws_findSupportedFormat _ _ _ _
    | exact throws_createShaderModule _
    | exact throws_readFile _
    | exact throws_createImage _ _ _ _ _ _ _ _
    | exact throws_createBuffer _ _ _ _ _
    | exact throws_call _
    | exact throws_modifyState _
    | apply throws_forRange
    | apply throws_bind
    | split
    | intro _

theorem throws_createDescriptorSets (env : CreationEnv) (ctx : StaticHandles) :
    Throws Fault.notOfFrame (createDescriptorSets env ctx) := by
  unfold createDescriptorSets
  repeat' first
    | exact throws_pure _
    | exact throws_fail _ (by decide)
    | exact throws_getState
    | exact throws_index _ _ _ (by decide)
    | exact throws_createImageView _ _ _ _
    | exact throws_findSupportedFormat _ _ _ _
    | exact throws_createShaderModule _
    | exact throws_readFile _
    | exact throws_createImage _ _ _ _ _ _ _ _
    | exact throws_createBuffer _ _ _ _ _
    | exact throws_call _
    | exact throws_modifyState _
    | apply throws_forRange
    | apply throws_bind
    | split
    | intro _

theorem throws_createCommandBuffers (env : CreationEnv) (ctx : StaticHandles) :
    Throws Fault.notOfFrame (createCommandBuffers env ctx) := by
  unfold createCommandBuffers
  repeat' first
    | exact throws_pure _
    | exact throws_fail _ (by decide)
    | exact throws_getState
    | exact throws_index _ _ _ (by decide)
    | exact throws_createImageView _ _ _ _
    | exact throws_findSupportedFormat _ _ _ _
    | exact throws_createShaderModule _
    | exact throws_readFile _
    | exact throws_createImage _ _ _ _ _ _ _ _
    | exact throws_createBuffer _ _ _ _ _
    | exact throws_call _
    | exact throws_modifyState _
    | apply throws_forRange
    | apply throws_bind
    | split
    | intro _

theorem throws_recreationPass (env : CreationEnv) (ctx : StaticHandles) :
    Throws Fault.notOfFrame (recreationPass env ctx) := by
  unfold recreationPass
  repeat' first
    | exact throws_createSwapChain env ctx
    | exact throws_createImageViews env
    | exact throws_createRenderPass env
    | exact throws_createGraphicsPipeline env
    | exact throws_createDepthResources env
    | exact throws_createFramebuffers env
    | exact throws_createUniformBuffers env
    | exact throws_createDescriptorPool env
    | exact throws_createDescriptorSets env ctx
    | exact throws_createCommandBuffers env ctx
    | apply throws_bind
    | intro _

theorem throws_cleanupSwapChain : Throws Fault.notOfFrame cleanupSwapChain := by
  unfold cleanupSwapChain
  repeat' first
    | exact throws_pure _
    | exact throws_getState
    | exact throws_index _ _ _ (by decide)
    | exact throws_call _
    | apply throws_forRange
    | apply throws_bind
    | intro _

theorem throws_waitWhileMinimized :
    ∀ (polls : List Poll) (size : Int × Int),
      Throws Fault.notOfFrame (waitWhileMinimized size polls) := by
  intro polls
  induction polls with
  | nil =>
    intro size
    unfold waitWhileMinimized
    split
    · exact throws_fail _ (by decide)
    · exact throws_pure _
  | cons poll rest ih =>
    intro size
    unfold waitWhileMinimized
    split
    · refine throws_bind (throws_call _) (fun _ => ?_)
      refine throws_bind (throws_call _) (fun _ => ?_)
      refine throws_bind ?_ (fun _ => ih poll.size)
      unfold dispatchResize
      split
      · exact throws_modifyState _
      · exact throws_pure _
    · exact throws_pure _

/-- A failure of `recreateSwapChain` is never one of the three failures `drawFrame` raises
itself. -/
theorem throws_recreateSwapChain (env : RecreateEnv) :
    Throws Fault.notOfFrame (recreateSwapChain env) := by
  unfold recreateSwapChain
  refine throws_bind (throws_call _) (fun _ => ?_)
  refine throws_bind (throws_call _) (fun _ => ?_)
  refine throws_bind (throws_waitWhileMinimized _ _) (fun _ => ?_)
  refine throws_bind (throws_call _) (fun _ => ?_)
  refine throws_bind throws_cleanupSwapChain (fun _ => ?_)
  refine throws_bind throws_getState (fun s => ?_)
  exact throws_liftObjects _ (throws_recreationPass _ _)

/-! ## What the parts of a frame keep and how they can fail -/

theorem presentOutcome_kept (env : DrawFrameEnv) (s : App) :
    (presentOutcome env s).state.imagesInFlight = s.imagesInFlight ∧
    (presentOutcome env s).state.inFlightFences = s.inFlightFences := by
  unfold presentOutcome
  have hkept := (recreateSwapChain_run env.recreate { s with framebufferResized := false }).2.1
  split
  · split
    · exact ⟨hkept.2.2.2.2.1, hkept.2.2.2.1⟩
    · exact ⟨hkept.2.2.2.2.1, hkept.2.2.2.1⟩
  · split
    · exact ⟨rfl, rfl⟩
    · exact ⟨rfl, rfl⟩

theorem presentOutcome_fault (env : DrawFrameEnv) (s : App) (e : Fault)
    (h : (presentOutcome env s).result = .error e) :
    (e.notOfFrame ∧
      (env.presentResult = VK_ERROR_OUT_OF_DATE_KHR ∨
        env.presentResult = VK_SUBOPTIMAL_KHR ∨ s.framebufferResized = true) ∧
      ((recreateSwapChain env.recreate).run { s with framebufferResized := false }).result =
        .error e) ∨
    (e = .thrown "failed to present swap chain image!" ∧
      env.presentResult ≠ VK_ERROR_OUT_OF_DATE_KHR ∧ env.presentResult ≠ VK_SUBOPTIMAL_KHR ∧
      env.presentResult ≠ VK_SUCCESS ∧ s.framebufferResized = false) := by
  unfold presentOutcome at h
  by_cases hbranch : env.presentResult = VK_ERROR_OUT_OF_DATE_KHR ∨
      env.presentResult = VK_SUBOPTIMAL_KHR ∨ s.framebufferResized = true
  · rw [if_pos hbranch] at h
    left
    cases hres : ((recreateSwapChain env.recreate).run
        { s with framebufferResized := false }).result with
    | ok a => rw [hres] at h; cases h
    | error e' =>
      rw [hres] at h
      have he : e' = e := by
        have h' : (Except.error e' : Except Fault Unit) = .error e := h
        cases h'
        rfl
      rw [← he]
      exact ⟨(throws_recreateSwapChain env.recreate).holds _ e' hres, hbranch, rfl⟩
  · rw [if_neg hbranch] at h
    right
    by_cases hfailed : env.presentResult ≠ VK_SUCCESS
    · rw [if_pos hfailed] at h
      have he : Fault.thrown "failed to present swap chain image!" = e := by
        have h' : (Except.error (Fault.thrown "failed to present swap chain image!") :
          Except Fault Unit) = .error e := h
        cases h'
        rfl
      refine ⟨he.symm, fun h1 => hbranch (Or.inl h1), fun h1 => hbranch (Or.inr (Or.inl h1)),
        hfailed, ?_⟩
      cases hflag : s.framebufferResized with
      | false => rfl
      | true => exact absurd (Or.inr (Or.inr hflag)) hbranch
    · rw [if_neg hfailed] at h
      cases h

theorem error_injection {α : Type} {e e' : Fault}
    (h : (Except.error e : Except Fault α) = .error e') : e = e' := by
  cases h
  rfl

theorem submitOutcome_kept (env : DrawFrameEnv) (s : App) (slotFence imageAvailable : Nat) :
    (submitOutcome env s slotFence imageAvailable).state.imagesInFlight = s.imagesInFlight ∧
    (submitOutcome env s slotFence imageAvailable).state.inFlightFences =
      s.inFlightFences := by
  unfold submitOutcome
  split
  · exact ⟨rfl, rfl⟩
  · split
    · exact ⟨rfl, rfl⟩
    · rw [prepend_state]
      split
      · exact ⟨rfl, rfl⟩
      · rw [prepend_state]
        exact presentOutcome_kept env s

theorem submitOutcome_fault (env : DrawFrameEnv) (s : App) (slotFence imageAvailable : Nat)
    (e : Fault) (h : (submitOutcome env s slotFence imageAvailable).result = .error e) :
    e ≠ .thrown "failed to acquire swap chain image!" := by
  unfold submitOutcome at h
  split at h
  · rw [← error_injection h]; decide
  · split at h
    · rw [← error_injection h]; decide
    · rw [prepend_result] at h
      split at h
      · rw [← error_injection h]; decide
      · rw [prepend_result] at h
        rcases presentOutcome_fault env s e h with h1 | h1
        · exact h1.1.1
        · rw [h1.1]; decide

theorem uniformOutcome_kept (env : DrawFrameEnv) (s : App) (slotFence imageAvailable : Nat) :
    (uniformOutcome env s slotFence imageAvailable).state.imagesInFlight = s.imagesInFlight ∧
    (uniformOutcome env s slotFence imageAvailable).state.inFlightFences =
      s.inFlightFences := by
  unfold uniformOutcome
  split
  · exact ⟨rfl, rfl⟩
  · rw [prepend_state]
    split
    · exact ⟨rfl, rfl⟩
    · rw [prepend_state]
      exact submitOutcome_kept env s slotFence imageAvailable

theorem uniformOutcome_fault (env : DrawFrameEnv) (s : App) (slotFence imageAvailable : Nat)
    (e : Fault) (h : (uniformOutcome env s slotFence imageAvailable).result = .error e) :
    e ≠ .thrown "failed to acquire swap chain image!" := by
  unfold uniformOutcome at h
  split at h
  · rw [← error_injection h]; decide
  · rw [prepend_result] at h
    split at h
    · rw [← error_injection h]; decide
    · rw [prepend_result] at h
      exact submitOutcome_fault env s slotFence imageAvailable e h

theorem acquiredOutcome_fault (env : DrawFrameEnv) (s : App) (slotFence imageAvailable : Nat)
    (e : Fault) (h : (acquiredOutcome env s slotFence imageAvailable).result = .error e) :
    e ≠ .thrown "failed to acquire swap chain image!" := by
  unfold acquiredOutcome at h
  split at h
  · rw [← error_injection h]; decide
  · rw [prepend_result] at h
    exact uniformOutcome_fault env _ slotFence imageAvailable e h

/-- In a reachable state the two slot lookups at the head of `drawFrame` succeed. -/
theorem reachable_slot_lookups (s : App) (hreach : Reachable s) :
    ∃ slotFence imageAvailable,
      s.inFlightFences[s.currentFrame]? = some slotFence ∧
      s.imageAvailableSemaphores[s.currentFrame]? = some imageAvailable := by
  obtain ⟨hframe, hfences, hsemaphores, -⟩ := reachable_slotsInBounds s hreach
  have hfence : s.currentFrame < s.inFlightFences.length := by rw [hfences]; exact hframe
  have hsemaphore : s.currentFrame < s.imageAvailableSemaphores.length := by
    rw [hsemaphores]; exact hframe
  exact ⟨_, _, List.getElem?_eq_getElem hfence, List.getElem?_eq_getElem hsemaphore⟩

theorem drawFrameRun_of_lookups (env : DrawFrameEnv) (s : App) (slotFence imageAvailable : Nat)
    (hfence : s.inFlightFences[s.currentFrame]? = some slotFence)
    (hsemaphore : s.imageAvailableSemaphores[s.currentFrame]? = some imageAvailable) :
    (drawFrame env).run s =
      Run.prepend
        [.vkWaitForFences [slotFence],
          .vkAcquireNextImageKHR s.swapChain imageAvailable VK_NULL_HANDLE]
        (if env.acquireResult = VK_ERROR_OUT_OF_DATE_KHR then
          (recreateSwapChain env.recreate).run s
        else if env.acquireResult ≠ VK_SUCCESS ∧
            env.acquireResult ≠ VK_SUBOPTIMAL_KHR then
          ⟨.error (.thrown "failed to acquire swap chain image!"), s, []⟩
        else acquiredOutcome env s slotFence imageAvailable) := by
  rw [drawFrame_run_eq]
  unfold drawFrameRun
  rw [hfence, hsemaphore]
  rfl

/-! ## Failure of acquisition -/

/-- C11: in every reachable state, `drawFrame` ends with the failure "failed to acquire swap
chain image!" if and only if the result of `vkAcquireNextImageKHR` is none of success,
suboptimal and out-of-date; and when it ends this way it has made exactly the wait on the
slot fence and the acquisition call, so nothing was submitted or presented and no fence was
reset, and the state, with `currentFrame` and the image-in-flight table, is the one at
entry. -/
theorem drawFrame_acquire_failure (env : DrawFrameEnv) (s : App) (hreach : Reachable s) :
    (((drawFrame env).run s).result =
        .error (.thrown "failed to acquire swap chain image!") ↔
      env.acquireResult ≠ VK_SUCCESS ∧ env.acquireResult ≠ VK_SUBOPTIMAL_KHR ∧
        env.acquireResult ≠ VK_ERROR_OUT_OF_DATE_KHR) ∧
    (((drawFrame env).run s).result =
        .error (.thrown "failed to acquire swap chain image!") →
      (∃ slotFence imageAvailable,
        ((drawFrame env).run s).trace =
          [.vkWaitForFences [slotFence],
            .vkAcquireNextImageKHR s.swapChain imageAvailable VK_NULL_HANDLE]) ∧
      (∀ c ∈ ((drawFrame env).run s).trace,
        c.isSubmit = false ∧ c.isPresent = false ∧ c.isFenceReset = false) ∧
      ((drawFrame env).run s).state = s ∧
      ((drawFrame env).run s).state.currentFrame = s.currentFrame ∧
      ((drawFrame env).run s).state.imagesInFlight = s.imagesInFlight) := by
  obtain ⟨slotFence, imageAvailable, hfence, hsemaphore⟩ := reachable_slot_lookups s hreach
  have hrun := drawFrameRun_of_lookups env s slotFence imageAvailable hfence hsemaphore
  have hiff : ((drawFrame env).run s).result =
        .error (.thrown "failed to acquire swap chain image!") ↔
      env.acquireResult ≠ VK_SUCCESS ∧ env.acquireResult ≠ VK_SUBOPTIMAL_KHR ∧
        env.acquireResult ≠ VK_ERROR_OUT_OF_DATE_KHR := by
    rw [hrun, prepend_result]
    by_cases hacquire : env.acquireResult = VK_ERROR_OUT_OF_DATE_KHR
    · rw [if_pos hacquire]
      constructor
      · intro h
        exact absurd rfl ((throws_recreateSwapChain env.recreate).holds s _ h).1
      · intro h
        exact absurd hacquire h.2.2
    · rw [if_neg hacquire]
      by_cases hfatal : env.acquireResult ≠ VK_SUCCESS ∧
          env.acquireResult ≠ VK_SUBOPTIMAL_KHR
      · rw [if_pos hfatal]
        exact ⟨fun _ => ⟨hfatal.1, hfatal.2, hacquire⟩, fun _ => rfl⟩
      · rw [if_neg hfatal]
        constructor
        · intro h
          exact absurd rfl (acquiredOutcome_fault env s slotFence imageAvailable _ h)
        · intro h
          exact absurd ⟨h.1, h.2.1⟩ hfatal
  refine ⟨hiff, fun hfailed => ?_⟩
  have hcase := hiff.1 hfailed
  have hrun' : (drawFrame env).run s =
      ⟨.error (.thrown "failed to acquire swap chain image!"), s,
        [.vkWaitForFences [slotFence],
          .vkAcquireNextImageKHR s.swapChain imageAvailable VK_NULL_HANDLE]⟩ := by
    rw [hrun, if_neg hcase.2.2, if_pos ⟨hcase.1, hcase.2.1⟩]
    rfl
  rw [hrun']
  refine ⟨⟨slotFence, imageAvailable, rfl⟩, ?_, rfl, rfl, rfl⟩
  intro c hc
  simp only [List.mem_cons, List.mem_singleton] at hc
  rcases hc with rfl | rfl | hc
  · exact ⟨rfl, rfl, rfl⟩
  · exact ⟨rfl, rfl, rfl⟩
  · cases hc

/-- Witness for C11: on the sample state a frame whose acquisition reports
`VK_ERROR_DEVICE_LOST` ends with the acquire failure and leaves the state as it was. -/
theorem drawFrame_acquire_failure_witness :
    Reachable sampleApp ∧
    ((drawFrame { plainFrame with acquireResult := VK_ERROR_DEVICE_LOST }).run
      sampleApp).result = .error (.thrown "failed to acquire swap chain image!") ∧
    ((drawFrame { plainFrame with acquireResult := VK_ERROR_DEVICE_LOST }).run
      sampleApp).state = sampleApp :=
  ⟨reachable_sampleApp,
    (drawFrame_acquire_failure { plainFrame with acquireResult := VK_ERROR_DEVICE_LOST }
      sampleApp reachable_sampleApp).1.2 (by decide),
    ((drawFrame_acquire_failure { plainFrame with acquireResult := VK_ERROR_DEVICE_LOST }
      sampleApp reachable_sampleApp).2 rfl).2.2.1⟩

/-! ## Failure of presentation -/

/-- C12, the code evaluated at the failing input: in the state the resize callback leaves
(resize flag raised), a frame whose present request returns `VK_ERROR_DEVICE_LOST`, which is
none of success, out-of-date and suboptimal, does not fail: the recreation branch is taken,
`recreateSwapChain` runs, the call returns normally with the flag lowered and `currentFrame`
advanced. The same frame with the flag down ends with the present failure. -/
theorem drawFrame_present_failure_absorbed :
    Reachable (framebufferResizeCallback (1024, 768) sampleApp) ∧
    (framebufferResizeCallback (1024, 768) sampleApp).framebufferResized = true ∧
    (VK_ERROR_DEVICE_LOST ≠ VK_SUCCESS ∧ VK_ERROR_DEVICE_LOST ≠ VK_ERROR_OUT_OF_DATE_KHR ∧
      VK_ERROR_DEVICE_LOST ≠ VK_SUBOPTIMAL_KHR) ∧
    ((drawFrame { plainFrame with presentResult := VK_ERROR_DEVICE_LOST }).run
      (framebufferResizeCallback (1024, 768) sampleApp)).result = .ok () ∧
    Call.vkQueuePresentKHR 3 [211] [20] [1] ∈
      ((drawFrame { plainFrame with presentResult := VK_ERROR_DEVICE_LOST }).run
        (framebufferResizeCallback (1024, 768) sampleApp)).trace ∧
    Call.enter "recreateSwapChain" ∈
      ((drawFrame { plainFrame with presentResult := VK_ERROR_DEVICE_LOST }).run
        (framebufferResizeCallback (1024, 768) sampleApp)).trace ∧
    ((drawFrame { plainFrame with presentResult := VK_ERROR_DEVICE_LOST }).run
      (framebufferResizeCallback (1024, 768) sampleApp)).state.framebufferResized = false ∧
    ((drawFrame { plainFrame with presentResult := VK_ERROR_DEVICE_LOST }).run
      (framebufferResizeCallback (1024, 768) sampleApp)).state.currentFrame = 1 ∧
    ((drawFrame { plainFrame with presentResult := VK_ERROR_DEVICE_LOST }).run
      sampleApp).result = .error (.thrown "failed to present swap chain image!") :=
  ⟨Reachable.pollEvents _ _ reachable_sampleApp, rfl, by decide, rfl, by decide, by decide,
    rfl, rfl, rfl⟩

/-! ## Frames that issue their present request -/

theorem any_isPresent_of_quiet (l : List Call) (h : ∀ c ∈ l, c.isQuiet) :
    l.any Call.isPresent = false := by
  rw [List.any_eq_false]
  intro c hc
  rw [(h c hc).2.1]
  decide

theorem recreateSwapChain_any_isPresent (env : RecreateEnv) (s : App) :
    ((recreateSwapChain env).run s).trace.any Call.isPresent = false := by
  obtain ⟨⟨rest, htrace, hquiet⟩, -, -⟩ := recreateSwapChain_run env s
  rw [htrace, List.any_cons, any_isPresent_of_quiet rest hquiet]
  rfl

theorem submitOutcome_presented (env : DrawFrameEnv) (s : App) (slotFence imageAvailable : Nat)
    (h : (submitOutcome env s slotFence imageAvailable).trace.any Call.isPresent = true) :
    ∃ commandBuffer renderFinished,
      env.submitResult = VK_SUCCESS ∧
      submitOutcome env s slotFence imageAvailable =
        Run.prepend
          [.vkResetFences [slotFence],
            .vkQueueSubmit s.graphicsQueue [imageAvailable]
              [VK_PIPELINE_STAGE_COLOR_ATTACHMENT_OUTPUT_BIT] [commandBuffer]
              [renderFinished] slotFence,
            .vkQueuePresentKHR s.presentQueue [renderFinished] [s.swapChain]
              [env.imageIndex]]
          (presentOutcome env s) := by
  unfold submitOutcome at h ⊢
  cases hcommand : s.commandBuffers[env.imageIndex]? with
  | none => rw [hcommand] at h; cases h
  | some commandBuffer =>
  rw [hcommand] at h
  dsimp only at h ⊢
  cases hfinished : s.renderFinishedSemaphores[s.currentFrame]? with
  | none => rw [hfinished] at h; cases h
  | some renderFinished =>
  rw [hfinished] at h
  dsimp only at h ⊢
  by_cases hsubmit : env.submitResult ≠ VK_SUCCESS
  · rw [if_pos hsubmit] at h
    cases h
  · rw [if_neg hsubmit]
    exact ⟨commandBuffer, renderFinished, not_not.1 hsubmit, rfl⟩

theorem uniformOutcome_presented (env : DrawFrameEnv) (s : App)
    (slotFence imageAvailable : Nat)
    (h : (uniformOutcome env s slotFence imageAvailable).trace.any Call.isPresent = true) :
    ∃ uniformMemory lightingMemory commandBuffer renderFinished,
      env.submitResult = VK_SUCCESS ∧
      uniformOutcome env s slotFence imageAvailable =
        Run.prepend
          [.vkMapMemory uniformMemory, .memcpy uniformMemory, .vkUnmapMemory uniformMemory,
            .vkMapMemory lightingMemory, .memcpy lightingMemory,
            .vkUnmapMemory lightingMemory,
            .vkResetFences [slotFence],
            .vkQueueSubmit s.graphicsQueue [imageAvailable]
              [VK_PIPELINE_STAGE_COLOR_ATTACHMENT_OUTPUT_BIT] [commandBuffer]
              [renderFinished] slotFence,
            .vkQueuePresentKHR s.presentQueue [renderFinished] [s.swapChain]
              [env.imageIndex]]
          (presentOutcome env s) := by
  unfold uniformOutcome at h ⊢
  cases huniform : s.uniformBuffersMemory[env.imageIndex]? with
  | none => rw [huniform] at h; cases h
  | some uniformMemory =>
  rw [huniform] at h
  dsimp only at h ⊢
  cases hlighting : s.lightingBuffersMemory[env.imageIndex]? with
  | none => rw [hlighting] at h; cases h
  | some lightingMemory =>
  rw [hlighting] at h
  dsimp only at h ⊢
  have h' : (submitOutcome env s slotFence imageAvailable).trace.any Call.isPresent =
      true := h
  obtain ⟨commandBuffer, renderFinished, hsubmit, hrun⟩ :=
    submitOutcome_presented env s slotFence imageAvailable h'
  rw [hrun]
  exact ⟨uniformMemory, lightingMemory, commandBuffer, renderFinished, hsubmit, rfl⟩

/-- A frame whose trace holds a present request took the main path: every lookup succeeded,
acquisition reported success or suboptimal, the submission was accepted, and what follows
the present request is `presentOutcome`. -/
theorem drawFrame_presented (env : DrawFrameEnv) (s : App)
    (hpresented : ((drawFrame env).run s).trace.any Call.isPresent = true) :
    ∃ slotFence imageAvailable imageFence uniformMemory lightingMemory commandBuffer
        renderFinished,
      s.inFlightFences[s.currentFrame]? = some slotFence ∧
      s.imagesInFlight[env.imageIndex]? = some imageFence ∧
      (env.acquireResult = VK_SUCCESS ∨ env.acquireResult = VK_SUBOPTIMAL_KHR) ∧
      env.submitResult = VK_SUCCESS ∧
      (drawFrame env).run s =
        Run.prepend
          ([.vkWaitForFences [slotFence],
            .vkAcquireNextImageKHR s.swapChain imageAvailable VK_NULL_HANDLE] ++
            (if imageFence ≠ VK_NULL_HANDLE then [.vkWaitForFences [imageFence]] else []) ++
            [.vkMapMemory uniformMemory, .memcpy uniformMemory, .vkUnmapMemory uniformMemory,
              .vkMapMemory lightingMemory, .memcpy lightingMemory,
              .vkUnmapMemory lightingMemory,
              .vkResetFences [slotFence],
              .vkQueueSubmit s.graphicsQueue [imageAvailable]
                [VK_PIPELINE_STAGE_COLOR_ATTACHMENT_OUTPUT_BIT] [commandBuffer]
                [renderFinished] slotFence,
              .vkQueuePresentKHR s.presentQueue [renderFinished] [s.swapChain]
                [env.imageIndex]])
          (presentOutcome env
            { s with imagesInFlight := s.imagesInFlight.set env.imageIndex slotFence }) := by
  rw [drawFrame_run_eq] at hpresented ⊢
  unfold drawFrameRun at hpresented ⊢
  cases hfence : s.inFlightFences[s.currentFrame]? with
  | none => rw [hfence] at hpresented; cases hpresented
  | some slotFence =>
  rw [hfence] at hpresented
  dsimp only at hpresented ⊢
  cases hsemaphore : s.imageAvailableSemaphores[s.currentFrame]? with
  | none => rw [hsemaphore] at hpresented; cases hpresented
  | some imageAvailable =>
  rw [hsemaphore] at hpresented
  dsimp only at hpresented ⊢
  by_cases hacquire : env.acquireResult = VK_ERROR_OUT_OF_DATE_KHR
  · rw [if_pos hacquire] at hpresented
    have h' : ((recreateSwapChain env.recreate).run s).trace.any Call.isPresent = true :=
      hpresented
    rw [recreateSwapChain_any_isPresent] at h'
    cases h'
  rw [if_neg hacquire] at hpresented ⊢
  by_cases hfatal : env.acquireResult ≠ VK_SUCCESS ∧ env.acquireResult ≠ VK_SUBOPTIMAL_KHR
  · rw [if_pos hfatal] at hpresented
    cases hpresented
  rw [if_neg hfatal] at hpresented ⊢
  have hgood : env.acquireResult = VK_SUCCESS ∨ env.acquireResult = VK_SUBOPTIMAL_KHR := by
    by_cases h0 : env.acquireResult = VK_SUCCESS
    · exact Or.inl h0
    · by_cases h1 : env.acquireResult = VK_SUBOPTIMAL_KHR
      · exact Or.inr h1
      · exact absurd ⟨h0, h1⟩ hfatal
  unfold acquiredOutcome at hpresented ⊢
  cases himage : s.imagesInFlight[env.imageIndex]? with
  | none => rw [himage] at hpresented; cases hpresented
  | some imageFence =>
  rw [himage] at hpresented
  dsimp only at hpresented ⊢
  have h' : (uniformOutcome env
      { s with imagesInFlight := s.imagesInFlight.set env.imageIndex slotFence }
      slotFence imageAvailable).trace.any Call.isPresent = true := by
    by_cases hnull : imageFence ≠ VK_NULL_HANDLE
    · rw [if_pos hnull] at hpresented
      exact hpresented
    · rw [if_neg hnull] at hpresented
      exact hpresented
  obtain ⟨uniformMemory, lightingMemory, commandBuffer, renderFinished, hsubmit, hrun⟩ :=
    uniformOutcome_presented env _ slotFence imageAvailable h'
  rw [hrun]
  refine ⟨slotFence, imageAvailable, imageFence, uniformMemory, lightingMemory,
    commandBuffer, renderFinished, rfl, rfl, hgood, hsubmit, ?_⟩
  simp only [prepend_prepend, List.append_assoc, List.cons_append, List.nil_append]

theorem presentOutcome_recreates (env : DrawFrameEnv) (s : App)
    (hresult : env.presentResult = VK_SUCCESS ∨
      env.presentResult = VK_ERROR_OUT_OF_DATE_KHR ∨ env.presentResult = VK_SUBOPTIMAL_KHR) :
    (presentOutcome env s).result =
      (if env.presentResult = VK_ERROR_OUT_OF_DATE_KHR ∨
          env.presentResult = VK_SUBOPTIMAL_KHR ∨ s.framebufferResized = true then
        ((recreateSwapChain env.recreate).run { s with framebufferResized := false }).result
      else .ok ()) ∧
    (presentOutcome env s).trace =
      (if env.presentResult = VK_ERROR_OUT_OF_DATE_KHR ∨
          env.presentResult = VK_SUBOPTIMAL_KHR ∨ s.framebufferResized = true then
        ((recreateSwapChain env.recreate).run { s with framebufferResized := false }).trace
      else []) ∧
    (presentOutcome env s).state.framebufferResized =
      (if env.presentResult = VK_ERROR_OUT_OF_DATE_KHR ∨
          env.presentResult = VK_SUBOPTIMAL_KHR ∨ s.framebufferResized = true then
        resizeDispatched env.recreate.framebufferSize env.recreate.polls
      else false) := by
  unfold presentOutcome
  have hflag := (recreateSwapChain_run env.recreate { s with framebufferResized := false }).2.2
  by_cases hbranch : env.presentResult = VK_ERROR_OUT_OF_DATE_KHR ∨
      env.presentResult = VK_SUBOPTIMAL_KHR ∨ s.framebufferResized = true
  · simp only [if_pos hbranch]
    cases hres : ((recreateSwapChain env.recreate).run
        { s with framebufferResized := false }).result with
    | ok a => exact ⟨rfl, rfl, by rw [← Bool.false_or (resizeDispatched _ _)]; exact hflag⟩
    | error e => exact ⟨rfl, rfl, by rw [← Bool.false_or (resizeDispatched _ _)]; exact hflag⟩
  · simp only [if_neg hbranch]
    have hsuccess : env.presentResult = VK_SUCCESS := by
      rcases hresult with h | h | h
      · exact h
      · exact absurd (Or.inl h) hbranch
      · exact absurd (Or.inr (Or.inl h)) hbranch
    have hdown : s.framebufferResized = false := by
      cases hflag' : s.framebufferResized with
      | false => rfl
      | true => exact absurd (Or.inr (Or.inr hflag')) hbranch
    rw [if_neg (not_not.2 hsuccess)]
    exact ⟨rfl, rfl, hdown⟩

/-! ## Recreation after presentation -/

/-- C13, the claim as stated fails: on the sample state (reachable, resize flag down) a frame
whose present request reports suboptimal while the window is minimised calls
`recreateSwapChain` once and returns normally, and the resize flag is raised afterwards: the
resize callback ran inside `glfwWaitEvents` of the minimised-window loop, after `drawFrame`
had lowered the flag. -/
theorem drawFrame_present_recreate_counterexample :
    Reachable sampleApp ∧
    ((drawFrame { plainFrame with
        presentResult := VK_SUBOPTIMAL_KHR, recreate := minimizedRecreate }).run
      sampleApp).returned = true ∧
    (((drawFrame { plainFrame with
        presentResult := VK_SUBOPTIMAL_KHR, recreate := minimizedRecreate }).run
      sampleApp).trace.filter Call.isRecreateEntry).length = 1 ∧
    ((drawFrame { plainFrame with
        presentResult := VK_SUBOPTIMAL_KHR, recreate := minimizedRecreate }).run
      sampleApp).state.framebufferResized = true :=
  ⟨reachable_sampleApp, rfl, by decide, rfl⟩

/-- C13 as amended: for a frame that issues its present request and gets success,
out-of-date or suboptimal back, the trace is `before ++ submit :: present :: after` with
the queue submission directly before the present request, no entry into `recreateSwapChain`
in `before`, and in `after` exactly one entry when the result is out-of-date or suboptimal or
the resize flag was set at entry, and none otherwise. When `recreateSwapChain` is called it
is entered with the resize flag lowered, `after` is its trace, and the frame ends as it
ends; afterwards the flag is raised exactly when the resize callback was dispatched while
`recreateSwapChain` waited for a minimised window. The frame never ends with the present
failure, any failure is one of `recreateSwapChain`, and without recreation the frame
returns normally. -/
theorem drawFrame_present_recreate (env : DrawFrameEnv) (s : App)
    (hpresented : ((drawFrame env).run s).trace.any Call.isPresent = true)
    (hresult : env.presentResult = VK_SUCCESS ∨
      env.presentResult = VK_ERROR_OUT_OF_DATE_KHR ∨ env.presentResult = VK_SUBOPTIMAL_KHR) :
    ∃ before submit present after,
      ((drawFrame env).run s).trace = before ++ submit :: present :: after ∧
      submit.isSubmit = true ∧ present.isPresent = true ∧
      (∀ c ∈ before,
        c.isSubmit = false ∧ c.isPresent = false ∧ c.isRecreateEntry = false) ∧
      (∀ c ∈ after, c.isSubmit = false ∧ c.isPresent = false) ∧
      (after.filter Call.isRecreateEntry).length =
        (if env.presentResult = VK_ERROR_OUT_OF_DATE_KHR ∨
            env.presentResult = VK_SUBOPTIMAL_KHR ∨ s.framebufferResized = true then 1
          else 0) ∧
      ((env.presentResult = VK_ERROR_OUT_OF_DATE_KHR ∨
          env.presentResult = VK_SUBOPTIMAL_KHR ∨ s.framebufferResized = true) →
        ∃ entry : App, entry.framebufferResized = false ∧
          after = ((recreateSwapChain env.recreate).run entry).trace ∧
          ((drawFrame env).run s).result =
            ((recreateSwapChain env.recreate).run entry).result) ∧
      ((drawFrame env).run s).state.framebufferResized =
        (if env.presentResult = VK_ERROR_OUT_OF_DATE_KHR ∨
            env.presentResult = VK_SUBOPTIMAL_KHR ∨ s.framebufferResized = true then
          resizeDispatched env.recreate.framebufferSize env.recreate.polls
        else false) ∧
      ((drawFrame env).run s).result ≠
        .error (.thrown "failed to present swap chain image!") ∧
      (∀ e, ((drawFrame env).run s).result = .error e → e.notOfFrame) ∧
      (¬(env.presentResult = VK_ERROR_OUT_OF_DATE_KHR ∨
          env.presentResult = VK_SUBOPTIMAL_KHR ∨ s.framebufferResized = true) →
        ((drawFrame env).run s).returned = true) := by
  obtain ⟨slotFence, imageAvailable, imageFence, uniformMemory, lightingMemory,
    commandBuffer, renderFinished, -, -, -, -, hrun⟩ := drawFrame_presented env s hpresented
  rw [hrun]
  generalize hs1 : ({ s with imagesInFlight := s.imagesInFlight.set env.imageIndex slotFence }
    : App) = s1
  have hflag1 : s1.framebufferResized = s.framebufferResized := by rw [← hs1]
  obtain ⟨hres, htrace, hflag⟩ := presentOutcome_recreates env s1 hresult
  rw [hflag1] at hres htrace hflag
  obtain ⟨⟨rest, hrecreate, hquiet⟩, -, -⟩ :=
    recreateSwapChain_run env.recreate { s1 with framebufferResized := false }
  have hfault : ∀ e, (presentOutcome env s1).result = .error e → e.notOfFrame := by
    intro e he
    rcases presentOutcome_fault env s1 e he with h | h
    · exact h.1
    · rcases hresult with h' | h' | h'
      · exact absurd h' h.2.2.2.1
      · exact absurd h' h.2.1
      · exact absurd h' h.2.2.1
  refine ⟨[.vkWaitForFences [slotFence],
      .vkAcquireNextImageKHR s.swapChain imageAvailable VK_NULL_HANDLE] ++
      (if imageFence ≠ VK_NULL_HANDLE then [.vkWaitForFences [imageFence]] else []) ++
      [.vkMapMemory uniformMemory, .memcpy uniformMemory, .vkUnmapMemory uniformMemory,
        .vkMapMemory lightingMemory, .memcpy lightingMemory, .vkUnmapMemory lightingMemory,
        .vkResetFences [slotFence]],
    .vkQueueSubmit s.graphicsQueue [imageAvailable]
      [VK_PIPELINE_STAGE_COLOR_ATTACHMENT_OUTPUT_BIT] [commandBuffer] [renderFinished]
      slotFence,
    .vkQueuePresentKHR s.presentQueue [renderFinished] [s.swapChain] [env.imageIndex],
    (presentOutcome env s1).trace, ?_, rfl, rfl, ?_, ?_, ?_, ?_, ?_, ?_, ?_, ?_⟩
  · rw [prepend_trace]
    simp only [List.append_assoc, List.cons_append, List.nil_append]
  · intro c hc
    by_cases hnull : imageFence ≠ VK_NULL_HANDLE
    · rw [if_pos hnull] at hc
      simp only [List.cons_append, List.nil_append, List.mem_cons, List.mem_singleton] at hc
      rcases hc with rfl | rfl | rfl | rfl | rfl | rfl | rfl | rfl | rfl | rfl | hc
      all_goals first | exact ⟨rfl, rfl, rfl⟩ | cases hc
    · rw [if_neg hnull] at hc
      simp only [List.cons_append, List.nil_append, List.append_nil, List.mem_cons,
        List.mem_singleton] at hc
      rcases hc with rfl | rfl | rfl | rfl | rfl | rfl | rfl | rfl | rfl | hc
      all_goals first | exact ⟨rfl, rfl, rfl⟩ | cases hc
  · rw [htrace]
    intro c hc
    by_cases hbranch : env.presentResult = VK_ERROR_OUT_OF_DATE_KHR ∨
        env.presentResult = VK_SUBOPTIMAL_KHR ∨ s.framebufferResized = true
    · rw [if_pos hbranch, hrecreate] at hc
      rcases List.mem_cons.1 hc with rfl | hc
      · exact ⟨rfl, rfl⟩
      · exact ⟨(hquiet c hc).1, (hquiet c hc).2.1⟩
    · rw [if_neg hbranch] at hc
      cases hc
  · rw [htrace]
    by_cases hbranch : env.presentResult = VK_ERROR_OUT_OF_DATE_KHR ∨
        env.presentResult = VK_SUBOPTIMAL_KHR ∨ s.framebufferResized = true
    · rw [if_pos hbranch, if_pos hbranch, hrecreate]
      have hnone : rest.filter Call.isRecreateEntry = [] := by
        rw [List.filter_eq_nil_iff]
        intro c hc
        rw [(hquiet c hc).2.2.2.2]
        decide
      have e : (Call.enter "recreateSwapChain" :: rest).filter Call.isRecreateEntry =
          Call.enter "recreateSwapChain" :: rest.filter Call.isRecreateEntry := rfl
      rw [e, hnone]
      rfl
    · rw [if_neg hbranch, if_neg hbranch]
      rfl
  · intro hbranch
    refine ⟨{ s1 with framebufferResized := false }, rfl, ?_, ?_⟩
    · rw [htrace, if_pos hbranch]
    · rw [prepend_result, hres, if_pos hbranch]
  · rw [prepend_state]
    exact hflag
  · rw [prepend_result]
    intro h
    exact absurd rfl (hfault _ h).2.2
  · rw [prepend_result]
    exact hfault
  · intro hbranch
    rw [prepend_returned]
    unfold Run.returned
    rw [hres, if_neg hbranch]

/-- Witness for C13 as amended: on the sample state a frame whose present request reports
suboptimal, with the window at full size, ends with the resize flag down. -/
theorem drawFrame_present_recreate_witness :
    ((drawFrame { plainFrame with presentResult := VK_SUBOPTIMAL_KHR }).run
      sampleApp).trace.any Call.isPresent = true ∧
    ((drawFrame { plainFrame with presentResult := VK_SUBOPTIMAL_KHR }).run
      sampleApp).state.framebufferResized =
      (if VK_SUBOPTIMAL_KHR = VK_ERROR_OUT_OF_DATE_KHR ∨
          VK_SUBOPTIMAL_KHR = VK_SUBOPTIMAL_KHR ∨ sampleApp.framebufferResized = true then
        resizeDispatched sampleRecreate.framebufferSize sampleRecreate.polls
      else false) :=
  ⟨rfl,
    (drawFrame_present_recreate { plainFrame with presentResult := VK_SUBOPTIMAL_KHR }
      sampleApp rfl (Or.inr (Or.inr rfl))).elim
      (fun _ h => h.elim (fun _ h => h.elim (fun _ h => h.elim
        (fun _ h => h.2.2.2.2.2.2.2.1))))⟩

/-! ## The image-in-flight table -/

theorem wait_before_third (first second third c : Call) (rest before after : List Call)
    (h : first :: second :: third :: rest = before ++ c :: after)
    (hfirst : c ≠ first) (hsecond : c ≠ second) (hthird : c ≠ third) :
    third ∈ before := by
  match before, h with
  | [], h =>
    injection h with h1 h2
    exact absurd h1.symm hfirst
  | [_], h =>
    injection h with h1 h2
    injection h2 with h2 h3
    exact absurd h2.symm hsecond
  | [_, _], h =>
    injection h with h1 h2
    injection h2 with h2 h3
    injection h3 with h3 h4
    exact absurd h3.symm hthird
  | _ :: _ :: x :: more, h =>
    injection h with h1 h2
    injection h2 with h2 h3
    injection h3 with h3 h4
    rw [h3]
    simp

/-- The image-in-flight table inside its bounds (the part of C20 that holds): in every
reachable state, when acquisition reports success or suboptimal and
yields an image index `i` the table has an entry for, the frame's trace starts with the wait
on the slot fence and the acquisition and, if the table entry for `i` is not
`VK_NULL_HANDLE`, continues with a wait on exactly that fence, so that this wait precedes
every host write of uniform data in the frame. Afterwards, however the frame ends, the
table is the old table with entry `i` replaced by the in-flight fence of the slot
`currentFrame` had at entry: entry `i` is that fence and every other entry is unchanged. -/
theorem drawFrame_image_table (env : DrawFrameEnv) (s : App) (hreach : Reachable s)
    (hacquire : env.acquireResult = VK_SUCCESS ∨ env.acquireResult = VK_SUBOPTIMAL_KHR)
    (hindex : env.imageIndex < s.imagesInFlight.length) :
    ∃ slotFence imageAvailable imageFence rest,
      s.inFlightFences[s.currentFrame]? = some slotFence ∧
      s.imagesInFlight[env.imageIndex]? = some imageFence ∧
      ((drawFrame env).run s).trace =
        [.vkWaitForFences [slotFence],
          .vkAcquireNextImageKHR s.swapChain imageAvailable VK_NULL_HANDLE] ++
        (if imageFence ≠ VK_NULL_HANDLE then [.vkWaitForFences [imageFence]] else []) ++
        rest ∧
      (imageFence ≠ VK_NULL_HANDLE →
        ∀ before c after, ((drawFrame env).run s).trace = before ++ c :: after →
          c.isHostWrite = true → Call.vkWaitForFences [imageFence] ∈ before) ∧
      ((drawFrame env).run s).state.imagesInFlight =
        s.imagesInFlight.set env.imageIndex slotFence ∧
      ((drawFrame env).run s).state.imagesInFlight[env.imageIndex]? = some slotFence ∧
      (∀ j, j ≠ env.imageIndex →
        ((drawFrame env).run s).state.imagesInFlight[j]? = s.imagesInFlight[j]?) := by
  obtain ⟨slotFence, imageAvailable, hfence, hsemaphore⟩ := reachable_slot_lookups s hreach
  have hrun := drawFrameRun_of_lookups env s slotFence imageAvailable hfence hsemaphore
  have hnotOld : env.acquireResult ≠ VK_ERROR_OUT_OF_DATE_KHR := by
    rcases hacquire with h | h <;> rw [h] <;> decide
  have hnotFatal : ¬(env.acquireResult ≠ VK_SUCCESS ∧
      env.acquireResult ≠ VK_SUBOPTIMAL_KHR) := by
    rintro ⟨h0, h1⟩
    rcases hacquire with h | h
    · exact h0 h
    · exact h1 h
  have himage : s.imagesInFlight[env.imageIndex]? = some s.imagesInFlight[env.imageIndex] :=
    List.getElem?_eq_getElem hindex
  generalize s.imagesInFlight[env.imageIndex] = imageFence at himage
  rw [if_neg hnotOld, if_neg hnotFatal] at hrun
  unfold acquiredOutcome at hrun
  rw [himage] at hrun
  dsimp only at hrun
  rw [prepend_prepend] at hrun
  have hkept := (uniformOutcome_kept env
    { s with imagesInFlight := s.imagesInFlight.set env.imageIndex slotFence }
    slotFence imageAvailable).1
  have hstate : ((drawFrame env).run s).state.imagesInFlight =
      s.imagesInFlight.set env.imageIndex slotFence := by
    rw [hrun, prepend_state]
    exact hkept
  have htrace : ((drawFrame env).run s).trace =
      [.vkWaitForFences [slotFence],
        .vkAcquireNextImageKHR s.swapChain imageAvailable VK_NULL_HANDLE] ++
      (if imageFence ≠ VK_NULL_HANDLE then [.vkWaitForFences [imageFence]] else []) ++
      (uniformOutcome env
        { s with imagesInFlight := s.imagesInFlight.set env.imageIndex slotFence }
        slotFence imageAvailable).trace := by
    rw [hrun, prepend_trace]
  refine ⟨slotFence, imageAvailable, imageFence, _, hfence, himage, htrace, ?_, hstate, ?_,
    ?_⟩
  · intro hnull before c after hsplit hwrite
    rw [htrace, if_pos hnull] at hsplit
    refine wait_before_third _ _ _ c _ before after hsplit ?_ ?_ ?_
    · intro hc; rw [hc] at hwrite; cases hwrite
    · intro hc; rw [hc] at hwrite; cases hwrite
    · intro hc; rw [hc] at hwrite; cases hwrite
  · rw [hstate, List.getElem?_set_self hindex]
  · intro j hj
    rw [hstate, List.getElem?_set_ne (Ne.symm hj)]

/-- An instance of `drawFrame_image_table`: in the state the sample frame leaves (slot 1 current, table entry of
image 1 naming the fence of slot 0), a second frame on image 1 ends with entry 1 naming the
fence of slot 1. -/
theorem drawFrame_image_table_witness :
    Reachable ((drawFrame plainFrame).run sampleApp).state ∧
    (plainFrame.acquireResult = VK_SUCCESS ∨ plainFrame.acquireResult = VK_SUBOPTIMAL_KHR) ∧
    plainFrame.imageIndex < ((drawFrame plainFrame).run sampleApp).state.imagesInFlight.length ∧
    ((drawFrame plainFrame).run sampleApp).state.imagesInFlight[1]? = some 221 ∧
    ∃ slotFence,
      ((drawFrame plainFrame).run sampleApp).state.inFlightFences[1]? = some slotFence ∧
      ((drawFrame plainFrame).run
        ((drawFrame plainFrame).run sampleApp).state).state.imagesInFlight[1]? =
          some slotFence ∧
      Call.vkWaitForFences [221] ∈
        ((drawFrame plainFrame).run ((drawFrame plainFrame).run sampleApp).state).trace := by
  refine ⟨Reachable.frame _ _ reachable_sampleApp, Or.inl rfl, by decide, rfl, ?_⟩
  obtain ⟨slotFence, _, _, _, h1, _, _, _, _, h6, _⟩ :=
    drawFrame_image_table plainFrame ((drawFrame plainFrame).run sampleApp).state
      (Reachable.frame _ _ reachable_sampleApp) (Or.inl rfl) (by decide)
  exact ⟨slotFence, h1, h6, by decide⟩

/-! ## Resource allocator: `createBuffer` and `createImage` -/

theorem findMemoryType_cases (memProperties : VkPhysicalDeviceMemoryProperties)
    (typeFilter properties : Nat) :
    (∃ i, findMemoryType memProperties typeFilter properties = .ok i) ∨
    findMemoryType memProperties typeFilter properties =
      .error (.thrown "failed to find suitable memory type!") := by
  unfold findMemoryType
  cases hres : findMemoryTypeFrom memProperties typeFilter properties 0
      memProperties.memoryTypeCount with
  | ok i => exact Or.inl ⟨i, rfl⟩
  | error e =>
    right
    rw [((findMemoryTypeFrom_error _ _ _ _ _ _).1 hres).1]

theorem run_liftExcept_bind {σ α β : Type} (x : Except Fault α) (f : α → Exec σ β) (s : σ) :
    (liftExcept x >>= f).run s =
      match x with
      | .ok a => (f a).run s
      | .error e => ⟨.error e, s, []⟩ := by
  cases x with
  | ok a => exact run_pure_bind a f s
  | error e => exact run_fail_bind e f s

theorem createBuffer_run {σ : Type} (memProperties : VkPhysicalDeviceMemoryProperties)
    (env : AllocationEnv) (size usage properties : Nat) (s : σ) :
    (createBuffer memProperties env size usage properties).run s =
      Run.prepend [.vkCreateBuffer size usage env.resource.1 env.resource.2]
        (if env.resource.1 ≠ VK_SUCCESS then
          ⟨.error (.thrown "failed to create buffer!"), s, []⟩
        else
          match findMemoryType memProperties env.memoryTypeBits properties with
          | .error e => ⟨.error e, s, []⟩
          | .ok memoryTypeIndex =>
            Run.prepend
              [.vkAllocateMemory env.memorySize memoryTypeIndex env.memory.1 env.memory.2]
              (if env.memory.1 ≠ VK_SUCCESS then
                ⟨.error (.thrown "failed to allocate buffer memory!"), s, []⟩
              else
                ⟨.ok (env.resource.2, env.memory.2), s,
                  [.vkBindMemory env.resource.2 env.memory.2 env.bindResult]⟩)) := by
  unfold createBuffer
  rw [run_call_bind]
  congr 1
  by_cases hcreate : env.resource.1 ≠ VK_SUCCESS
  · rw [if_pos hcreate, if_pos hcreate]
    rfl
  · rw [if_neg hcreate, if_neg hcreate, run_liftExcept_bind]
    cases findMemoryType memProperties env.memoryTypeBits properties with
    | error e => rfl
    | ok memoryTypeIndex =>
      dsimp only
      rw [run_call_bind]
      congr 1
      by_cases hallocate : env.memory.1 ≠ VK_SUCCESS
      · rw [if_pos hallocate, if_pos hallocate]
        rfl
      · rw [if_neg hallocate, if_neg hallocate]
        rfl

theorem createImage_run {σ : Type} (memProperties : VkPhysicalDeviceMemoryProperties)
    (env : AllocationEnv) (width height format tiling usage properties : Nat) (s : σ) :
    (createImage memProperties env width height format tiling usage properties).run s =
      Run.prepend
        [.vkCreateImage width height format tiling VK_IMAGE_LAYOUT_UNDEFINED usage
          env.resource.1 env.resource.2]
        (if env.resource.1 ≠ VK_SUCCESS then
          ⟨.error (.thrown "failed to create image!"), s, []⟩
        else
          match findMemoryType memProperties env.memoryTypeBits properties with
          | .error e => ⟨.error e, s, []⟩
          | .ok memoryTypeIndex =>
            Run.prepend
              [.vkAllocateMemory env.memorySize memoryTypeIndex env.memory.1 env.memory.2]
              (if env.memory.1 ≠ VK_SUCCESS then
                ⟨.error (.thrown "failed to allocate image memory!"), s, []⟩
              else
                ⟨.ok (env.resource.2, env.memory.2), s,
                  [.vkBindMemory env.resource.2 env.memory.2 env.bindResult]⟩)) := by
  unfold createImage
  rw [run_call_bind]
  congr 1
  by_cases hcreate : env.resource.1 ≠ VK_SUCCESS
  · rw [if_pos hcreate, if_pos hcreate]
    rfl
  · rw [if_neg hcreate, if_neg hcreate, run_liftExcept_bind]
    cases findMemoryType memProperties env.memoryTypeBits properties with
    | error e => rfl
    | ok memoryTypeIndex =>
      dsimp only
      rw [run_call_bind]
      congr 1
      by_cases hallocate : env.memory.1 ≠ VK_SUCCESS
      · rw [if_pos hallocate, if_pos hallocate]
        rfl
      · rw [if_neg hallocate, if_neg hallocate]
        rfl

/-- The outcome shared by `createBuffer` and `createImage`, read off a run of the shape
both have. -/
theorem allocation_outcome {σ : Type} (memProperties : VkPhysicalDeviceMemoryProperties)
    (env : AllocationEnv) (properties : Nat) (s : σ) (first : Call)
    (createFailed allocateFailed : String) (r : Run σ (Nat × Nat))
    (hr : r =
      Run.prepend [first]
        (if env.resource.1 ≠ VK_SUCCESS then ⟨.error (.thrown createFailed), s, []⟩
        else
          match findMemoryType memProperties env.memoryTypeBits properties with
          | .error e => ⟨.error e, s, []⟩
          | .ok memoryTypeIndex =>
            Run.prepend
              [.vkAllocateMemory env.memorySize memoryTypeIndex env.memory.1 env.memory.2]
              (if env.memory.1 ≠ VK_SUCCESS then ⟨.error (.thrown allocateFailed), s, []⟩
              else
                ⟨.ok (env.resource.2, env.memory.2), s,
                  [.vkBindMemory env.resource.2 env.memory.2 env.bindResult]⟩))) :
    (env.resource.1 ≠ VK_SUCCESS → r.result = .error (.thrown createFailed)) ∧
    (env.resource.1 = VK_SUCCESS →
      findMemoryType memProperties env.memoryTypeBits properties =
        .error (.thrown "failed to find suitable memory type!") →
      r.result = .error (.thrown "failed to find suitable memory type!")) ∧
    (env.resource.1 = VK_SUCCESS →
      (∃ i, findMemoryType memProperties env.memoryTypeBits properties = .ok i) →
      env.memory.1 ≠ VK_SUCCESS → r.result = .error (.thrown allocateFailed)) ∧
    (r.returned = true ↔
      env.resource.1 = VK_SUCCESS ∧
      (∃ i, findMemoryType memProperties env.memoryTypeBits properties = .ok i) ∧
      env.memory.1 = VK_SUCCESS) ∧
    (r.returned = true →
      r.result = .ok (env.resource.2, env.memory.2) ∧
      r.trace.getLast? = some (.vkBindMemory env.resource.2 env.memory.2 env.bindResult)) := by
  subst hr
  by_cases hcreate : env.resource.1 ≠ VK_SUCCESS
  · simp only [if_pos hcreate]
    refine ⟨fun _ => rfl, fun h => absurd h hcreate, fun h => absurd h hcreate, ?_, ?_⟩
    · constructor
      · intro h; cases h
      · intro h; exact absurd h.1 hcreate
    · intro h; cases h
  · simp only [if_neg hcreate]
    cases hfind : findMemoryType memProperties env.memoryTypeBits properties with
    | error e =>
      refine ⟨fun h => absurd h hcreate, ?_, ?_, ?_, ?_⟩
      · intro _ h
        rw [error_injection h]
        rfl
      · rintro _ ⟨i, hi⟩
        cases hi
      · constructor
        · intro h; cases h
        · rintro ⟨_, ⟨i, hi⟩, _⟩
          cases hi
      · intro h; cases h
    | ok memoryTypeIndex =>
      by_cases hallocate : env.memory.1 ≠ VK_SUCCESS
      · simp only [if_pos hallocate]
        refine ⟨fun h => absurd h hcreate, ?_, fun _ _ _ => rfl, ?_, ?_⟩
        · intro _ h
          cases h
        · constructor
          · intro h; cases h
          · intro h; exact absurd h.2.2 hallocate
        · intro h; cases h
      · simp only [if_neg hallocate]
        refine ⟨fun h => absurd h hcreate, ?_, fun _ _ h => absurd h hallocate, ?_, ?_⟩
        · intro _ h
          cases h
        · constructor
          · intro _
            exact ⟨not_not.1 hcreate, ⟨memoryTypeIndex, rfl⟩, not_not.1 hallocate⟩
          · intro _; rfl
        · intro _
          exact ⟨rfl, rfl⟩

/-- C17, the claim as stated fails: with a driver that creates the resource and allocates
its memory but answers `VK_ERROR_OUT_OF_DEVICE_MEMORY` to the bind call, `createBuffer` and
`createImage` both return normally; the bind call is the last call they make and its result
is not inspected. -/
theorem createBuffer_createImage_bind_unchecked :
    bindFailure.bindResult ≠ VK_SUCCESS ∧
    ((createBuffer ⟨2, [⟨1, 0⟩, ⟨6, 1⟩]⟩ bindFailure 192 16 6 :
      Exec Unit (Nat × Nat)).run ()) =
      ⟨.ok (61, 71), (),
        [.vkCreateBuffer 192 16 VK_SUCCESS 61, .vkAllocateMemory 256 1 VK_SUCCESS 71,
          .vkBindMemory 61 71 VK_ERROR_OUT_OF_DEVICE_MEMORY]⟩ ∧
    ((createImage ⟨2, [⟨1, 0⟩, ⟨6, 1⟩]⟩ bindFailure 800 600 126 0 32 1 :
      Exec Unit (Nat × Nat)).run ()) =
      ⟨.ok (61, 71), (),
        [.vkCreateImage 800 600 126 0 VK_IMAGE_LAYOUT_UNDEFINED 32 VK_SUCCESS 61,
          .vkAllocateMemory 256 0 VK_SUCCESS 71,
          .vkBindMemory 61 71 VK_ERROR_OUT_OF_DEVICE_MEMORY]⟩ :=
  ⟨by decide, rfl, rfl⟩

/-- C17 as amended: `createBuffer` and `createImage` fail with their creation error when the
handle creation call fails, with "failed to find suitable memory type!" when the creation
succeeded and the memory-type search finds no type, and with their allocation error when
both succeeded and `vkAllocateMemory` fails. The result of the bind call is not inspected:
they return normally exactly when these three steps succeeded, whatever the bind call
answers, and then return the resource and its memory with the bind call as their last
call. -/
theorem createBuffer_createImage_failures {σ : Type}
    (memProperties : VkPhysicalDeviceMemoryProperties) (env : AllocationEnv)
    (size usage properties width height format tiling imageUsage : Nat) (s : σ) :
    ((env.resource.1 ≠ VK_SUCCESS →
        ((createBuffer memProperties env size usage properties).run s).result =
          .error (.thrown "failed to create buffer!")) ∧
      (env.resource.1 = VK_SUCCESS →
        findMemoryType memProperties env.memoryTypeBits properties =
          .error (.thrown "failed to find suitable memory type!") →
        ((createBuffer memProperties env size usage properties).run s).result =
          .error (.thrown "failed to find suitable memory type!")) ∧
      (env.resource.1 = VK_SUCCESS →
        (∃ i, findMemoryType memProperties env.memoryTypeBits properties = .ok i) →
        env.memory.1 ≠ VK_SUCCESS →
        ((createBuffer memProperties env size usage properties).run s).result =
          .error (.thrown "failed to allocate buffer memory!")) ∧
      (((createBuffer memProperties env size usage properties).run s).returned = true ↔
        env.resource.1 = VK_SUCCESS ∧
        (∃ i, findMemoryType memProperties env.memoryTypeBits properties = .ok i) ∧
        env.memory.1 = VK_SUCCESS) ∧
      (((createBuffer memProperties env size usage properties).run s).returned = true →
        ((createBuffer memProperties env size usage properties).run s).result =
          .ok (env.resource.2, env.memory.2) ∧
        ((createBuffer memProperties env size usage properties).run s).trace.getLast? =
          some (.vkBindMemory env.resource.2 env.memory.2 env.bindResult))) ∧
    ((env.resource.1 ≠ VK_SUCCESS →
        ((createImage memProperties env width height format tiling imageUsage
          properties).run s).result = .error (.thrown "failed to create image!")) ∧
      (env.resource.1 = VK_SUCCESS →
        findMemoryType memProperties env.memoryTypeBits properties =
          .error (.thrown "failed to find suitable memory type!") →
        ((createImage memProperties env width height format tiling imageUsage
          properties).run s).result =
          .error (.thrown "failed to find suitable memory type!")) ∧
      (env.resource.1 = VK_SUCCESS →
        (∃ i, findMemoryType memProperties env.memoryTypeBits properties = .ok i) →
        env.memory.1 ≠ VK_SUCCESS →
        ((createImage memProperties env width height format tiling imageUsage
          properties).run s).result = .error (.thrown "failed to allocate image memory!")) ∧
      (((createImage memProperties env width height format tiling imageUsage
          properties).run s).returned = true ↔
        env.resource.1 = VK_SUCCESS ∧
        (∃ i, findMemoryType memProperties env.memoryTypeBits properties = .ok i) ∧
        env.memory.1 = VK_SUCCESS) ∧
      (((createImage memProperties env width height format tiling imageUsage
          properties).run s).returned = true →
        ((createImage memProperties env width height format tiling imageUsage
          properties).run s).result = .ok (env.resource.2, env.memory.2) ∧
        ((createImage memProperties env width height format tiling imageUsage
          properties).run s).trace.getLast? =
          some (.vkBindMemory env.resource.2 env.memory.2 env.bindResult))) :=
  ⟨allocation_outcome memProperties env properties s _ _ _ _
      (createBuffer_run memProperties env size usage properties s),
    allocation_outcome memProperties env properties s _ _ _ _
      (createImage_run memProperties env width height format tiling imageUsage properties s)⟩

/-- Witness for C17 as amended: with no memory type carrying the requested property
`createBuffer` fails in the search, and with a failing bind call it returns normally. -/
theorem createBuffer_createImage_failures_witness :
    ((createBuffer ⟨2, [⟨1, 0⟩, ⟨6, 1⟩]⟩ bindFailure 192 16 8 :
      Exec Unit (Nat × Nat)).run ()).result =
      .error (.thrown "failed to find suitable memory type!") ∧
    ((createBuffer ⟨2, [⟨1, 0⟩, ⟨6, 1⟩]⟩ bindFailure 192 16 6 :
      Exec Unit (Nat × Nat)).run ()).returned = true :=
  ⟨(createBuffer_createImage_failures ⟨2, [⟨1, 0⟩, ⟨6, 1⟩]⟩ bindFailure 192 16 8 800 600 126
      0 32 ()).1.2.1 rfl rfl,
    (createBuffer_createImage_failures ⟨2, [⟨1, 0⟩, ⟨6, 1⟩]⟩ bindFailure 192 16 6 800 600 126
      0 32 ()).1.2.2.2.1.2 ⟨rfl, ⟨1, rfl⟩, rfl⟩⟩

/-! ## Transfer engine: one-shot command buffers and the barrier table -/

theorem copyBuffer_run (s : App) (commandBuffer srcBuffer dstBuffer size : Nat) :
    (copyBuffer commandBuffer srcBuffer dstBuffer size).run s =
      ⟨.ok (), s,
        [.vkAllocateCommandBuffers s.commandPool VK_COMMAND_BUFFER_LEVEL_PRIMARY 1
            [commandBuffer],
          .vkBeginCommandBuffer commandBuffer VK_COMMAND_BUFFER_USAGE_ONE_TIME_SUBMIT_BIT,
          .vkCmdCopyBuffer commandBuffer srcBuffer dstBuffer [⟨0, 0, size⟩],
          .vkEndCommandBuffer commandBuffer,
          .vkQueueSubmit s.graphicsQueue [] [] [commandBuffer] [] VK_NULL_HANDLE,
          .vkQueueWaitIdle s.graphicsQueue,
          .vkFreeCommandBuffers s.commandPool [commandBuffer]]⟩ := rfl

theorem copyBufferToImage_run (s : App) (commandBuffer buffer image width height : Nat) :
    (copyBufferToImage commandBuffer buffer image width height).run s =
      ⟨.ok (), s,
        [.vkAllocateCommandBuffers s.commandPool VK_COMMAND_BUFFER_LEVEL_PRIMARY 1
            [commandBuffer],
          .vkBeginCommandBuffer commandBuffer VK_COMMAND_BUFFER_USAGE_ONE_TIME_SUBMIT_BIT,
          .vkCmdCopyBufferToImage commandBuffer buffer image
            VK_IMAGE_LAYOUT_TRANSFER_DST_OPTIMAL
            [⟨0, 0, 0, VK_IMAGE_ASPECT_COLOR_BIT, 0, 0, 1, (0, 0, 0), (width, height, 1)⟩],
          .vkEndCommandBuffer commandBuffer,
          .vkQueueSubmit s.graphicsQueue [] [] [commandBuffer] [] VK_NULL_HANDLE,
          .vkQueueWaitIdle s.graphicsQueue,
          .vkFreeCommandBuffers s.commandPool [commandBuffer]]⟩ := rfl

theorem transitionImageLayout_run_supported (s : App)
    (commandBuffer image format oldLayout newLayout : Nat)
    (srcAccessMask dstAccessMask sourceStage destinationStage : Nat)
    (h : transitionMasks oldLayout newLayout =
      some (srcAccessMask, dstAccessMask, sourceStage, destinationStage)) :
    (transitionImageLayout commandBuffer image format oldLayout newLayout).run s =
      ⟨.ok (), s,
        [.vkAllocateCommandBuffers s.commandPool VK_COMMAND_BUFFER_LEVEL_PRIMARY 1
            [commandBuffer],
          .vkBeginCommandBuffer commandBuffer VK_COMMAND_BUFFER_USAGE_ONE_TIME_SUBMIT_BIT,
          .vkCmdPipelineBarrier commandBuffer sourceStage destinationStage
            [{ srcAccessMask := srcAccessMask, dstAccessMask := dstAccessMask,
               oldLayout := oldLayout, newLayout := newLayout,
               srcQueueFamilyIndex := VK_QUEUE_FAMILY_IGNORED,
               dstQueueFamilyIndex := VK_QUEUE_FAMILY_IGNORED, image := image,
               aspectMask := VK_IMAGE_ASPECT_COLOR_BIT, baseMipLevel := 0, levelCount := 1,
               baseArrayLayer := 0, layerCount := 1 }],
          .vkEndCommandBuffer commandBuffer,
          .vkQueueSubmit s.graphicsQueue [] [] [commandBuffer] [] VK_NULL_HANDLE,
          .vkQueueWaitIdle s.graphicsQueue,
          .vkFreeCommandBuffers s.commandPool [commandBuffer]]⟩ := by
  simp only [transitionImageLayout, h]
  rfl

/-- C19: for the pair (undefined, transfer-destination) `transitionImageLayout` records one
pipeline barrier call with source stage top-of-pipe and destination stage transfer, carrying
one image barrier with empty source access and transfer-write destination access; for the
pair (transfer-destination, shader-read-only) it records one pipeline barrier call with
source stage transfer and destination stage fragment-shader, carrying one image barrier with
transfer-write source access and shader-read destination access. In both cases the barrier's
old and new layouts are the arguments, it names the image, and the trace holds exactly one
pipeline barrier call, between `vkBeginCommandBuffer` and `vkEndCommandBuffer`. -/
theorem transitionImageLayout_barrier_table (s : App) (commandBuffer image format : Nat) :
    (transitionImageLayout commandBuffer image format VK_IMAGE_LAYOUT_UNDEFINED
        VK_IMAGE_LAYOUT_TRANSFER_DST_OPTIMAL).run s =
      ⟨.ok (), s,
        [.vkAllocateCommandBuffers s.commandPool VK_COMMAND_BUFFER_LEVEL_PRIMARY 1
            [commandBuffer],
          .vkBeginCommandBuffer commandBuffer VK_COMMAND_BUFFER_USAGE_ONE_TIME_SUBMIT_BIT,
          .vkCmdPipelineBarrier commandBuffer VK_PIPELINE_STAGE_TOP_OF_PIPE_BIT
            VK_PIPELINE_STAGE_TRANSFER_BIT
            [{ srcAccessMask := 0, dstAccessMask := VK_ACCESS_TRANSFER_WRITE_BIT,
               oldLayout := VK_IMAGE_LAYOUT_UNDEFINED,
               newLayout := VK_IMAGE_LAYOUT_TRANSFER_DST_OPTIMAL,
               srcQueueFamilyIndex := VK_QUEUE_FAMILY_IGNORED,
               dstQueueFamilyIndex := VK_QUEUE_FAMILY_IGNORED, image := image,
               aspectMask := VK_IMAGE_ASPECT_COLOR_BIT, baseMipLevel := 0, levelCount := 1,
               baseArrayLayer := 0, layerCount := 1 }],
          .vkEndCommandBuffer commandBuffer,
          .vkQueueSubmit s.graphicsQueue [] [] [commandBuffer] [] VK_NULL_HANDLE,
          .vkQueueWaitIdle s.graphicsQueue,
          .vkFreeCommandBuffers s.commandPool [commandBuffer]]⟩ ∧
    (transitionImageLayout commandBuffer image format VK_IMAGE_LAYOUT_TRANSFER_DST_OPTIMAL
        VK_IMAGE_LAYOUT_SHADER_READ_ONLY_OPTIMAL).run s =
      ⟨.ok (), s,
        [.vkAllocateCommandBuffers s.commandPool VK_COMMAND_BUFFER_LEVEL_PRIMARY 1
            [commandBuffer],
          .vkBeginCommandBuffer commandBuffer VK_COMMAND_BUFFER_USAGE_ONE_TIME_SUBMIT_BIT,
          .vkCmdPipelineBarrier commandBuffer VK_PIPELINE_STAGE_TRANSFER_BIT
            VK_PIPELINE_STAGE_FRAGMENT_SHADER_BIT
            [{ srcAccessMask := VK_ACCESS_TRANSFER_WRITE_BIT,
               dstAccessMask := VK_ACCESS_SHADER_READ_BIT,
               oldLayout := VK_IMAGE_LAYOUT_TRANSFER_DST_OPTIMAL,
               newLayout := VK_IMAGE_LAYOUT_SHADER_READ_ONLY_OPTIMAL,
               srcQueueFamilyIndex := VK_QUEUE_FAMILY_IGNORED,
               dstQueueFamilyIndex := VK_QUEUE_FAMILY_IGNORED, image := image,
               aspectMask := VK_IMAGE_ASPECT_COLOR_BIT, baseMipLevel := 0, levelCount := 1,
               baseArrayLayer := 0, layerCount := 1 }],
          .vkEndCommandBuffer commandBuffer,
          .vkQueueSubmit s.graphicsQueue [] [] [commandBuffer] [] VK_NULL_HANDLE,
          .vkQueueWaitIdle s.graphicsQueue,
          .vkFreeCommandBuffers s.commandPool [commandBuffer]]⟩ ∧
    (((transitionImageLayout commandBuffer image format VK_IMAGE_LAYOUT_UNDEFINED
        VK_IMAGE_LAYOUT_TRANSFER_DST_OPTIMAL).run s).trace.filter
      Call.isPipelineBarrier).length = 1 ∧
    (((transitionImageLayout commandBuffer image format VK_IMAGE_LAYOUT_TRANSFER_DST_OPTIMAL
        VK_IMAGE_LAYOUT_SHADER_READ_ONLY_OPTIMAL).run s).trace.filter
      Call.isPipelineBarrier).length = 1 := by
  have h1 := transitionImageLayout_run_supported s commandBuffer image format
    VK_IMAGE_LAYOUT_UNDEFINED VK_IMAGE_LAYOUT_TRANSFER_DST_OPTIMAL 0
    VK_ACCESS_TRANSFER_WRITE_BIT VK_PIPELINE_STAGE_TOP_OF_PIPE_BIT
    VK_PIPELINE_STAGE_TRANSFER_BIT rfl
  have h2 := transitionImageLayout_run_supported s commandBuffer image format
    VK_IMAGE_LAYOUT_TRANSFER_DST_OPTIMAL VK_IMAGE_LAYOUT_SHADER_READ_ONLY_OPTIMAL
    VK_ACCESS_TRANSFER_WRITE_BIT VK_ACCESS_SHADER_READ_BIT VK_PIPELINE_STAGE_TRANSFER_BIT
    VK_PIPELINE_STAGE_FRAGMENT_SHADER_BIT rfl
  refine ⟨h1, h2, ?_, ?_⟩
  · rw [h1]; rfl
  · rw [h2]; rfl

/-! ## Swapchain recreation never frees a command buffer -/

theorem keeps_createImageView {σ : Type} {R : σ → σ → Prop} (hR : Chainable R)
    (response : VkResult × Nat) (image format aspectFlags : Nat) :
    Within R Call.keepsCommandBuffers (createImageView response image format aspectFlags : Exec σ Nat) := by
  unfold createImageView
  repeat' first
    | exact within_pure hR _
    | exact within_fail hR _
    | exact within_call hR _ rfl
    | apply within_bind hR
    | split
    | intro _

theorem keeps_findSupportedFormat {σ : Type} {R : σ → σ → Prop} (hR : Chainable R)
    (env : CreationEnv) (tiling features : Nat) (candidates : List Nat) :
    Within R Call.keepsCommandBuffers (findSupportedFormat env tiling features candidates : Exec σ Nat) := by
  induction candidates with
  | nil => exact within_fail hR _
  | cons format rest ih =>
    unfold findSupportedFormat
    split
    · exact within_pure hR _
    · split
      · exact within_pure hR _
      · exact ih

theorem keeps_createShaderModule {σ : Type} {R : σ → σ → Prop} (hR : Chainable R)
    (response : VkResult × Nat) :
    Within R Call.keepsCommandBuffers (createShaderModule response : Exec σ Nat) := by
  unfold createShaderModule
  repeat' first
    | exact within_pure hR _
    | exact within_fail hR _
    | exact within_call hR _ rfl
    | apply within_bind hR
    | split
    | intro _

theorem keeps_readFile {σ : Type} {R : σ → σ → Prop} (hR : Chainable R) (opened : Bool) :
    Within R Call.keepsCommandBuffers (readFile opened : Exec σ Unit) := by
  unfold readFile
  split
  · exact within_pure hR _
  · exact within_fail hR _

theorem keeps_createImage {σ : Type} {R : σ → σ → Prop} (hR : Chainable R)
    (memProperties : VkPhysicalDeviceMemoryProperties) (env : AllocationEnv)
    (width height format tiling usage properties : Nat) :
    Within R Call.keepsCommandBuffers (createImage memProperties env width height format tiling usage
      properties : Exec σ (Nat × Nat)) := by
  unfold createImage
  repeat' first
    | exact within_pure hR _
    | exact within_fail hR _
    | exact within_liftExcept hR _
    | exact within_call hR _ rfl
    | apply within_bind hR
    | split
    | intro _

theorem keeps_createBuffer {σ : Type} {R : σ → σ → Prop} (hR : Chainable R)
    (memProperties : VkPhysicalDeviceMemoryProperties) (env : AllocationEnv)
    (size usage properties : Nat) :
    Within R Call.keepsCommandBuffers (createBuffer memProperties env size usage properties :
      Exec σ (Nat × Nat)) := by
  unfold createBuffer
  repeat' first
    | exact within_pure hR _
    | exact within_fail hR _
    | exact within_liftExcept hR _
    | exact within_call hR _ rfl
    | apply within_bind hR
    | split
    | intro _

theorem keeps_createSwapChain (env : CreationEnv) (ctx : StaticHandles) :
    Within (fun _ _ => True) Call.keepsCommandBuffers (createSwapChain env ctx) := by
  have hR : Chainable (fun (_ _ : SwapChainObjects) => True) := chainable_true
  unfold createSwapChain
  repeat' first
    | exact within_pure hR _
    | exact within_fail hR _
    | exact within_getState hR
    | exact within_index hR _ _ _
    | exact keeps_createImageView hR _ _ _ _
    | exact keeps_findSupportedFormat hR _ _ _ _
    | exact keeps_createShaderModule hR _
    | exact keeps_readFile hR _
    | exact keeps_createImage hR _ _ _ _ _ _ _ _
    | exact keeps_createBuffer hR _ _ _ _ _
    | exact within_call hR _ rfl
    | exact within_modifyState _ (fun _ => trivial)
    | apply within_forRange hR
    | apply within_bind hR
    | split
    | intro _

theorem keeps_createImageViews (env : CreationEnv) :
    Within (fun _ _ => True) Call.keepsCommandBuffers (createImageViews env) := by
  have hR : Chainable (fun (_ _ : SwapChainObjects) => True) := chainable_true
  unfold createImageViews
  repeat' first
    | exact within_pure hR _
    | exact within_fail hR _
    | exact within_getState hR
    | exact within_index hR _ _ _
    | exact keeps_createImageView hR _ _ _ _
    | exact keeps_findSupportedFormat hR _ _ _ _
    | exact keeps_createShaderModule hR _
    | exact keeps_readFile hR _
    | exact keeps_createImage hR _ _ _ _ _ _ _ _
    | exact keeps_createBuffer hR _ _ _ _ _
    | exact within_call hR _ rfl
    | exact within_modifyState _ (fun _ => trivial)
    | apply within_forRange hR
    | apply within_bind hR
    | split
    | intro _

theorem keeps_createRenderPass (env : CreationEnv) :
    Within (fun _ _ => True) Call.keepsCommandBuffers (createRenderPass env) := by
  have hR : Chainable (fun (_ _ : SwapChainObjects) => True) := chainable_true
  unfold createRenderPass findDepthFormat
  repeat' first
    | exact within_pure hR _
    | exact within_fail hR _
    | exact within_getState hR
    | exact within_index hR _ _ _
    | exact keeps_createImageView hR _ _ _ _
    | exact keeps_findSupportedFormat hR _ _ _ _
    | exact keeps_createShaderModule hR _
    | exact keeps_readFile hR _
    | exact keeps_createImage hR _ _ _ _ _ _ _ _
    | exact keeps_createBuffer hR _ _ _ _ _
    | exact within_call hR _ rfl
    | exact within_modifyState _ (fun _ => trivial)
    | apply within_forRange hR
    | apply within_bind hR
    | split
    | intro _

theorem keeps_createGraphicsPipeline (env : CreationEnv) :
    Within (fun _ _ => True) Call.keepsCommandBuffers (createGraphicsPipeline env) := by
  have hR : Chainable (fun (_ _ : SwapChainObjects) => True) := chainable_true
  unfold createGraphicsPipeline
  repeat' first
    | exact within_pure hR _
    | exact within_fail hR _
    | exact within_getState hR
    | exact within_index hR _ _ _
    | exact keeps_createImageView hR _ _ _ _
    | exact keeps_findSupportedFormat hR _ _ _ _
    | exact keeps_createShaderModule hR _
    | exact keeps_readFile hR _
    | exact keeps_createImage hR _ _ _ _ _ _ _ _
    | exact keeps_createBuffer hR _ _ _ _ _
    | exact within_call hR _ rfl
    | exact within_modifyState _ (fun _ => trivial)
    | apply within_forRange hR
    | apply within_bind hR
    | split
    | intro _

theorem keeps_createDepthResources (env : CreationEnv) :
    Within (fun _ _ => True) Call.keepsCommandBuffers (createDepthResources env) := by
  have hR : Chainable (fun (_ _ : SwapChainObjects) => True) := chainable_true
  unfold createDepthResources findDepthFormat
  repeat' first
    | exact within_pure hR _
    | exact within_fail hR _
    | exact within_getState hR
    | exact within_index hR _ _ _
    | exact keeps_createImageView hR _ _ _ _
    | exact keeps_findSupportedFormat hR _ _ _ _
    | exact keeps_createShaderModule hR _
    | exact keeps_readFile hR _
    | exact keeps_createImage hR _ _ _ _ _ _ _ _
    | exact keeps_createBuffer hR _ _ _ _ _
    | exact within_call hR _ rfl
    | exact within_modifyState _ (fun _ => trivial)
    | apply within_forRange hR
    | apply within_bind hR
    | split
    | intro _

theorem keeps_createFramebuffers (env : CreationEnv) :
    Within (fun _ _ => True) Call.keepsCommandBuffers (createFramebuffers env) := by
  have hR : Chainable (fun (_ _ : SwapChainObjects) => True) := chainable_true
  unfold createFramebuffers
  repeat' first
    | exact within_pure hR _
    | exact within_fail hR _
    | exact within_getState hR
    | exact within_index hR _ _ _
    | exact keeps_createImageView hR _ _ _ _
    | exact keeps_findSupportedFormat hR _ _ _ _
    | exact keeps_createShaderModule hR _
    | exact keeps_readFile hR _
    | exact keeps_createImage hR _ _ _ _ _ _ _ _
    | exact keeps_createBuffer hR _ _ _ _ _
    | exact within_call hR _ rfl
    | exact within_modifyState _ (fun _ => trivial)
    | apply within_forRange hR
    | apply within_bind hR
    | split
    | intro _

theorem keeps_createUniformBuffers (env : CreationEnv) :
    Within (fun _ _ => True) Call.keepsCommandBuffers (createUniformBuffers env) := by
  have hR : Chainable (fun (_ _ : SwapChainObjects) => True) := chainable_true
  unfold createUniformBuffers
  repeat' first
    | exact within_pure hR _
    | exact within_fail hR _
    | exact within_getState hR
    | exact within_index hR _ _ _
    | exact keeps_createImageView hR _ _ _ _
    | exact keeps_findSupportedFormat hR _ _ _ _
    | exact keeps_createShaderModule hR _
    | exact keeps_readFile hR _
    | exact keeps_createImage hR _ _ _ _ _ _ _ _
    | exact keeps_createBuffer hR _ _ _ _ _
    | exact within_call hR _ rfl
    | exact within_modifyState _ (fun _ => trivial)
    | apply within_forRange hR
    | apply within_bind hR
    | split
    | intro _

theorem keeps_createDescriptorPool (env : CreationEnv) :
    Within (fun _ _ => True) Call.keepsCommandBuffers (createDescriptorPool env) := by
  have hR : Chainable (fun (_ _ : SwapChainObjects) => True) := chainable_true
  unfold createDescriptorPool
  repeat' first
    | exact within_pure hR _
    | exact within_fail hR _
    | exact within_getState hR
    | exact within_index hR _ _ _
    | exact keeps_createImageView hR _ _ _ _
    | exact keeps_findSupportedFormat hR _ _ _ _
    | exact keeps_createShaderModule hR _
    | exact keeps_readFile hR _
    | exact keeps_createImage hR _ _ _ _ _ _ _ _
    | exact keeps_createBuffer hR _ _ _ _ _
    | exact within_call hR _ rfl
    | exact within_modifyState _ (fun _ => trivial)
    | apply within_forRange hR
    | apply within_bind hR
    | split
    | intro _

theorem keeps_createDescriptorSets (env : CreationEnv) (ctx : StaticHandles) :
    Within (fun _ _ => True) Call.keepsCommandBuffers (createDescriptorSets env ctx) := by
  have hR : Chainable (fun (_ _ : SwapChainObjects) => True) := chainable_true
  unfold createDescriptorSets
  repeat' first
    | exact within_pure hR _
    | exact within_fail hR _
    | exact within_getState hR
    | exact within_index hR _ _ _
    | exact keeps_createImageView hR _ _ _ _
    | exact keeps_findSupportedFormat hR _ _ _ _
    | exact keeps_createShaderModule hR _
    | exact keeps_readFile hR _
    | exact keeps_createImage hR _ _ _ _ _ _ _ _
    | exact keeps_createBuffer hR _ _ _ _ _
    | exact within_call hR _ rfl
    | exact within_modifyState _ (fun _ => trivial)
    | apply within_forRange hR
    | apply within_bind hR
    | split
    | intro _

theorem keeps_createCommandBuffers (env : CreationEnv) (ctx : StaticHandles) :
    Within (fun _ _ => True) Call.keepsCommandBuffers (createCommandBuffers env ctx) := by
  have hR : Chainable (fun (_ _ : SwapChainObjects) => True) := chainable_true
  unfold createCommandBuffers
  repeat' first
    | exact within_pure hR _
    | exact within_fail hR _
    | exact within_getState hR
    | exact within_index hR _ _ _
    | exact keeps_createImageView hR _ _ _ _
    | exact keeps_findSupportedFormat hR _ _ _ _
    | exact keeps_createShaderModule hR _
    | exact keeps_readFile hR _
    | exact keeps_createImage hR _ _ _ _ _ _ _ _
    | exact keeps_createBuffer hR _ _ _ _ _
    | exact within_call hR _ rfl
    | exact within_modifyState _ (fun _ => trivial)
    | apply within_forRange hR
    | apply within_bind hR
    | split
    | intro _

theorem keeps_recreationPass (env : CreationEnv) (ctx : StaticHandles) :
    Within (fun _ _ => True) Call.keepsCommandBuffers (recreationPass env ctx) := by
  have hR : Chainable (fun (_ _ : SwapChainObjects) => True) := chainable_true
  unfold recreationPass
  repeat' first
    | exact keeps_createSwapChain env ctx
    | exact keeps_createImageViews env
    | exact keeps_createRenderPass env
    | exact keeps_createGraphicsPipeline env
    | exact keeps_createDepthResources env
    | exact keeps_createFramebuffers env
    | exact keeps_createUniformBuffers env
    | exact keeps_createDescriptorPool env
    | exact keeps_createDescriptorSets env ctx
    | exact keeps_createCommandBuffers env ctx
    | apply within_bind hR
    | intro _

theorem keeps_cleanupSwapChain {R : App → App → Prop} (hR : Chainable R) :
    Within R Call.keepsCommandBuffers cleanupSwapChain := by
  unfold cleanupSwapChain
  repeat' first
    | exact within_pure hR _
    | exact within_getState hR
    | exact within_index hR _ _ _
    | exact within_call hR _ rfl
    | apply within_forRange hR
    | apply within_bind hR
    | intro _

theorem keeps_waitWhileMinimized :
    ∀ (polls : List Poll) (size : Int × Int),
      Within (fun _ _ => True) Call.keepsCommandBuffers (waitWhileMinimized size polls) := by
  have hR : Chainable (fun (_ _ : App) => True) := chainable_true
  intro polls
  induction polls with
  | nil =>
    intro size
    unfold waitWhileMinimized
    split
    · exact within_fail hR _
    · exact within_pure hR _
  | cons poll rest ih =>
    intro size
    unfold waitWhileMinimized
    split
    · refine within_bind hR (within_call hR _ rfl) (fun _ => ?_)
      refine within_bind hR (within_call hR _ rfl) (fun _ => ?_)
      refine within_bind hR ?_ (fun _ => ih poll.size)
      unfold dispatchResize
      split
      · exact within_modifyState _ (fun _ => trivial)
      · exact within_pure hR _
    · exact within_pure hR _

theorem keeps_recreateSwapChain (env : RecreateEnv) :
    Within (fun _ _ => True) Call.keepsCommandBuffers (recreateSwapChain env) := by
  have hR : Chainable (fun (_ _ : App) => True) := chainable_true
  unfold recreateSwapChain
  refine within_bind hR (within_call hR _ rfl) (fun _ => ?_)
  refine within_bind hR (within_call hR _ rfl) (fun _ => ?_)
  refine within_bind hR (keeps_waitWhileMinimized _ _) (fun _ => ?_)
  refine within_bind hR (within_call hR _ rfl) (fun _ => ?_)
  refine within_bind hR (keeps_cleanupSwapChain hR) (fun _ => ?_)
  refine within_bind hR (within_getState hR) (fun s => ?_)
  exact within_liftObjects (fun _ _ => trivial) _ (keeps_recreationPass _ _)

/-- C16, the code evaluated: for every environment and state, `recreateSwapChain` makes no
`vkFreeCommandBuffers` call, so the command buffers of the earlier creation pass are never
freed. On the sample state, whose three command buffers are 121, 122 and 123, a first
recreation returns normally having allocated 390, 391 and 392, after which six command
buffers are alive; a second recreation directly after it returns normally having allocated
490, 491 and 492, after which nine are alive, while the object holds three. -/
theorem recreateSwapChain_leaks_commandBuffers :
    (∀ (env : RecreateEnv) (s : App), ∀ c ∈ ((recreateSwapChain env).run s).trace,
      c.isFreeCommandBuffers = false) ∧
    ((recreateSwapChain sampleRecreate).run sampleApp).returned = true ∧
    Call.vkAllocateCommandBuffers 5 VK_COMMAND_BUFFER_LEVEL_PRIMARY 3 [390, 391, 392] ∈
      ((recreateSwapChain sampleRecreate).run sampleApp).trace ∧
    liveCommandBuffers sampleApp.commandBuffers
      ((recreateSwapChain sampleRecreate).run sampleApp).trace =
      [121, 122, 123, 390, 391, 392] ∧
    ((recreateSwapChain sampleRecreate).run sampleApp).state.commandBuffers =
      [390, 391, 392] ∧
    ((recreateSwapChain secondRecreate).run
      ((recreateSwapChain sampleRecreate).run sampleApp).state).returned = true ∧
    liveCommandBuffers sampleApp.commandBuffers
      (((recreateSwapChain sampleRecreate).run sampleApp).trace ++
        ((recreateSwapChain secondRecreate).run
          ((recreateSwapChain sampleRecreate).run sampleApp).state).trace) =
      [121, 122, 123, 390, 391, 392, 490, 491, 492] ∧
    ((recreateSwapChain secondRecreate).run
      ((recreateSwapChain sampleRecreate).run sampleApp).state).state.commandBuffers =
      [490, 491, 492] :=
  ⟨fun env s => ((keeps_recreateSwapChain env).holds s).2, rfl, by decide, by decide, rfl, rfl,
    by decide, rfl⟩

/-! ## The step relation keeps fences and submissions in step -/

theorem pending_eq_of_fence {pending : List (Nat × Nat)}
    (hnodup : (pending.map Prod.fst).Nodup) {p q : Nat × Nat}
    (hp : p ∈ pending) (hq : q ∈ pending) (hfence : p.1 = q.1) : p = q :=
  List.inj_on_of_nodup_map hnodup hp hq hfence

theorem execute_inert (accepted : Bool) (image : Nat) (gpu gpu' : Gpu) (c : Call)
    (hinert : c.isInert = true) (h : gpu.execute accepted image c = some gpu') :
    gpu' = gpu := by
  cases c
  case vkQueueSubmit => cases hinert
  case vkResetFences => cases hinert
  case vkWaitForFences fences =>
    simp only [Gpu.execute] at h
    split at h
    · exact (Option.some.inj h).symm
    · cases h
  case vkDeviceWaitIdle =>
    simp only [Gpu.execute] at h
    split at h
    · exact (Option.some.inj h).symm
    · cases h
  case vkQueueWaitIdle queue =>
    simp only [Gpu.execute] at h
    split at h
    · exact (Option.some.inj h).symm
    · cases h
  all_goals exact (Option.some.inj h).symm

theorem execute_hostWrite (accepted : Bool) (image : Nat) (gpu gpu' : Gpu) (c : Call)
    (hwrite : c.isHostWrite = true) (h : gpu.execute accepted image c = some gpu') :
    gpu' = gpu := by
  cases c
  case vkMapMemory => exact (Option.some.inj h).symm
  case memcpy => exact (Option.some.inj h).symm
  case vkUnmapMemory => exact (Option.some.inj h).symm
  all_goals cases hwrite

theorem execute_wait (accepted : Bool) (image : Nat) (gpu gpu' : Gpu) (fence : Nat)
    (h : gpu.execute accepted image (.vkWaitForFences [fence]) = some gpu') :
    gpu' = gpu ∧ fence ∈ gpu.signaled := by
  simp only [Gpu.execute] at h
  split at h
  · rename_i hall
    refine ⟨(Option.some.inj h).symm, ?_⟩
    simpa using hall
  · cases h

/-- The device state changes only by losing pending submissions and by signaling fences
that were pending. -/
theorem phase_of_shrink (m m' : Machine) (happ : m'.app = m.app) (htodo : m'.todo = m.todo)
    (himage : m'.image = m.image)
    (hpending : ∀ p ∈ m'.gpu.pending, p ∈ m.gpu.pending)
    (hsignaled : ∀ fence ∈ m'.gpu.signaled,
      fence ∈ m.gpu.signaled ∨ fence ∈ m.gpu.pending.map Prod.fst)
    (h : Phase m) : Phase m' := by
  have htracked : Tracked m → Tracked m' := by
    intro ht hnull p hp
    rw [happ] at hnull ⊢
    exact ht hnull p (hpending p hp)
  have hbut : ∀ g, TrackedBut m g → TrackedBut m' g := by
    intro g ht hnull p hp
    rw [happ] at hnull
    rw [happ, himage]
    exact ht hnull p (hpending p hp)
  have hfree : ImageFree m → ImageFree m' := by
    intro ht hnull p hp
    rw [happ] at hnull
    rw [himage]
    exact ht hnull p (hpending p hp)
  have hslot : ∀ f, SlotFree m f → SlotFree m' f := by
    intro f hf hmem
    obtain ⟨p, hp, hpf⟩ := List.mem_map.1 hmem
    exact hf (List.mem_map.2 ⟨p, hpending p hp, hpf⟩)
  cases h with
  | idle h1 h2 => exact Phase.idle (by rw [htodo]; exact h1) (htracked h2)
  | atSlotWait f g sc sem writes rest h1 h2 h3 h4 h5 h6 =>
    exact Phase.atSlotWait f g sc sem writes rest (by rw [htodo]; exact h1)
      (by rw [happ]; exact h2) (by rw [happ, himage]; exact h3) h4 h5 (hbut g h6)
  | atAcquire f g sc sem writes rest h1 h2 h3 h4 h5 h6 h7 =>
    exact Phase.atAcquire f g sc sem writes rest (by rw [htodo]; exact h1)
      (by rw [happ]; exact h2) (by rw [happ, himage]; exact h3) h4 h5 (hbut g h6)
      (hslot f h7)
  | atImageWait f g writes rest h1 h2 h3 h4 h5 h6 h7 =>
    exact Phase.atImageWait f g writes rest (by rw [htodo]; exact h1)
      (by rw [happ]; exact h2) (by rw [happ, himage]; exact h3) h4 h5 (hbut g h6)
      (hslot f h7)
  | atWrites f writes rest h1 h2 h3 h4 h5 h6 h7 h8 =>
    exact Phase.atWrites f writes rest (by rw [htodo]; exact h1)
      (by rw [happ]; exact h2) (by rw [happ, himage]; exact h3) h4 h5 (htracked h6)
      (hfree h7) (hslot f h8)
  | atSubmit f submit rest h1 h2 h3 h4 h5 h6 h7 h8 h9 =>
    refine Phase.atSubmit f submit rest (by rw [htodo]; exact h1)
      (by rw [happ]; exact h2) (by rw [happ, himage]; exact h3) h4 h5 (htracked h6)
      (hfree h7) (hslot f h8) ?_
    intro hmem
    rcases hsignaled f hmem with h | h
    · exact h9 h
    · exact h8 h

theorem step_complete (m m' : Machine) (fence image : Nat)
    (hown : FencesOwned m) (hphase : Phase m)
    (hstep : m.step (.complete fence image) = some m') : FencesOwned m' ∧ Phase m' := by
  simp only [Machine.step] at hstep
  split at hstep
  · rename_i hmem
    have hm' := (Option.some.inj hstep).symm
    subst hm'
    have hsub : ∀ p ∈ m.gpu.pending.erase (fence, image), p ∈ m.gpu.pending :=
      fun p hp => List.mem_of_mem_erase hp
    refine ⟨⟨?_, ?_, ?_, hown.slots⟩, ?_⟩
    · exact List.Nodup.sublist (List.Sublist.map _ (List.erase_sublist _ _)) hown.nodup
    · intro p hp
      exact hown.known p (hsub p hp)
    · intro p hp hsig
      have hnodupPairs : m.gpu.pending.Nodup := List.Nodup.of_map _ hown.nodup
      have hne : p ≠ (fence, image) := fun h => by
        rw [h] at hp
        exact (List.Nodup.not_mem_erase hnodupPairs) hp
      rcases List.mem_cons.1 hsig with h | h
      · exact hne (pending_eq_of_fence hown.nodup (hsub p hp) hmem h)
      · exact hown.unsignaled p (hsub p hp) h
    · refine phase_of_shrink m _ rfl rfl rfl hsub ?_ hphase
      intro f hf
      rcases List.mem_cons.1 hf with h | h
      · right
        rw [h]
        exact List.mem_map.2 ⟨(fence, image), hmem, rfl⟩
      · exact Or.inl h
  · cases hstep

theorem step_pollEvents (m m' : Machine) (size : Int × Int)
    (hown : FencesOwned m) (hphase : Phase m)
    (hstep : m.step (.pollEvents size) = some m') : FencesOwned m' ∧ Phase m' := by
  simp only [Machine.step] at hstep
  split at hstep
  · have hm' := (Option.some.inj hstep).symm
    subst hm'
    refine ⟨⟨hown.nodup, hown.known, hown.unsignaled, hown.slots⟩, ?_⟩
    cases hphase with
    | idle h1 h2 => exact Phase.idle h1 h2
    | atSlotWait f g sc sem writes rest h1 h2 h3 h4 h5 h6 =>
      exact Phase.atSlotWait f g sc sem writes rest h1 h2 h3 h4 h5 h6
    | atAcquire f g sc sem writes rest h1 h2 h3 h4 h5 h6 h7 =>
      exact Phase.atAcquire f g sc sem writes rest h1 h2 h3 h4 h5 h6 h7
    | atImageWait f g writes rest h1 h2 h3 h4 h5 h6 h7 =>
      exact Phase.atImageWait f g writes rest h1 h2 h3 h4 h5 h6 h7
    | atWrites f writes rest h1 h2 h3 h4 h5 h6 h7 h8 =>
      exact Phase.atWrites f writes rest h1 h2 h3 h4 h5 h6 h7 h8
    | atSubmit f submit rest h1 h2 h3 h4 h5 h6 h7 h8 h9 =>
      exact Phase.atSubmit f submit rest h1 h2 h3 h4 h5 h6 h7 h8 h9
  · cases hstep

theorem step_call_eq (m m' : Machine) (hstep : m.step .call = some m') :
    ∃ c rest gpu, m.todo = c :: rest ∧ m.gpu.execute m.accepted m.image c = some gpu ∧
      m' = { m with gpu := gpu, todo := rest } := by
  simp only [Machine.step] at hstep
  cases htodo : m.todo with
  | nil => rw [htodo] at hstep; cases hstep
  | cons c rest =>
    rw [htodo] at hstep
    dsimp only at hstep
    cases hexec : m.gpu.execute m.accepted m.image c with
    | none => rw [hexec] at hstep; cases hstep
    | some gpu =>
      rw [hexec] at hstep
      exact ⟨c, rest, gpu, rfl, hexec, (Option.some.inj hstep).symm⟩

/-- With non-null fence handles, a table entry `VK_NULL_HANDLE` for the frame's image means
no pending submission targets it. -/
theorem imageFree_of_trackedBut (m : Machine) (hown : FencesOwned m) (imageFence : Nat)
    (hbut : TrackedBut m imageFence)
    (hclear : imageFence = VK_NULL_HANDLE ∨ imageFence ∈ m.gpu.signaled) :
    ImageFree m ∧ Tracked m := by
  have hfree : ImageFree m := by
    intro hnull p hp himage
    have hfence := (hbut hnull p hp).2 himage
    rcases hclear with h | h
    · apply hnull
      rw [← h, ← hfence]
      exact hown.known p hp
    · apply hown.unsignaled p hp
      rw [hfence]
      exact h
  refine ⟨hfree, ?_⟩
  intro hnull p hp
  exact (hbut hnull p hp).1 (hfree hnull p hp)

theorem step_call_writes (m m' : Machine) (slotFence : Nat) (writes rest : List Call)
    (c : Call) (todo : List Call) (gpu : Gpu)
    (hown : FencesOwned m)
    (h1 : c :: todo = writes ++ rest)
    (h2 : slotFence ∈ m.app.inFlightFences)
    (h3 : m.app.imagesInFlight[m.image]? = some slotFence)
    (h4 : ∀ c ∈ writes, c.isHostWrite = true) (h5 : FrameEnd slotFence rest)
    (h6 : Tracked m) (h7 : ImageFree m) (h8 : SlotFree m slotFence)
    (hexec : m.gpu.execute m.accepted m.image c = some gpu)
    (hm' : m' = { m with gpu := gpu, todo := todo }) : FencesOwned m' ∧ Phase m' := by
  subst hm'
  cases writes with
  | cons w ws =>
    injection h1 with hc htodo
    have hgpu := execute_hostWrite _ _ _ _ c (by rw [hc]; exact h4 w (List.mem_cons_self _ _))
      hexec
    subst hgpu
    exact ⟨⟨hown.nodup, hown.known, hown.unsignaled, hown.slots⟩,
      Phase.atWrites slotFence ws rest htodo h2 h3
        (fun c hc => h4 c (List.mem_cons_of_mem _ hc)) h5 h6 h7 h8⟩
  | nil =>
    rcases h5 with hrest | ⟨submit, tail, hrest, hsubmit, hinert⟩
    · rw [hrest] at h1
      cases h1
    · rw [hrest] at h1
      injection h1 with hc htodo
      rw [hc] at hexec
      have hgpu : gpu = { m.gpu with
          signaled := m.gpu.signaled.filter (fun fence => !([slotFence].contains fence)) } :=
        (Option.some.inj hexec).symm
      subst hgpu
      refine ⟨⟨hown.nodup, hown.known, ?_, hown.slots⟩, ?_⟩
      · intro p hp hsig
        exact hown.unsignaled p hp (List.mem_filter.1 hsig).1
      · refine Phase.atSubmit slotFence submit tail htodo h2 h3 hsubmit hinert h6 h7 h8 ?_
        intro hsig
        have := (List.mem_filter.1 hsig).2
        simp at this

theorem step_call (m m' : Machine) (hown : FencesOwned m) (hphase : Phase m)
    (hstep : m.step .call = some m') : FencesOwned m' ∧ Phase m' := by
  obtain ⟨c, todo, gpu, htodo, hexec, hm'⟩ := step_call_eq m m' hstep
  cases hphase with
  | idle h1 h2 =>
    subst hm'
    rw [htodo] at h1
    have hgpu := execute_inert _ _ _ _ c (h1 c (List.mem_cons_self _ _)) hexec
    subst hgpu
    exact ⟨⟨hown.nodup, hown.known, hown.unsignaled, hown.slots⟩,
      Phase.idle (fun c hc => h1 c (List.mem_cons_of_mem _ hc)) h2⟩
  | atSlotWait f g sc sem writes rest h1 h2 h3 h4 h5 h6 =>
    subst hm'
    rw [htodo] at h1
    injection h1 with hc hrest
    rw [hc] at hexec
    obtain ⟨hgpu, hsig⟩ := execute_wait _ _ _ _ f hexec
    subst hgpu
    refine ⟨⟨hown.nodup, hown.known, hown.unsignaled, hown.slots⟩,
      Phase.atAcquire f g sc sem writes rest hrest h2 h3 h4 h5 h6 ?_⟩
    intro hmem
    obtain ⟨p, hp, hpf⟩ := List.mem_map.1 hmem
    apply hown.unsignaled p hp
    rw [hpf]
    exact hsig
  | atAcquire f g sc sem writes rest h1 h2 h3 h4 h5 h6 h7 =>
    subst hm'
    rw [htodo] at h1
    injection h1 with hc hrest
    rw [hc] at hexec
    have hgpu : gpu = m.gpu := (Option.some.inj hexec).symm
    subst hgpu
    exact ⟨⟨hown.nodup, hown.known, hown.unsignaled, hown.slots⟩,
      Phase.atImageWait f g writes rest hrest h2 h3 h4 h5 h6 h7⟩
  | atImageWait f g writes rest h1 h2 h3 h4 h5 h6 h7 =>
    rw [htodo] at h1
    by_cases hnull : g ≠ VK_NULL_HANDLE
    · unfold imageWait at h1
      rw [if_pos hnull] at h1
      injection h1 with hc hrest
      rw [hc] at hexec
      obtain ⟨hgpu, hsig⟩ := execute_wait _ _ _ _ g hexec
      subst hgpu
      subst hm'
      obtain ⟨hfree, htracked⟩ := imageFree_of_trackedBut m hown g h6 (Or.inr hsig)
      exact ⟨⟨hown.nodup, hown.known, hown.unsignaled, hown.slots⟩,
        Phase.atWrites f writes rest hrest h2 h3 h4 h5 htracked hfree h7⟩
    · unfold imageWait at h1
      rw [if_neg hnull] at h1
      obtain ⟨hfree, htracked⟩ :=
        imageFree_of_trackedBut m hown g h6 (Or.inl (not_not.1 hnull))
      exact step_call_writes m m' f writes rest c todo gpu hown h1 h2 h3 h4 h5 htracked hfree
        h7 hexec hm'
  | atWrites f writes rest h1 h2 h3 h4 h5 h6 h7 h8 =>
    rw [htodo] at h1
    exact step_call_writes m m' f writes rest c todo gpu hown h1 h2 h3 h4 h5 h6 h7 h8 hexec
      hm'
  | atSubmit f submit rest h1 h2 h3 h4 h5 h6 h7 h8 h9 =>
    subst hm'
    rw [htodo] at h1
    injection h1 with hc hrest
    rw [hc] at hexec
    cases submit
    case vkQueueSubmit queue waitSemaphores waitDstStageMask commandBuffers signalSemaphores
        fence =>
      have hfence : fence = f := Option.some.inj h4
      subst hfence
      simp only [Gpu.execute] at hexec
      split at hexec
      · have hgpu := (Option.some.inj hexec).symm
        subst hgpu
        refine ⟨⟨?_, ?_, ?_, hown.slots⟩, ?_⟩
        · show ((m.gpu.pending ++ [(fence, m.image)]).map Prod.fst).Nodup
          rw [List.map_append]
          refine List.Nodup.append hown.nodup (List.nodup_singleton _) ?_
          intro x hx hx'
          have hxf : x = fence := by simpa using hx'
          exact h8 (hxf ▸ hx)
        · intro p hp
          rcases List.mem_append.1 hp with h | h
          · exact hown.known p h
          · have hpe : p = (fence, m.image) := by simpa using h
            rw [hpe]
            exact h2
        · intro p hp
          rcases List.mem_append.1 hp with h | h
          · exact hown.unsignaled p h
          · have hpe : p = (fence, m.image) := by simpa using h
            rw [hpe]
            exact h9
        · refine Phase.idle (fun c hc => h5 c (hrest ▸ hc)) ?_
          intro hnullHandle p hp
          rcases List.mem_append.1 hp with h | h
          · exact h6 hnullHandle p h
          · have hpe : p = (fence, m.image) := by simpa using h
            rw [hpe]
            exact h3
      · have hgpu := (Option.some.inj hexec).symm
        subst hgpu
        exact ⟨⟨hown.nodup, hown.known, hown.unsignaled, hown.slots⟩,
          Phase.idle (fun c hc => h5 c (hrest ▸ hc)) h6⟩
    all_goals cases h4

/-! ## The shape of a frame's trace -/

theorem isInert_of_quiet (c : Call) (h : c.isQuiet) : c.isInert = true := by
  unfold Call.isInert
  rw [h.1, h.2.2.1, h.2.2.2.1]
  rfl

theorem recreateSwapChain_inert (env : RecreateEnv) (s : App) :
    ∀ c ∈ ((recreateSwapChain env).run s).trace, c.isInert = true := by
  obtain ⟨⟨rest, htrace, hquiet⟩, -, -⟩ := recreateSwapChain_run env s
  rw [htrace]
  intro c hc
  rcases List.mem_cons.1 hc with h | h
  · rw [h]; rfl
  · exact isInert_of_quiet c (hquiet c h)

theorem presentOutcome_inert (env : DrawFrameEnv) (s : App) :
    ∀ c ∈ (presentOutcome env s).trace, c.isInert = true := by
  unfold presentOutcome
  split
  · split
    · exact recreateSwapChain_inert env.recreate _
    · exact recreateSwapChain_inert env.recreate _
  · split
    · intro c hc; cases hc
    · intro c hc; cases hc

theorem submitOutcome_frameEnd (env : DrawFrameEnv) (s : App)
    (slotFence imageAvailable : Nat) :
    FrameEnd slotFence (submitOutcome env s slotFence imageAvailable).trace := by
  unfold submitOutcome
  split
  · exact Or.inl rfl
  · split
    · exact Or.inl rfl
    · right
      rw [prepend_trace]
      refine ⟨_, _, rfl, rfl, ?_⟩
      split
      · intro c hc; cases hc
      · rw [prepend_trace]
        intro c hc
        rcases List.mem_cons.1 hc with h | h
        · rw [h]; rfl
        · exact presentOutcome_inert env s c h

theorem uniformOutcome_shape (env : DrawFrameEnv) (s : App)
    (slotFence imageAvailable : Nat) :
    ∃ writes rest, (uniformOutcome env s slotFence imageAvailable).trace = writes ++ rest ∧
      (∀ c ∈ writes, c.isHostWrite = true) ∧ FrameEnd slotFence rest := by
  unfold uniformOutcome
  split
  · exact ⟨[], [], rfl, (fun c hc => by cases hc), Or.inl rfl⟩
  · rename_i uniformMemory _
    rw [prepend_trace]
    split
    · refine ⟨[.vkMapMemory uniformMemory, .memcpy uniformMemory,
        .vkUnmapMemory uniformMemory], [], rfl, ?_, Or.inl rfl⟩
      intro c hc
      simp only [List.mem_cons, List.mem_singleton] at hc
      rcases hc with rfl | rfl | rfl | hc
      · rfl
      · rfl
      · rfl
      · cases hc
    · rename_i lightingMemory _
      rw [prepend_trace]
      refine ⟨[.vkMapMemory uniformMemory, .memcpy uniformMemory,
        .vkUnmapMemory uniformMemory, .vkMapMemory lightingMemory, .memcpy lightingMemory,
        .vkUnmapMemory lightingMemory],
        (submitOutcome env s slotFence imageAvailable).trace, rfl, ?_,
        submitOutcome_frameEnd env s slotFence imageAvailable⟩
      intro c hc
      simp only [List.mem_cons, List.mem_singleton] at hc
      rcases hc with rfl | rfl | rfl | rfl | rfl | rfl | hc
      · rfl
      · rfl
      · rfl
      · rfl
      · rfl
      · rfl
      · cases hc

/-- A frame either makes inert calls only and leaves the image-in-flight table alone, or
took the main path: wait on the slot fence, acquisition, wait on the table's fence for the
image if there is one, host writes, and the end of the frame from the fence reset on, with
the table updated for the image. The in-flight fences are the same afterwards. -/
theorem drawFrame_shape (env : DrawFrameEnv) (s : App) :
    ((drawFrame env).run s).state.inFlightFences = s.inFlightFences ∧
    (((∀ c ∈ ((drawFrame env).run s).trace, c.isInert = true) ∧
        ((drawFrame env).run s).state.imagesInFlight = s.imagesInFlight) ∨
      ∃ slotFence imageFence semaphore writes rest,
        s.inFlightFences[s.currentFrame]? = some slotFence ∧
        s.imagesInFlight[env.imageIndex]? = some imageFence ∧
        ((drawFrame env).run s).state.imagesInFlight =
          s.imagesInFlight.set env.imageIndex slotFence ∧
        ((drawFrame env).run s).trace =
          .vkWaitForFences [slotFence] ::
            .vkAcquireNextImageKHR s.swapChain semaphore VK_NULL_HANDLE ::
            (imageWait imageFence ++ (writes ++ rest)) ∧
        (∀ c ∈ writes, c.isHostWrite = true) ∧ FrameEnd slotFence rest) := by
  refine ⟨((within_drawFrame_slots env).holds s).1.2.2.1, ?_⟩
  rw [drawFrame_run_eq]
  unfold drawFrameRun
  cases hfence : s.inFlightFences[s.currentFrame]? with
  | none => exact Or.inl ⟨(fun c hc => by cases hc), rfl⟩
  | some slotFence =>
  dsimp only
  cases hsemaphore : s.imageAvailableSemaphores[s.currentFrame]? with
  | none =>
    left
    refine ⟨?_, rfl⟩
    intro c hc
    have hc' : c ∈ [Call.vkWaitForFences [slotFence]] := hc
    rw [List.mem_singleton] at hc'
    rw [hc']
    rfl
  | some imageAvailable =>
  dsimp only
  rw [prepend_prepend]
  by_cases hacquire : env.acquireResult = VK_ERROR_OUT_OF_DATE_KHR
  · rw [if_pos hacquire]
    left
    refine ⟨?_, (recreateSwapChain_run env.recreate s).2.1.2.2.2.2.1⟩
    rw [prepend_trace]
    intro c hc
    rcases List.mem_append.1 hc with h | h
    · simp only [List.cons_append, List.nil_append, List.mem_cons, List.mem_singleton] at h
      rcases h with rfl | rfl | h
      · rfl
      · rfl
      · cases h
    · exact recreateSwapChain_inert env.recreate s c h
  rw [if_neg hacquire]
  by_cases hfatal : env.acquireResult ≠ VK_SUCCESS ∧ env.acquireResult ≠ VK_SUBOPTIMAL_KHR
  · rw [if_pos hfatal]
    left
    refine ⟨?_, rfl⟩
    intro c hc
    have hc' : c ∈ [Call.vkWaitForFences [slotFence],
        Call.vkAcquireNextImageKHR s.swapChain imageAvailable VK_NULL_HANDLE] := hc
    simp only [List.mem_cons, List.mem_singleton] at hc'
    rcases hc' with rfl | rfl | h
    · rfl
    · rfl
    · cases h
  rw [if_neg hfatal]
  unfold acquiredOutcome
  cases himage : s.imagesInFlight[env.imageIndex]? with
  | none =>
    left
    refine ⟨?_, rfl⟩
    intro c hc
    have hc' : c ∈ [Call.vkWaitForFences [slotFence],
        Call.vkAcquireNextImageKHR s.swapChain imageAvailable VK_NULL_HANDLE] := hc
    simp only [List.mem_cons, List.mem_singleton] at hc'
    rcases hc' with rfl | rfl | h
    · rfl
    · rfl
    · cases h
  | some imageFence =>
  dsimp only
  right
  obtain ⟨writes, rest, htrace, hwrites, hend⟩ := uniformOutcome_shape env
    { s with imagesInFlight := s.imagesInFlight.set env.imageIndex slotFence }
    slotFence imageAvailable
  refine ⟨slotFence, imageFence, imageAvailable, writes, rest, rfl, rfl, ?_, ?_, hwrites,
    hend⟩
  · rw [prepend_state, prepend_state]
    exact (uniformOutcome_kept env _ slotFence imageAvailable).1
  · rw [prepend_trace, prepend_trace, htrace]
    rfl

theorem tracked_of_todo_nil (m : Machine) (hown : FencesOwned m) (hphase : Phase m)
    (htodo : m.todo = []) : Tracked m := by
  cases hphase with
  | idle h1 h2 => exact h2
  | atSlotWait f g sc sem writes rest h1 h2 h3 h4 h5 h6 => rw [htodo] at h1; cases h1
  | atAcquire f g sc sem writes rest h1 h2 h3 h4 h5 h6 h7 => rw [htodo] at h1; cases h1
  | atImageWait f g writes rest h1 h2 h3 h4 h5 h6 h7 =>
    rw [htodo] at h1
    have hnull : g = VK_NULL_HANDLE := by
      by_contra hne
      unfold imageWait at h1
      rw [if_pos hne] at h1
      cases h1
    exact (imageFree_of_trackedBut m hown g h6 (Or.inl hnull)).2
  | atWrites f writes rest h1 h2 h3 h4 h5 h6 h7 h8 => exact h6
  | atSubmit f submit rest h1 h2 h3 h4 h5 h6 h7 h8 h9 => rw [htodo] at h1; cases h1

theorem step_frame (m m' : Machine) (env : DrawFrameEnv)
    (hown : FencesOwned m) (hphase : Phase m)
    (hstep : m.step (.frame env) = some m') : FencesOwned m' ∧ Phase m' := by
  simp only [Machine.step] at hstep
  split at hstep
  · rename_i hidle
    have htodo : m.todo = [] := by
      have h' : m.todo.isEmpty = true ∧ m.alive = true := by simpa using hidle
      exact List.isEmpty_iff.1 h'.1
    have hm' := (Option.some.inj hstep).symm
    subst hm'
    have htracked := tracked_of_todo_nil m hown hphase htodo
    obtain ⟨hfences, hshape⟩ := drawFrame_shape env m.app
    have hown' : FencesOwned
        { app := ((drawFrame env).run m.app).state, gpu := m.gpu,
          todo := ((drawFrame env).run m.app).trace, image := env.imageIndex,
          accepted := decide (env.submitResult = VK_SUCCESS),
          alive := ((drawFrame env).run m.app).returned } :=
      ⟨hown.nodup, fun p hp => by
          show p.1 ∈ ((drawFrame env).run m.app).state.inFlightFences
          rw [hfences]
          exact hown.known p hp,
        hown.unsignaled, by
          show ((drawFrame env).run m.app).state.inFlightFences.length = _
          rw [hfences]
          exact hown.slots⟩
    refine ⟨hown', ?_⟩
    rcases hshape with ⟨hinert, htable⟩ |
      ⟨slotFence, imageFence, semaphore, writes, rest, hslot, himage, htable, htrace,
        hwrites, hend⟩
    · refine Phase.idle hinert ?_
      intro hnull p hp
      show ((drawFrame env).run m.app).state.imagesInFlight[p.2]? = some p.1
      rw [htable]
      refine htracked ?_ p hp
      intro h0
      apply hnull
      show VK_NULL_HANDLE ∈ ((drawFrame env).run m.app).state.inFlightFences
      rw [hfences]
      exact h0
    · have hindex : env.imageIndex < m.app.imagesInFlight.length := by
        by_contra hge
        rw [List.getElem?_eq_none (Nat.le_of_not_lt hge)] at himage
        cases himage
      refine Phase.atSlotWait slotFence imageFence m.app.swapChain semaphore writes rest
        htrace ?_ ?_ hwrites hend ?_
      · show slotFence ∈ ((drawFrame env).run m.app).state.inFlightFences
        rw [hfences]
        exact List.mem_iff_getElem?.2 ⟨_, hslot⟩
      · show ((drawFrame env).run m.app).state.imagesInFlight[env.imageIndex]? = _
        rw [htable, List.getElem?_set_self hindex]
      · intro hnull p hp
        have hnull' : VK_NULL_HANDLE ∉ m.app.inFlightFences := by
          intro h0
          apply hnull
          show VK_NULL_HANDLE ∈ ((drawFrame env).run m.app).state.inFlightFences
          rw [hfences]
          exact h0
        have hp' := htracked hnull' p hp
        constructor
        · intro hne
          show ((drawFrame env).run m.app).state.imagesInFlight[p.2]? = some p.1
          rw [htable, List.getElem?_set_ne (Ne.symm hne)]
          exact hp'
        · intro heq
          have heq' : p.2 = env.imageIndex := heq
          rw [heq', himage] at hp'
          exact (Option.some.inj hp').symm
  · cases hstep

/-! ## In-flight bound and uniform writes -/

theorem init_owned (env : SyncEnv) (s0 : App) :
    FencesOwned (Machine.init env s0) ∧ Phase (Machine.init env s0) :=
  ⟨⟨List.nodup_nil, (fun p hp => by cases hp), (fun p hp => by cases hp),
      (createSyncObjects_slots env s0).1⟩,
    Phase.idle (fun c hc => by cases hc) (fun _ p hp => by cases hp)⟩

theorem step_owned (m m' : Machine) (e : Event) (hown : FencesOwned m) (hphase : Phase m)
    (hstep : m.step e = some m') : FencesOwned m' ∧ Phase m' := by
  cases e with
  | pollEvents size => exact step_pollEvents m m' size hown hphase hstep
  | frame env => exact step_frame m m' env hown hphase hstep
  | call => exact step_call m m' hown hphase hstep
  | complete fence image => exact step_complete m m' fence image hown hphase hstep

theorem step_fences (m m' : Machine) (e : Event) (hstep : m.step e = some m') :
    m'.app.inFlightFences = m.app.inFlightFences := by
  cases e with
  | pollEvents size =>
    simp only [Machine.step] at hstep
    split at hstep
    · rw [← Option.some.inj hstep]
      rfl
    · cases hstep
  | frame env =>
    simp only [Machine.step] at hstep
    split at hstep
    · rw [← Option.some.inj hstep]
      exact (drawFrame_shape env m.app).1
    · cases hstep
  | call =>
    obtain ⟨c, rest, gpu, -, -, hm'⟩ := step_call_eq m m' hstep
    rw [hm']
  | complete fence image =>
    simp only [Machine.step] at hstep
    split at hstep
    · rw [← Option.some.inj hstep]
    · cases hstep

theorem steps_owned : ∀ (events : List Event) (m m' : Machine),
    FencesOwned m → Phase m → m.steps events = some m' →
    FencesOwned m' ∧ Phase m' ∧ m'.app.inFlightFences = m.app.inFlightFences := by
  intro events
  induction events with
  | nil =>
    intro m m' hown hphase hsteps
    have hm' : m = m' := Option.some.inj hsteps
    rw [← hm']
    exact ⟨hown, hphase, rfl⟩
  | cons e rest ih =>
    intro m m' hown hphase hsteps
    simp only [Machine.steps] at hsteps
    cases hstep : m.step e with
    | none => rw [hstep] at hsteps; cases hsteps
    | some m1 =>
      rw [hstep] at hsteps
      obtain ⟨hown1, hphase1⟩ := step_owned m m1 e hown hphase hstep
      obtain ⟨h1, h2, h3⟩ := ih m1 m' hown1 hphase1 hsteps
      exact ⟨h1, h2, h3.trans (step_fences m m1 e hstep)⟩

theorem submitFence_of_inert (c : Call) (h : c.isInert = true) : c.submitFence = none := by
  cases c
  case vkQueueSubmit => cases h
  all_goals rfl

theorem submitFence_of_hostWrite (c : Call) (h : c.isHostWrite = true) :
    c.submitFence = none := by
  cases c
  case vkQueueSubmit => cases h
  all_goals rfl

/-- The head of what follows the writes of a frame is a host write or the fence reset. -/
theorem head_of_writes (slotFence : Nat) (writes rest : List Call) (c : Call)
    (todo : List Call) (h : c :: todo = writes ++ rest)
    (hwrites : ∀ w ∈ writes, w.isHostWrite = true) (hend : FrameEnd slotFence rest) :
    c.submitFence = none := by
  cases writes with
  | cons w ws =>
    injection h with hc _
    rw [hc]
    exact submitFence_of_hostWrite w (hwrites w (List.mem_cons_self _ _))
  | nil =>
    rcases hend with hrest | ⟨submit, tail, hrest, -, -⟩
    · rw [hrest] at h; cases h
    · rw [hrest] at h
      injection h with hc _
      rw [hc]
      rfl

/-- When the host is about to submit with a fence, no pending submission will signal that
fence and the fence is unsignaled. -/
theorem submit_fence_free (m : Machine) (hphase : Phase m) (c : Call) (todo : List Call)
    (fence : Nat) (htodo : m.todo = c :: todo) (hsubmit : c.submitFence = some fence) :
    fence ∉ m.gpu.pending.map Prod.fst ∧ fence ∉ m.gpu.signaled := by
  cases hphase with
  | idle h1 h2 =>
    rw [htodo] at h1
    rw [submitFence_of_inert c (h1 c (List.mem_cons_self _ _))] at hsubmit
    cases hsubmit
  | atSlotWait f g sc sem writes rest h1 h2 h3 h4 h5 h6 =>
    rw [htodo] at h1
    injection h1 with hc _
    rw [hc] at hsubmit
    cases hsubmit
  | atAcquire f g sc sem writes rest h1 h2 h3 h4 h5 h6 h7 =>
    rw [htodo] at h1
    injection h1 with hc _
    rw [hc] at hsubmit
    cases hsubmit
  | atImageWait f g writes rest h1 h2 h3 h4 h5 h6 h7 =>
    rw [htodo] at h1
    unfold imageWait at h1
    by_cases hnull : g ≠ VK_NULL_HANDLE
    · rw [if_pos hnull] at h1
      injection h1 with hc _
      rw [hc] at hsubmit
      cases hsubmit
    · rw [if_neg hnull] at h1
      rw [head_of_writes f writes rest c todo h1 h4 h5] at hsubmit
      cases hsubmit
  | atWrites f writes rest h1 h2 h3 h4 h5 h6 h7 h8 =>
    rw [htodo] at h1
    rw [head_of_writes f writes rest c todo h1 h4 h5] at hsubmit
    cases hsubmit
  | atSubmit f submit rest h1 h2 h3 h4 h5 h6 h7 h8 h9 =>
    rw [htodo] at h1
    injection h1 with hc _
    rw [hc, h4] at hsubmit
    have hf : f = fence := Option.some.inj hsubmit
    rw [← hf]
    exact ⟨h8, h9⟩

/-- C14: start the program as `createSyncObjects` leaves it and let `pollEvents` turns,
`drawFrame` calls (made call by call by the host) and completions of pending submissions
by the device follow in any order, with any answers of the environment. In every state
reached, the submissions that have not completed number at most `MAX_FRAMES_IN_FLIGHT = 2`;
each of them has its own in-flight fence, which is unsignaled; and whenever the next call of
the host is a submission with a fence, no pending submission will signal that fence and the
fence is unsignaled, the host having waited on the slot's fence before resetting it. -/
theorem inFlight_frames_bounded (env : SyncEnv) (s0 : App) (events : List Event)
    (m : Machine) (hsteps : (Machine.init env s0).steps events = some m) :
    m.gpu.pending.length ≤ MAX_FRAMES_IN_FLIGHT ∧ MAX_FRAMES_IN_FLIGHT = 2 ∧
    (m.gpu.pending.map Prod.fst).Nodup ∧
    (∀ p ∈ m.gpu.pending, p.1 ∈ m.app.inFlightFences ∧ p.1 ∉ m.gpu.signaled) ∧
    (∀ c rest fence, m.todo = c :: rest → c.submitFence = some fence →
      fence ∉ m.gpu.pending.map Prod.fst ∧ fence ∉ m.gpu.signaled) := by
  obtain ⟨hown0, hphase0⟩ := init_owned env s0
  obtain ⟨hown, hphase, -⟩ := steps_owned events _ m hown0 hphase0 hsteps
  refine ⟨?_, rfl, hown.nodup, fun p hp => ⟨hown.known p hp, hown.unsignaled p hp⟩,
    fun c rest fence htodo hsubmit => submit_fence_free m hphase c rest fence htodo hsubmit⟩
  have hsubset : m.gpu.pending.map Prod.fst ⊆ m.app.inFlightFences := by
    intro f hf
    obtain ⟨p, hp, hpf⟩ := List.mem_map.1 hf
    rw [← hpf]
    exact hown.known p hp
  have hle := (List.Nodup.subperm hown.nodup hsubset).length_le
  rw [List.length_map, hown.slots] at hle
  exact hle

/-- Witness for C14: from the sample start, two frames on images 1 and 2 with every call
made and no completion yet are possible steps, and leave exactly two submissions pending. -/
theorem inFlight_frames_bounded_witness :
    (Machine.init sampleSync sampleAppBeforeSync).steps twoFrames =
      some (sampleMachine twoFrames) ∧
    (sampleMachine twoFrames).gpu.pending = [(221, 1), (222, 2)] ∧
    (sampleMachine twoFrames).gpu.pending.length ≤ MAX_FRAMES_IN_FLIGHT :=
  ⟨rfl, rfl,
    (inFlight_frames_bounded sampleSync sampleAppBeforeSync twoFrames
      (sampleMachine twoFrames) rfl).1⟩

/-- C30, the code evaluated: for every pair of families every queue-create record names the
graphics family, and there is one record per distinct family; so for distinct families the
graphics family is requested twice and the presentation family not at all. With graphics
family 0 and presentation family 1, `vkCreateDevice` is given two records for family 0, and
the presentation queue is then fetched from family 1, for which no queue was requested. -/
theorem createLogicalDevice_requests_graphics_family_twice :
    (∀ graphicsFamily presentFamily : Nat,
      (queueCreateInfos graphicsFamily presentFamily).map
          VkDeviceQueueCreateInfo.queueFamilyIndex =
        List.replicate (uniqueQueueFamilies graphicsFamily presentFamily).length
          graphicsFamily) ∧
    (∀ graphicsFamily presentFamily : Nat,
      (queueCreateInfos graphicsFamily presentFamily).map
          VkDeviceQueueCreateInfo.queueFamilyIndex =
        if graphicsFamily = presentFamily then [graphicsFamily]
        else [graphicsFamily, graphicsFamily]) ∧
    uniqueQueueFamilies 0 1 = [0, 1] ∧
    (createLogicalDevice splitFamilies).run sampleApp =
      ⟨.ok (), sampleApp,
        [.vkCreateDevice [⟨0, 1⟩, ⟨0, 1⟩] VK_SUCCESS 900, .vkGetDeviceQueue 0 0 2,
          .vkGetDeviceQueue 1 0 3]⟩ ∧
    1 ∉ (queueCreateInfos 0 1).map VkDeviceQueueCreateInfo.queueFamilyIndex ∧
    ¬ ((queueCreateInfos 0 1).map VkDeviceQueueCreateInfo.queueFamilyIndex).Nodup := by
  refine ⟨?_, ?_, rfl, rfl, by decide, by decide⟩
  · intro g p
    unfold queueCreateInfos
    rw [List.map_map]
    induction uniqueQueueFamilies g p with
    | nil => rfl
    | cons a rest ih =>
      rw [List.map_cons, ih]
      rfl
  · intro g p
    unfold queueCreateInfos uniqueQueueFamilies
    by_cases heq : g = p
    · rw [if_pos heq, if_pos heq]
      rfl
    · rw [if_neg heq, if_neg heq]
      split <;> rfl

/-! ## Transfer engine: the one-shot sequence -/

theorem mem_before_of_last {P : Call → Bool} (w x c : Call) :
    ∀ (l before after : List Call), l ++ [w, x] = before ++ c :: after →
      (∀ d ∈ l, P d = false) → P w = false → P c = true → w ∈ before := by
  intro l
  induction l with
  | nil =>
    intro before after h _ hw hc
    cases before with
    | nil =>
      injection h with h1 _
      rw [h1, hc] at hw
      cases hw
    | cons b bs =>
      injection h with h1 _
      rw [← h1]
      exact List.mem_cons_self _ _
  | cons a rest ih =>
    intro before after h hl hw hc
    cases before with
    | nil =>
      injection h with h1 _
      have := hl a (List.mem_cons_self _ _)
      rw [h1, hc] at this
      cases this
    | cons b bs =>
      injection h with _ h2
      exact List.mem_cons_of_mem _
        (ih bs after h2 (fun d hd => hl d (List.mem_cons_of_mem _ hd)) hw hc)

theorem transitionImageLayout_run (s : App)
    (commandBuffer image format oldLayout newLayout : Nat) :
    (transitionImageLayout commandBuffer image format oldLayout newLayout).run s =
      match transitionMasks oldLayout newLayout with
      | some (srcAccessMask, dstAccessMask, sourceStage, destinationStage) =>
        ⟨.ok (), s,
          [.vkAllocateCommandBuffers s.commandPool VK_COMMAND_BUFFER_LEVEL_PRIMARY 1
              [commandBuffer],
            .vkBeginCommandBuffer commandBuffer VK_COMMAND_BUFFER_USAGE_ONE_TIME_SUBMIT_BIT,
            .vkCmdPipelineBarrier commandBuffer sourceStage destinationStage
              [{ srcAccessMask := srcAccessMask, dstAccessMask := dstAccessMask,
                 oldLayout := oldLayout, newLayout := newLayout,
                 srcQueueFamilyIndex := VK_QUEUE_FAMILY_IGNORED,
                 dstQueueFamilyIndex := VK_QUEUE_FAMILY_IGNORED, image := image,
                 aspectMask := VK_IMAGE_ASPECT_COLOR_BIT, baseMipLevel := 0,
                 levelCount := 1, baseArrayLayer := 0, layerCount := 1 }],
            .vkEndCommandBuffer commandBuffer,
            .vkQueueSubmit s.graphicsQueue [] [] [commandBuffer] [] VK_NULL_HANDLE,
            .vkQueueWaitIdle s.graphicsQueue,
            .vkFreeCommandBuffers s.commandPool [commandBuffer]]⟩
      | none =>
        ⟨.error (.thrown "unsupported layout transition!"), s,
          [.vkAllocateCommandBuffers s.commandPool VK_COMMAND_BUFFER_LEVEL_PRIMARY 1
              [commandBuffer],
            .vkBeginCommandBuffer commandBuffer
              VK_COMMAND_BUFFER_USAGE_ONE_TIME_SUBMIT_BIT]⟩ := by
  cases hmasks : transitionMasks oldLayout newLayout with
  | none => exact transitionImageLayout_run_none s _ _ _ _ _ hmasks
  | some m =>
    obtain ⟨a, b, c, d⟩ := m
    exact transitionImageLayout_run_supported s _ _ _ _ _ a b c d hmasks

/-- C24: `copyBuffer` and `copyBufferToImage` always return normally, and
`transitionImageLayout` does for the layout pairs of its table; the trace of each is then
exactly: allocation of one primary command buffer from the command pool, begin with the
one-time-submit flag, one recorded command (a buffer copy with the single region
`(0, 0, size)`, a buffer-to-image copy with the single region at buffer offset 0 and image
offset `(0, 0, 0)` of extent `(width, height, 1)`, or one pipeline barrier with one image
barrier), end, submission to the graphics queue with no wait semaphore, no signal semaphore
and the null fence, wait for the graphics queue to be idle, free of the command buffer. In
every trace of the three functions the queue-idle wait precedes the free. -/
theorem oneShot_transfer_sequence (s : App) (commandBuffer : Nat) :
    (∀ srcBuffer dstBuffer size : Nat,
      (copyBuffer commandBuffer srcBuffer dstBuffer size).run s =
        ⟨.ok (), s,
          [.vkAllocateCommandBuffers s.commandPool VK_COMMAND_BUFFER_LEVEL_PRIMARY 1
              [commandBuffer],
            .vkBeginCommandBuffer commandBuffer VK_COMMAND_BUFFER_USAGE_ONE_TIME_SUBMIT_BIT,
            .vkCmdCopyBuffer commandBuffer srcBuffer dstBuffer [⟨0, 0, size⟩],
            .vkEndCommandBuffer commandBuffer,
            .vkQueueSubmit s.graphicsQueue [] [] [commandBuffer] [] VK_NULL_HANDLE,
            .vkQueueWaitIdle s.graphicsQueue,
            .vkFreeCommandBuffers s.commandPool [commandBuffer]]⟩) ∧
    (∀ buffer image width height : Nat,
      (copyBufferToImage commandBuffer buffer image width height).run s =
        ⟨.ok (), s,
          [.vkAllocateCommandBuffers s.commandPool VK_COMMAND_BUFFER_LEVEL_PRIMARY 1
              [commandBuffer],
            .vkBeginCommandBuffer commandBuffer VK_COMMAND_BUFFER_USAGE_ONE_TIME_SUBMIT_BIT,
            .vkCmdCopyBufferToImage commandBuffer buffer image
              VK_IMAGE_LAYOUT_TRANSFER_DST_OPTIMAL
              [⟨0, 0, 0, VK_IMAGE_ASPECT_COLOR_BIT, 0, 0, 1, (0, 0, 0), (width, height, 1)⟩],
            .vkEndCommandBuffer commandBuffer,
            .vkQueueSubmit s.graphicsQueue [] [] [commandBuffer] [] VK_NULL_HANDLE,
            .vkQueueWaitIdle s.graphicsQueue,
            .vkFreeCommandBuffers s.commandPool [commandBuffer]]⟩) ∧
    (∀ image format oldLayout newLayout : Nat,
      ((transitionImageLayout commandBuffer image format oldLayout newLayout).run s).result =
          .ok () →
        ∃ barrier sourceStage destinationStage,
          (transitionImageLayout commandBuffer image format oldLayout newLayout).run s =
            ⟨.ok (), s,
              [.vkAllocateCommandBuffers s.commandPool VK_COMMAND_BUFFER_LEVEL_PRIMARY 1
                  [commandBuffer],
                .vkBeginCommandBuffer commandBuffer
                  VK_COMMAND_BUFFER_USAGE_ONE_TIME_SUBMIT_BIT,
                .vkCmdPipelineBarrier commandBuffer sourceStage destinationStage [barrier],
                .vkEndCommandBuffer commandBuffer,
                .vkQueueSubmit s.graphicsQueue [] [] [commandBuffer] [] VK_NULL_HANDLE,
                .vkQueueWaitIdle s.graphicsQueue,
                .vkFreeCommandBuffers s.commandPool [commandBuffer]]⟩ ∧
          barrier.image = image ∧ barrier.oldLayout = oldLayout ∧
          barrier.newLayout = newLayout) ∧
    (∀ (run : Run App Unit) (srcBuffer dstBuffer size width height format oldLayout
        newLayout : Nat),
      run = (copyBuffer commandBuffer srcBuffer dstBuffer size).run s ∨
      run = (copyBufferToImage commandBuffer srcBuffer dstBuffer width height).run s ∨
      run = (transitionImageLayout commandBuffer dstBuffer format oldLayout
        newLayout).run s →
      ∀ before c after, run.trace = before ++ c :: after →
        c.isFreeCommandBuffers = true → Call.vkQueueWaitIdle s.graphicsQueue ∈ before) := by
  refine ⟨fun _ _ _ => copyBuffer_run s _ _ _ _, fun _ _ _ _ => copyBufferToImage_run s _ _ _ _ _,
    ?_, ?_⟩
  · intro image format oldLayout newLayout hok
    rw [transitionImageLayout_run] at hok ⊢
    cases hmasks : transitionMasks oldLayout newLayout with
    | none => rw [hmasks] at hok; cases hok
    | some m =>
      obtain ⟨a, b, c, d⟩ := m
      exact ⟨_, _, _, rfl, rfl, rfl, rfl⟩
  · intro run srcBuffer dstBuffer size width height format oldLayout newLayout hrun before c
      after htrace hfree
    rcases hrun with h | h | h
    · rw [h, copyBuffer_run] at htrace
      exact mem_before_of_last (P := Call.isFreeCommandBuffers) _ _ c
        [_, _, _, _, _] before after htrace
        (by
          intro d hd
          simp only [List.mem_cons, List.mem_singleton] at hd
          rcases hd with rfl | rfl | rfl | rfl | rfl | hd
          all_goals first | rfl | cases hd)
        rfl hfree
    · rw [h, copyBufferToImage_run] at htrace
      exact mem_before_of_last (P := Call.isFreeCommandBuffers) _ _ c
        [_, _, _, _, _] before after htrace
        (by
          intro d hd
          simp only [List.mem_cons, List.mem_singleton] at hd
          rcases hd with rfl | rfl | rfl | rfl | rfl | hd
          all_goals first | rfl | cases hd)
        rfl hfree
    · rw [h, transitionImageLayout_run] at htrace
      cases hmasks : transitionMasks oldLayout newLayout with
      | none =>
        rw [hmasks] at htrace
        have hmem : c ∈ [Call.vkAllocateCommandBuffers s.commandPool
            VK_COMMAND_BUFFER_LEVEL_PRIMARY 1 [commandBuffer],
            Call.vkBeginCommandBuffer commandBuffer
              VK_COMMAND_BUFFER_USAGE_ONE_TIME_SUBMIT_BIT] := by
          have : c ∈ before ++ c :: after := by simp
          rw [← htrace] at this
          exact this
        simp only [List.mem_cons, List.mem_singleton] at hmem
        rcases hmem with rfl | rfl | hmem
        · cases hfree
        · cases hfree
        · cases hmem
      | some m =>
        obtain ⟨a, b, c', d⟩ := m
        rw [hmasks] at htrace
        exact mem_before_of_last (P := Call.isFreeCommandBuffers) _ _ c
          [_, _, _, _, _] before after htrace
          (by
            intro d hd
            simp only [List.mem_cons, List.mem_singleton] at hd
            rcases hd with rfl | rfl | rfl | rfl | rfl | hd
            all_goals first | rfl | cases hd)
          rfl hfree

/-- Witness for C24: the transition (undefined, transfer-destination) on the sample state
returns normally with the seven calls of the sequence, and its free follows the queue-idle
wait. -/
theorem oneShot_transfer_sequence_witness :
    ((transitionImageLayout 500 10 43 VK_IMAGE_LAYOUT_UNDEFINED
      VK_IMAGE_LAYOUT_TRANSFER_DST_OPTIMAL).run sampleApp).result = .ok () ∧
    ((transitionImageLayout 500 10 43 VK_IMAGE_LAYOUT_UNDEFINED
      VK_IMAGE_LAYOUT_TRANSFER_DST_OPTIMAL).run sampleApp).trace.length = 7 ∧
    Call.vkQueueWaitIdle sampleApp.graphicsQueue ∈
      ((transitionImageLayout 500 10 43 VK_IMAGE_LAYOUT_UNDEFINED
        VK_IMAGE_LAYOUT_TRANSFER_DST_OPTIMAL).run sampleApp).trace.take 6 := by
  obtain ⟨barrier, sourceStage, destinationStage, hrun, -⟩ :=
    (oneShot_transfer_sequence sampleApp 500).2.2.1 10 43 VK_IMAGE_LAYOUT_UNDEFINED
      VK_IMAGE_LAYOUT_TRANSFER_DST_OPTIMAL rfl
  refine ⟨rfl, by rw [hrun]; rfl, ?_⟩
  exact (oneShot_transfer_sequence sampleApp 500).2.2.2 _ 0 10 0 0 0 43
    VK_IMAGE_LAYOUT_UNDEFINED VK_IMAGE_LAYOUT_TRANSFER_DST_OPTIMAL (Or.inr (Or.inr rfl))
    (((transitionImageLayout 500 10 43 VK_IMAGE_LAYOUT_UNDEFINED
      VK_IMAGE_LAYOUT_TRANSFER_DST_OPTIMAL).run sampleApp).trace.take 6)
    (.vkFreeCommandBuffers 5 [500]) [] rfl rfl

/-! ## Swapchain recreation makes none of the calls of a frame -/

theorem outside_createImageView {σ : Type} {R : σ → σ → Prop} (hR : Chainable R)
    (response : VkResult × Nat) (image format aspectFlags : Nat) :
    Within R Call.outsideFrame (createImageView response image format aspectFlags : Exec σ Nat) := by
  unfold createImageView
  repeat' first
    | exact within_pure hR _
    | exact within_fail hR _
    | exact within_call hR _ rfl
    | apply within_bind hR
    | split
    | intro _

theorem outside_findSupportedFormat {σ : Type} {R : σ → σ → Prop} (hR : Chainable R)
    (env : CreationEnv) (tiling features : Nat) (candidates : List Nat) :
    Within R Call.outsideFrame (findSupportedFormat env tiling features candidates : Exec σ Nat) := by
  induction candidates with
  | nil => exact within_fail hR _
  | cons format rest ih =>
    unfold findSupportedFormat
    split
    · exact within_pure hR _
    · split
      · exact within_pure hR _
      · exact ih

theorem outside_createShaderModule {σ : Type} {R : σ → σ → Prop} (hR : Chainable R)
    (response : VkResult × Nat) :
    Within R Call.outsideFrame (createShaderModule response : Exec σ Nat) := by
  unfold createShaderModule
  repeat' first
    | exact within_pure hR _
    | exact within_fail hR _
    | exact within_call hR _ rfl
    | apply within_bind hR
    | split
    | intro _

theorem outside_readFile {σ : Type} {R : σ → σ → Prop} (hR : Chainable R) (opened : Bool) :
    Within R Call.outsideFrame (readFile opened : Exec σ Unit) := by
  unfold readFile
  split
  · exact within_pure hR _
  · exact within_fail hR _

theorem outside_createImage {σ : Type} {R : σ → σ → Prop} (hR : Chainable R)
    (memProperties : VkPhysicalDeviceMemoryProperties) (env : AllocationEnv)
    (width height format tiling usage properties : Nat) :
    Within R Call.outsideFrame (createImage memProperties env width height format tiling usage
      properties : Exec σ (Nat × Nat)) := by
  unfold createImage
  repeat' first
    | exact within_pure hR _
    | exact within_fail hR _
    | exact within_liftExcept hR _
    | exact within_call hR _ rfl
    | apply within_bind hR
    | split
    | intro _

theorem outside_createBuffer {σ : Type} {R : σ → σ → Prop} (hR : Chainable R)
    (memProperties : VkPhysicalDeviceMemoryProperties) (env : AllocationEnv)
    (size usage properties : Nat) :
    Within R Call.outsideFrame (createBuffer memProperties env size usage properties :
      Exec σ (Nat × Nat)) := by
  unfold createBuffer
  repeat' first
    | exact within_pure hR _
    | exact within_fail hR _
    | exact within_liftExcept hR _
    | exact within_call hR _ rfl
    | apply within_bind hR
    | split
    | intro _

theorem outside_createSwapChain (env : CreationEnv) (ctx : StaticHandles) :
    Within (fun _ _ => True) Call.outsideFrame (createSwapChain env ctx) := by
  have hR : Chainable (fun (_ _ : SwapChainObjects) => True) := chainable_true
  unfold createSwapChain
  repeat' first
    | exact within_pure hR _
    | exact within_fail hR _
    | exact within_getState hR
    | exact within_index hR _ _ _
    | exact outside_createImageView hR _ _ _ _
    | exact outside_findSupportedFormat hR _ _ _ _
    | exact outside_createShaderModule hR _
    | exact outside_readFile hR _
    | exact outside_createImage hR _ _ _ _ _ _ _ _
    | exact outside_createBuffer hR _ _ _ _ _
    | exact within_call hR _ rfl
    | exact within_modifyState _ (fun _ => trivial)
    | apply within_forRange hR
    | apply within_bind hR
    | split
    | intro _

theorem outside_createImageViews (env : CreationEnv) :
    Within (fun _ _ => True) Call.outsideFrame (createImageViews env) := by
  have hR : Chainable (fun (_ _ : SwapChainObjects) => True) := chainable_true
  unfold createImageViews
  repeat' first
    | exact within_pure hR _
    | exact within_fail hR _
    | exact within_getState hR
    | exact within_index hR _ _ _
    | exact outside_createImageView hR _ _ _ _
    | exact outside_findSupportedFormat hR _ _ _ _
    | exact outside_createShaderModule hR _
    | exact outside_readFile hR _
    | exact outside_createImage hR _ _ _ _ _ _ _ _
    | exact outside_createBuffer hR _ _ _ _ _
    | exact within_call hR _ rfl
    | exact within_modifyState _ (fun _ => trivial)
    | apply within_forRange hR
    | apply within_bind hR
    | split
    | intro _

theorem outside_createRenderPass (env : CreationEnv) :
    Within (fun _ _ => True) Call.outsideFrame (createRenderPass env) := by
  have hR : Chainable (fun (_ _ : SwapChainObjects) => True) := chainable_true
  unfold createRenderPass findDepthFormat
  repeat' first
    | exact within_pure hR _
    | exact within_fail hR _
    | exact within_getState hR
    | exact within_index hR _ _ _
    | exact outside_createImageView hR _ _ _ _
    | exact outside_findSupportedFormat hR _ _ _ _
    | exact outside_createShaderModule hR _
    | exact outside_readFile hR _
    | exact outside_createImage hR _ _ _ _ _ _ _ _
    | exact outside_createBuffer hR _ _ _ _ _
    | exact within_call hR _ rfl
    | exact within_modifyState _ (fun _ => trivial)
    | apply within_forRange hR
    | apply within_bind hR
    | split
    | intro _

theorem outside_createGraphicsPipeline (env : CreationEnv) :
    Within (fun _ _ => True) Call.outsideFrame (createGraphicsPipeline env) := by
  have hR : Chainable (fun (_ _ : SwapChainObjects) => True) := chainable_true
  unfold createGraphicsPipeline
  repeat' first
    | exact within_pure hR _
    | exact within_fail hR _
    | exact within_getState hR
    | exact within_index hR _ _ _
    | exact outside_createImageView hR _ _ _ _
    | exact outside_findSupportedFormat hR _ _ _ _
    | exact outside_createShaderModule hR _
    | exact outside_readFile hR _
    | exact outside_createImage hR _ _ _ _ _ _ _ _
    | exact outside_createBuffer hR _ _ _ _ _
    | exact within_call hR _ rfl
    | exact within_modifyState _ (fun _ => trivial)
    | apply within_forRange hR
    | apply within_bind hR
    | split
    | intro _

theorem outside_createDepthResources (env : CreationEnv) :
    Within (fun _ _ => True) Call.outsideFrame (createDepthResources env) := by
  have hR : Chainable (fun (_ _ : SwapChainObjects) => True) := chainable_true
  unfold createDepthResources findDepthFormat
  repeat' first
    | exact within_pure hR _
    | exact within_fail hR _
    | exact within_getState hR
    | exact within_index hR _ _ _
    | exact outside_createImageView hR _ _ _ _
    | exact outside_findSupportedFormat hR _ _ _ _
    | exact outside_createShaderModule hR _
    | exact outside_readFile hR _
    | exact outside_createImage hR _ _ _ _ _ _ _ _
    | exact outside_createBuffer hR _ _ _ _ _
    | exact within_call hR _ rfl
    | exact within_modifyState _ (fun _ => trivial)
    | apply within_forRange hR
    | apply within_bind hR
    | split
    | intro _

theorem outside_createFramebuffers (env : CreationEnv) :
    Within (fun _ _ => True) Call.outsideFrame (createFramebuffers env) := by
  have hR : Chainable (fun (_ _ : SwapChainObjects) => True) := chainable_true
  unfold createFramebuffers
  repeat' first
    | exact within_pure hR _
    | exact within_fail hR _
    | exact within_getState hR
    | exact within_index hR _ _ _
    | exact outside_createImageView hR _ _ _ _
    | exact outside_findSupportedFormat hR _ _ _ _
    | exact outside_createShaderModule hR _
    | exact outside_readFile hR _
    | exact outside_createImage hR _ _ _ _ _ _ _ _
    | exact outside_createBuffer hR _ _ _ _ _
    | exact within_call hR _ rfl
    | exact within_modifyState _ (fun _ => trivial)
    | apply within_forRange hR
    | apply within_bind hR
    | split
    | intro _

theorem outside_createUniformBuffers (env : CreationEnv) :
    Within (fun _ _ => True) Call.outsideFrame (createUniformBuffers env) := by
  have hR : Chainable (fun (_ _ : SwapChainObjects) => True) := chainable_true
  unfold createUniformBuffers
  repeat' first
    | exact within_pure hR _
    | exact within_fail hR _
    | exact within_getState hR
    | exact within_index hR _ _ _
    | exact outside_createImageView hR _ _ _ _
    | exact outside_findSupportedFormat hR _ _ _ _
    | exact outside_createShaderModule hR _
    | exact outside_readFile hR _
    | exact outside_createImage hR _ _ _ _ _ _ _ _
    | exact outside_createBuffer hR _ _ _ _ _
    | exact within_call hR _ rfl
    | exact within_modifyState _ (fun _ => trivial)
    | apply within_forRange hR
    | apply within_bind hR
    | split
    | intro _

theorem outside_createDescriptorPool (env : CreationEnv) :
    Within (fun _ _ => True) Call.outsideFrame (createDescriptorPool env) := by
  have hR : Chainable (fun (_ _ : SwapChainObjects) => True) := chainable_true
  unfold createDescriptorPool
  repeat' first
    | exact within_pure hR _
    | exact within_fail hR _
    | exact within_getState hR
    | exact within_index hR _ _ _
    | exact outside_createImageView hR _ _ _ _
    | exact outside_findSupportedFormat hR _ _ _ _
    | exact outside_createShaderModule hR _
    | exact outside_readFile hR _
    | exact outside_createImage hR _ _ _ _ _ _ _ _
    | exact outside_createBuffer hR _ _ _ _ _
    | exact within_call hR _ rfl
    | exact within_modifyState _ (fun _ => trivial)
    | apply within_forRange hR
    | apply within_bind hR
    | split
    | intro _

theorem outside_createDescriptorSets (env : CreationEnv) (ctx : StaticHandles) :
    Within (fun _ _ => True) Call.outsideFrame (createDescriptorSets env ctx) := by
  have hR : Chainable (fun (_ _ : SwapChainObjects) => True) := chainable_true
  unfold createDescriptorSets
  repeat' first
    | exact within_pure hR _
    | exact within_fail hR _
    | exact within_getState hR
    | exact within_index hR _ _ _
    | exact outside_createImageView hR _ _ _ _
    | exact outside_findSupportedFormat hR _ _ _ _
    | exact outside_createShaderModule hR _
    | exact outside_readFile hR _
    | exact outside_createImage hR _ _ _ _ _ _ _ _
    | exact outside_createBuffer hR _ _ _ _ _
    | exact within_call hR _ rfl
    | exact within_modifyState _ (fun _ => trivial)
    | apply within_forRange hR
    | apply within_bind hR
    | split
    | intro _

theorem outside_createCommandBuffers (env : CreationEnv) (ctx : StaticHandles) :
    Within (fun _ _ => True) Call.outsideFrame (createCommandBuffers env ctx) := by
  have hR : Chainable (fun (_ _ : SwapChainObjects) => True) := chainable_true
  unfold createCommandBuffers
  repeat' first
    | exact within_pure hR _
    | exact within_fail hR _
    | exact within_getState hR
    | exact within_index hR _ _ _
    | exact outside_createImageView hR _ _ _ _
    | exact outside_findSupportedFormat hR _ _ _ _
    | exact outside_createShaderModule hR _
    | exact outside_readFile hR _
    | exact outside_createImage hR _ _ _ _ _ _ _ _
    | exact outside_createBuffer hR _ _ _ _ _
    | exact within_call hR _ rfl
    | exact within_modifyState _ (fun _ => trivial)
    | apply within_forRange hR
    | apply within_bind hR
    | split
    | intro _

theorem outside_recreationPass (env : CreationEnv) (ctx : StaticHandles) :
    Within (fun _ _ => True) Call.outsideFrame (recreationPass env ctx) := by
  have hR : Chainable (fun (_ _ : SwapChainObjects) => True) := chainable_true
  unfold recreationPass
  repeat' first
    | exact outside_createSwapChain env ctx
    | exact outside_createImageViews env
    | exact outside_createRenderPass env
    | exact outside_createGraphicsPipeline env
    | exact outside_createDepthResources env
    | exact outside_createFramebuffers env
    | exact outside_createUniformBuffers env
    | exact outside_createDescriptorPool env
    | exact outside_createDescriptorSets env ctx
    | exact outside_createCommandBuffers env ctx
    | apply within_bind hR
    | intro _

theorem outside_cleanupSwapChain {R : App → App → Prop} (hR : Chainable R) :
    Within R Call.outsideFrame cleanupSwapChain := by
  unfold cleanupSwapChain
  repeat' first
    | exact within_pure hR _
    | exact within_getState hR
    | exact within_index hR _ _ _
    | exact within_call hR _ rfl
    | apply within_forRange hR
    | apply within_bind hR
    | intro _

theorem outside_waitWhileMinimized :
    ∀ (polls : List Poll) (size : Int × Int),
      Within (fun _ _ => True) Call.outsideFrame (waitWhileMinimized size polls) := by
  have hR : Chainable (fun (_ _ : App) => True) := chainable_true
  intro polls
  induction polls with
  | nil =>
    intro size
    unfold waitWhileMinimized
    split
    · exact within_fail hR _
    · exact within_pure hR _
  | cons poll rest ih =>
    intro size
    unfold waitWhileMinimized
    split
    · refine within_bind hR (within_call hR _ rfl) (fun _ => ?_)
      refine within_bind hR (within_call hR _ rfl) (fun _ => ?_)
      refine within_bind hR ?_ (fun _ => ih poll.size)
      unfold dispatchResize
      split
      · exact within_modifyState _ (fun _ => trivial)
      · exact within_pure hR _
    · exact within_pure hR _

theorem outside_recreateSwapChain (env : RecreateEnv) :
    Within (fun _ _ => True) Call.outsideFrame (recreateSwapChain env) := by
  have hR : Chainable (fun (_ _ : App) => True) := chainable_true
  unfold recreateSwapChain
  refine within_bind hR (within_call hR _ rfl) (fun _ => ?_)
  refine within_bind hR (within_call hR _ rfl) (fun _ => ?_)
  refine within_bind hR (outside_waitWhileMinimized _ _) (fun _ => ?_)
  refine within_bind hR (within_call hR _ rfl) (fun _ => ?_)
  refine within_bind hR (outside_cleanupSwapChain hR) (fun _ => ?_)
  refine within_bind hR (within_getState hR) (fun s => ?_)
  exact within_liftObjects (fun _ _ => trivial) _ (outside_recreationPass _ _)

theorem presentOutcome_outside (env : DrawFrameEnv) (s : App) :
    ∀ c ∈ (presentOutcome env s).trace, c.isFrameCall = false := by
  unfold presentOutcome
  split
  · split
    · exact ((outside_recreateSwapChain env.recreate).holds _).2
    · exact ((outside_recreateSwapChain env.recreate).holds _).2
  · split
    · intro c hc; cases hc
    · intro c hc; cases hc

/-! ## The calls of a frame, in order -/

theorem submitOutcome_of_calls (env : DrawFrameEnv) (s : App) (slotFence imageAvailable : Nat)
    (h : (submitOutcome env s slotFence imageAvailable).trace ≠ []) :
    ∃ commandBuffer renderFinished,
      s.commandBuffers[env.imageIndex]? = some commandBuffer ∧
      s.renderFinishedSemaphores[s.currentFrame]? = some renderFinished ∧
      submitOutcome env s slotFence imageAvailable =
        Run.prepend
          [.vkResetFences [slotFence],
            .vkQueueSubmit s.graphicsQueue [imageAvailable]
              [VK_PIPELINE_STAGE_COLOR_ATTACHMENT_OUTPUT_BIT] [commandBuffer]
              [renderFinished] slotFence]
          (if env.submitResult ≠ VK_SUCCESS then
            ⟨.error (.thrown "failed to submit draw command buffer!"), s, []⟩
          else
            Run.prepend
              [.vkQueuePresentKHR s.presentQueue [renderFinished] [s.swapChain]
                [env.imageIndex]]
              (presentOutcome env s)) := by
  unfold submitOutcome at h ⊢
  cases hcommand : s.commandBuffers[env.imageIndex]? with
  | none => rw [hcommand] at h; exact absurd rfl h
  | some commandBuffer =>
  rw [hcommand] at h
  dsimp only at h ⊢
  cases hfinished : s.renderFinishedSemaphores[s.currentFrame]? with
  | none => rw [hfinished] at h; exact absurd rfl h
  | some renderFinished => exact ⟨commandBuffer, renderFinished, rfl, rfl, rfl⟩

theorem uniformOutcome_of_submit (env : DrawFrameEnv) (s : App)
    (slotFence imageAvailable : Nat)
    (h : (uniformOutcome env s slotFence imageAvailable).trace.any
      (fun c => c.isFenceReset || c.isSubmit) = true) :
    ∃ uniformMemory lightingMemory,
      s.uniformBuffersMemory[env.imageIndex]? = some uniformMemory ∧
      s.lightingBuffersMemory[env.imageIndex]? = some lightingMemory ∧
      (submitOutcome env s slotFence imageAvailable).trace ≠ [] ∧
      uniformOutcome env s slotFence imageAvailable =
        Run.prepend
          [.vkMapMemory uniformMemory, .memcpy uniformMemory, .vkUnmapMemory uniformMemory,
            .vkMapMemory lightingMemory, .memcpy lightingMemory,
            .vkUnmapMemory lightingMemory]
          (submitOutcome env s slotFence imageAvailable) := by
  unfold uniformOutcome at h ⊢
  cases huniform : s.uniformBuffersMemory[env.imageIndex]? with
  | none => rw [huniform] at h; cases h
  | some uniformMemory =>
  rw [huniform] at h
  dsimp only at h ⊢
  cases hlighting : s.lightingBuffersMemory[env.imageIndex]? with
  | none => rw [hlighting] at h; cases h
  | some lightingMemory =>
  rw [hlighting] at h
  dsimp only at h ⊢
  refine ⟨uniformMemory, lightingMemory, rfl, rfl, ?_, rfl⟩
  intro hnil
  have h' : ([Call.vkMapMemory uniformMemory, .memcpy uniformMemory,
      .vkUnmapMemory uniformMemory, .vkMapMemory lightingMemory, .memcpy lightingMemory,
      .vkUnmapMemory lightingMemory] ++
      (submitOutcome env s slotFence imageAvailable).trace).any
      (fun c => c.isFenceReset || c.isSubmit) = true := h
  rw [hnil] at h'
  cases h'

/-- The calls `drawFrame` makes before the fence reset on its main path. -/
theorem drawFrame_of_submit (env : DrawFrameEnv) (s : App)
    (h : ((drawFrame env).run s).trace.any (fun c => c.isFenceReset || c.isSubmit) = true) :
    ∃ slotFence imageAvailable imageFence uniformMemory lightingMemory commandBuffer
        renderFinished,
      s.inFlightFences[s.currentFrame]? = some slotFence ∧
      s.imageAvailableSemaphores[s.currentFrame]? = some imageAvailable ∧
      s.imagesInFlight[env.imageIndex]? = some imageFence ∧
      s.uniformBuffersMemory[env.imageIndex]? = some uniformMemory ∧
      s.lightingBuffersMemory[env.imageIndex]? = some lightingMemory ∧
      s.commandBuffers[env.imageIndex]? = some commandBuffer ∧
      s.renderFinishedSemaphores[s.currentFrame]? = some renderFinished ∧
      (env.acquireResult = VK_SUCCESS ∨ env.acquireResult = VK_SUBOPTIMAL_KHR) ∧
      (drawFrame env).run s =
        Run.prepend
          ([.vkWaitForFences [slotFence],
            .vkAcquireNextImageKHR s.swapChain imageAvailable VK_NULL_HANDLE] ++
            (if imageFence ≠ VK_NULL_HANDLE then [.vkWaitForFences [imageFence]] else []) ++
            [.vkMapMemory uniformMemory, .memcpy uniformMemory, .vkUnmapMemory uniformMemory,
              .vkMapMemory lightingMemory, .memcpy lightingMemory,
              .vkUnmapMemory lightingMemory,
              .vkResetFences [slotFence],
              .vkQueueSubmit s.graphicsQueue [imageAvailable]
                [VK_PIPELINE_STAGE_COLOR_ATTACHMENT_OUTPUT_BIT] [commandBuffer]
                [renderFinished] slotFence])
          (if env.submitResult ≠ VK_SUCCESS then
            ⟨.error (.thrown "failed to submit draw command buffer!"),
              { s with imagesInFlight := s.imagesInFlight.set env.imageIndex slotFence }, []⟩
          else
            Run.prepend
              [.vkQueuePresentKHR s.presentQueue [renderFinished] [s.swapChain]
                [env.imageIndex]]
              (presentOutcome env
                { s with
                  imagesInFlight := s.imagesInFlight.set env.imageIndex slotFence })) := by
  rw [drawFrame_run_eq] at h ⊢
  unfold drawFrameRun at h ⊢
  cases hfence : s.inFlightFences[s.currentFrame]? with
  | none => rw [hfence] at h; cases h
  | some slotFence =>
  rw [hfence] at h
  dsimp only at h ⊢
  cases hsemaphore : s.imageAvailableSemaphores[s.currentFrame]? with
  | none => rw [hsemaphore] at h; cases h
  | some imageAvailable =>
  rw [hsemaphore] at h
  dsimp only at h ⊢
  by_cases hacquire : env.acquireResult = VK_ERROR_OUT_OF_DATE_KHR
  · rw [if_pos hacquire] at h
    have h' : ((recreateSwapChain env.recreate).run s).trace.any
        (fun c => c.isFenceReset || c.isSubmit) = true := h
    obtain ⟨c, hc, hcp⟩ := List.any_eq_true.1 h'
    have hout : c.isFrameCall = false :=
      ((outside_recreateSwapChain env.recreate).holds s).2 c hc
    cases c <;> simp [Call.isFrameCall, Call.isFenceReset, Call.isSubmit] at hout hcp
  rw [if_neg hacquire] at h ⊢
  by_cases hfatal : env.acquireResult ≠ VK_SUCCESS ∧ env.acquireResult ≠ VK_SUBOPTIMAL_KHR
  · rw [if_pos hfatal] at h
    cases h
  rw [if_neg hfatal] at h ⊢
  have hgood : env.acquireResult = VK_SUCCESS ∨ env.acquireResult = VK_SUBOPTIMAL_KHR := by
    by_cases h0 : env.acquireResult = VK_SUCCESS
    · exact Or.inl h0
    · by_cases h1 : env.acquireResult = VK_SUBOPTIMAL_KHR
      · exact Or.inr h1
      · exact absurd ⟨h0, h1⟩ hfatal
  unfold acquiredOutcome at h ⊢
  cases himage : s.imagesInFlight[env.imageIndex]? with
  | none => rw [himage] at h; cases h
  | some imageFence =>
  rw [himage] at h
  dsimp only at h ⊢
  have h' : (uniformOutcome env
      { s with imagesInFlight := s.imagesInFlight.set env.imageIndex slotFence }
      slotFence imageAvailable).trace.any (fun c => c.isFenceReset || c.isSubmit) = true := by
    by_cases hnull : imageFence ≠ VK_NULL_HANDLE
    · rw [if_pos hnull] at h
      exact h
    · rw [if_neg hnull] at h
      exact h
  obtain ⟨uniformMemory, lightingMemory, huniform, hlighting, hcalls, hrun⟩ :=
    uniformOutcome_of_submit env _ slotFence imageAvailable h'
  obtain ⟨commandBuffer, renderFinished, hcommand, hfinished, hrun'⟩ :=
    submitOutcome_of_calls env _ slotFence imageAvailable hcalls
  rw [hrun, hrun']
  refine ⟨slotFence, imageAvailable, imageFence, uniformMemory, lightingMemory,
    commandBuffer, renderFinished, rfl, rfl, rfl, huniform, hlighting, hcommand, hfinished,
    hgood, ?_⟩
  simp only [prepend_prepend, List.append_assoc, List.cons_append, List.nil_append]

theorem submitOutcome_returned (env : DrawFrameEnv) (s : App) (slotFence imageAvailable : Nat)
    (h : (submitOutcome env s slotFence imageAvailable).returned = true) :
    (submitOutcome env s slotFence imageAvailable).trace.any Call.isPresent = true := by
  unfold submitOutcome at h ⊢
  split
  · rename_i hnone
    rw [hnone] at h
    cases h
  · rename_i commandBuffer hcommand
    rw [hcommand] at h
    dsimp only at h ⊢
    split
    · rename_i hnone
      rw [hnone] at h
      cases h
    · rename_i renderFinished hfinished
      rw [hfinished] at h
      dsimp only at h ⊢
      by_cases hsubmit : env.submitResult ≠ VK_SUCCESS
      · rw [if_pos hsubmit] at h
        cases h
      · rw [if_neg hsubmit]
        rfl

theorem uniformOutcome_returned (env : DrawFrameEnv) (s : App)
    (slotFence imageAvailable : Nat)
    (h : (uniformOutcome env s slotFence imageAvailable).returned = true) :
    (uniformOutcome env s slotFence imageAvailable).trace.any Call.isPresent = true := by
  unfold uniformOutcome at h ⊢
  split
  · rename_i hnone
    rw [hnone] at h
    cases h
  · rename_i uniformMemory huniform
    rw [huniform] at h
    dsimp only at h ⊢
    split
    · rename_i hnone
      rw [hnone] at h
      cases h
    · rename_i lightingMemory hlighting
      rw [hlighting] at h
      dsimp only at h ⊢
      have h' : (submitOutcome env s slotFence imageAvailable).returned = true := h
      have := submitOutcome_returned env s slotFence imageAvailable h'
      rw [prepend_trace, prepend_trace, List.any_append, List.any_append, this]
      simp

/-- A frame that acquires an image and returns normally has issued its present request. -/
theorem drawFrame_returned_presented (env : DrawFrameEnv) (s : App)
    (hacquire : env.acquireResult = VK_SUCCESS ∨ env.acquireResult = VK_SUBOPTIMAL_KHR)
    (hreturned : ((drawFrame env).run s).returned = true) :
    ((drawFrame env).run s).trace.any Call.isPresent = true := by
  have hnotOld : env.acquireResult ≠ VK_ERROR_OUT_OF_DATE_KHR := by
    rcases hacquire with h | h <;> rw [h] <;> decide
  have hnotFatal : ¬(env.acquireResult ≠ VK_SUCCESS ∧
      env.acquireResult ≠ VK_SUBOPTIMAL_KHR) := by
    rintro ⟨h0, h1⟩
    rcases hacquire with h | h
    · exact h0 h
    · exact h1 h
  rw [drawFrame_run_eq] at hreturned ⊢
  unfold drawFrameRun at hreturned ⊢
  cases hfence : s.inFlightFences[s.currentFrame]? with
  | none => rw [hfence] at hreturned; cases hreturned
  | some slotFence =>
  rw [hfence] at hreturned
  dsimp only at hreturned ⊢
  cases hsemaphore : s.imageAvailableSemaphores[s.currentFrame]? with
  | none => rw [hsemaphore] at hreturned; cases hreturned
  | some imageAvailable =>
  rw [hsemaphore] at hreturned
  dsimp only at hreturned ⊢
  rw [if_neg hnotOld, if_neg hnotFatal] at hreturned ⊢
  unfold acquiredOutcome at hreturned ⊢
  cases himage : s.imagesInFlight[env.imageIndex]? with
  | none => rw [himage] at hreturned; cases hreturned
  | some imageFence =>
  rw [himage] at hreturned
  dsimp only at hreturned ⊢
  have h' : (uniformOutcome env
      { s with imagesInFlight := s.imagesInFlight.set env.imageIndex slotFence }
      slotFence imageAvailable).returned = true := hreturned
  have := uniformOutcome_returned env _ slotFence imageAvailable h'
  rw [prepend_trace, prepend_trace, prepend_trace, List.any_append, List.any_append,
    List.any_append, this]
  simp

theorem eq_of_split_unique {P : Call → Bool} (x c : Call) (tail after : List Call) :
    ∀ (front before : List Call), front ++ x :: tail = before ++ c :: after →
      (∀ d ∈ front, P d = false) → (∀ d ∈ tail, P d = false) → P c = true →
      before = front ∧ c = x := by
  intro front
  induction front with
  | nil =>
    intro before h _ htail hc
    cases before with
    | nil =>
      injection h with h1 _
      exact ⟨rfl, h1.symm⟩
    | cons b bs =>
      injection h with _ h2
      have hmem : c ∈ tail := by
        rw [h2]
        simp
      rw [htail c hmem] at hc
      cases hc
  | cons a rest ih =>
    intro before h hfront htail hc
    cases before with
    | nil =>
      injection h with h1 _
      rw [← h1, hfront a (List.mem_cons_self _ _)] at hc
      cases hc
    | cons b bs =>
      injection h with h1 h2
      obtain ⟨hb, hx⟩ := ih bs h2 (fun d hd => hfront d (List.mem_cons_of_mem _ hd)) htail hc
      exact ⟨by rw [hb, h1], hx⟩

theorem isFenceReset_of_outside (c : Call) (h : c.isFrameCall = false) :
    c.isFenceReset = false := by
  cases c <;> first | rfl | cases h

theorem any_of_mem_split {P : Call → Bool} (l before after : List Call) (c : Call)
    (h : l = before ++ c :: after) (hc : P c = true) : l.any P = true := by
  rw [h]
  exact List.any_eq_true.2 ⟨c, by simp, hc⟩

/-- C21: a `drawFrame` call whose acquisition reports success or suboptimal and which
returns normally makes exactly these calls, in this order: wait on the in-flight fence of
slot `currentFrame`; acquisition; a wait on the fence the image-in-flight table names for the
image, if it names one; the host write of the transform uniforms of the image (map, copy,
unmap); the host write of its lighting constants; reset of the slot fence; queue
submission; present request; after them only the calls of a swapchain recreation, none of
which is of one of these kinds. And in every `drawFrame` call, whatever its outcome, a fence
reset is the reset of the slot fence, acquisition has reported success or suboptimal (the
early return of an out-of-date acquisition is behind), and the calls before the reset are
exactly the wait on the slot fence, the acquisition, the wait on the table's fence if any,
and the two host writes. -/
theorem drawFrame_step_order (env : DrawFrameEnv) (s : App) :
    ((env.acquireResult = VK_SUCCESS ∨ env.acquireResult = VK_SUBOPTIMAL_KHR) →
      ((drawFrame env).run s).returned = true →
      ∃ slotFence imageAvailable imageFence uniformMemory lightingMemory commandBuffer
          renderFinished after,
        s.inFlightFences[s.currentFrame]? = some slotFence ∧
        s.imagesInFlight[env.imageIndex]? = some imageFence ∧
        s.uniformBuffersMemory[env.imageIndex]? = some uniformMemory ∧
        s.lightingBuffersMemory[env.imageIndex]? = some lightingMemory ∧
        ((drawFrame env).run s).trace =
          [.vkWaitForFences [slotFence],
            .vkAcquireNextImageKHR s.swapChain imageAvailable VK_NULL_HANDLE] ++
          (if imageFence ≠ VK_NULL_HANDLE then [.vkWaitForFences [imageFence]] else []) ++
          [.vkMapMemory uniformMemory, .memcpy uniformMemory, .vkUnmapMemory uniformMemory,
            .vkMapMemory lightingMemory, .memcpy lightingMemory,
            .vkUnmapMemory lightingMemory,
            .vkResetFences [slotFence],
            .vkQueueSubmit s.graphicsQueue [imageAvailable]
              [VK_PIPELINE_STAGE_COLOR_ATTACHMENT_OUTPUT_BIT] [commandBuffer]
              [renderFinished] slotFence,
            .vkQueuePresentKHR s.presentQueue [renderFinished] [s.swapChain]
              [env.imageIndex]] ++ after ∧
        ∀ c ∈ after, c.isFrameCall = false) ∧
    (∀ before c after, ((drawFrame env).run s).trace = before ++ c :: after →
      c.isFenceReset = true →
      (env.acquireResult = VK_SUCCESS ∨ env.acquireResult = VK_SUBOPTIMAL_KHR) ∧
      ∃ slotFence imageAvailable imageFence uniformMemory lightingMemory,
        s.inFlightFences[s.currentFrame]? = some slotFence ∧
        s.imagesInFlight[env.imageIndex]? = some imageFence ∧
        c = .vkResetFences [slotFence] ∧
        before =
          [.vkWaitForFences [slotFence],
            .vkAcquireNextImageKHR s.swapChain imageAvailable VK_NULL_HANDLE] ++
          (if imageFence ≠ VK_NULL_HANDLE then [.vkWaitForFences [imageFence]] else []) ++
          [.vkMapMemory uniformMemory, .memcpy uniformMemory, .vkUnmapMemory uniformMemory,
            .vkMapMemory lightingMemory, .memcpy lightingMemory,
            .vkUnmapMemory lightingMemory]) := by
  constructor
  · intro hacquire hreturned
    have hpresented := drawFrame_returned_presented env s hacquire hreturned
    have hsubmitted : ((drawFrame env).run s).trace.any
        (fun c => c.isFenceReset || c.isSubmit) = true := by
      obtain ⟨c, hc, hcp⟩ := List.any_eq_true.1 hpresented
      obtain ⟨f, a, g, um, lm, cb, rf, -, -, -, -, hrun⟩ :=
        drawFrame_presented env s hpresented
      rw [hrun, prepend_trace, List.any_append, List.any_append]
      simp [Call.isFenceReset, Call.isSubmit]
    obtain ⟨slotFence, imageAvailable, imageFence, uniformMemory, lightingMemory,
      commandBuffer, renderFinished, h1, -, h3, h4, h5, -, -, -, hrun⟩ :=
      drawFrame_of_submit env s hsubmitted
    have hsubmit : ¬ env.submitResult ≠ VK_SUCCESS := by
      intro hfail
      rw [hrun, if_pos hfail] at hreturned
      cases hreturned
    rw [if_neg hsubmit] at hrun
    refine ⟨slotFence, imageAvailable, imageFence, uniformMemory, lightingMemory,
      commandBuffer, renderFinished, _, h1, h3, h4, h5, ?_,
      presentOutcome_outside env
        { s with imagesInFlight := s.imagesInFlight.set env.imageIndex slotFence }⟩
    rw [hrun, prepend_trace, prepend_trace]
    simp only [List.append_assoc, List.cons_append, List.nil_append]
  · intro before c after hsplit hreset
    have hsubmitted : ((drawFrame env).run s).trace.any
        (fun c => c.isFenceReset || c.isSubmit) = true :=
      any_of_mem_split _ before after c hsplit (by rw [hreset]; rfl)
    obtain ⟨slotFence, imageAvailable, imageFence, uniformMemory, lightingMemory,
      commandBuffer, renderFinished, h1, -, h3, -, -, -, -, hgood, hrun⟩ :=
      drawFrame_of_submit env s hsubmitted
    refine ⟨hgood, slotFence, imageAvailable, imageFence, uniformMemory, lightingMemory, h1,
      h3, ?_⟩
    rw [hrun, prepend_trace] at hsplit
    have hsplit' : ([Call.vkWaitForFences [slotFence],
          Call.vkAcquireNextImageKHR s.swapChain imageAvailable VK_NULL_HANDLE] ++
        (if imageFence ≠ VK_NULL_HANDLE then [Call.vkWaitForFences [imageFence]] else []) ++
        [Call.vkMapMemory uniformMemory, .memcpy uniformMemory, .vkUnmapMemory uniformMemory,
          .vkMapMemory lightingMemory, .memcpy lightingMemory,
          .vkUnmapMemory lightingMemory]) ++
        Call.vkResetFences [slotFence] ::
          (Call.vkQueueSubmit s.graphicsQueue [imageAvailable]
              [VK_PIPELINE_STAGE_COLOR_ATTACHMENT_OUTPUT_BIT] [commandBuffer]
              [renderFinished] slotFence ::
            (if env.submitResult ≠ VK_SUCCESS then
              (⟨.error (.thrown "failed to submit draw command buffer!"),
                { s with imagesInFlight := s.imagesInFlight.set env.imageIndex slotFence },
                []⟩ : Run App Unit)
            else
              Run.prepend
                [.vkQueuePresentKHR s.presentQueue [renderFinished] [s.swapChain]
                  [env.imageIndex]]
                (presentOutcome env
                  { s with
                    imagesInFlight :=
                      s.imagesInFlight.set env.imageIndex slotFence })).trace) =
        before ++ c :: after := by
      rw [← hsplit]
      simp only [List.append_assoc, List.cons_append, List.nil_append]
    refine (fun h => (⟨h.2, h.1⟩ : c = _ ∧ before = _))
      (eq_of_split_unique (P := Call.isFenceReset) _ c _ after _ before hsplit' ?_ ?_ hreset)
    · intro d hd
      by_cases hnull : imageFence ≠ VK_NULL_HANDLE
      · rw [if_pos hnull] at hd
        simp only [List.cons_append, List.nil_append, List.mem_cons, List.mem_singleton] at hd
        rcases hd with rfl | rfl | rfl | rfl | rfl | rfl | rfl | rfl | rfl | hd
        all_goals first | rfl | cases hd
      · rw [if_neg hnull] at hd
        simp only [List.cons_append, List.nil_append, List.append_nil, List.mem_cons,
          List.mem_singleton] at hd
        rcases hd with rfl | rfl | rfl | rfl | rfl | rfl | rfl | rfl | hd
        all_goals first | rfl | cases hd
    · intro d hd
      rcases List.mem_cons.1 hd with h | h
      · rw [h]; rfl
      · by_cases hfail : env.submitResult ≠ VK_SUCCESS
        · rw [if_pos hfail] at h
          cases h
        · rw [if_neg hfail, prepend_trace] at h
          rcases List.mem_cons.1 h with h' | h'
          · rw [h']; rfl
          · exact isFenceReset_of_outside d (presentOutcome_outside env _ d h')

/-- Witness for C21: the sample frame on image 1 returns normally after exactly the eleven
calls of the order, the table entry of image 1 being null; its fence reset is the
reset of fence 221 and comes ninth. -/
theorem drawFrame_step_order_witness :
    (plainFrame.acquireResult = VK_SUCCESS ∨ plainFrame.acquireResult = VK_SUBOPTIMAL_KHR) ∧
    ((drawFrame plainFrame).run sampleApp).returned = true ∧
    ((drawFrame plainFrame).run sampleApp).trace =
      [.vkWaitForFences [221], .vkAcquireNextImageKHR 20 201 VK_NULL_HANDLE,
        .vkMapMemory 72, .memcpy 72, .vkUnmapMemory 72,
        .vkMapMemory 92, .memcpy 92, .vkUnmapMemory 92,
        .vkResetFences [221],
        .vkQueueSubmit 2 [201] [VK_PIPELINE_STAGE_COLOR_ATTACHMENT_OUTPUT_BIT] [122] [211] 221,
        .vkQueuePresentKHR 3 [211] [20] [1]] ∧
    (∃ after : List Call, (∀ c ∈ after, c.isFrameCall = false) ∧
      ((drawFrame plainFrame).run sampleApp).trace.length = 11 + after.length) ∧
    (plainFrame.acquireResult = VK_SUCCESS ∨
      plainFrame.acquireResult = VK_SUBOPTIMAL_KHR) := by
  refine ⟨Or.inl rfl, rfl, rfl, ?_, ?_⟩
  · obtain ⟨f, a, g, um, lm, cb, rf, after, -, hg, -, -, htrace, hafter⟩ :=
      (drawFrame_step_order plainFrame sampleApp).1 (Or.inl rfl) rfl
    refine ⟨after, hafter, ?_⟩
    have hg' : g = 0 := by
      have : sampleApp.imagesInFlight[plainFrame.imageIndex]? = some 0 := rfl
      rw [this] at hg
      exact (Option.some.inj hg).symm
    rw [htrace, hg', if_neg (fun h => h rfl)]
    simp only [List.length_append, List.length_cons, List.length_nil]
  · exact ((drawFrame_step_order plainFrame sampleApp).2
      [.vkWaitForFences [221], .vkAcquireNextImageKHR 20 201 VK_NULL_HANDLE,
        .vkMapMemory 72, .memcpy 72, .vkUnmapMemory 72,
        .vkMapMemory 92, .memcpy 92, .vkUnmapMemory 92]
      (.vkResetFences [221])
      [.vkQueueSubmit 2 [201] [VK_PIPELINE_STAGE_COLOR_ATTACHMENT_OUTPUT_BIT] [122] [211] 221,
        .vkQueuePresentKHR 3 [211] [20] [1]] rfl rfl).1

/-! ## Wiring of acquisition, submission and presentation -/

theorem signals_of_outside (c : Call) (h : c.isFrameCall = false) :
    c.semaphores = [] ∧ c.fences = [] ∧ c.isAcquire = false ∧ c.isSubmit = false ∧
      c.isPresent = false := by
  cases c <;> first | exact ⟨rfl, rfl, rfl, rfl, rfl⟩ | cases h

theorem filter_of_outside {P : Call → Bool} (l : List Call)
    (h : ∀ c ∈ l, P c = false) : l.filter P = [] :=
  List.filter_eq_nil_iff.2 (fun c hc => by rw [h c hc]; exact Bool.false_ne_true)

/-- C22 (counterexample): after three frames on the images 0, 1 and 2 the object is at slot
1, whose fence is 222, and the table names fence 221 of slot 0 for image 0. The fourth
frame acquires image 0, is submitted and returns normally, and it waits on fence 221, the
in-flight fence of the other slot. -/
theorem drawFrame_other_slot_fence_counterexample :
    afterThreeFrames.currentFrame = 1 ∧
    afterThreeFrames.inFlightFences = [221, 222] ∧
    afterThreeFrames.imagesInFlight = [221, 222, 221] ∧
    ((drawFrame (frameOn 0)).run afterThreeFrames).returned = true ∧
    ((drawFrame (frameOn 0)).run afterThreeFrames).trace =
      [.vkWaitForFences [222], .vkAcquireNextImageKHR 20 202 VK_NULL_HANDLE,
        .vkWaitForFences [221],
        .vkMapMemory 71, .memcpy 71, .vkUnmapMemory 71,
        .vkMapMemory 91, .memcpy 91, .vkUnmapMemory 91,
        .vkResetFences [222],
        .vkQueueSubmit 2 [202] [VK_PIPELINE_STAGE_COLOR_ATTACHMENT_OUTPUT_BIT] [121] [212] 222,
        .vkQueuePresentKHR 3 [212] [20] [0]] ∧
    (∃ c ∈ ((drawFrame (frameOn 0)).run afterThreeFrames).trace,
      ∃ fence ∈ c.fences, afterThreeFrames.inFlightFences[0]? = some fence ∧
        afterThreeFrames.inFlightFences[afterThreeFrames.currentFrame]? ≠ some fence) :=
  ⟨rfl, rfl, rfl, rfl, rfl, .vkWaitForFences [221], by decide, 221, by decide, rfl,
    by decide⟩

/-- C22 (amended): in every `drawFrame` call that reaches the queue submission, with slot
`s = currentFrame` and acquired image index `i`, there is one acquisition and it uses
`imageAvailableSemaphores[s]` and no fence; there is one queue submission and it executes
`commandBuffers[i]`, waits on exactly `imageAvailableSemaphores[s]`, signals exactly
`renderFinishedSemaphores[s]` and is given `inFlightFences[s]`; the present request, made
when the submission succeeded, waits on exactly `renderFinishedSemaphores[s]` and presents
image `i` of the current swapchain. Every semaphore a call of the frame names is one of
these two semaphores of slot `s`, and every fence a call of the frame names is the fence of
slot `s`, except in the wait on the fence that the image-in-flight table names for image
`i`. -/
theorem drawFrame_wiring (env : DrawFrameEnv) (s : App)
    (h : ((drawFrame env).run s).trace.any Call.isSubmit = true) :
    ∃ slotFence imageAvailable imageFence commandBuffer renderFinished,
      s.inFlightFences[s.currentFrame]? = some slotFence ∧
      s.imageAvailableSemaphores[s.currentFrame]? = some imageAvailable ∧
      s.renderFinishedSemaphores[s.currentFrame]? = some renderFinished ∧
      s.imagesInFlight[env.imageIndex]? = some imageFence ∧
      s.commandBuffers[env.imageIndex]? = some commandBuffer ∧
      ((drawFrame env).run s).trace.filter Call.isAcquire =
        [.vkAcquireNextImageKHR s.swapChain imageAvailable VK_NULL_HANDLE] ∧
      ((drawFrame env).run s).trace.filter Call.isSubmit =
        [.vkQueueSubmit s.graphicsQueue [imageAvailable]
          [VK_PIPELINE_STAGE_COLOR_ATTACHMENT_OUTPUT_BIT] [commandBuffer] [renderFinished]
          slotFence] ∧
      ((drawFrame env).run s).trace.filter Call.isPresent =
        (if env.submitResult = VK_SUCCESS then
          [.vkQueuePresentKHR s.presentQueue [renderFinished] [s.swapChain] [env.imageIndex]]
        else []) ∧
      (∀ c ∈ ((drawFrame env).run s).trace, ∀ semaphore ∈ c.semaphores,
        semaphore = imageAvailable ∨ semaphore = renderFinished) ∧
      (∀ c ∈ ((drawFrame env).run s).trace, ∀ fence ∈ c.fences,
        fence = slotFence ∨ (c.isAcquire = true ∧ fence = VK_NULL_HANDLE) ∨
          (c = .vkWaitForFences [imageFence] ∧ fence = imageFence)) := by
  have hsubmitted : ((drawFrame env).run s).trace.any
      (fun c => c.isFenceReset || c.isSubmit) = true := by
    obtain ⟨c, hc, hcp⟩ := List.any_eq_true.1 h
    exact List.any_eq_true.2 ⟨c, hc, by rw [hcp, Bool.or_true]⟩
  obtain ⟨slotFence, imageAvailable, imageFence, uniformMemory, lightingMemory,
    commandBuffer, renderFinished, h1, h2, h3, -, -, h6, h7, -, hrun⟩ :=
    drawFrame_of_submit env s hsubmitted
  refine ⟨slotFence, imageAvailable, imageFence, commandBuffer, renderFinished, h1, h2, h7,
    h3, h6, ?_⟩
  have houtside := presentOutcome_outside env
    { s with imagesInFlight := s.imagesInFlight.set env.imageIndex slotFence }
  have hnoAcquire := filter_of_outside (P := Call.isAcquire) _
    (fun c hc => (signals_of_outside c (houtside c hc)).2.2.1)
  have hnoSubmit := filter_of_outside (P := Call.isSubmit) _
    (fun c hc => (signals_of_outside c (houtside c hc)).2.2.2.1)
  have hnoPresent := filter_of_outside (P := Call.isPresent) _
    (fun c hc => (signals_of_outside c (houtside c hc)).2.2.2.2)
  rw [hrun, prepend_trace]
  by_cases hfail : env.submitResult ≠ VK_SUCCESS
  · rw [if_pos hfail, if_neg hfail]
    by_cases hnull : imageFence ≠ VK_NULL_HANDLE
    · rw [if_pos hnull]
      refine ⟨rfl, rfl, rfl, ?_, ?_⟩
      · intro c hc x hx
        simp only [List.cons_append, List.nil_append, List.append_nil, List.mem_cons,
          List.mem_singleton, List.not_mem_nil, or_false] at hc
        rcases hc with rfl | rfl | rfl | rfl | rfl | rfl | rfl | rfl | rfl | rfl | rfl
        all_goals simp [Call.semaphores] at hx
        all_goals simp [hx]
      · intro c hc x hx
        simp only [List.cons_append, List.nil_append, List.append_nil, List.mem_cons,
          List.mem_singleton, List.not_mem_nil, or_false] at hc
        rcases hc with rfl | rfl | rfl | rfl | rfl | rfl | rfl | rfl | rfl | rfl | rfl
        all_goals simp [Call.fences] at hx
        all_goals simp [hx, Call.isAcquire]
    · rw [if_neg hnull]
      refine ⟨rfl, rfl, rfl, ?_, ?_⟩
      · intro c hc x hx
        simp only [List.cons_append, List.nil_append, List.append_nil, List.mem_cons,
          List.mem_singleton, List.not_mem_nil, or_false] at hc
        rcases hc with rfl | rfl | rfl | rfl | rfl | rfl | rfl | rfl | rfl | rfl
        all_goals simp [Call.semaphores] at hx
        all_goals simp [hx]
      · intro c hc x hx
        simp only [List.cons_append, List.nil_append, List.append_nil, List.mem_cons,
          List.mem_singleton, List.not_mem_nil, or_false] at hc
        rcases hc with rfl | rfl | rfl | rfl | rfl | rfl | rfl | rfl | rfl | rfl
        all_goals simp [Call.fences] at hx
        all_goals simp [hx, Call.isAcquire]
  · have hok : env.submitResult = VK_SUCCESS := not_not.1 hfail
    rw [if_neg hfail, if_pos hok, prepend_trace]
    by_cases hnull : imageFence ≠ VK_NULL_HANDLE
    · rw [if_pos hnull]
      refine ⟨?_, ?_, ?_, ?_, ?_⟩
      · simp only [List.filter_append, hnoAcquire]; rfl
      · simp only [List.filter_append, hnoSubmit]; rfl
      · simp only [List.filter_append, hnoPresent]; rfl
      · intro c hc x hx
        rcases List.mem_append.1 hc with hc | hc
        · simp only [List.cons_append, List.nil_append, List.append_nil, List.mem_cons,
            List.mem_singleton, List.not_mem_nil, or_false] at hc
          rcases hc with rfl | rfl | rfl | rfl | rfl | rfl | rfl | rfl | rfl | rfl | rfl
          all_goals simp [Call.semaphores] at hx
          all_goals simp [hx]
        · rcases List.mem_append.1 hc with hc | hc
          · rw [List.mem_singleton.1 hc] at hx
            simp [Call.semaphores] at hx
            exact Or.inr hx
          · rw [(signals_of_outside c (houtside c hc)).1] at hx
            cases hx
      · intro c hc x hx
        rcases List.mem_append.1 hc with hc | hc
        · simp only [List.cons_append, List.nil_append, List.append_nil, List.mem_cons,
            List.mem_singleton, List.not_mem_nil, or_false] at hc
          rcases hc with rfl | rfl | rfl | rfl | rfl | rfl | rfl | rfl | rfl | rfl | rfl
          all_goals simp [Call.fences] at hx
          all_goals simp [hx, Call.isAcquire]
        · rcases List.mem_append.1 hc with hc | hc
          · rw [List.mem_singleton.1 hc] at hx
            cases hx
          · rw [(signals_of_outside c (houtside c hc)).2.1] at hx
            cases hx
    · rw [if_neg hnull]
      refine ⟨?_, ?_, ?_, ?_, ?_⟩
      · simp only [List.filter_append, hnoAcquire]; rfl
      · simp only [List.filter_append, hnoSubmit]; rfl
      · simp only [List.filter_append, hnoPresent]; rfl
      · intro c hc x hx
        rcases List.mem_append.1 hc with hc | hc
        · simp only [List.cons_append, List.nil_append, List.append_nil, List.mem_cons,
            List.mem_singleton, List.not_mem_nil, or_false] at hc
          rcases hc with rfl | rfl | rfl | rfl | rfl | rfl | rfl | rfl | rfl | rfl
          all_goals simp [Call.semaphores] at hx
          all_goals simp [hx]
        · rcases List.mem_append.1 hc with hc | hc
          · rw [List.mem_singleton.1 hc] at hx
            simp [Call.semaphores] at hx
            exact Or.inr hx
          · rw [(signals_of_outside c (houtside c hc)).1] at hx
            cases hx
      · intro c hc x hx
        rcases List.mem_append.1 hc with hc | hc
        · simp only [List.cons_append, List.nil_append, List.append_nil, List.mem_cons,
            List.mem_singleton, List.not_mem_nil, or_false] at hc
          rcases hc with rfl | rfl | rfl | rfl | rfl | rfl | rfl | rfl | rfl | rfl
          all_goals simp [Call.fences] at hx
          all_goals simp [hx, Call.isAcquire]
        · rcases List.mem_append.1 hc with hc | hc
          · rw [List.mem_singleton.1 hc] at hx
            cases hx
          · rw [(signals_of_outside c (houtside c hc)).2.1] at hx
            cases hx

/-- Witness for the amended C22: the fourth frame of the sample run, on slot 1 and image 0,
is submitted; its semaphores are 202 and 212, its fence is 222, and the table's fence for
image 0 is 221. -/
theorem drawFrame_wiring_witness :
    ((drawFrame (frameOn 0)).run afterThreeFrames).trace.any Call.isSubmit = true ∧
    ∃ slotFence imageAvailable imageFence commandBuffer renderFinished,
      afterThreeFrames.inFlightFences[afterThreeFrames.currentFrame]? = some slotFence ∧
      afterThreeFrames.imageAvailableSemaphores[afterThreeFrames.currentFrame]? =
        some imageAvailable ∧
      afterThreeFrames.renderFinishedSemaphores[afterThreeFrames.currentFrame]? =
        some renderFinished ∧
      afterThreeFrames.imagesInFlight[0]? = some imageFence ∧
      afterThreeFrames.commandBuffers[0]? = some commandBuffer ∧
      ((drawFrame (frameOn 0)).run afterThreeFrames).trace.filter Call.isSubmit =
        [.vkQueueSubmit afterThreeFrames.graphicsQueue [imageAvailable]
          [VK_PIPELINE_STAGE_COLOR_ATTACHMENT_OUTPUT_BIT] [commandBuffer] [renderFinished]
          slotFence] := by
  obtain ⟨f, a, g, cb, rf, h1, h2, h3, h4, h5, -, h7, -⟩ :=
    drawFrame_wiring (frameOn 0) afterThreeFrames rfl
  exact ⟨rfl, f, a, g, cb, rf, h1, h2, h3, h4, h5, h7⟩

/-! ## The state `createSyncObjects` leaves -/

theorem createSyncObjectsSlot_run (env : SyncEnv) (i : Nat) (s : App)
    (h : ((createSyncObjectsSlot env i).run s).returned = true) :
    (env.imageAvailableSemaphore i).1 = VK_SUCCESS ∧
    (env.renderFinishedSemaphore i).1 = VK_SUCCESS ∧
    (env.inFlightFence i).1 = VK_SUCCESS ∧
    (createSyncObjectsSlot env i).run s =
      ⟨.ok (),
        { s with
          imageAvailableSemaphores :=
            s.imageAvailableSemaphores.set i (env.imageAvailableSemaphore i).2
          renderFinishedSemaphores :=
            s.renderFinishedSemaphores.set i (env.renderFinishedSemaphore i).2
          inFlightFences := s.inFlightFences.set i (env.inFlightFence i).2 },
        [.vkCreate .semaphore VK_SUCCESS (env.imageAvailableSemaphore i).2,
          .vkCreate .semaphore VK_SUCCESS (env.renderFinishedSemaphore i).2,
          .vkCreateFence VK_FENCE_CREATE_SIGNALED_BIT VK_SUCCESS (env.inFlightFence i).2]⟩ := by
  unfold createSyncObjectsSlot at h ⊢
  rw [run_call_bind] at h ⊢
  by_cases h1 : (env.imageAvailableSemaphore i).1 ≠ VK_SUCCESS
  · rw [if_pos h1] at h
    cases h
  rw [if_neg h1] at h ⊢
  rw [run_modifyState_bind, run_call_bind] at h ⊢
  by_cases h2 : (env.renderFinishedSemaphore i).1 ≠ VK_SUCCESS
  · rw [if_pos h2] at h
    cases h
  rw [if_neg h2] at h ⊢
  rw [run_modifyState_bind, run_call_bind] at h ⊢
  by_cases h3 : (env.inFlightFence i).1 ≠ VK_SUCCESS
  · rw [if_pos h3] at h
    cases h
  rw [if_neg h3]
  rw [not_not.1 h1, not_not.1 h2, not_not.1 h3]
  exact ⟨rfl, rfl, rfl, rfl⟩

theorem resize_two (v : List Nat) (fill : Nat) : ∃ x y, resize v 2 fill = [x, y] := by
  have h := length_resize v 2 fill
  match hl : resize v 2 fill with
  | [] => rw [hl] at h; cases h
  | [_] => rw [hl] at h; cases h
  | [x, y] => exact ⟨x, y, rfl⟩
  | _ :: _ :: _ :: _ => rw [hl] at h; simp at h

theorem createSyncObjects_run (env : SyncEnv) (s : App)
    (h : ((createSyncObjects env).run s).returned = true) :
    (createSyncObjects env).run s =
      ⟨.ok (),
        { s with
          imageAvailableSemaphores :=
            [(env.imageAvailableSemaphore 0).2, (env.imageAvailableSemaphore 1).2]
          renderFinishedSemaphores :=
            [(env.renderFinishedSemaphore 0).2, (env.renderFinishedSemaphore 1).2]
          inFlightFences := [(env.inFlightFence 0).2, (env.inFlightFence 1).2]
          imagesInFlight := resize s.imagesInFlight s.swapChainImages.length VK_NULL_HANDLE },
        [.vkCreate .semaphore VK_SUCCESS (env.imageAvailableSemaphore 0).2,
          .vkCreate .semaphore VK_SUCCESS (env.renderFinishedSemaphore 0).2,
          .vkCreateFence VK_FENCE_CREATE_SIGNALED_BIT VK_SUCCESS (env.inFlightFence 0).2,
          .vkCreate .semaphore VK_SUCCESS (env.imageAvailableSemaphore 1).2,
          .vkCreate .semaphore VK_SUCCESS (env.renderFinishedSemaphore 1).2,
          .vkCreateFence VK_FENCE_CREATE_SIGNALED_BIT VK_SUCCESS (env.inFlightFence 1).2]⟩ := by
  unfold createSyncObjects at h ⊢
  rw [run_modifyState_bind, run_modifyState_bind, run_modifyState_bind,
    run_modifyState_bind] at h ⊢
  dsimp only at h ⊢
  obtain ⟨a0, a1, ha⟩ := resize_two s.imageAvailableSemaphores 0
  obtain ⟨r0, r1, hr⟩ := resize_two s.renderFinishedSemaphores 0
  obtain ⟨f0, f1, hf⟩ := resize_two s.inFlightFences 0
  have htwo : MAX_FRAMES_IN_FLIGHT = 2 := rfl
  rw [htwo] at h ⊢
  rw [ha, hr, hf] at h ⊢
  have hloop : ∀ s' : App, (forRange (createSyncObjectsSlot env) 0 2).run s' =
      (createSyncObjectsSlot env 0 >>= fun _ =>
        createSyncObjectsSlot env 1 >>= fun _ => (pure () : Exec App Unit)).run s' :=
    fun _ => rfl
  rw [hloop] at h ⊢
  cases hres0 : ((createSyncObjectsSlot env 0).run
      { s with
        imageAvailableSemaphores := [a0, a1], renderFinishedSemaphores := [r0, r1],
        inFlightFences := [f0, f1],
        imagesInFlight :=
          resize s.imagesInFlight s.swapChainImages.length VK_NULL_HANDLE }).result with
  | error e =>
    rw [run_bind_error hres0] at h
    cases h
  | ok u =>
    have hret0 : ((createSyncObjectsSlot env 0).run
      { s with
        imageAvailableSemaphores := [a0, a1], renderFinishedSemaphores := [r0, r1],
        inFlightFences := [f0, f1],
        imagesInFlight :=
          resize s.imagesInFlight s.swapChainImages.length VK_NULL_HANDLE }).returned =
        true := by
      unfold Run.returned
      rw [hres0]
    obtain ⟨-, -, -, hrun0⟩ := createSyncObjectsSlot_run env 0 _ hret0
    rw [run_bind_of_eq hrun0] at h ⊢
    rw [prepend_returned] at h
    cases hres1 : ((createSyncObjectsSlot env 1).run
      { s with
        imageAvailableSemaphores := [(env.imageAvailableSemaphore 0).2, a1],
        renderFinishedSemaphores := [(env.renderFinishedSemaphore 0).2, r1],
        inFlightFences := [(env.inFlightFence 0).2, f1],
        imagesInFlight :=
          resize s.imagesInFlight s.swapChainImages.length VK_NULL_HANDLE }).result with
    | error e =>
      have : ((createSyncObjectsSlot env 1 >>= fun _ => (pure () : Exec App Unit)).run
        { s with
          imageAvailableSemaphores := [(env.imageAvailableSemaphore 0).2, a1],
          renderFinishedSemaphores := [(env.renderFinishedSemaphore 0).2, r1],
          inFlightFences := [(env.inFlightFence 0).2, f1],
          imagesInFlight :=
            resize s.imagesInFlight s.swapChainImages.length VK_NULL_HANDLE }).returned =
          false := by
        rw [run_bind_error hres1]
        rfl
      exact absurd (h.symm.trans this) (by decide)
    | ok u1 =>
      have hret1 : ((createSyncObjectsSlot env 1).run
        { s with
          imageAvailableSemaphores := [(env.imageAvailableSemaphore 0).2, a1],
          renderFinishedSemaphores := [(env.renderFinishedSemaphore 0).2, r1],
          inFlightFences := [(env.inFlightFence 0).2, f1],
          imagesInFlight :=
            resize s.imagesInFlight s.swapChainImages.length VK_NULL_HANDLE }).returned =
          true := by
        unfold Run.returned
        rw [hres1]
      obtain ⟨-, -, -, hrun1⟩ := createSyncObjectsSlot_run env 1 _ hret1
      have hrun1' := run_bind_of_eq (f := fun _ => (pure () : Exec App Unit)) hrun1
      exact (congrArg (Run.prepend _) hrun1').trans rfl

theorem drawFrame_table (env : DrawFrameEnv) (s : App) :
    ((drawFrame env).run s).state.imagesInFlight = s.imagesInFlight ∨
    ((env.acquireResult = VK_SUCCESS ∨ env.acquireResult = VK_SUBOPTIMAL_KHR) ∧
      ∃ slotFence, ((drawFrame env).run s).state.imagesInFlight =
        s.imagesInFlight.set env.imageIndex slotFence) := by
  rw [drawFrame_run_eq]
  unfold drawFrameRun
  cases s.inFlightFences[s.currentFrame]? with
  | none => exact Or.inl rfl
  | some slotFence =>
  dsimp only
  rw [prepend_state]
  cases s.imageAvailableSemaphores[s.currentFrame]? with
  | none => exact Or.inl rfl
  | some imageAvailable =>
  dsimp only
  rw [prepend_state]
  by_cases hdate : env.acquireResult = VK_ERROR_OUT_OF_DATE_KHR
  · rw [if_pos hdate]
    exact Or.inl (recreateSwapChain_run env.recreate s).2.1.2.2.2.2.1
  rw [if_neg hdate]
  by_cases hfail : env.acquireResult ≠ VK_SUCCESS ∧ env.acquireResult ≠ VK_SUBOPTIMAL_KHR
  · rw [if_pos hfail]
    exact Or.inl rfl
  rw [if_neg hfail]
  have hgood : env.acquireResult = VK_SUCCESS ∨ env.acquireResult = VK_SUBOPTIMAL_KHR := by
    by_cases h1 : env.acquireResult = VK_SUCCESS
    · exact Or.inl h1
    · by_cases h2 : env.acquireResult = VK_SUBOPTIMAL_KHR
      · exact Or.inr h2
      · exact absurd ⟨h1, h2⟩ hfail
  unfold acquiredOutcome
  cases s.imagesInFlight[env.imageIndex]? with
  | none => exact Or.inl rfl
  | some imageFence =>
  dsimp only
  rw [prepend_state]
  exact Or.inr ⟨hgood, slotFence, (uniformOutcome_kept env _ slotFence imageAvailable).1⟩

theorem drawFrame_resets (env : DrawFrameEnv) (s : App) (c : Call)
    (hc : c ∈ ((drawFrame env).run s).trace) (hreset : c.isFenceReset = true) :
    ∃ slotFence, s.inFlightFences[s.currentFrame]? = some slotFence ∧
      c = .vkResetFences [slotFence] := by
  rcases (drawFrame_shape env s).2 with ⟨hinert, -⟩ | ⟨slotFence, imageFence, semaphore,
    writes, rest, hslot, -, -, htrace, hwrites, hend⟩
  · have := hinert c hc
    unfold Call.isInert at this
    rw [hreset] at this
    simp at this
  · refine ⟨slotFence, hslot, ?_⟩
    rw [htrace] at hc
    rcases List.mem_cons.1 hc with h | hc
    · rw [h] at hreset; cases hreset
    rcases List.mem_cons.1 hc with h | hc
    · rw [h] at hreset; cases hreset
    rcases List.mem_append.1 hc with hc | hc
    · unfold imageWait at hc
      split at hc
      · rw [List.mem_singleton.1 hc] at hreset; cases hreset
      · cases hc
    rcases List.mem_append.1 hc with hc | hc
    · have := hwrites c hc
      cases c <;> simp [Call.isHostWrite, Call.isFenceReset] at this hreset
    · rcases hend with hnil | ⟨submit, rest', hrest, hsubmit, hinert⟩
      · rw [hnil] at hc; cases hc
      · rw [hrest] at hc
        rcases List.mem_cons.1 hc with h | hc
        · exact h
        rcases List.mem_cons.1 hc with h | hc
        · rw [h] at hreset
          cases submit <;> simp [Call.submitFence, Call.isFenceReset] at hsubmit hreset
        · have := hinert c hc
          unfold Call.isInert at this
          rw [hreset] at this
          simp at this

theorem execute_signaled (accepted : Bool) (image : Nat) (gpu gpu' : Gpu) (c : Call)
    (fence : Nat) (h : gpu.execute accepted image c = some gpu')
    (hkeep : ∀ fences, c = .vkResetFences fences → fence ∉ fences)
    (hs : fence ∈ gpu.signaled) : fence ∈ gpu'.signaled := by
  cases c
  case vkResetFences fences =>
    simp only [Gpu.execute] at h
    rw [← Option.some.inj h]
    simp only [List.mem_filter]
    refine ⟨hs, ?_⟩
    have := hkeep fences rfl
    simpa using this
  case vkWaitForFences fences =>
    simp only [Gpu.execute] at h
    split at h
    · rw [← Option.some.inj h]; exact hs
    · cases h
  case vkQueueSubmit =>
    simp only [Gpu.execute] at h
    split at h
    · rw [← Option.some.inj h]; exact hs
    · rw [← Option.some.inj h]; exact hs
  case vkDeviceWaitIdle =>
    simp only [Gpu.execute] at h
    split at h
    · rw [← Option.some.inj h]; exact hs
    · cases h
  case vkQueueWaitIdle =>
    simp only [Gpu.execute] at h
    split at h
    · rw [← Option.some.inj h]; exact hs
    · cases h
  all_goals
    simp only [Gpu.execute] at h
    rw [← Option.some.inj h]
    exact hs

theorem steps_fence_signaled : ∀ (events : List Event) (m m' : Machine) (slot fence : Nat),
    m.steps events = some m' → m.app.inFlightFences.Nodup →
    m.app.inFlightFences[slot]? = some fence → fence ∈ m.gpu.signaled →
    (∀ c ∈ m.todo, ∀ fences, c = .vkResetFences fences → fence ∉ fences) →
    slot ∉ m.slotsStarted events → fence ∈ m'.gpu.signaled := by
  intro events
  induction events with
  | nil =>
    intro m m' slot fence hsteps _ _ hs _ _
    simp only [Machine.steps] at hsteps
    rw [← Option.some.inj hsteps]
    exact hs
  | cons e rest ih =>
    intro m m' slot fence hsteps hnodup hslot hs htodo hstarted
    simp only [Machine.steps] at hsteps
    cases hstep : m.step e with
    | none => rw [hstep] at hsteps; cases hsteps
    | some m1 =>
    rw [hstep] at hsteps
    simp only [Machine.slotsStarted, hstep] at hstarted
    have hfences := step_fences m m1 e hstep
    have hrest : slot ∉ m1.slotsStarted rest := fun hin =>
      hstarted (List.mem_append_right _ hin)
    refine ih m1 m' slot fence hsteps (by rw [hfences]; exact hnodup)
      (by rw [hfences]; exact hslot) ?_ ?_ hrest
    · cases e with
      | pollEvents size =>
        simp only [Machine.step] at hstep
        split at hstep
        · rw [← Option.some.inj hstep]; exact hs
        · cases hstep
      | frame env =>
        simp only [Machine.step] at hstep
        split at hstep
        · rw [← Option.some.inj hstep]; exact hs
        · cases hstep
      | call =>
        obtain ⟨c, rest', gpu, htodo', hexec, hm1⟩ := step_call_eq m m1 hstep
        rw [hm1]
        exact execute_signaled _ _ _ _ c fence hexec
          (htodo c (by rw [htodo']; exact List.mem_cons_self _ _)) hs
      | complete fence' image =>
        simp only [Machine.step] at hstep
        split at hstep
        · rw [← Option.some.inj hstep]
          exact List.mem_cons_of_mem _ hs
        · cases hstep
    · cases e with
      | pollEvents size =>
        simp only [Machine.step] at hstep
        split at hstep
        · rw [← Option.some.inj hstep]; exact htodo
        · cases hstep
      | frame env =>
        have hne : slot ≠ m.app.currentFrame := fun heq =>
          hstarted (List.mem_append_left _ (by rw [heq]; exact List.mem_singleton.2 rfl))
        simp only [Machine.step] at hstep
        split at hstep
        · rw [← Option.some.inj hstep]
          intro c hc fences hcf hin
          obtain ⟨slotFence, hlookup, hceq⟩ :=
            drawFrame_resets env m.app c hc (by rw [hcf]; rfl)
          rw [hcf] at hceq
          injection hceq with hfs
          rw [hfs, List.mem_singleton] at hin
          rw [← hin] at hlookup
          obtain ⟨h1, hget1⟩ := List.getElem?_eq_some_iff.1 hslot
          obtain ⟨h2, hget2⟩ := List.getElem?_eq_some_iff.1 hlookup
          exact hne ((List.Nodup.getElem_inj_iff hnodup).1 (hget1.trans hget2.symm))
        · cases hstep
      | call =>
        obtain ⟨c, rest', gpu, htodo', hexec, hm1⟩ := step_call_eq m m1 hstep
        rw [hm1]
        intro d hd
        exact htodo d (by rw [htodo']; exact List.mem_cons_of_mem _ hd)
      | complete fence' image =>
        simp only [Machine.step] at hstep
        split at hstep
        · rw [← Option.some.inj hstep]; exact htodo
        · cases hstep

theorem isFenceWait_of_outside (c : Call) (h : c.isFrameCall = false) :
    c.isFenceWait = false := by
  cases c <;> first | rfl | cases h

theorem submitOutcome_noWait (env : DrawFrameEnv) (s : App) (slotFence imageAvailable : Nat) :
    ∀ c ∈ (submitOutcome env s slotFence imageAvailable).trace, c.isFenceWait = false := by
  unfold submitOutcome
  split
  · intro c hc; cases hc
  · split
    · intro c hc; cases hc
    · rw [prepend_trace]
      intro c hc
      rcases List.mem_append.1 hc with hc | hc
      · simp only [List.mem_cons, List.mem_singleton, List.not_mem_nil, or_false] at hc
        rcases hc with rfl | rfl <;> rfl
      · split at hc
        · cases hc
        · rw [prepend_trace] at hc
          rcases List.mem_append.1 hc with hc | hc
          · rw [List.mem_singleton.1 hc]; rfl
          · exact isFenceWait_of_outside c (presentOutcome_outside env s c hc)

theorem uniformOutcome_noWait (env : DrawFrameEnv) (s : App) (slotFence imageAvailable : Nat) :
    ∀ c ∈ (uniformOutcome env s slotFence imageAvailable).trace, c.isFenceWait = false := by
  unfold uniformOutcome
  split
  · intro c hc; cases hc
  · rw [prepend_trace]
    intro c hc
    rcases List.mem_append.1 hc with hc | hc
    · simp only [List.mem_cons, List.mem_singleton, List.not_mem_nil, or_false] at hc
      rcases hc with rfl | rfl | rfl <;> rfl
    · split at hc
      · cases hc
      · rw [prepend_trace] at hc
        rcases List.mem_append.1 hc with hc | hc
        · simp only [List.mem_cons, List.mem_singleton, List.not_mem_nil, or_false] at hc
          rcases hc with rfl | rfl | rfl <;> rfl
        · exact submitOutcome_noWait env s slotFence imageAvailable c hc

theorem drawFrame_waits (env : DrawFrameEnv) (s : App)
    (hnull : ∀ fence, s.imagesInFlight[env.imageIndex]? = some fence →
      fence = VK_NULL_HANDLE) :
    ∀ c ∈ ((drawFrame env).run s).trace.tail, c.isFenceWait = false := by
  rw [drawFrame_run_eq]
  unfold drawFrameRun
  cases s.inFlightFences[s.currentFrame]? with
  | none => intro c hc; cases hc
  | some slotFence =>
  dsimp only
  rw [prepend_trace]
  show ∀ c ∈ _, _
  simp only [List.singleton_append, List.tail_cons]
  cases s.imageAvailableSemaphores[s.currentFrame]? with
  | none => intro c hc; cases hc
  | some imageAvailable =>
  dsimp only
  rw [prepend_trace]
  intro c hc
  rcases List.mem_append.1 hc with hc | hc
  · rw [List.mem_singleton.1 hc]; rfl
  by_cases hdate : env.acquireResult = VK_ERROR_OUT_OF_DATE_KHR
  · rw [if_pos hdate] at hc
    exact isFenceWait_of_outside c (((outside_recreateSwapChain env.recreate).holds s).2 c hc)
  rw [if_neg hdate] at hc
  by_cases hfail : env.acquireResult ≠ VK_SUCCESS ∧ env.acquireResult ≠ VK_SUBOPTIMAL_KHR
  · rw [if_pos hfail] at hc
    cases hc
  rw [if_neg hfail] at hc
  unfold acquiredOutcome at hc
  cases hentry : s.imagesInFlight[env.imageIndex]? with
  | none => rw [hentry] at hc; cases hc
  | some imageFence =>
  rw [hentry] at hc
  dsimp only at hc
  rw [prepend_trace, if_neg (fun h => h (hnull imageFence hentry))] at hc
  exact uniformOutcome_noWait env _ slotFence imageAvailable c hc

theorem steps_table_kept : ∀ (events : List Event) (m m' : Machine) (i : Nat),
    m.steps events = some m' → i ∉ imagesAcquired events →
    m'.app.imagesInFlight[i]? = m.app.imagesInFlight[i]? := by
  intro events
  induction events with
  | nil =>
    intro m m' i hsteps _
    simp only [Machine.steps] at hsteps
    rw [← Option.some.inj hsteps]
  | cons e rest ih =>
    intro m m' i hsteps hacquired
    simp only [Machine.steps] at hsteps
    cases hstep : m.step e with
    | none => rw [hstep] at hsteps; cases hsteps
    | some m1 =>
    rw [hstep] at hsteps
    cases e with
    | pollEvents size =>
      rw [ih m1 m' i hsteps hacquired]
      simp only [Machine.step] at hstep
      split at hstep
      · rw [← Option.some.inj hstep]; rfl
      · cases hstep
    | frame env =>
      simp only [imagesAcquired] at hacquired
      simp only [Machine.step] at hstep
      split at hstep
      · rcases drawFrame_table env m.app with hkept | ⟨hgood, slotFence, hset⟩
        · rw [ih m1 m' i hsteps (fun hin => hacquired (by
            split
            · exact List.mem_cons_of_mem _ hin
            · exact hin))]
          rw [← Option.some.inj hstep]
          show ((drawFrame env).run m.app).state.imagesInFlight[i]? = _
          rw [hkept]
        · rw [if_pos hgood] at hacquired
          rw [ih m1 m' i hsteps (fun hin => hacquired (List.mem_cons_of_mem _ hin))]
          rw [← Option.some.inj hstep]
          show ((drawFrame env).run m.app).state.imagesInFlight[i]? = _
          rw [hset, List.getElem?_set_ne]
          intro heq
          apply hacquired
          rw [heq]
          exact List.mem_cons_self _ _
      · cases hstep
    | call =>
      rw [ih m1 m' i hsteps hacquired]
      obtain ⟨c, rest', gpu, -, -, hm1⟩ := step_call_eq m m1 hstep
      rw [hm1]
    | complete fence' image =>
      rw [ih m1 m' i hsteps hacquired]
      simp only [Machine.step] at hstep
      split at hstep
      · rw [← Option.some.inj hstep]
      · cases hstep

/-- C29: when `createSyncObjects`, entered with the image-in-flight table empty (its member
initialiser), returns normally, there are `MAX_FRAMES_IN_FLIGHT = 2` image-available
semaphores, 2 render-finished semaphores and 2 in-flight fences, the handles the six
creating calls wrote; both fences were created with `VK_FENCE_CREATE_SIGNALED_BIT`, so they
are the fences signaled on entry to `mainLoop`, with nothing submitted; and the
image-in-flight table has one entry per swapchain image, each `VK_NULL_HANDLE`. Therefore,
after any steps of the program and the device from there: the in-flight fence of a slot on
which no `drawFrame` call has been entered yet is signaled, so that a wait on it comes back
at once (fence handles being distinct); and a `drawFrame` call on an image that no earlier
call has acquired finds the table entry null and, after its first call (the wait on the slot
fence), waits on no fence. -/
theorem createSyncObjects_initial_state (env : SyncEnv) (s0 : App)
    (hempty : s0.imagesInFlight = [])
    (hreturned : ((createSyncObjects env).run s0).returned = true) :
    MAX_FRAMES_IN_FLIGHT = 2 ∧
    ((createSyncObjects env).run s0).state.imageAvailableSemaphores =
      [(env.imageAvailableSemaphore 0).2, (env.imageAvailableSemaphore 1).2] ∧
    ((createSyncObjects env).run s0).state.renderFinishedSemaphores =
      [(env.renderFinishedSemaphore 0).2, (env.renderFinishedSemaphore 1).2] ∧
    ((createSyncObjects env).run s0).state.inFlightFences =
      [(env.inFlightFence 0).2, (env.inFlightFence 1).2] ∧
    ((createSyncObjects env).run s0).trace =
      [.vkCreate .semaphore VK_SUCCESS (env.imageAvailableSemaphore 0).2,
        .vkCreate .semaphore VK_SUCCESS (env.renderFinishedSemaphore 0).2,
        .vkCreateFence VK_FENCE_CREATE_SIGNALED_BIT VK_SUCCESS (env.inFlightFence 0).2,
        .vkCreate .semaphore VK_SUCCESS (env.imageAvailableSemaphore 1).2,
        .vkCreate .semaphore VK_SUCCESS (env.renderFinishedSemaphore 1).2,
        .vkCreateFence VK_FENCE_CREATE_SIGNALED_BIT VK_SUCCESS (env.inFlightFence 1).2] ∧
    (Machine.init env s0).gpu =
      ⟨((createSyncObjects env).run s0).state.inFlightFences, []⟩ ∧
    ((createSyncObjects env).run s0).state.imagesInFlight =
      List.replicate s0.swapChainImages.length VK_NULL_HANDLE ∧
    ∀ (events : List Event) (m : Machine), (Machine.init env s0).steps events = some m →
      (((createSyncObjects env).run s0).state.inFlightFences.Nodup →
        ∀ slot fence, m.app.inFlightFences[slot]? = some fence →
          slot ∉ (Machine.init env s0).slotsStarted events →
          fence ∈ m.gpu.signaled ∧
          ∀ accepted image,
            m.gpu.execute accepted image (.vkWaitForFences [fence]) = some m.gpu) ∧
      ∀ frame : DrawFrameEnv, frame.imageIndex ∉ imagesAcquired events →
        (frame.imageIndex < s0.swapChainImages.length →
          m.app.imagesInFlight[frame.imageIndex]? = some VK_NULL_HANDLE) ∧
        ∀ c ∈ ((drawFrame frame).run m.app).trace.tail, c.isFenceWait = false := by
  have hrun := createSyncObjects_run env s0 hreturned
  have hsignaled : (Machine.init env s0).gpu =
      ⟨((createSyncObjects env).run s0).state.inFlightFences, []⟩ := by
    unfold Machine.init
    rw [hrun]
    simp [signaledAtCreation]
  have htable : ((createSyncObjects env).run s0).state.imagesInFlight =
      List.replicate s0.swapChainImages.length VK_NULL_HANDLE := by
    rw [hrun]
    show resize s0.imagesInFlight s0.swapChainImages.length VK_NULL_HANDLE = _
    rw [hempty]
    simp [resize]
  refine ⟨rfl, by rw [hrun], by rw [hrun], by rw [hrun], by rw [hrun], hsignaled, htable, ?_⟩
  intro events m hsteps
  have hfences : m.app.inFlightFences = ((createSyncObjects env).run s0).state.inFlightFences :=
    (steps_owned events _ m (init_owned env s0).1 (init_owned env s0).2 hsteps).2.2
  constructor
  · intro hnodup slot fence hslot hstarted
    have hin : fence ∈ m.gpu.signaled := by
      refine steps_fence_signaled events (Machine.init env s0) m slot fence hsteps hnodup
        (hfences ▸ hslot) ?_ (fun c hc => by cases hc) hstarted
      rw [hsignaled]
      show fence ∈ ((createSyncObjects env).run s0).state.inFlightFences
      rw [← hfences]
      exact List.mem_iff_getElem?.2 ⟨slot, hslot⟩
    refine ⟨hin, fun accepted image => ?_⟩
    simp only [Gpu.execute]
    rw [if_pos]
    simpa using hin
  · intro frame hacquired
    have hkept := steps_table_kept events (Machine.init env s0) m frame.imageIndex hsteps
      hacquired
    have hinit : (Machine.init env s0).app.imagesInFlight =
        List.replicate s0.swapChainImages.length VK_NULL_HANDLE := htable
    rw [hinit] at hkept
    constructor
    · intro hlt
      rw [hkept]
      simp [hlt]
    · refine drawFrame_waits frame m.app ?_
      intro fence hentry
      rw [hkept] at hentry
      have hmem : fence ∈ List.replicate s0.swapChainImages.length VK_NULL_HANDLE :=
        List.mem_iff_getElem?.2 ⟨_, hentry⟩
      exact (List.mem_replicate.1 hmem).2

/-- Witness for C29: the sample `createSyncObjects` run returns with semaphores 201, 202,
211, 212 and fences 221, 222; after a first frame on slot 0 and image 1, fence 222 of slot 1
is still signaled and the entry of image 0 is still null. -/
theorem createSyncObjects_initial_state_witness :
    sampleAppBeforeSync.imagesInFlight = [] ∧
    ((createSyncObjects sampleSync).run sampleAppBeforeSync).returned = true ∧
    ((createSyncObjects sampleSync).run sampleAppBeforeSync).state.inFlightFences =
      [221, 222] ∧
    (Machine.init sampleSync sampleAppBeforeSync).steps firstFrame =
      some (sampleMachine firstFrame) ∧
    [221, 222].Nodup ∧
    (sampleMachine firstFrame).app.inFlightFences[1]? = some 222 ∧
    (Machine.init sampleSync sampleAppBeforeSync).slotsStarted firstFrame = [0] ∧
    222 ∈ (sampleMachine firstFrame).gpu.signaled ∧
    imagesAcquired firstFrame = [1] ∧
    (sampleMachine firstFrame).app.imagesInFlight[(frameOn 0).imageIndex]? =
      some VK_NULL_HANDLE :=
  ⟨rfl, rfl, rfl, rfl, by decide, rfl, rfl,
    (((createSyncObjects_initial_state sampleSync sampleAppBeforeSync rfl rfl).2.2.2.2.2.2.2
      firstFrame (sampleMachine firstFrame) rfl).1 (by decide) 1 222 rfl (by decide)).1,
    rfl,
    (((createSyncObjects_initial_state sampleSync sampleAppBeforeSync rfl rfl).2.2.2.2.2.2.2
      firstFrame (sampleMachine firstFrame) rfl).2 (frameOn 0) (by decide)).1 (by decide)⟩

/-! ## Staged uploads -/

theorem createBuffer_returned {σ : Type} (memProperties : VkPhysicalDeviceMemoryProperties)
    (env : AllocationEnv) (size usage properties : Nat) (s : σ)
    (h : ((createBuffer memProperties env size usage properties).run s).returned = true) :
    ∃ memoryTypeIndex,
      findMemoryType memProperties env.memoryTypeBits properties = .ok memoryTypeIndex ∧
      (createBuffer memProperties env size usage properties).run s =
        ⟨.ok (env.resource.2, env.memory.2), s,
          [.vkCreateBuffer size usage VK_SUCCESS env.resource.2,
            .vkAllocateMemory env.memorySize memoryTypeIndex VK_SUCCESS env.memory.2,
            .vkBindMemory env.resource.2 env.memory.2 env.bindResult]⟩ := by
  rw [createBuffer_run] at h ⊢
  rw [prepend_returned] at h
  by_cases hcreate : env.resource.1 ≠ VK_SUCCESS
  · rw [if_pos hcreate] at h
    cases h
  rw [if_neg hcreate] at h ⊢
  cases hfind : findMemoryType memProperties env.memoryTypeBits properties with
  | error e =>
    rw [hfind] at h
    cases h
  | ok memoryTypeIndex =>
    rw [hfind] at h
    dsimp only at h ⊢
    rw [prepend_returned] at h
    by_cases hallocate : env.memory.1 ≠ VK_SUCCESS
    · rw [if_pos hallocate] at h
      cases h
    rw [if_neg hallocate]
    rw [not_not.1 hcreate, not_not.1 hallocate]
    exact ⟨memoryTypeIndex, rfl, rfl⟩

theorem createImage_returned {σ : Type} (memProperties : VkPhysicalDeviceMemoryProperties)
    (env : AllocationEnv) (width height format tiling usage properties : Nat) (s : σ)
    (h : ((createImage memProperties env width height format tiling usage properties).run
      s).returned = true) :
    ∃ memoryTypeIndex,
      findMemoryType memProperties env.memoryTypeBits properties = .ok memoryTypeIndex ∧
      (createImage memProperties env width height format tiling usage properties).run s =
        ⟨.ok (env.resource.2, env.memory.2), s,
          [.vkCreateImage width height format tiling VK_IMAGE_LAYOUT_UNDEFINED usage
              VK_SUCCESS env.resource.2,
            .vkAllocateMemory env.memorySize memoryTypeIndex VK_SUCCESS env.memory.2,
            .vkBindMemory env.resource.2 env.memory.2 env.bindResult]⟩ := by
  rw [createImage_run] at h ⊢
  rw [prepend_returned] at h
  by_cases hcreate : env.resource.1 ≠ VK_SUCCESS
  · rw [if_pos hcreate] at h
    cases h
  rw [if_neg hcreate] at h ⊢
  cases hfind : findMemoryType memProperties env.memoryTypeBits properties with
  | error e =>
    rw [hfind] at h
    cases h
  | ok memoryTypeIndex =>
    rw [hfind] at h
    dsimp only at h ⊢
    rw [prepend_returned] at h
    by_cases hallocate : env.memory.1 ≠ VK_SUCCESS
    · rw [if_pos hallocate] at h
      cases h
    rw [if_neg hallocate]
    rw [not_not.1 hcreate, not_not.1 hallocate]
    exact ⟨memoryTypeIndex, rfl, rfl⟩

theorem returned_of_bind {σ α β : Type} (m : Exec σ α) (f : α → Exec σ β) (s : σ)
    (h : ((m >>= f).run s).returned = true) :
    ∃ a, (m.run s).result = .ok a ∧ (m.run s).returned = true ∧
      ((f a).run (m.run s).state).returned = true := by
  rcases run_bind_cases m f s with ⟨a, hres, heq⟩ | ⟨e, hres, heq⟩
  · rw [heq, prepend_returned] at h
    refine ⟨a, hres, ?_, h⟩
    unfold Run.returned
    rw [hres]
  · rw [heq] at h
    cases h

theorem createIndexBuffer_run (env : UploadEnv) (m : Mesh) (s : App)
    (h : ((createIndexBuffer env m).run s).returned = true) :
    ∃ stagingType destinationType,
      findMemoryType env.memProperties env.staging.memoryTypeBits
        (VK_MEMORY_PROPERTY_HOST_VISIBLE_BIT ||| VK_MEMORY_PROPERTY_HOST_COHERENT_BIT) =
        .ok stagingType ∧
      findMemoryType env.memProperties env.destination.memoryTypeBits
        VK_MEMORY_PROPERTY_DEVICE_LOCAL_BIT = .ok destinationType ∧
      (createIndexBuffer env m).run s =
        ⟨.ok (),
          { s with
            indexBuffer := env.destination.resource.2
            indexBufferMemory := env.destination.memory.2 },
          [.vkCreateBuffer (sizeofInt * m.indices) VK_BUFFER_USAGE_TRANSFER_SRC_BIT VK_SUCCESS
              env.staging.resource.2,
            .vkAllocateMemory env.staging.memorySize stagingType VK_SUCCESS
              env.staging.memory.2,
            .vkBindMemory env.staging.resource.2 env.staging.memory.2 env.staging.bindResult,
            .vkMapMemory env.staging.memory.2, .memcpy env.staging.memory.2,
            .vkUnmapMemory env.staging.memory.2,
            .vkCreateBuffer (sizeofInt * m.indices)
              (VK_BUFFER_USAGE_TRANSFER_DST_BIT ||| VK_BUFFER_USAGE_INDEX_BUFFER_BIT)
              VK_SUCCESS env.destination.resource.2,
            .vkAllocateMemory env.destination.memorySize destinationType VK_SUCCESS
              env.destination.memory.2,
            .vkBindMemory env.destination.resource.2 env.destination.memory.2
              env.destination.bindResult,
            .vkAllocateCommandBuffers s.commandPool VK_COMMAND_BUFFER_LEVEL_PRIMARY 1
              [env.commandBuffer],
            .vkBeginCommandBuffer env.commandBuffer
              VK_COMMAND_BUFFER_USAGE_ONE_TIME_SUBMIT_BIT,
            .vkCmdCopyBuffer env.commandBuffer env.staging.resource.2
              env.destination.resource.2 [⟨0, 0, sizeofInt * m.indices⟩],
            .vkEndCommandBuffer env.commandBuffer,
            .vkQueueSubmit s.graphicsQueue [] [] [env.commandBuffer] [] VK_NULL_HANDLE,
            .vkQueueWaitIdle s.graphicsQueue,
            .vkFreeCommandBuffers s.commandPool [env.commandBuffer],
            .vkDestroy .buffer env.staging.resource.2,
            .vkDestroy .memory env.staging.memory.2]⟩ := by
  unfold createIndexBuffer at h ⊢
  obtain ⟨_, -, hret1, -⟩ := returned_of_bind _ _ s h
  obtain ⟨stagingType, hfind1, hrun1⟩ := createBuffer_returned _ _ _ _ _ s hret1
  rw [run_bind_of_eq hrun1] at h ⊢
  rw [prepend_returned] at h
  dsimp only at h ⊢
  rw [run_call_bind, run_call_bind, run_call_bind] at h ⊢
  rw [prepend_returned, prepend_returned, prepend_returned] at h
  obtain ⟨_, -, hret2, -⟩ := returned_of_bind _ _ s h
  obtain ⟨destinationType, hfind2, hrun2⟩ := createBuffer_returned _ _ _ _ _ s hret2
  rw [run_bind_of_eq hrun2]
  dsimp only
  rw [run_modifyState_bind, run_bind_of_eq (copyBuffer_run _ _ _ _ _), run_call_bind]
  exact ⟨stagingType, destinationType, hfind1, hfind2, rfl⟩

theorem createVertexBuffer_run (env : UploadEnv) (m : Mesh) (s : App)
    (h : ((createVertexBuffer env m).run s).returned = true) :
    ∃ stagingType destinationType,
      findMemoryType env.memProperties env.staging.memoryTypeBits
        (VK_MEMORY_PROPERTY_HOST_VISIBLE_BIT ||| VK_MEMORY_PROPERTY_HOST_COHERENT_BIT) =
        .ok stagingType ∧
      findMemoryType env.memProperties env.destination.memoryTypeBits
        VK_MEMORY_PROPERTY_DEVICE_LOCAL_BIT = .ok destinationType ∧
      (createVertexBuffer env m).run s =
        ⟨.ok (),
          { s with
            vertexBuffer := env.destination.resource.2
            vertexBufferMemory := env.destination.memory.2 },
          [.vkCreateBuffer (sizeofVertex * m.vertices) VK_BUFFER_USAGE_TRANSFER_SRC_BIT VK_SUCCESS
              env.staging.resource.2,
            .vkAllocateMemory env.staging.memorySize stagingType VK_SUCCESS
              env.staging.memory.2,
            .vkBindMemory env.staging.resource.2 env.staging.memory.2 env.staging.bindResult,
            .vkMapMemory env.staging.memory.2, .memcpy env.staging.memory.2,
            .vkUnmapMemory env.staging.memory.2,
            .vkCreateBuffer (sizeofVertex * m.vertices)
              (VK_BUFFER_USAGE_TRANSFER_DST_BIT ||| VK_BUFFER_USAGE_VERTEX_BUFFER_BIT)
              VK_SUCCESS env.destination.resource.2,
            .vkAllocateMemory env.destination.memorySize destinationType VK_SUCCESS
              env.destination.memory.2,
            .vkBindMemory env.destination.resource.2 env.destination.memory.2
              env.destination.bindResult,
            .vkAllocateCommandBuffers s.commandPool VK_COMMAND_BUFFER_LEVEL_PRIMARY 1
              [env.commandBuffer],
            .vkBeginCommandBuffer env.commandBuffer
              VK_COMMAND_BUFFER_USAGE_ONE_TIME_SUBMIT_BIT,
            .vkCmdCopyBuffer env.commandBuffer env.staging.resource.2
              env.destination.resource.2 [⟨0, 0, sizeofVertex * m.vertices⟩],
            .vkEndCommandBuffer env.commandBuffer,
            .vkQueueSubmit s.graphicsQueue [] [] [env.commandBuffer] [] VK_NULL_HANDLE,
            .vkQueueWaitIdle s.graphicsQueue,
            .vkFreeCommandBuffers s.commandPool [env.commandBuffer],
            .vkDestroy .buffer env.staging.resource.2,
            .vkDestroy .memory env.staging.memory.2]⟩ := by
  unfold createVertexBuffer at h ⊢
  obtain ⟨_, -, hret1, -⟩ := returned_of_bind _ _ s h
  obtain ⟨stagingType, hfind1, hrun1⟩ := createBuffer_returned _ _ _ _ _ s hret1
  rw [run_bind_of_eq hrun1] at h ⊢
  rw [prepend_returned] at h
  dsimp only at h ⊢
  rw [run_call_bind, run_call_bind, run_call_bind] at h ⊢
  rw [prepend_returned, prepend_returned, prepend_returned] at h
  obtain ⟨_, -, hret2, -⟩ := returned_of_bind _ _ s h
  obtain ⟨destinationType, hfind2, hrun2⟩ := createBuffer_returned _ _ _ _ _ s hret2
  rw [run_bind_of_eq hrun2]
  dsimp only
  rw [run_modifyState_bind, run_bind_of_eq (copyBuffer_run _ _ _ _ _), run_call_bind]
  exact ⟨stagingType, destinationType, hfind1, hfind2, rfl⟩

theorem loadTexels_ok (file : TextureFile) (imageSize : Nat)
    (h : loadTexels file = .ok imageSize) :
    file.isOpen = true ∧ (imageSize : Int) = file.texWidth * file.texHeight * 4 := by
  unfold loadTexels at h
  split at h
  · cases h
  rename_i hopen
  split at h
  · cases h
  rename_i size hsize
  split at h
  · cases h
  split at h
  · cases h
  rename_i count hcount
  split at h
  · cases h
  rename_i hnonneg
  split at h
  · cases h
  injection h with h
  unfold intMul at hsize hcount
  split at hsize
  · injection hsize with hsize
    split at hcount
    · injection hcount with hcount
      refine ⟨by simpa using hopen, ?_⟩
      rw [← h, Int.toNat_of_nonneg (not_lt.1 hnonneg), ← hcount, ← hsize]
    · cases hcount
  · cases hsize

theorem createTextureImage_run (env : TextureEnv) (s : App)
    (h : ((createTextureImage env).run s).returned = true) :
    ∃ imageSize stagingType imageType,
      loadTexels env.file = .ok imageSize ∧
      findMemoryType env.memProperties env.staging.memoryTypeBits
        (VK_MEMORY_PROPERTY_HOST_VISIBLE_BIT ||| VK_MEMORY_PROPERTY_HOST_COHERENT_BIT) =
        .ok stagingType ∧
      findMemoryType env.memProperties env.image.memoryTypeBits
        VK_MEMORY_PROPERTY_DEVICE_LOCAL_BIT = .ok imageType ∧
      (createTextureImage env).run s =
        ⟨.ok (),
          { s with
            textureImage := env.image.resource.2
            textureImageMemory := env.image.memory.2 },
          [.vkCreateBuffer imageSize VK_BUFFER_USAGE_TRANSFER_SRC_BIT VK_SUCCESS
              env.staging.resource.2,
            .vkAllocateMemory env.staging.memorySize stagingType VK_SUCCESS
              env.staging.memory.2,
            .vkBindMemory env.staging.resource.2 env.staging.memory.2 env.staging.bindResult,
            .vkMapMemory env.staging.memory.2, .memcpy env.staging.memory.2,
            .vkUnmapMemory env.staging.memory.2,
            .vkCreateImage (toUint32 env.file.texWidth) (toUint32 env.file.texHeight)
              VK_FORMAT_R8G8B8A8_SRGB VK_IMAGE_TILING_OPTIMAL VK_IMAGE_LAYOUT_UNDEFINED
              (VK_IMAGE_USAGE_TRANSFER_DST_BIT ||| VK_IMAGE_USAGE_SAMPLED_BIT) VK_SUCCESS
              env.image.resource.2,
            .vkAllocateMemory env.image.memorySize imageType VK_SUCCESS env.image.memory.2,
            .vkBindMemory env.image.resource.2 env.image.memory.2 env.image.bindResult,
            .vkAllocateCommandBuffers s.commandPool VK_COMMAND_BUFFER_LEVEL_PRIMARY 1
              [env.transferCommandBuffer],
            .vkBeginCommandBuffer env.transferCommandBuffer
              VK_COMMAND_BUFFER_USAGE_ONE_TIME_SUBMIT_BIT,
            .vkCmdPipelineBarrier env.transferCommandBuffer VK_PIPELINE_STAGE_TOP_OF_PIPE_BIT
              VK_PIPELINE_STAGE_TRANSFER_BIT
              [{ srcAccessMask := 0, dstAccessMask := VK_ACCESS_TRANSFER_WRITE_BIT,
                 oldLayout := VK_IMAGE_LAYOUT_UNDEFINED,
                 newLayout := VK_IMAGE_LAYOUT_TRANSFER_DST_OPTIMAL,
                 srcQueueFamilyIndex := VK_QUEUE_FAMILY_IGNORED,
                 dstQueueFamilyIndex := VK_QUEUE_FAMILY_IGNORED,
                 image := env.image.resource.2,
                 aspectMask := VK_IMAGE_ASPECT_COLOR_BIT, baseMipLevel := 0, levelCount := 1,
                 baseArrayLayer := 0, layerCount := 1 }],
            .vkEndCommandBuffer env.transferCommandBuffer,
            .vkQueueSubmit s.graphicsQueue [] [] [env.transferCommandBuffer] []
              VK_NULL_HANDLE,
            .vkQueueWaitIdle s.graphicsQueue,
            .vkFreeCommandBuffers s.commandPool [env.transferCommandBuffer],
            .vkAllocateCommandBuffers s.commandPool VK_COMMAND_BUFFER_LEVEL_PRIMARY 1
              [env.copyCommandBuffer],
            .vkBeginCommandBuffer env.copyCommandBuffer
              VK_COMMAND_BUFFER_USAGE_ONE_TIME_SUBMIT_BIT,
            .vkCmdCopyBufferToImage env.copyCommandBuffer env.staging.resource.2
              env.image.resource.2 VK_IMAGE_LAYOUT_TRANSFER_DST_OPTIMAL
              [⟨0, 0, 0, VK_IMAGE_ASPECT_COLOR_BIT, 0, 0, 1, (0, 0, 0),
                (toUint32 env.file.texWidth, toUint32 env.file.texHeight, 1)⟩],
            .vkEndCommandBuffer env.copyCommandBuffer,
            .vkQueueSubmit s.graphicsQueue [] [] [env.copyCommandBuffer] [] VK_NULL_HANDLE,
            .vkQueueWaitIdle s.graphicsQueue,
            .vkFreeCommandBuffers s.commandPool [env.copyCommandBuffer],
            .vkAllocateCommandBuffers s.commandPool VK_COMMAND_BUFFER_LEVEL_PRIMARY 1
              [env.shaderReadCommandBuffer],
            .vkBeginCommandBuffer env.shaderReadCommandBuffer
              VK_COMMAND_BUFFER_USAGE_ONE_TIME_SUBMIT_BIT,
            .vkCmdPipelineBarrier env.shaderReadCommandBuffer VK_PIPELINE_STAGE_TRANSFER_BIT
              VK_PIPELINE_STAGE_FRAGMENT_SHADER_BIT
              [{ srcAccessMask := VK_ACCESS_TRANSFER_WRITE_BIT,
                 dstAccessMask := VK_ACCESS_SHADER_READ_BIT,
                 oldLayout := VK_IMAGE_LAYOUT_TRANSFER_DST_OPTIMAL,
                 newLayout := VK_IMAGE_LAYOUT_SHADER_READ_ONLY_OPTIMAL,
                 srcQueueFamilyIndex := VK_QUEUE_FAMILY_IGNORED,
                 dstQueueFamilyIndex := VK_QUEUE_FAMILY_IGNORED,
                 image := env.image.resource.2,
                 aspectMask := VK_IMAGE_ASPECT_COLOR_BIT, baseMipLevel := 0, levelCount := 1,
                 baseArrayLayer := 0, layerCount := 1 }],
            .vkEndCommandBuffer env.shaderReadCommandBuffer,
            .vkQueueSubmit s.graphicsQueue [] [] [env.shaderReadCommandBuffer] []
              VK_NULL_HANDLE,
            .vkQueueWaitIdle s.graphicsQueue,
            .vkFreeCommandBuffers s.commandPool [env.shaderReadCommandBuffer],
            .vkDestroy .buffer env.staging.resource.2,
            .vkDestroy .memory env.staging.memory.2]⟩ := by
  unfold createTextureImage at h ⊢
  rw [run_liftExcept_bind] at h ⊢
  cases hload : loadTexels env.file with
  | error e =>
    rw [hload] at h
    cases h
  | ok imageSize =>
  rw [hload] at h
  dsimp only at h ⊢
  obtain ⟨_, -, hret1, -⟩ := returned_of_bind _ _ s h
  obtain ⟨stagingType, hfind1, hrun1⟩ := createBuffer_returned _ _ _ _ _ s hret1
  rw [run_bind_of_eq hrun1] at h ⊢
  rw [prepend_returned] at h
  dsimp only at h ⊢
  rw [run_call_bind, run_call_bind, run_call_bind] at h ⊢
  rw [prepend_returned, prepend_returned, prepend_returned] at h
  obtain ⟨_, -, hret2, -⟩ := returned_of_bind _ _ s h
  obtain ⟨imageType, hfind2, hrun2⟩ := createImage_returned _ _ _ _ _ _ _ _ s hret2
  rw [run_bind_of_eq hrun2]
  dsimp only
  have hfirst : transitionMasks VK_IMAGE_LAYOUT_UNDEFINED VK_IMAGE_LAYOUT_TRANSFER_DST_OPTIMAL =
      some (0, VK_ACCESS_TRANSFER_WRITE_BIT, VK_PIPELINE_STAGE_TOP_OF_PIPE_BIT,
        VK_PIPELINE_STAGE_TRANSFER_BIT) := rfl
  have hsecond : transitionMasks VK_IMAGE_LAYOUT_TRANSFER_DST_OPTIMAL
      VK_IMAGE_LAYOUT_SHADER_READ_ONLY_OPTIMAL =
      some (VK_ACCESS_TRANSFER_WRITE_BIT, VK_ACCESS_SHADER_READ_BIT,
        VK_PIPELINE_STAGE_TRANSFER_BIT, VK_PIPELINE_STAGE_FRAGMENT_SHADER_BIT) := rfl
  rw [run_modifyState_bind,
    run_bind_of_eq (transitionImageLayout_run_supported _ _ _ _ _ _ _ _ _ _ hfirst),
    run_bind_of_eq (copyBufferToImage_run _ _ _ _ _ _),
    run_bind_of_eq (transitionImageLayout_run_supported _ _ _ _ _ _ _ _ _ _ hsecond),
    run_call_bind]
  exact ⟨imageSize, stagingType, imageType, rfl, hfind1, hfind2, rfl⟩

theorem findMemoryType_flags (memProperties : VkPhysicalDeviceMemoryProperties)
    (typeFilter properties i : Nat)
    (h : findMemoryType memProperties typeFilter properties = .ok i) :
    (memProperties.memoryTypes.getD i default).propertyFlags &&& properties = properties := by
  unfold findMemoryType at h
  have htest := ((findMemoryTypeFrom_ok _ _ _ _ _ _).1 h).2.2.1
  unfold memoryTypeTest at htest
  simp only [Bool.and_eq_true, beq_iff_eq] at htest
  exact htest.2

/-- C25: when `createVertexBuffer`, `createIndexBuffer` or `createTextureImage` returns
normally, its calls are exactly the ones listed, in this order. The staging buffer is
created first, with `VK_BUFFER_USAGE_TRANSFER_SRC_BIT` and the size of the data uploaded
(`sizeof(Vertex)` times the vertex count, `sizeof(int)` times the index count, or
`texWidth * texHeight * 4`), and its memory is of a type that `findMemoryType` returned for
host-visible and host-coherent, whose flags contain both. The destination is created with
`VK_BUFFER_USAGE_TRANSFER_DST_BIT` (`VK_IMAGE_USAGE_TRANSFER_DST_BIT` for the image) in its
usage and with memory of a type returned for device-local. The one transfer that reads the
staging buffer (`vkCmdCopyBuffer`, `vkCmdCopyBufferToImage`) is followed by its
`vkQueueWaitIdle`; after it, and for the texture after the second layout transition, come
the destruction of the staging buffer and then the release of its memory, the last two
calls, so that the staging buffer is not alive on return. -/
theorem staging_buffer_lifecycle (s : App) (upload : UploadEnv) (m : Mesh)
    (texture : TextureEnv) :
    (((createVertexBuffer upload m).run s).returned = true →
      ∃ stagingType destinationType,
        findMemoryType upload.memProperties upload.staging.memoryTypeBits
          (VK_MEMORY_PROPERTY_HOST_VISIBLE_BIT ||| VK_MEMORY_PROPERTY_HOST_COHERENT_BIT) =
          .ok stagingType ∧
        (upload.memProperties.memoryTypes.getD stagingType default).propertyFlags &&&
            (VK_MEMORY_PROPERTY_HOST_VISIBLE_BIT ||| VK_MEMORY_PROPERTY_HOST_COHERENT_BIT) =
          VK_MEMORY_PROPERTY_HOST_VISIBLE_BIT ||| VK_MEMORY_PROPERTY_HOST_COHERENT_BIT ∧
        findMemoryType upload.memProperties upload.destination.memoryTypeBits
          VK_MEMORY_PROPERTY_DEVICE_LOCAL_BIT = .ok destinationType ∧
        (upload.memProperties.memoryTypes.getD destinationType default).propertyFlags &&&
            VK_MEMORY_PROPERTY_DEVICE_LOCAL_BIT = VK_MEMORY_PROPERTY_DEVICE_LOCAL_BIT ∧
        ((createVertexBuffer upload m).run s).trace =
        [.vkCreateBuffer (sizeofVertex * m.vertices) VK_BUFFER_USAGE_TRANSFER_SRC_BIT VK_SUCCESS
            upload.staging.resource.2,
          .vkAllocateMemory upload.staging.memorySize stagingType VK_SUCCESS
            upload.staging.memory.2,
          .vkBindMemory upload.staging.resource.2 upload.staging.memory.2 upload.staging.bindResult,
          .vkMapMemory upload.staging.memory.2, .memcpy upload.staging.memory.2,
          .vkUnmapMemory upload.staging.memory.2,
          .vkCreateBuffer (sizeofVertex * m.vertices)
            (VK_BUFFER_USAGE_TRANSFER_DST_BIT ||| VK_BUFFER_USAGE_VERTEX_BUFFER_BIT)
            VK_SUCCESS upload.destination.resource.2,
          .vkAllocateMemory upload.destination.memorySize destinationType VK_SUCCESS
            upload.destination.memory.2,
          .vkBindMemory upload.destination.resource.2 upload.destination.memory.2
            upload.destination.bindResult,
          .vkAllocateCommandBuffers s.commandPool VK_COMMAND_BUFFER_LEVEL_PRIMARY 1
            [upload.commandBuffer],
          .vkBeginCommandBuffer upload.commandBuffer
            VK_COMMAND_BUFFER_USAGE_ONE_TIME_SUBMIT_BIT,
          .vkCmdCopyBuffer upload.commandBuffer upload.staging.resource.2
            upload.destination.resource.2 [⟨0, 0, sizeofVertex * m.vertices⟩],
          .vkEndCommandBuffer upload.commandBuffer,
          .vkQueueSubmit s.graphicsQueue [] [] [upload.commandBuffer] [] VK_NULL_HANDLE,
          .vkQueueWaitIdle s.graphicsQueue,
          .vkFreeCommandBuffers s.commandPool [upload.commandBuffer],
          .vkDestroy .buffer upload.staging.resource.2,
          .vkDestroy .memory upload.staging.memory.2]) ∧
    (((createIndexBuffer upload m).run s).returned = true →
      ∃ stagingType destinationType,
        findMemoryType upload.memProperties upload.staging.memoryTypeBits
          (VK_MEMORY_PROPERTY_HOST_VISIBLE_BIT ||| VK_MEMORY_PROPERTY_HOST_COHERENT_BIT) =
          .ok stagingType ∧
        (upload.memProperties.memoryTypes.getD stagingType default).propertyFlags &&&
            (VK_MEMORY_PROPERTY_HOST_VISIBLE_BIT ||| VK_MEMORY_PROPERTY_HOST_COHERENT_BIT) =
          VK_MEMORY_PROPERTY_HOST_VISIBLE_BIT ||| VK_MEMORY_PROPERTY_HOST_COHERENT_BIT ∧
        findMemoryType upload.memProperties upload.destination.memoryTypeBits
          VK_MEMORY_PROPERTY_DEVICE_LOCAL_BIT = .ok destinationType ∧
        (upload.memProperties.memoryTypes.getD destinationType default).propertyFlags &&&
            VK_MEMORY_PROPERTY_DEVICE_LOCAL_BIT = VK_MEMORY_PROPERTY_DEVICE_LOCAL_BIT ∧
        ((createIndexBuffer upload m).run s).trace =
        [.vkCreateBuffer (sizeofInt * m.indices) VK_BUFFER_USAGE_TRANSFER_SRC_BIT VK_SUCCESS
            upload.staging.resource.2,
          .vkAllocateMemory upload.staging.memorySize stagingType VK_SUCCESS
            upload.staging.memory.2,
          .vkBindMemory upload.staging.resource.2 upload.staging.memory.2 upload.staging.bindResult,
          .vkMapMemory upload.staging.memory.2, .memcpy upload.staging.memory.2,
          .vkUnmapMemory upload.staging.memory.2,
          .vkCreateBuffer (sizeofInt * m.indices)
            (VK_BUFFER_USAGE_TRANSFER_DST_BIT ||| VK_BUFFER_USAGE_INDEX_BUFFER_BIT)
            VK_SUCCESS upload.destination.resource.2,
          .vkAllocateMemory upload.destination.memorySize destinationType VK_SUCCESS
            upload.destination.memory.2,
          .vkBindMemory upload.destination.resource.2 upload.destination.memory.2
            upload.destination.bindResult,
          .vkAllocateCommandBuffers s.commandPool VK_COMMAND_BUFFER_LEVEL_PRIMARY 1
            [upload.commandBuffer],
          .vkBeginCommandBuffer upload.commandBuffer
            VK_COMMAND_BUFFER_USAGE_ONE_TIME_SUBMIT_BIT,
          .vkCmdCopyBuffer upload.commandBuffer upload.staging.resource.2
            upload.destination.resource.2 [⟨0, 0, sizeofInt * m.indices⟩],
          .vkEndCommandBuffer upload.commandBuffer,
          .vkQueueSubmit s.graphicsQueue [] [] [upload.commandBuffer] [] VK_NULL_HANDLE,
          .vkQueueWaitIdle s.graphicsQueue,
          .vkFreeCommandBuffers s.commandPool [upload.commandBuffer],
          .vkDestroy .buffer upload.staging.resource.2,
          .vkDestroy .memory upload.staging.memory.2]) ∧
    (((createTextureImage texture).run s).returned = true →
      ∃ imageSize stagingType imageType : Nat,
        (imageSize : Int) = texture.file.texWidth * texture.file.texHeight * 4 ∧
        findMemoryType texture.memProperties texture.staging.memoryTypeBits
          (VK_MEMORY_PROPERTY_HOST_VISIBLE_BIT ||| VK_MEMORY_PROPERTY_HOST_COHERENT_BIT) =
          .ok stagingType ∧
        (texture.memProperties.memoryTypes.getD stagingType default).propertyFlags &&&
            (VK_MEMORY_PROPERTY_HOST_VISIBLE_BIT ||| VK_MEMORY_PROPERTY_HOST_COHERENT_BIT) =
          VK_MEMORY_PROPERTY_HOST_VISIBLE_BIT ||| VK_MEMORY_PROPERTY_HOST_COHERENT_BIT ∧
        findMemoryType texture.memProperties texture.image.memoryTypeBits
          VK_MEMORY_PROPERTY_DEVICE_LOCAL_BIT = .ok imageType ∧
        (texture.memProperties.memoryTypes.getD imageType default).propertyFlags &&&
            VK_MEMORY_PROPERTY_DEVICE_LOCAL_BIT = VK_MEMORY_PROPERTY_DEVICE_LOCAL_BIT ∧
        ((createTextureImage texture).run s).trace =
        [.vkCreateBuffer imageSize VK_BUFFER_USAGE_TRANSFER_SRC_BIT VK_SUCCESS
            texture.staging.resource.2,
          .vkAllocateMemory texture.staging.memorySize stagingType VK_SUCCESS
            texture.staging.memory.2,
          .vkBindMemory texture.staging.resource.2 texture.staging.memory.2 texture.staging.bindResult,
          .vkMapMemory texture.staging.memory.2, .memcpy texture.staging.memory.2,
          .vkUnmapMemory texture.staging.memory.2,
          .vkCreateImage (toUint32 texture.file.texWidth) (toUint32 texture.file.texHeight)
            VK_FORMAT_R8G8B8A8_SRGB VK_IMAGE_TILING_OPTIMAL VK_IMAGE_LAYOUT_UNDEFINED
            (VK_IMAGE_USAGE_TRANSFER_DST_BIT ||| VK_IMAGE_USAGE_SAMPLED_BIT) VK_SUCCESS
            texture.image.resource.2,
          .vkAllocateMemory texture.image.memorySize imageType VK_SUCCESS texture.image.memory.2,
          .vkBindMemory texture.image.resource.2 texture.image.memory.2 texture.image.bindResult,
          .vkAllocateCommandBuffers s.commandPool VK_COMMAND_BUFFER_LEVEL_PRIMARY 1
            [texture.transferCommandBuffer],
          .vkBeginCommandBuffer texture.transferCommandBuffer
            VK_COMMAND_BUFFER_USAGE_ONE_TIME_SUBMIT_BIT,
          .vkCmdPipelineBarrier texture.transferCommandBuffer VK_PIPELINE_STAGE_TOP_OF_PIPE_BIT
            VK_PIPELINE_STAGE_TRANSFER_BIT
            [{ srcAccessMask := 0, dstAccessMask := VK_ACCESS_TRANSFER_WRITE_BIT,
               oldLayout := VK_IMAGE_LAYOUT_UNDEFINED,
               newLayout := VK_IMAGE_LAYOUT_TRANSFER_DST_OPTIMAL,
               srcQueueFamilyIndex := VK_QUEUE_FAMILY_IGNORED,
               dstQueueFamilyIndex := VK_QUEUE_FAMILY_IGNORED,
               image := texture.image.resource.2,
               aspectMask := VK_IMAGE_ASPECT_COLOR_BIT, baseMipLevel := 0, levelCount := 1,
               baseArrayLayer := 0, layerCount := 1 }],
          .vkEndCommandBuffer texture.transferCommandBuffer,
          .vkQueueSubmit s.graphicsQueue [] [] [texture.transferCommandBuffer] []
            VK_NULL_HANDLE,
          .vkQueueWaitIdle s.graphicsQueue,
          .vkFreeCommandBuffers s.commandPool [texture.transferCommandBuffer],
          .vkAllocateCommandBuffers s.commandPool VK_COMMAND_BUFFER_LEVEL_PRIMARY 1
            [texture.copyCommandBuffer],
          .vkBeginCommandBuffer texture.copyCommandBuffer
            VK_COMMAND_BUFFER_USAGE_ONE_TIME_SUBMIT_BIT,
          .vkCmdCopyBufferToImage texture.copyCommandBuffer texture.staging.resource.2
            texture.image.resource.2 VK_IMAGE_LAYOUT_TRANSFER_DST_OPTIMAL
            [⟨0, 0, 0, VK_IMAGE_ASPECT_COLOR_BIT, 0, 0, 1, (0, 0, 0),
              (toUint32 texture.file.texWidth, toUint32 texture.file.texHeight, 1)⟩],
          .vkEndCommandBuffer texture.copyCommandBuffer,
          .vkQueueSubmit s.graphicsQueue [] [] [texture.copyCommandBuffer] [] VK_NULL_HANDLE,
          .vkQueueWaitIdle s.graphicsQueue,
          .vkFreeCommandBuffers s.commandPool [texture.copyCommandBuffer],
          .vkAllocateCommandBuffers s.commandPool VK_COMMAND_BUFFER_LEVEL_PRIMARY 1
            [texture.shaderReadCommandBuffer],
          .vkBeginCommandBuffer texture.shaderReadCommandBuffer
            VK_COMMAND_BUFFER_USAGE_ONE_TIME_SUBMIT_BIT,
          .vkCmdPipelineBarrier texture.shaderReadCommandBuffer VK_PIPELINE_STAGE_TRANSFER_BIT
            VK_PIPELINE_STAGE_FRAGMENT_SHADER_BIT
            [{ srcAccessMask := VK_ACCESS_TRANSFER_WRITE_BIT,
               dstAccessMask := VK_ACCESS_SHADER_READ_BIT,
               oldLayout := VK_IMAGE_LAYOUT_TRANSFER_DST_OPTIMAL,
               newLayout := VK_IMAGE_LAYOUT_SHADER_READ_ONLY_OPTIMAL,
               srcQueueFamilyIndex := VK_QUEUE_FAMILY_IGNORED,
               dstQueueFamilyIndex := VK_QUEUE_FAMILY_IGNORED,
               image := texture.image.resource.2,
               aspectMask := VK_IMAGE_ASPECT_COLOR_BIT, baseMipLevel := 0, levelCount := 1,
               baseArrayLayer := 0, layerCount := 1 }],
          .vkEndCommandBuffer texture.shaderReadCommandBuffer,
          .vkQueueSubmit s.graphicsQueue [] [] [texture.shaderReadCommandBuffer] []
            VK_NULL_HANDLE,
          .vkQueueWaitIdle s.graphicsQueue,
          .vkFreeCommandBuffers s.commandPool [texture.shaderReadCommandBuffer],
          .vkDestroy .buffer texture.staging.resource.2,
          .vkDestroy .memory texture.staging.memory.2]) := by
  refine ⟨fun h => ?_, fun h => ?_, fun h => ?_⟩
  · obtain ⟨stagingType, destinationType, h1, h2, hrun⟩ := createVertexBuffer_run upload m s h
    exact ⟨stagingType, destinationType, h1, findMemoryType_flags _ _ _ _ h1, h2,
      findMemoryType_flags _ _ _ _ h2, by rw [hrun]⟩
  · obtain ⟨stagingType, destinationType, h1, h2, hrun⟩ := createIndexBuffer_run upload m s h
    exact ⟨stagingType, destinationType, h1, findMemoryType_flags _ _ _ _ h1, h2,
      findMemoryType_flags _ _ _ _ h2, by rw [hrun]⟩
  · obtain ⟨imageSize, stagingType, imageType, hload, h1, h2, hrun⟩ :=
      createTextureImage_run texture s h
    exact ⟨imageSize, stagingType, imageType, (loadTexels_ok _ _ hload).2, h1,
      findMemoryType_flags _ _ _ _ h1, h2, findMemoryType_flags _ _ _ _ h2, by rw [hrun]⟩

/-- Witness for C25: on the sample state the three uploads return normally; the vertex
upload of four vertices stages 192 bytes in buffer 500 with memory 501 of type 1, copies
them into buffer 502, waits for the queue and then destroys buffer 500 and frees memory
501. -/
theorem staging_buffer_lifecycle_witness :
    ((createVertexBuffer sampleUpload sampleMesh).run sampleApp).returned = true ∧
    ((createIndexBuffer sampleUpload sampleMesh).run sampleApp).returned = true ∧
    ((createTextureImage sampleTexture).run sampleApp).returned = true ∧
    ((createVertexBuffer sampleUpload sampleMesh).run sampleApp).trace =
      [.vkCreateBuffer 192 1 VK_SUCCESS 500, .vkAllocateMemory 1024 1 VK_SUCCESS 501,
        .vkBindMemory 500 501 VK_SUCCESS,
        .vkMapMemory 501, .memcpy 501, .vkUnmapMemory 501,
        .vkCreateBuffer 192 130 VK_SUCCESS 502, .vkAllocateMemory 1024 0 VK_SUCCESS 503,
        .vkBindMemory 502 503 VK_SUCCESS,
        .vkAllocateCommandBuffers 5 VK_COMMAND_BUFFER_LEVEL_PRIMARY 1 [504],
        .vkBeginCommandBuffer 504 VK_COMMAND_BUFFER_USAGE_ONE_TIME_SUBMIT_BIT,
        .vkCmdCopyBuffer 504 500 502 [⟨0, 0, 192⟩],
        .vkEndCommandBuffer 504,
        .vkQueueSubmit 2 [] [] [504] [] VK_NULL_HANDLE,
        .vkQueueWaitIdle 2,
        .vkFreeCommandBuffers 5 [504],
        .vkDestroy .buffer 500, .vkDestroy .memory 501] ∧
    (∃ stagingType destinationType,
      findMemoryType sampleUpload.memProperties sampleUpload.staging.memoryTypeBits
        (VK_MEMORY_PROPERTY_HOST_VISIBLE_BIT ||| VK_MEMORY_PROPERTY_HOST_COHERENT_BIT) =
        .ok stagingType ∧
      findMemoryType sampleUpload.memProperties sampleUpload.destination.memoryTypeBits
        VK_MEMORY_PROPERTY_DEVICE_LOCAL_BIT = .ok destinationType) ∧
    (∃ imageSize : Nat,
      (imageSize : Int) = sampleTexture.file.texWidth * sampleTexture.file.texHeight * 4) := by
  refine ⟨rfl, rfl, rfl, rfl, ?_, ?_⟩
  · obtain ⟨stagingType, destinationType, h1, -, h2, -, -⟩ :=
      (staging_buffer_lifecycle sampleApp sampleUpload sampleMesh sampleTexture).1 rfl
    exact ⟨stagingType, destinationType, h1, h2⟩
  · obtain ⟨imageSize, -, -, hsize, -⟩ :=
      (staging_buffer_lifecycle sampleApp sampleUpload sampleMesh sampleTexture).2.2 rfl
    exact ⟨imageSize, hsize⟩

/-! ## Texture upload: image layouts -/

theorem loadTexels_notUnsupported (file : TextureFile) (e : Fault)
    (h : loadTexels file = .error e) : e.notUnsupportedTransition := by
  unfold loadTexels at h
  unfold Fault.notUnsupportedTransition
  split at h
  · injection h with h; rw [← h]; decide
  split at h
  · rename_i e' hmul
    injection h with h
    unfold intMul at hmul
    split at hmul
    · cases hmul
    · injection hmul with hmul; rw [← h, ← hmul]; decide
  split at h
  · injection h with h; rw [← h]; decide
  split at h
  · rename_i e' hmul
    injection h with h
    unfold intMul at hmul
    split at hmul
    · cases hmul
    · injection hmul with hmul; rw [← h, ← hmul]; decide
  split at h
  · injection h with h; rw [← h]; decide
  split at h
  · injection h with h; rw [← h]; decide
  · cases h

theorem findMemoryType_notUnsupported (memProperties : VkPhysicalDeviceMemoryProperties)
    (typeFilter properties : Nat) (e : Fault)
    (h : findMemoryType memProperties typeFilter properties = .error e) :
    e.notUnsupportedTransition := by
  unfold findMemoryType at h
  rw [((findMemoryTypeFrom_error _ _ _ _ _ _).1 h).1]
  unfold Fault.notUnsupportedTransition
  decide

theorem supported_createImage {σ : Type} (memProperties : VkPhysicalDeviceMemoryProperties)
    (env : AllocationEnv)
    (width height format tiling usage properties : Nat) :
    Throws Fault.notUnsupportedTransition (createImage memProperties env width height format
      tiling usage properties : Exec σ (Nat × Nat)) := by
  unfold createImage
  repeat' first
    | exact throws_pure _
    | exact throws_fail _ (by unfold Fault.notUnsupportedTransition; decide)
    | exact throws_liftExcept _ (findMemoryType_notUnsupported _ _ _)
    | exact throws_call _
    | apply throws_bind
    | split
    | intro _

theorem supported_createBuffer {σ : Type} (memProperties : VkPhysicalDeviceMemoryProperties)
    (env : AllocationEnv)
    (size usage properties : Nat) :
    Throws Fault.notUnsupportedTransition (createBuffer memProperties env size usage
      properties : Exec σ (Nat × Nat)) := by
  unfold createBuffer
  repeat' first
    | exact throws_pure _
    | exact throws_fail _ (by unfold Fault.notUnsupportedTransition; decide)
    | exact throws_liftExcept _ (findMemoryType_notUnsupported _ _ _)
    | exact throws_call _
    | apply throws_bind
    | split
    | intro _

theorem throws_of_run_ok {σ α : Type} {q : Fault → Prop} (m : Exec σ α)
    (h : ∀ s, ∃ a, (m.run s).result = .ok a) : Throws q m := by
  constructor
  intro s e he
  obtain ⟨a, ha⟩ := h s
  rw [ha] at he
  cases he

theorem supported_createTextureImage (env : TextureEnv) :
    Throws Fault.notUnsupportedTransition (createTextureImage env) := by
  unfold createTextureImage
  refine throws_bind (throws_liftExcept _ (loadTexels_notUnsupported _)) (fun _ => ?_)
  refine throws_bind (supported_createBuffer _ _ _ _ _) (fun _ => ?_)
  refine throws_bind (throws_call _) (fun _ => ?_)
  refine throws_bind (throws_call _) (fun _ => ?_)
  refine throws_bind (throws_call _) (fun _ => ?_)
  refine throws_bind (supported_createImage _ _ _ _ _ _ _ _) (fun _ => ?_)
  refine throws_bind (throws_modifyState _) (fun _ => ?_)
  refine throws_bind (throws_of_run_ok _ (fun s => ⟨(), ?_⟩)) (fun _ => ?_)
  · rw [transitionImageLayout_run_supported _ _ _ _ _ _ _ _ _ _
      (show transitionMasks VK_IMAGE_LAYOUT_UNDEFINED VK_IMAGE_LAYOUT_TRANSFER_DST_OPTIMAL =
        some (0, VK_ACCESS_TRANSFER_WRITE_BIT, VK_PIPELINE_STAGE_TOP_OF_PIPE_BIT,
          VK_PIPELINE_STAGE_TRANSFER_BIT) from rfl)]
  refine throws_bind (throws_of_run_ok _ (fun s => ⟨(), ?_⟩)) (fun _ => ?_)
  · rw [copyBufferToImage_run]
  refine throws_bind (throws_of_run_ok _ (fun s => ⟨(), ?_⟩)) (fun _ => ?_)
  · rw [transitionImageLayout_run_supported _ _ _ _ _ _ _ _ _ _
      (show transitionMasks VK_IMAGE_LAYOUT_TRANSFER_DST_OPTIMAL
          VK_IMAGE_LAYOUT_SHADER_READ_ONLY_OPTIMAL =
        some (VK_ACCESS_TRANSFER_WRITE_BIT, VK_ACCESS_SHADER_READ_BIT,
          VK_PIPELINE_STAGE_TRANSFER_BIT, VK_PIPELINE_STAGE_FRAGMENT_SHADER_BIT) from rfl)]
  exact throws_bind (throws_call _) (fun _ => throws_call _)

theorem sampled_createDescriptorSets (env : CreationEnv) (ctx : StaticHandles) :
    Within (fun _ _ => True) Call.samplesShaderReadOnly (createDescriptorSets env ctx) := by
  have hR : Chainable (fun (_ _ : SwapChainObjects) => True) := chainable_true
  unfold createDescriptorSets
  repeat' first
    | exact within_pure hR _
    | exact within_fail hR _
    | exact within_getState hR
    | exact within_index hR _ _ _
    | exact within_call hR _ (by intro layout h; cases h <;> rfl)
    | exact within_modifyState _ (fun _ => trivial)
    | apply within_forRange hR
    | apply within_bind hR
    | split
    | intro _

/-! ## The descriptor writes of `createDescriptorSets` -/

theorem forRange_closed {σ : Type} (body : Nat → Exec σ Unit) (f : Nat → Call)
    (P : Nat → Prop) (s : σ)
    (hbody : ∀ i, ((body i).run s).returned = true →
      P i ∧ (body i).run s = ⟨.ok (), s, [f i]⟩) :
    ∀ count i, ((forRange body i count).run s).returned = true →
      (∀ j, i ≤ j → j < i + count → P j) ∧
      (forRange body i count).run s = ⟨.ok (), s, (List.range' i count).map f⟩ := by
  intro count
  induction count with
  | zero =>
    intro i _
    exact ⟨fun j h1 h2 => absurd h2 (by omega), rfl⟩
  | succ count ih =>
    intro i h
    have hunfold : forRange body i (count + 1) =
        (body i >>= fun _ => forRange body (i + 1) count) := rfl
    rw [hunfold] at h ⊢
    obtain ⟨_, -, hfirst, -⟩ := returned_of_bind _ _ _ h
    obtain ⟨hP, hrun⟩ := hbody i hfirst
    have hres : ((body i).run s).result = .ok () := by rw [hrun]
    rw [run_bind_ok hres] at h ⊢
    rw [hrun] at h ⊢
    have hrest : ((forRange body (i + 1) count).run s).returned = true := h
    obtain ⟨hPs, hloop⟩ := ih (i + 1) hrest
    refine ⟨?_, ?_⟩
    · intro j h1 h2
      by_cases hj : j = i
      · rw [hj]; exact hP
      · exact hPs j (by omega) (by omega)
    · dsimp only
      rw [hloop]
      rfl

theorem createDescriptorSets_run (env : CreationEnv) (ctx : StaticHandles)
    (o : SwapChainObjects)
    (h : ((createDescriptorSets env ctx).run o).returned = true) :
    env.descriptorSetsResult = VK_SUCCESS ∧
    o.swapChainImages.length ≤ o.uniformBuffers.length ∧
    o.swapChainImages.length ≤ o.lightingBuffers.length ∧
    (createDescriptorSets env ctx).run o =
      ⟨.ok (),
        { o with descriptorSets := (List.range o.swapChainImages.length).map env.descriptorSet },
        .vkAllocateDescriptorSets o.descriptorPool o.swapChainImages.length
            env.descriptorSetsResult
            ((List.range o.swapChainImages.length).map env.descriptorSet) ::
          (List.range o.swapChainImages.length).map (fun i =>
            .vkUpdateDescriptorSets (env.descriptorSet i) (o.uniformBuffers.getD i 0)
              (o.lightingBuffers.getD i 0) VK_IMAGE_LAYOUT_SHADER_READ_ONLY_OPTIMAL
              ctx.textureImageView ctx.textureSampler)⟩ := by
  unfold createDescriptorSets at h ⊢
  rw [run_modifyState_bind, run_getState_bind] at h ⊢
  dsimp only at h ⊢
  rw [run_call_bind] at h ⊢
  by_cases hfail : env.descriptorSetsResult ≠ VK_SUCCESS
  · rw [if_pos hfail, prepend_returned] at h
    cases h
  · rw [if_neg hfail, prepend_returned, run_modifyState_bind] at h
    rw [if_neg hfail, run_modifyState_bind]
    dsimp only at h ⊢
    have hok : env.descriptorSetsResult = VK_SUCCESS := not_not.1 hfail
    refine (fun key => ?_)
      (forRange_closed _
        (fun i => Call.vkUpdateDescriptorSets (env.descriptorSet i) (o.uniformBuffers.getD i 0)
          (o.lightingBuffers.getD i 0) VK_IMAGE_LAYOUT_SHADER_READ_ONLY_OPTIMAL
          ctx.textureImageView ctx.textureSampler)
        (fun i => i < o.uniformBuffers.length ∧ i < o.lightingBuffers.length) _ ?_ _ 0 h)
    · obtain ⟨hP, hloop⟩ := key
      rw [hloop, List.range_eq_range']
      refine ⟨hok, ?_, ?_, rfl⟩
      · by_contra hlt
        have := (hP o.uniformBuffers.length (Nat.zero_le _) (by omega)).1
        omega
      · by_contra hlt
        have := (hP o.lightingBuffers.length (Nat.zero_le _) (by omega)).2
        omega
    · intro i hret
      rw [run_getState_bind, run_index_bind] at hret ⊢
      dsimp only at hret ⊢
      cases hu : o.uniformBuffers[i]? with
      | none =>
        rw [hu] at hret
        cases hret
      | some u =>
        rw [hu] at hret
        dsimp only at hret ⊢
        rw [run_index_bind] at hret ⊢
        cases hl : o.lightingBuffers[i]? with
        | none =>
          rw [hl] at hret
          cases hret
        | some l =>
          rw [hl] at hret
          dsimp only at hret ⊢
          rw [run_index_bind] at hret ⊢
          cases hd : (List.map env.descriptorSet (List.range o.swapChainImages.length))[i]? with
          | none =>
            rw [hd] at hret
            cases hret
          | some d =>
            dsimp only
            have hui : i < o.uniformBuffers.length := (List.getElem?_eq_some_iff.1 hu).1
            have hli : i < o.lightingBuffers.length := (List.getElem?_eq_some_iff.1 hl).1
            refine ⟨⟨hui, hli⟩, ?_⟩
            have e1 : o.uniformBuffers.getD i 0 = u := by
              rw [List.getD_eq_getElem?_getD, hu]; rfl
            have e2 : o.lightingBuffers.getD i 0 = l := by
              rw [List.getD_eq_getElem?_getD, hl]; rfl
            have e3 : env.descriptorSet i = d := by
              rw [List.getElem?_map] at hd
              cases hr : (List.range o.swapChainImages.length)[i]? with
              | none => rw [hr] at hd; cases hd
              | some j =>
                rw [hr] at hd
                have hj := (List.getElem?_eq_some_iff.1 hr)
                obtain ⟨hlt, hj⟩ := hj
                rw [List.getElem_range] at hj
                rw [hj]
                simpa using hd
            rw [e1, e2, e3]
            rfl

theorem filterMap_const_some {α β : Type} (b : β) (l : List α) :
    l.filterMap (fun _ => some b) = List.replicate l.length b := by
  induction l with
  | nil => rfl
  | cons a rest ih =>
    show (match (some b : Option β) with
      | none => rest.filterMap (fun _ => some b)
      | some x => x :: rest.filterMap (fun _ => some b)) = _
    rw [ih]
    rfl

/-- C26: the two transitions `createTextureImage` asks for are in the table of
`transitionImageLayout`, so no run of `createTextureImage` ends in the throw for an
unsupported transition. When `createTextureImage` returns normally, the calls that touch
the texture image are, in order: its creation with initial layout undefined, the barrier
undefined to transfer-destination, the buffer-to-image copy declaring transfer-destination,
and the barrier transfer-destination to shader-read-only; tracked from its creation, the
layout each of them declares is the layout the image is in, and the final layout is
shader-read-only. Every descriptor write of `createDescriptorSets` declares shader-read-only
for the sampled image, and when `createDescriptorSets` returns normally it has made, after
the one allocation of the descriptor sets, exactly one descriptor write per swapchain image:
for image `i` the write to descriptor set `i` with `uniformBuffers[i]`, `lightingBuffers[i]`
and, for the sampler, the texture image view and the texture sampler in the shader-read-only
layout; that layout is the one the texture image is left in. -/
theorem texture_layout_sequence (env : TextureEnv) (s : App) :
    transitionMasks VK_IMAGE_LAYOUT_UNDEFINED VK_IMAGE_LAYOUT_TRANSFER_DST_OPTIMAL ≠ none ∧
    transitionMasks VK_IMAGE_LAYOUT_TRANSFER_DST_OPTIMAL
      VK_IMAGE_LAYOUT_SHADER_READ_ONLY_OPTIMAL ≠ none ∧
    ((createTextureImage env).run s).result ≠
      .error (.thrown "unsupported layout transition!") ∧
    (((createTextureImage env).run s).returned = true →
      ((createTextureImage env).run s).state.textureImage = env.image.resource.2 ∧
      ((createTextureImage env).run s).trace.filter
          (Call.touchesImage env.image.resource.2) =
        [.vkCreateImage (toUint32 env.file.texWidth) (toUint32 env.file.texHeight)
            VK_FORMAT_R8G8B8A8_SRGB VK_IMAGE_TILING_OPTIMAL VK_IMAGE_LAYOUT_UNDEFINED
            (VK_IMAGE_USAGE_TRANSFER_DST_BIT ||| VK_IMAGE_USAGE_SAMPLED_BIT) VK_SUCCESS
            env.image.resource.2,
          .vkCmdPipelineBarrier env.transferCommandBuffer VK_PIPELINE_STAGE_TOP_OF_PIPE_BIT
            VK_PIPELINE_STAGE_TRANSFER_BIT
            [{ srcAccessMask := 0, dstAccessMask := VK_ACCESS_TRANSFER_WRITE_BIT,
               oldLayout := VK_IMAGE_LAYOUT_UNDEFINED,
               newLayout := VK_IMAGE_LAYOUT_TRANSFER_DST_OPTIMAL,
               srcQueueFamilyIndex := VK_QUEUE_FAMILY_IGNORED,
               dstQueueFamilyIndex := VK_QUEUE_FAMILY_IGNORED,
               image := env.image.resource.2,
               aspectMask := VK_IMAGE_ASPECT_COLOR_BIT, baseMipLevel := 0, levelCount := 1,
               baseArrayLayer := 0, layerCount := 1 }],
          .vkCmdCopyBufferToImage env.copyCommandBuffer env.staging.resource.2
            env.image.resource.2 VK_IMAGE_LAYOUT_TRANSFER_DST_OPTIMAL
            [⟨0, 0, 0, VK_IMAGE_ASPECT_COLOR_BIT, 0, 0, 1, (0, 0, 0),
              (toUint32 env.file.texWidth, toUint32 env.file.texHeight, 1)⟩],
          .vkCmdPipelineBarrier env.shaderReadCommandBuffer VK_PIPELINE_STAGE_TRANSFER_BIT
            VK_PIPELINE_STAGE_FRAGMENT_SHADER_BIT
            [{ srcAccessMask := VK_ACCESS_TRANSFER_WRITE_BIT,
               dstAccessMask := VK_ACCESS_SHADER_READ_BIT,
               oldLayout := VK_IMAGE_LAYOUT_TRANSFER_DST_OPTIMAL,
               newLayout := VK_IMAGE_LAYOUT_SHADER_READ_ONLY_OPTIMAL,
               srcQueueFamilyIndex := VK_QUEUE_FAMILY_IGNORED,
               dstQueueFamilyIndex := VK_QUEUE_FAMILY_IGNORED,
               image := env.image.resource.2,
               aspectMask := VK_IMAGE_ASPECT_COLOR_BIT, baseMipLevel := 0, levelCount := 1,
               baseArrayLayer := 0, layerCount := 1 }]] ∧
      trackLayout env.image.resource.2 none ((createTextureImage env).run s).trace =
        some (some VK_IMAGE_LAYOUT_SHADER_READ_ONLY_OPTIMAL)) ∧
    (∀ (creation : CreationEnv) (ctx : StaticHandles) (o : SwapChainObjects),
      ∀ c ∈ ((createDescriptorSets creation ctx).run o).trace, ∀ layout,
        c.samplerLayout = some layout → layout = VK_IMAGE_LAYOUT_SHADER_READ_ONLY_OPTIMAL) ∧
    (∀ (creation : CreationEnv) (ctx : StaticHandles) (o : SwapChainObjects),
      ((createDescriptorSets creation ctx).run o).returned = true →
      ((createDescriptorSets creation ctx).run o).trace =
        .vkAllocateDescriptorSets o.descriptorPool o.swapChainImages.length VK_SUCCESS
            ((List.range o.swapChainImages.length).map creation.descriptorSet) ::
          (List.range o.swapChainImages.length).map (fun i =>
            .vkUpdateDescriptorSets (creation.descriptorSet i) (o.uniformBuffers.getD i 0)
              (o.lightingBuffers.getD i 0) VK_IMAGE_LAYOUT_SHADER_READ_ONLY_OPTIMAL
              ctx.textureImageView ctx.textureSampler) ∧
      o.swapChainImages.length ≤ o.uniformBuffers.length ∧
      o.swapChainImages.length ≤ o.lightingBuffers.length ∧
      ((createDescriptorSets creation ctx).run o).trace.filterMap Call.samplerLayout =
        List.replicate o.swapChainImages.length VK_IMAGE_LAYOUT_SHADER_READ_ONLY_OPTIMAL ∧
      (((createTextureImage env).run s).returned = true →
        ∀ layout ∈ ((createDescriptorSets creation ctx).run o).trace.filterMap
            Call.samplerLayout,
          trackLayout env.image.resource.2 none ((createTextureImage env).run s).trace =
            some (some layout))) := by
  refine ⟨by decide, by decide, ?_, ?_, ?_, ?_⟩
  · intro h
    exact (supported_createTextureImage env).holds s _ h rfl
  · intro h
    obtain ⟨imageSize, stagingType, imageType, -, -, -, hrun⟩ := createTextureImage_run env s h
    rw [hrun]
    refine ⟨rfl, ?_, ?_⟩
    · simp [List.filter, Call.touchesImage]
    · simp [trackLayout, trackBarriers]
  · intro creation ctx o c hc
    exact ((sampled_createDescriptorSets creation ctx).holds o).2 c hc
  · intro creation ctx o hreturned
    obtain ⟨hok, huniform, hlighting, hrun⟩ := createDescriptorSets_run creation ctx o hreturned
    have hlayouts : ((createDescriptorSets creation ctx).run o).trace.filterMap
        Call.samplerLayout =
        List.replicate o.swapChainImages.length VK_IMAGE_LAYOUT_SHADER_READ_ONLY_OPTIMAL := by
      rw [hrun]
      simp only [List.filterMap_cons, Call.samplerLayout, List.filterMap_map,
        Function.comp_def]
      rw [filterMap_const_some, List.length_range]
    refine ⟨?_, huniform, hlighting, hlayouts, ?_⟩
    · rw [hrun, hok]
    · intro h layout hlayout
      rw [hlayouts] at hlayout
      rw [(List.mem_replicate.1 hlayout).2]
      obtain ⟨imageSize, stagingType, imageType, -, -, -, hrun⟩ :=
        createTextureImage_run env s h
      rw [hrun]
      simp [trackLayout, trackBarriers]

/-- Witness for C26: the sample texture upload returns normally, and the layout of image
512 tracked along its calls ends shader-read-only; a copy into the image while it is still
in the undefined layout would be a mismatch. Run on the sample state of three images,
`createDescriptorSets` returns normally after the allocation and three descriptor writes,
each declaring shader-read-only for view 12 of the texture image with sampler 13. -/
theorem texture_layout_sequence_witness :
    ((createTextureImage sampleTexture).run sampleApp).returned = true ∧
    ((createTextureImage sampleTexture).run sampleApp).state.textureImage = 512 ∧
    trackLayout 512 none ((createTextureImage sampleTexture).run sampleApp).trace =
      some (some VK_IMAGE_LAYOUT_SHADER_READ_ONLY_OPTIMAL) ∧
    trackLayout 512 (some VK_IMAGE_LAYOUT_UNDEFINED)
      [.vkCmdCopyBufferToImage 515 510 512 VK_IMAGE_LAYOUT_TRANSFER_DST_OPTIMAL []] = none ∧
    ((createDescriptorSets (sampleCreation 300) sampleApp.toStaticHandles).run
      sampleApp.toSwapChainObjects).returned = true ∧
    ((createDescriptorSets (sampleCreation 300) sampleApp.toStaticHandles).run
      sampleApp.toSwapChainObjects).trace =
      [.vkAllocateDescriptorSets 100 3 VK_SUCCESS [381, 382, 383],
        .vkUpdateDescriptorSets 381 61 81 VK_IMAGE_LAYOUT_SHADER_READ_ONLY_OPTIMAL 12 13,
        .vkUpdateDescriptorSets 382 62 82 VK_IMAGE_LAYOUT_SHADER_READ_ONLY_OPTIMAL 12 13,
        .vkUpdateDescriptorSets 383 63 83 VK_IMAGE_LAYOUT_SHADER_READ_ONLY_OPTIMAL 12 13] ∧
    ((createDescriptorSets (sampleCreation 300) sampleApp.toStaticHandles).run
      sampleApp.toSwapChainObjects).trace.filterMap Call.samplerLayout =
      [VK_IMAGE_LAYOUT_SHADER_READ_ONLY_OPTIMAL, VK_IMAGE_LAYOUT_SHADER_READ_ONLY_OPTIMAL,
        VK_IMAGE_LAYOUT_SHADER_READ_ONLY_OPTIMAL] :=
  ⟨rfl, ((texture_layout_sequence sampleTexture sampleApp).2.2.2.1 rfl).1,
    ((texture_layout_sequence sampleTexture sampleApp).2.2.2.1 rfl).2.2, rfl, rfl,
    ((texture_layout_sequence sampleTexture sampleApp).2.2.2.2.2 (sampleCreation 300)
      sampleApp.toStaticHandles sampleApp.toSwapChainObjects rfl).1,
    ((texture_layout_sequence sampleTexture sampleApp).2.2.2.2.2 (sampleCreation 300)
      sampleApp.toStaticHandles sampleApp.toSwapChainObjects rfl).2.2.2.1⟩

/-! ## The image-in-flight table across a recreation -/

/-- C28 (evaluation of the code at the failing input): `recreateSwapChain` never changes the
image-in-flight table, which only `createSyncObjects` sizes. From the sample state, which
`createSyncObjects` leaves for three images, a frame whose acquisition reports out of date
recreates the swapchain with four images and returns normally; the per-image arrays then
have four entries and the table three. The next frame, for which the driver returns image
index 3, reads `imagesInFlight[3]` outside the table. -/
theorem recreateSwapChain_keeps_imagesInFlight_size :
    (∀ (env : RecreateEnv) (s : App),
      ((recreateSwapChain env).run s).state.imagesInFlight = s.imagesInFlight) ∧
    ((createSyncObjects sampleSync).run sampleAppBeforeSync).state = sampleApp ∧
    Reachable sampleApp ∧
    createSwapChainImageCount fourImageRecreate.creation.swapChainSupport.capabilities = 4 ∧
    ((drawFrame (outOfDateFrame fourImageRecreate)).run sampleApp).returned = true ∧
    Reachable afterGrowth ∧
    afterGrowth.swapChainImages = [401, 402, 403, 404] ∧
    afterGrowth.commandBuffers.length = 4 ∧
    afterGrowth.uniformBuffersMemory.length = 4 ∧
    afterGrowth.imagesInFlight = [0, 0, 0] ∧
    ((drawFrame (frameOn 3)).run afterGrowth).result =
      .error (.undefinedBehaviour "imagesInFlight[imageIndex]") ∧
    ((drawFrame (frameOn 3)).run afterGrowth).trace =
      [.vkWaitForFences [221], .vkAcquireNextImageKHR 400 201 VK_NULL_HANDLE] :=
  ⟨fun env s => (recreateSwapChain_run env s).2.1.2.2.2.2.1, rfl,
    Reachable.init sampleSync sampleAppBeforeSync rfl rfl, rfl, rfl,
    Reachable.frame (outOfDateFrame fourImageRecreate) sampleApp
      (Reachable.init sampleSync sampleAppBeforeSync rfl rfl),
    rfl, rfl, rfl, rfl, rfl, rfl⟩

/-! ## Lengths of the per-image arrays -/

theorem chainable_sizesKept : Chainable SizesKept :=
  ⟨fun _ => rfl, fun _ _ _ h1 h2 => Eq.trans h2 h1⟩

theorem state_of_bind {σ α β : Type} (m : Exec σ α) (f : α → Exec σ β) (s : σ)
    (h : ((m >>= f).run s).returned = true) :
    ∃ a, (m.run s).returned = true ∧ ((f a).run (m.run s).state).returned = true ∧
      ((m >>= f).run s).state = ((f a).run (m.run s).state).state := by
  rcases run_bind_cases m f s with ⟨a, hres, heq⟩ | ⟨e, hres, heq⟩
  · rw [heq, prepend_returned] at h
    refine ⟨a, ?_, h, by rw [heq, prepend_state]⟩
    unfold Run.returned
    rw [hres]
  · rw [heq] at h
    cases h

theorem sized_createRenderPass (env : CreationEnv) :
    Within SizesKept Call.isQuiet (createRenderPass env) := by
  have hR := chainable_sizesKept
  unfold createRenderPass findDepthFormat
  repeat' first
    | exact within_pure hR _
    | exact within_fail hR _
    | exact within_getState hR
    | exact within_index hR _ _ _
    | exact within_createImageView hR _ _ _ _
    | exact within_findSupportedFormat hR _ _ _ _
    | exact within_createShaderModule hR _
    | exact within_readFile hR _
    | exact within_createImage hR _ _ _ _ _ _ _ _
    | exact within_createBuffer hR _ _ _ _ _
    | exact within_call hR _ ⟨rfl, rfl, rfl, rfl, rfl⟩
    | exact within_modifyState _ (fun _ => rfl)
    | apply within_forRange hR
    | apply within_bind hR
    | split
    | intro _

theorem sized_createGraphicsPipeline (env : CreationEnv) :
    Within SizesKept Call.isQuiet (createGraphicsPipeline env) := by
  have hR := chainable_sizesKept
  unfold createGraphicsPipeline
  repeat' first
    | exact within_pure hR _
    | exact within_fail hR _
    | exact within_getState hR
    | exact within_index hR _ _ _
    | exact within_createImageView hR _ _ _ _
    | exact within_findSupportedFormat hR _ _ _ _
    | exact within_createShaderModule hR _
    | exact within_readFile hR _
    | exact within_createImage hR _ _ _ _ _ _ _ _
    | exact within_createBuffer hR _ _ _ _ _
    | exact within_call hR _ ⟨rfl, rfl, rfl, rfl, rfl⟩
    | exact within_modifyState _ (fun _ => rfl)
    | apply within_forRange hR
    | apply within_bind hR
    | split
    | intro _

theorem sized_createDepthResources (env : CreationEnv) :
    Within SizesKept Call.isQuiet (createDepthResources env) := by
  have hR := chainable_sizesKept
  unfold createDepthResources findDepthFormat
  repeat' first
    | exact within_pure hR _
    | exact within_fail hR _
    | exact within_getState hR
    | exact within_index hR _ _ _
    | exact within_createImageView hR _ _ _ _
    | exact within_findSupportedFormat hR _ _ _ _
    | exact within_createShaderModule hR _
    | exact within_readFile hR _
    | exact within_createImage hR _ _ _ _ _ _ _ _
    | exact within_createBuffer hR _ _ _ _ _
    | exact within_call hR _ ⟨rfl, rfl, rfl, rfl, rfl⟩
    | exact within_modifyState _ (fun _ => rfl)
    | apply within_forRange hR
    | apply within_bind hR
    | split
    | intro _

theorem sized_createDescriptorPool (env : CreationEnv) :
    Within SizesKept Call.isQuiet (createDescriptorPool env) := by
  have hR := chainable_sizesKept
  unfold createDescriptorPool
  repeat' first
    | exact within_pure hR _
    | exact within_fail hR _
    | exact within_call hR _ ⟨rfl, rfl, rfl, rfl, rfl⟩
    | exact within_modifyState _ (fun _ => rfl)
    | apply within_bind hR
    | split
    | intro _

theorem createSwapChain_sizes (env : CreationEnv) (ctx : StaticHandles) (o : SwapChainObjects)
    (h : ((createSwapChain env ctx).run o).returned = true) :
    sizes ((createSwapChain env ctx).run o).state =
      env.swapChainImages.length :: (sizes o).tail := by
  unfold createSwapChain at h ⊢
  cases hinfo : createSwapChainInfo ctx.surface env.swapChainSupport env.framebufferSize
      env.indices with
  | error e =>
    rw [hinfo] at h
    cases h
  | ok createInfo =>
    rw [hinfo] at h
    dsimp only at h ⊢
    rw [run_call_bind] at h ⊢
    by_cases hfail : env.swapChain.1 ≠ VK_SUCCESS
    · rw [if_pos hfail] at h
      cases h
    · rw [if_neg hfail]
      rfl

theorem createImageViews_sizes (env : CreationEnv) (o : SwapChainObjects) :
    sizes ((createImageViews env).run o).state =
      [o.swapChainImages.length, o.swapChainImages.length, o.swapChainFramebuffers.length,
        o.uniformBuffers.length, o.uniformBuffersMemory.length, o.lightingBuffers.length,
        o.lightingBuffersMemory.length, o.descriptorSets.length, o.commandBuffers.length] := by
  have hR := chainable_sizesKept
  unfold createImageViews
  rw [run_modifyState_bind, run_getState_bind]
  have hloop : ∀ count start, Within SizesKept Call.isQuiet
      (forRange (fun i => do
        let o ← getState
        let image ← index o.swapChainImages i "swapChainImages[i]"
        let view ← createImageView (env.imageView i) image o.swapChainImageFormat
          VK_IMAGE_ASPECT_COLOR_BIT
        modifyState fun o => { o with
          swapChainImageViews := o.swapChainImageViews.set i view }) start count) := by
    intro count start
    refine within_forRange hR _ (fun i => ?_) count start
    repeat' first
      | exact within_getState hR
      | exact within_index hR _ _ _
      | exact within_createImageView hR _ _ _ _
      | exact within_modifyState _ (fun _ => by simp [SizesKept, sizes])
      | apply within_bind hR
      | intro _
  rw [((hloop _ _).holds _).1]
  simp [sizes, length_resize]

theorem createFramebuffers_sizes (env : CreationEnv) (o : SwapChainObjects) :
    sizes ((createFramebuffers env).run o).state =
      [o.swapChainImages.length, o.swapChainImageViews.length, o.swapChainImageViews.length,
        o.uniformBuffers.length, o.uniformBuffersMemory.length, o.lightingBuffers.length,
        o.lightingBuffersMemory.length, o.descriptorSets.length, o.commandBuffers.length] := by
  have hR := chainable_sizesKept
  unfold createFramebuffers
  rw [run_modifyState_bind, run_getState_bind]
  refine Eq.trans ((within_forRange (p := Call.isQuiet) hR _ (fun i => ?_) _ _).holds _).1 ?_
  · repeat' first
      | exact within_pure hR _
      | exact within_fail hR _
      | exact within_getState hR
      | exact within_index hR _ _ _
      | exact within_call hR _ ⟨rfl, rfl, rfl, rfl, rfl⟩
      | exact within_modifyState _ (fun _ => by simp [SizesKept, sizes])
      | apply within_bind hR
      | split
      | intro _
  · simp [sizes, length_resize]

theorem createUniformBuffers_sizes (env : CreationEnv) (o : SwapChainObjects) :
    sizes ((createUniformBuffers env).run o).state =
      [o.swapChainImages.length, o.swapChainImageViews.length,
        o.swapChainFramebuffers.length,
        o.swapChainImages.length, o.swapChainImages.length, o.swapChainImages.length,
        o.swapChainImages.length, o.descriptorSets.length, o.commandBuffers.length] := by
  have hR := chainable_sizesKept
  unfold createUniformBuffers
  rw [run_modifyState_bind, run_getState_bind]
  refine Eq.trans ((within_forRange (p := Call.isQuiet) hR _ (fun i => ?_) _ _).holds _).1 ?_
  · repeat' first
      | exact within_pure hR _
      | exact within_fail hR _
      | exact within_getState hR
      | exact within_index hR _ _ _
      | exact within_createBuffer hR _ _ _ _ _
      | exact within_call hR _ ⟨rfl, rfl, rfl, rfl, rfl⟩
      | exact within_modifyState _ (fun _ => by simp [SizesKept, sizes])
      | apply within_bind hR
      | split
      | intro _
  · simp [sizes, length_resize]

theorem createDescriptorSets_sizes (env : CreationEnv) (ctx : StaticHandles)
    (o : SwapChainObjects) :
    sizes ((createDescriptorSets env ctx).run o).state =
      [o.swapChainImages.length, o.swapChainImageViews.length,
        o.swapChainFramebuffers.length,
        o.uniformBuffers.length, o.uniformBuffersMemory.length, o.lightingBuffers.length,
        o.lightingBuffersMemory.length, o.swapChainImages.length, o.commandBuffers.length] := by
  have hR := chainable_sizesKept
  unfold createDescriptorSets
  rw [run_modifyState_bind, run_getState_bind]
  dsimp only
  rw [run_call_bind, prepend_state]
  by_cases hfail : env.descriptorSetsResult ≠ VK_SUCCESS
  · rw [if_pos hfail]
    simp [sizes, length_resize, fail, Exec.run]
  · rw [if_neg hfail, run_modifyState_bind]
    refine Eq.trans
      ((within_forRange (p := Call.isQuiet) hR _ (fun i => ?_) _ _).holds _).1 ?_
    · repeat' first
        | exact within_pure hR _
        | exact within_fail hR _
        | exact within_getState hR
        | exact within_index hR _ _ _
        | exact within_call hR _ ⟨rfl, rfl, rfl, rfl, rfl⟩
        | exact within_modifyState _ (fun _ => by simp [SizesKept, sizes])
        | apply within_bind hR
        | split
        | intro _
    · simp [sizes, length_resize]

theorem createCommandBuffers_sizes (env : CreationEnv) (ctx : StaticHandles)
    (o : SwapChainObjects) :
    sizes ((createCommandBuffers env ctx).run o).state =
      [o.swapChainImages.length, o.swapChainImageViews.length,
        o.swapChainFramebuffers.length,
        o.uniformBuffers.length, o.uniformBuffersMemory.length, o.lightingBuffers.length,
        o.lightingBuffersMemory.length, o.descriptorSets.length,
        o.swapChainFramebuffers.length] := by
  have hR := chainable_sizesKept
  unfold createCommandBuffers
  rw [run_modifyState_bind, run_getState_bind]
  dsimp only
  rw [run_call_bind, prepend_state]
  by_cases hfail : env.commandBuffersResult ≠ VK_SUCCESS
  · rw [if_pos hfail]
    simp [sizes, length_resize, fail, Exec.run]
  · rw [if_neg hfail, run_modifyState_bind]
    refine Eq.trans
      ((within_forRange (p := Call.isQuiet) hR _ (fun i => ?_) _ _).holds _).1 ?_
    · repeat' first
        | exact within_pure hR _
        | exact within_fail hR _
        | exact within_getState hR
        | exact within_index hR _ _ _
        | exact within_call hR _ ⟨rfl, rfl, rfl, rfl, rfl⟩
        | exact within_modifyState _ (fun _ => by simp [SizesKept, sizes])
        | apply within_bind hR
        | split
        | intro _
    · simp [sizes, length_resize]

theorem recreationPass_sized (env : CreationEnv) (ctx : StaticHandles) (o : SwapChainObjects)
    (h : ((recreationPass env ctx).run o).returned = true) :
    PerImageSized ((recreationPass env ctx).run o).state ∧
    ((recreationPass env ctx).run o).state.swapChainImages.length =
      env.swapChainImages.length := by
  unfold recreationPass at h ⊢
  obtain ⟨_, h1, h2, hstate⟩ := state_of_bind _ _ _ h
  rw [hstate]
  clear hstate h
  have e1 := createSwapChain_sizes env ctx o h1
  generalize ((createSwapChain env ctx).run o).state = o1 at e1 h2 ⊢
  clear h1
  have h := h2
  clear h2
  obtain ⟨_, h1, h2, hstate⟩ := state_of_bind _ _ _ h
  rw [hstate]
  clear hstate h
  have e2 := createImageViews_sizes env o1
  generalize ((createImageViews env).run o1).state = o2 at e2 h2 ⊢
  clear h1
  have h := h2
  clear h2
  obtain ⟨_, h1, h2, hstate⟩ := state_of_bind _ _ _ h
  rw [hstate]
  clear hstate h
  have e3 : sizes _ = sizes o2 := ((sized_createRenderPass env).holds o2).1
  generalize ((createRenderPass env).run o2).state = o3 at e3 h2 ⊢
  clear h1
  have h := h2
  clear h2
  obtain ⟨_, h1, h2, hstate⟩ := state_of_bind _ _ _ h
  rw [hstate]
  clear hstate h
  have e4 : sizes _ = sizes o3 := ((sized_createGraphicsPipeline env).holds o3).1
  generalize ((createGraphicsPipeline env).run o3).state = o4 at e4 h2 ⊢
  clear h1
  have h := h2
  clear h2
  obtain ⟨_, h1, h2, hstate⟩ := state_of_bind _ _ _ h
  rw [hstate]
  clear hstate h
  have e5 : sizes _ = sizes o4 := ((sized_createDepthResources env).holds o4).1
  generalize ((createDepthResources env).run o4).state = o5 at e5 h2 ⊢
  clear h1
  have h := h2
  clear h2
  obtain ⟨_, h1, h2, hstate⟩ := state_of_bind _ _ _ h
  rw [hstate]
  clear hstate h
  have e6 := createFramebuffers_sizes env o5
  generalize ((createFramebuffers env).run o5).state = o6 at e6 h2 ⊢
  clear h1
  have h := h2
  clear h2
  obtain ⟨_, h1, h2, hstate⟩ := state_of_bind _ _ _ h
  rw [hstate]
  clear hstate h
  have e7 := createUniformBuffers_sizes env o6
  generalize ((createUniformBuffers env).run o6).state = o7 at e7 h2 ⊢
  clear h1
  have h := h2
  clear h2
  obtain ⟨_, h1, h2, hstate⟩ := state_of_bind _ _ _ h
  rw [hstate]
  clear hstate h
  have e8 : sizes _ = sizes o7 := ((sized_createDescriptorPool env).holds o7).1
  generalize ((createDescriptorPool env).run o7).state = o8 at e8 h2 ⊢
  clear h1
  have h := h2
  clear h2
  obtain ⟨_, h1, h2, hstate⟩ := state_of_bind _ _ _ h
  rw [hstate]
  clear hstate h
  have e9 := createDescriptorSets_sizes env ctx o8
  generalize ((createDescriptorSets env ctx).run o8).state = o9 at e9 h2 ⊢
  clear h1
  have h := h2
  clear h2
  clear h
  have e10 := createCommandBuffers_sizes env ctx o9
  generalize ((createCommandBuffers env ctx).run o9).state = o10 at e10 ⊢
  simp only [sizes, List.cons.injEq, and_true, List.tail_cons] at e1 e2 e3 e4 e5 e6 e7 e8 e9 e10
  unfold PerImageSized
  obtain ⟨a1, -⟩ := e1
  obtain ⟨a2, b2, c2, d2, f2, g2, i2, j2, k2⟩ := e2
  obtain ⟨a3, b3, c3, d3, f3, g3, i3, j3, k3⟩ := e3
  obtain ⟨a4, b4, c4, d4, f4, g4, i4, j4, k4⟩ := e4
  obtain ⟨a5, b5, c5, d5, f5, g5, i5, j5, k5⟩ := e5
  obtain ⟨a6, b6, c6, d6, f6, g6, i6, j6, k6⟩ := e6
  obtain ⟨a7, b7, c7, d7, f7, g7, i7, j7, k7⟩ := e7
  obtain ⟨a8, b8, c8, d8, f8, g8, i8, j8, k8⟩ := e8
  obtain ⟨a9, b9, c9, d9, f9, g9, i9, j9, k9⟩ := e9
  obtain ⟨a10, b10, c10, d10, f10, g10, i10, j10, k10⟩ := e10
  simp only [a1, a2, b2, c2, d2, f2, g2, i2, j2, k2, a3, b3, c3, d3, f3, g3, i3, j3, k3, a4,
    b4, c4, d4, f4, g4, i4, j4, k4, a5, b5, c5, d5, f5, g5, i5, j5, k5, a6, b6, c6, d6, f6,
    g6, i6, j6, k6, a7, b7, c7, d7, f7, g7, i7, j7, k7, a8, b8, c8, d8, f8, g8, i8, j8, k8,
    a9, b9, c9, d9, f9, g9, i9, j9, k9, a10, b10, c10, d10, f10, g10, i10, j10, k10,
    and_self]

theorem chainable_objectsKept : Chainable ObjectsKept :=
  ⟨fun _ => rfl, fun _ _ _ h1 h2 => Eq.trans h2 h1⟩

theorem liftObjects_returned {α : Type} (m : Exec SwapChainObjects α) (s : App) :
    ((liftObjects m).run s).returned = (m.run s.toSwapChainObjects).returned := by
  unfold Exec.run liftObjects
  rcases m s.toSwapChainObjects with ⟨r, o, t⟩
  rfl

theorem liftObjects_state {α : Type} (m : Exec SwapChainObjects α) (s : App) :
    ((liftObjects m).run s).state.toSwapChainObjects = (m.run s.toSwapChainObjects).state := by
  unfold Exec.run liftObjects
  rcases m s.toSwapChainObjects with ⟨r, o, t⟩
  rfl

theorem kept_createDescriptorSetLayout (response : VkResult × Nat) :
    Within ObjectsKept (fun _ => True) (createDescriptorSetLayout response) := by
  have hR := chainable_objectsKept
  unfold createDescriptorSetLayout
  repeat' first
    | exact within_fail hR _
    | exact within_call hR _ trivial
    | exact within_modifyState _ (fun _ => rfl)
    | apply within_bind hR
    | split
    | intro _

theorem kept_createCommandPool (indices : QueueFamilyIndices) (response : VkResult × Nat) :
    Within ObjectsKept (fun _ => True) (createCommandPool indices response) := by
  have hR := chainable_objectsKept
  unfold createCommandPool
  repeat' first
    | exact within_fail hR _
    | exact within_liftExcept hR _
    | exact within_call hR _ trivial
    | exact within_modifyState _ (fun _ => rfl)
    | apply within_bind hR
    | split
    | intro _

theorem kept_createTextureSampler (response : VkResult × Nat) :
    Within ObjectsKept (fun _ => True) (createTextureSampler response) := by
  have hR := chainable_objectsKept
  unfold createTextureSampler
  repeat' first
    | exact within_fail hR _
    | exact within_call hR _ trivial
    | exact within_modifyState _ (fun _ => rfl)
    | apply within_bind hR
    | split
    | intro _

theorem kept_createTextureImageView (response : VkResult × Nat) :
    Within ObjectsKept Call.isQuiet (createTextureImageView response) := by
  have hR := chainable_objectsKept
  unfold createTextureImageView
  repeat' first
    | exact within_getState hR
    | exact within_createImageView hR _ _ _ _
    | exact within_modifyState _ (fun _ => rfl)
    | apply within_bind hR
    | intro _

theorem kept_ParseObjFile (outcome : Except Fault Mesh) :
    Within ObjectsKept (fun _ => True) (ParseObjFile outcome) :=
  within_liftExcept chainable_objectsKept _

theorem initVulkanFromSwapChain_sized (env : StartupEnv) (s0 : App)
    (h : ((initVulkanFromSwapChain env).run s0).returned = true) :
    PerImageSized ((initVulkanFromSwapChain env).run s0).state.toSwapChainObjects ∧
    ((initVulkanFromSwapChain env).run s0).state.swapChainImages.length =
      env.creation.swapChainImages.length := by
  unfold initVulkanFromSwapChain at h ⊢
  rw [run_getState_bind] at h ⊢
  obtain ⟨_, h1, h2, hstate⟩ := state_of_bind _ _ _ h
  rw [hstate]
  clear hstate h
  have e1 : sizes ((liftObjects (createSwapChain env.creation s0.toStaticHandles)).run s0).state.toSwapChainObjects =
      env.creation.swapChainImages.length :: (sizes s0.toSwapChainObjects).tail := by
    rw [liftObjects_state]
    exact createSwapChain_sizes _ _ _ (by rw [← liftObjects_returned]; exact h1)
  generalize ((liftObjects (createSwapChain env.creation s0.toStaticHandles)).run s0).state = s1 at e1 h2 ⊢
  clear h1
  have h := h2
  clear h2
  obtain ⟨_, h1, h2, hstate⟩ := state_of_bind _ _ _ h
  rw [hstate]
  clear hstate h
  have e2 : sizes ((liftObjects (createImageViews env.creation)).run s1).state.toSwapChainObjects =
      [s1.toSwapChainObjects.swapChainImages.length,
      s1.toSwapChainObjects.swapChainImages.length,
      s1.toSwapChainObjects.swapChainFramebuffers.length,
      s1.toSwapChainObjects.uniformBuffers.length,
      s1.toSwapChainObjects.uniformBuffersMemory.length,
      s1.toSwapChainObjects.lightingBuffers.length,
      s1.toSwapChainObjects.lightingBuffersMemory.length,
      s1.toSwapChainObjects.descriptorSets.length,
      s1.toSwapChainObjects.commandBuffers.length] := by
    rw [liftObjects_state]
    exact createImageViews_sizes _ s1.toSwapChainObjects
  generalize ((liftObjects (createImageViews env.creation)).run s1).state = s2 at e2 h2 ⊢
  clear h1
  have h := h2
  clear h2
  obtain ⟨_, h1, h2, hstate⟩ := state_of_bind _ _ _ h
  rw [hstate]
  clear hstate h
  have e3 : sizes ((liftObjects (createRenderPass env.creation)).run s2).state.toSwapChainObjects =
      sizes s2.toSwapChainObjects := by
    rw [liftObjects_state]
    exact ((sized_createRenderPass _).holds _).1
  generalize ((liftObjects (createRenderPass env.creation)).run s2).state = s3 at e3 h2 ⊢
  clear h1
  have h := h2
  clear h2
  obtain ⟨_, h1, h2, hstate⟩ := state_of_bind _ _ _ h
  rw [hstate]
  clear hstate h
  have e4 : sizes ((createDescriptorSetLayout env.descriptorSetLayout).run s3).state.toSwapChainObjects =
      sizes s3.toSwapChainObjects :=
    congrArg sizes ((kept_createDescriptorSetLayout _).holds s3).1
  generalize ((createDescriptorSetLayout env.descriptorSetLayout).run s3).state = s4 at e4 h2 ⊢
  clear h1
  have h := h2
  clear h2
  obtain ⟨_, h1, h2, hstate⟩ := state_of_bind _ _ _ h
  rw [hstate]
  clear hstate h
  have e5 : sizes ((liftObjects (createGraphicsPipeline env.creation)).run s4).state.toSwapChainObjects =
      sizes s4.toSwapChainObjects := by
    rw [liftObjects_state]
    exact ((sized_createGraphicsPipeline _).holds _).1
  generalize ((liftObjects (createGraphicsPipeline env.creation)).run s4).state = s5 at e5 h2 ⊢
  clear h1
  have h := h2
  clear h2
  obtain ⟨_, h1, h2, hstate⟩ := state_of_bind _ _ _ h
  rw [hstate]
  clear hstate h
  have e6 : sizes ((createCommandPool env.creation.indices env.commandPool).run s5).state.toSwapChainObjects =
      sizes s5.toSwapChainObjects :=
    congrArg sizes ((kept_createCommandPool _ _).holds s5).1
  generalize ((createCommandPool env.creation.indices env.commandPool).run s5).state = s6 at e6 h2 ⊢
  clear h1
  have h := h2
  clear h2
  obtain ⟨_, h1, h2, hstate⟩ := state_of_bind _ _ _ h
  rw [hstate]
  clear hstate h
  have e7 : sizes ((liftObjects (createDepthResources env.creation)).run s6).state.toSwapChainObjects =
      sizes s6.toSwapChainObjects := by
    rw [liftObjects_state]
    exact ((sized_createDepthResources _).holds _).1
  generalize ((liftObjects (createDepthResources env.creation)).run s6).state = s7 at e7 h2 ⊢
  clear h1
  have h := h2
  clear h2
  obtain ⟨_, h1, h2, hstate⟩ := state_of_bind _ _ _ h
  rw [hstate]
  clear hstate h
  have e8 : sizes ((liftObjects (createFramebuffers env.creation)).run s7).state.toSwapChainObjects =
      [s7.toSwapChainObjects.swapChainImages.length,
      s7.toSwapChainObjects.swapChainImageViews.length,
      s7.toSwapChainObjects.swapChainImageViews.length,
      s7.toSwapChainObjects.uniformBuffers.length,
      s7.toSwapChainObjects.uniformBuffersMemory.length,
      s7.toSwapChainObjects.lightingBuffers.length,
      s7.toSwapChainObjects.lightingBuffersMemory.length,
      s7.toSwapChainObjects.descriptorSets.length,
      s7.toSwapChainObjects.commandBuffers.length] := by
    rw [liftObjects_state]
    exact createFramebuffers_sizes _ s7.toSwapChainObjects
  generalize ((liftObjects (createFramebuffers env.creation)).run s7).state = s8 at e8 h2 ⊢
  clear h1
  have h := h2
  clear h2
  obtain ⟨m, h1, h2, hstate⟩ := state_of_bind _ _ _ h
  rw [hstate]
  clear hstate h
  have e9 : sizes ((ParseObjFile env.mesh).run s8).state.toSwapChainObjects =
      sizes s8.toSwapChainObjects :=
    congrArg sizes ((kept_ParseObjFile _).holds s8).1
  generalize ((ParseObjFile env.mesh).run s8).state = s9 at e9 h2 ⊢
  clear h1
  have h := h2
  clear h2
  obtain ⟨_, h1, h2, hstate⟩ := state_of_bind _ _ _ h
  rw [hstate]
  clear hstate h
  have e10 : sizes ((createTextureImage env.texture).run s9).state.toSwapChainObjects =
      sizes s9.toSwapChainObjects := by
    obtain ⟨_, _, _, -, -, -, hrun⟩ := createTextureImage_run _ _ h1
    rw [hrun]
  generalize ((createTextureImage env.texture).run s9).state = s10 at e10 h2 ⊢
  clear h1
  have h := h2
  clear h2
  obtain ⟨_, h1, h2, hstate⟩ := state_of_bind _ _ _ h
  rw [hstate]
  clear hstate h
  have e11 : sizes ((createTextureImageView env.textureImageView).run s10).state.toSwapChainObjects =
      sizes s10.toSwapChainObjects :=
    congrArg sizes ((kept_createTextureImageView _).holds s10).1
  generalize ((createTextureImageView env.textureImageView).run s10).state = s11 at e11 h2 ⊢
  clear h1
  have h := h2
  clear h2
  obtain ⟨_, h1, h2, hstate⟩ := state_of_bind _ _ _ h
  rw [hstate]
  clear hstate h
  have e12 : sizes ((createTextureSampler env.textureSampler).run s11).state.toSwapChainObjects =
      sizes s11.toSwapChainObjects :=
    congrArg sizes ((kept_createTextureSampler _).holds s11).1
  generalize ((createTextureSampler env.textureSampler).run s11).state = s12 at e12 h2 ⊢
  clear h1
  have h := h2
  clear h2
  obtain ⟨_, h1, h2, hstate⟩ := state_of_bind _ _ _ h
  rw [hstate]
  clear hstate h
  have e13 : sizes ((createVertexBuffer env.vertexUpload m).run s12).state.toSwapChainObjects =
      sizes s12.toSwapChainObjects := by
    obtain ⟨_, _, -, -, hrun⟩ := createVertexBuffer_run _ _ _ h1
    rw [hrun]
  generalize ((createVertexBuffer env.vertexUpload m).run s12).state = s13 at e13 h2 ⊢
  clear h1
  have h := h2
  clear h2
  obtain ⟨_, h1, h2, hstate⟩ := state_of_bind _ _ _ h
  rw [hstate]
  clear hstate h
  have e14 : sizes ((createIndexBuffer env.indexUpload m).run s13).state.toSwapChainObjects =
      sizes s13.toSwapChainObjects := by
    obtain ⟨_, _, -, -, hrun⟩ := createIndexBuffer_run _ _ _ h1
    rw [hrun]
  generalize ((createIndexBuffer env.indexUpload m).run s13).state = s14 at e14 h2 ⊢
  clear h1
  have h := h2
  clear h2
  obtain ⟨_, h1, h2, hstate⟩ := state_of_bind _ _ _ h
  rw [hstate]
  clear hstate h
  have e15 : sizes ((liftObjects (createUniformBuffers env.creation)).run s14).state.toSwapChainObjects =
      [s14.toSwapChainObjects.swapChainImages.length,
      s14.toSwapChainObjects.swapChainImageViews.length,
      s14.toSwapChainObjects.swapChainFramebuffers.length,
      s14.toSwapChainObjects.swapChainImages.length,
      s14.toSwapChainObjects.swapChainImages.length,
      s14.toSwapChainObjects.swapChainImages.length,
      s14.toSwapChainObjects.swapChainImages.length,
      s14.toSwapChainObjects.descriptorSets.length,
      s14.toSwapChainObjects.commandBuffers.length] := by
    rw [liftObjects_state]
    exact createUniformBuffers_sizes _ s14.toSwapChainObjects
  generalize ((liftObjects (createUniformBuffers env.creation)).run s14).state = s15 at e15 h2 ⊢
  clear h1
  have h := h2
  clear h2
  obtain ⟨_, h1, h2, hstate⟩ := state_of_bind _ _ _ h
  rw [hstate]
  clear hstate h
  have e16 : sizes ((liftObjects (createDescriptorPool env.creation)).run s15).state.toSwapChainObjects =
      sizes s15.toSwapChainObjects := by
    rw [liftObjects_state]
    exact ((sized_createDescriptorPool _).holds _).1
  generalize ((liftObjects (createDescriptorPool env.creation)).run s15).state = s16 at e16 h2 ⊢
  clear h1
  have h := h2
  clear h2
  rw [run_getState_bind] at h ⊢
  obtain ⟨_, h1, h2, hstate⟩ := state_of_bind _ _ _ h
  rw [hstate]
  clear hstate h
  have e17 : sizes ((liftObjects (createDescriptorSets env.creation s16.toStaticHandles)).run s16).state.toSwapChainObjects =
      [s16.toSwapChainObjects.swapChainImages.length,
      s16.toSwapChainObjects.swapChainImageViews.length,
      s16.toSwapChainObjects.swapChainFramebuffers.length,
      s16.toSwapChainObjects.uniformBuffers.length,
      s16.toSwapChainObjects.uniformBuffersMemory.length,
      s16.toSwapChainObjects.lightingBuffers.length,
      s16.toSwapChainObjects.lightingBuffersMemory.length,
      s16.toSwapChainObjects.swapChainImages.length,
      s16.toSwapChainObjects.commandBuffers.length] := by
    rw [liftObjects_state]
    exact createDescriptorSets_sizes _ _ s16.toSwapChainObjects
  generalize ((liftObjects (createDescriptorSets env.creation s16.toStaticHandles)).run s16).state = s17 at e17 h2 ⊢
  clear h1
  have h := h2
  clear h2
  rw [run_getState_bind] at h ⊢
  obtain ⟨_, h1, h2, hstate⟩ := state_of_bind _ _ _ h
  rw [hstate]
  clear hstate h
  have e18 : sizes ((liftObjects (createCommandBuffers env.creation s17.toStaticHandles)).run s17).state.toSwapChainObjects =
      [s17.toSwapChainObjects.swapChainImages.length,
      s17.toSwapChainObjects.swapChainImageViews.length,
      s17.toSwapChainObjects.swapChainFramebuffers.length,
      s17.toSwapChainObjects.uniformBuffers.length,
      s17.toSwapChainObjects.uniformBuffersMemory.length,
      s17.toSwapChainObjects.lightingBuffers.length,
      s17.toSwapChainObjects.lightingBuffersMemory.length,
      s17.toSwapChainObjects.descriptorSets.length,
      s17.toSwapChainObjects.swapChainFramebuffers.length] := by
    rw [liftObjects_state]
    exact createCommandBuffers_sizes _ _ s17.toSwapChainObjects
  generalize ((liftObjects (createCommandBuffers env.creation s17.toStaticHandles)).run s17).state = s18 at e18 h2 ⊢
  clear h1
  have h := h2
  clear h2
  have e19 : sizes ((createSyncObjects env.sync).run s18).state.toSwapChainObjects =
      sizes s18.toSwapChainObjects := by
    rw [createSyncObjects_run _ _ h]
  generalize ((createSyncObjects env.sync).run s18).state = s19 at e19 ⊢
  clear h
  simp only [sizes, List.cons.injEq, and_true, List.tail_cons] at e1 e2 e3 e4 e5 e6 e7 e8 e9 e10 e11 e12 e13 e14 e15 e16 e17 e18 e19
  unfold PerImageSized
  obtain ⟨a1, -⟩ := e1
  obtain ⟨a2, b2, c2, d2, f2, g2, i2, j2, k2⟩ := e2
  obtain ⟨a3, b3, c3, d3, f3, g3, i3, j3, k3⟩ := e3
  obtain ⟨a4, b4, c4, d4, f4, g4, i4, j4, k4⟩ := e4
  obtain ⟨a5, b5, c5, d5, f5, g5, i5, j5, k5⟩ := e5
  obtain ⟨a6, b6, c6, d6, f6, g6, i6, j6, k6⟩ := e6
  obtain ⟨a7, b7, c7, d7, f7, g7, i7, j7, k7⟩ := e7
  obtain ⟨a8, b8, c8, d8, f8, g8, i8, j8, k8⟩ := e8
  obtain ⟨a9, b9, c9, d9, f9, g9, i9, j9, k9⟩ := e9
  obtain ⟨a10, b10, c10, d10, f10, g10, i10, j10, k10⟩ := e10
  obtain ⟨a11, b11, c11, d11, f11, g11, i11, j11, k11⟩ := e11
  obtain ⟨a12, b12, c12, d12, f12, g12, i12, j12, k12⟩ := e12
  obtain ⟨a13, b13, c13, d13, f13, g13, i13, j13, k13⟩ := e13
  obtain ⟨a14, b14, c14, d14, f14, g14, i14, j14, k14⟩ := e14
  obtain ⟨a15, b15, c15, d15, f15, g15, i15, j15, k15⟩ := e15
  obtain ⟨a16, b16, c16, d16, f16, g16, i16, j16, k16⟩ := e16
  obtain ⟨a17, b17, c17, d17, f17, g17, i17, j17, k17⟩ := e17
  obtain ⟨a18, b18, c18, d18, f18, g18, i18, j18, k18⟩ := e18
  obtain ⟨a19, b19, c19, d19, f19, g19, i19, j19, k19⟩ := e19
  simp only [a1, a2, b2, c2, d2, f2, g2, i2, j2, k2, a3, b3, c3, d3, f3, g3, i3, j3, k3, a4,
    b4, c4, d4, f4, g4, i4, j4, k4, a5, b5, c5, d5, f5, g5, i5, j5, k5, a6, b6, c6, d6, f6,
    g6, i6, j6, k6, a7, b7, c7, d7, f7, g7, i7, j7, k7, a8, b8, c8, d8, f8, g8, i8, j8, k8,
    a9, b9, c9, d9, f9, g9, i9, j9, k9, a10, b10, c10, d10, f10, g10, i10, j10, k10, a11, b11,
    c11, d11, f11, g11, i11, j11, k11, a12, b12, c12, d12, f12, g12, i12, j12, k12, a13, b13,
    c13, d13, f13, g13, i13, j13, k13, a14, b14, c14, d14, f14, g14, i14, j14, k14, a15, b15,
    c15, d15, f15, g15, i15, j15, k15, a16, b16, c16, d16, f16, g16, i16, j16, k16, a17, b17,
    c17, d17, f17, g17, i17, j17, k17, a18, b18, c18, d18, f18, g18, i18, j18, k18, a19, b19,
    c19, d19, f19, g19, i19, j19, k19, and_self]

theorem recreateSwapChain_sized (env : RecreateEnv) (s : App)
    (h : ((recreateSwapChain env).run s).returned = true) :
    PerImageSized ((recreateSwapChain env).run s).state.toSwapChainObjects ∧
    ((recreateSwapChain env).run s).state.swapChainImages.length =
      env.creation.swapChainImages.length := by
  unfold recreateSwapChain at h ⊢
  rw [run_call_bind, run_call_bind] at h ⊢
  rw [prepend_returned, prepend_returned] at h
  rw [prepend_state, prepend_state]
  obtain ⟨_, -, h2, hstate⟩ := state_of_bind _ _ _ h
  rw [hstate]
  clear hstate h
  generalize ((waitWhileMinimized env.framebufferSize env.polls).run s).state = s1 at h2 ⊢
  rw [run_call_bind] at h2 ⊢
  rw [prepend_returned] at h2
  rw [prepend_state]
  obtain ⟨_, -, h3, hstate⟩ := state_of_bind _ _ _ h2
  rw [hstate]
  clear hstate h2
  generalize (cleanupSwapChain.run s1).state = s2 at h3 ⊢
  rw [run_getState_bind] at h3 ⊢
  rw [liftObjects_returned] at h3
  rw [liftObjects_state]
  exact recreationPass_sized _ _ _ h3

theorem perImageSized_lookups (o : SwapChainObjects) (i : Nat) (hsized : PerImageSized o)
    (hi : i < o.swapChainImages.length) :
    ∃ view framebuffer uniformBuffer uniformMemory lightingBuffer lightingMemory descriptorSet
        commandBuffer,
      o.swapChainImageViews[i]? = some view ∧
      o.swapChainFramebuffers[i]? = some framebuffer ∧
      o.uniformBuffers[i]? = some uniformBuffer ∧
      o.uniformBuffersMemory[i]? = some uniformMemory ∧
      o.lightingBuffers[i]? = some lightingBuffer ∧
      o.lightingBuffersMemory[i]? = some lightingMemory ∧
      o.descriptorSets[i]? = some descriptorSet ∧
      o.commandBuffers[i]? = some commandBuffer := by
  obtain ⟨h1, h2, h3, h4, h5, h6, h7, h8⟩ := hsized
  exact ⟨_, _, _, _, _, _, _, _,
    List.getElem?_eq_getElem (by rw [h1]; exact hi),
    List.getElem?_eq_getElem (by rw [h2]; exact hi),
    List.getElem?_eq_getElem (by rw [h3]; exact hi),
    List.getElem?_eq_getElem (by rw [h4]; exact hi),
    List.getElem?_eq_getElem (by rw [h5]; exact hi),
    List.getElem?_eq_getElem (by rw [h6]; exact hi),
    List.getElem?_eq_getElem (by rw [h7]; exact hi),
    List.getElem?_eq_getElem (by rw [h8]; exact hi)⟩

/-- C27: when the creation calls of `initVulkan` (from `createSwapChain` to
`createSyncObjects`) return normally, and whenever `recreateSwapChain` returns normally,
the image views, the framebuffers, the transform-uniform buffers and their memories, the
lighting buffers and their memories, the descriptor sets and the command buffers are each
as many as the swapchain images, which are as many as the driver reported for the new
swapchain; and in a state with these lengths every one of these arrays has an entry at
every index below the image count. -/
theorem perImage_arrays_sized :
    (∀ (env : StartupEnv) (s : App),
      ((initVulkanFromSwapChain env).run s).returned = true →
      PerImageSized ((initVulkanFromSwapChain env).run s).state.toSwapChainObjects ∧
      ((initVulkanFromSwapChain env).run s).state.swapChainImages.length =
        env.creation.swapChainImages.length) ∧
    (∀ (env : RecreateEnv) (s : App),
      ((recreateSwapChain env).run s).returned = true →
      PerImageSized ((recreateSwapChain env).run s).state.toSwapChainObjects ∧
      ((recreateSwapChain env).run s).state.swapChainImages.length =
        env.creation.swapChainImages.length) ∧
    (∀ (o : SwapChainObjects) (i : Nat), PerImageSized o → i < o.swapChainImages.length →
      ∃ view framebuffer uniformBuffer uniformMemory lightingBuffer lightingMemory
          descriptorSet commandBuffer,
        o.swapChainImageViews[i]? = some view ∧
        o.swapChainFramebuffers[i]? = some framebuffer ∧
        o.uniformBuffers[i]? = some uniformBuffer ∧
        o.uniformBuffersMemory[i]? = some uniformMemory ∧
        o.lightingBuffers[i]? = some lightingBuffer ∧
        o.lightingBuffersMemory[i]? = some lightingMemory ∧
        o.descriptorSets[i]? = some descriptorSet ∧
        o.commandBuffers[i]? = some commandBuffer) :=
  ⟨initVulkanFromSwapChain_sized, recreateSwapChain_sized, perImageSized_lookups⟩

/-- Witness for C27: the sample startup returns normally with three images and three
entries in every per-image array; the recreation that yields four images returns normally
with four entries in every per-image array, so that index 3 is in bounds in each. -/
theorem perImage_arrays_sized_witness :
    ((initVulkanFromSwapChain sampleStartup).run blankApp).returned = true ∧
    ((initVulkanFromSwapChain sampleStartup).run blankApp).state.swapChainImages =
      [21, 22, 23] ∧
    PerImageSized ((initVulkanFromSwapChain sampleStartup).run blankApp).state.toSwapChainObjects ∧
    ((recreateSwapChain fourImageRecreate).run sampleApp).returned = true ∧
    PerImageSized ((recreateSwapChain fourImageRecreate).run sampleApp).state.toSwapChainObjects ∧
    (∃ commandBuffer,
      ((recreateSwapChain fourImageRecreate).run sampleApp).state.commandBuffers[3]? =
        some commandBuffer) := by
  have hstart := (perImage_arrays_sized.1 sampleStartup blankApp rfl).1
  have hrecreate := (perImage_arrays_sized.2.1 fourImageRecreate sampleApp rfl).1
  obtain ⟨_, _, _, _, _, _, _, commandBuffer, -, -, -, -, -, -, -, h8⟩ :=
    perImage_arrays_sized.2.2
      ((recreateSwapChain fourImageRecreate).run sampleApp).state.toSwapChainObjects 3
      hrecreate (by decide)
  exact ⟨rfl, rfl, hstart, rfl, hrecreate, commandBuffer, h8⟩

/-! ## Order of the calls of `recreateSwapChain` -/

theorem mem_before_of_prefix {P : Call → Bool} (w c : Call) (rest after : List Call) :
    ∀ (pre before : List Call), pre ++ w :: rest = before ++ c :: after →
      (∀ d ∈ pre, P d = false) → P w = false → P c = true → w ∈ before := by
  intro pre
  induction pre with
  | nil =>
    intro before h _ hw hc
    cases before with
    | nil =>
      injection h with h1 _
      rw [h1, hc] at hw
      cases hw
    | cons b bs =>
      injection h with h1 _
      rw [← h1]
      exact List.mem_cons_self _ _
  | cons a pre ih =>
    intro before h hpre hw hc
    cases before with
    | nil =>
      injection h with h1 _
      have := hpre a (List.mem_cons_self _ _)
      rw [h1, hc] at this
      cases this
    | cons b bs =>
      injection h with _ h2
      exact List.mem_cons_of_mem _
        (ih bs h2 (fun d hd => hpre d (List.mem_cons_of_mem _ hd)) hw hc)

theorem waitWhileMinimized_exit : ∀ (polls : List Poll) (size : Int × Int) (s : App),
    (∀ c ∈ ((waitWhileMinimized size polls).run s).trace,
      c = .glfwGetFramebufferSize ∨ c = .glfwWaitEvents) ∧
    (((waitWhileMinimized size polls).run s).returned = true ↔
      ∃ final, exitSize size polls = some final) ∧
    (∀ final, exitSize size polls = some final → final.1 ≠ 0 ∧ final.2 ≠ 0) ∧
    ((waitWhileMinimized size polls).run s).state.toSwapChainObjects = s.toSwapChainObjects ∧
    ((waitWhileMinimized size polls).run s).state.toStaticHandles = s.toStaticHandles := by
  intro polls
  induction polls with
  | nil =>
    intro size s
    unfold waitWhileMinimized exitSize
    by_cases hzero : size.1 = 0 ∨ size.2 = 0
    · rw [if_pos hzero, if_pos hzero]
      refine ⟨(fun c hc => by cases hc),
        ⟨(fun h => by cases h), (fun h => by obtain ⟨_, h⟩ := h; cases h)⟩,
        (fun final h => by cases h), rfl, rfl⟩
    · rw [if_neg hzero, if_neg hzero]
      refine ⟨(fun c hc => by cases hc), ⟨fun _ => ⟨size, rfl⟩, fun _ => rfl⟩, ?_, rfl, rfl⟩
      intro final h
      injection h with h
      rw [← h]
      exact ⟨fun h1 => hzero (Or.inl h1), fun h2 => hzero (Or.inr h2)⟩
  | cons poll rest ih =>
    intro size s
    unfold waitWhileMinimized exitSize
    by_cases hzero : size.1 = 0 ∨ size.2 = 0
    · rw [if_pos hzero, if_pos hzero]
      dsimp only
      rw [run_call_bind, run_call_bind]
      have hdispatch : ∃ s1, (dispatchResize poll.resized).run s = ⟨.ok (), s1, []⟩ ∧
          s1.toSwapChainObjects = s.toSwapChainObjects ∧
          s1.toStaticHandles = s.toStaticHandles := by
        unfold dispatchResize
        cases poll.resized with
        | none => exact ⟨s, rfl, rfl, rfl⟩
        | some callbackSize => exact ⟨_, rfl, rfl, rfl⟩
      obtain ⟨s1, hs1, hobjects, hhandles⟩ := hdispatch
      rw [run_bind_of_eq hs1]
      obtain ⟨h1, h2, h3, h4, h5⟩ := ih poll.size s1
      refine ⟨?_, ?_, h3, by rw [prepend_state, prepend_state, prepend_state, h4, hobjects],
        by rw [prepend_state, prepend_state, prepend_state, h5, hhandles]⟩
      · intro c hc
        simp only [prepend_trace, List.cons_append, List.nil_append, List.mem_cons] at hc
        rcases hc with rfl | rfl | hc
        · exact Or.inl rfl
        · exact Or.inr rfl
        · exact h1 c hc
      · simp only [prepend_returned]
        exact h2
    · rw [if_neg hzero, if_neg hzero]
      refine ⟨(fun c hc => by cases hc), ⟨fun _ => ⟨size, rfl⟩, fun _ => rfl⟩, ?_, rfl, rfl⟩
      intro final h
      injection h with h
      rw [← h]
      exact ⟨fun h1 => hzero (Or.inl h1), fun h2 => hzero (Or.inr h2)⟩

theorem getElem?_append_cons (pre : List Nat) (x : Nat) (rest : List Nat) :
    (pre ++ x :: rest)[pre.length]? = some x := by
  rw [List.getElem?_append_right (Nat.le_refl _)]
  simp

theorem forRange_index_call {σ : Type} (f : Nat → Call) (what : String) (s : σ) :
    ∀ (suffix pre : List Nat),
      (forRange (fun i => do
        let x ← index (pre ++ suffix) i what
        call (f x)) pre.length suffix.length).run s = ⟨.ok (), s, suffix.map f⟩ := by
  intro suffix
  induction suffix with
  | nil => intro pre; rfl
  | cons x rest ih =>
    intro pre
    have hstep : (forRange (fun i => do
          let x ← index (pre ++ x :: rest) i what
          call (f x)) pre.length (rest.length + 1)).run s =
        ((do
          let x ← index (pre ++ x :: rest) pre.length what
          call (f x)) >>= fun _ =>
          forRange (fun i => do
            let x ← index (pre ++ x :: rest) i what
            call (f x)) (pre.length + 1) rest.length).run s := rfl
    rw [List.length_cons, hstep]
    have hbody : ((do
          let x ← index (pre ++ x :: rest) pre.length what
          call (f x) : Exec σ Unit)).run s = ⟨.ok (), s, [f x]⟩ := by
      rw [run_index_bind, getElem?_append_cons]
      rfl
    rw [run_bind_of_eq hbody]
    have hih := ih (pre ++ [x])
    rw [List.length_append, List.length_singleton, List.append_assoc,
      List.singleton_append] at hih
    rw [hih]
    rfl

theorem forRange_perImageDestroys (s : App) :
    ∀ (count : Nat) (ub um lb lm pub pum plb plm : List Nat),
      ub.length = count → um.length = count → lb.length = count → lm.length = count →
      pum.length = pub.length → plb.length = pub.length → plm.length = pub.length →
      (forRange (fun i => do
        let uniformBuffer ← index (pub ++ ub) i "uniformBuffers[i]"
        call (.vkDestroy .buffer uniformBuffer)
        let uniformMemory ← index (pum ++ um) i "uniformBuffersMemory[i]"
        call (.vkDestroy .memory uniformMemory)
        let lightingBuffer ← index (plb ++ lb) i "lightingBuffers[i]"
        call (.vkDestroy .buffer lightingBuffer)
        let lightingMemory ← index (plm ++ lm) i "lightingBuffersMemory[i]"
        call (.vkDestroy .memory lightingMemory)) pub.length count).run s =
        ⟨.ok (), s, perImageDestroys ub um lb lm⟩ := by
  intro count
  induction count with
  | zero =>
    intro ub um lb lm pub pum plb plm h1 h2 h3 h4 _ _ _
    rw [List.length_eq_zero.1 h1, List.length_eq_zero.1 h2, List.length_eq_zero.1 h3,
      List.length_eq_zero.1 h4]
    rfl
  | succ n ih =>
    intro ub um lb lm pub pum plb plm h1 h2 h3 h4 g2 g3 g4
    obtain ⟨a, ub', rfl⟩ := List.exists_cons_of_length_eq_add_one h1
    obtain ⟨b, um', rfl⟩ := List.exists_cons_of_length_eq_add_one h2
    obtain ⟨c, lb', rfl⟩ := List.exists_cons_of_length_eq_add_one h3
    obtain ⟨d, lm', rfl⟩ := List.exists_cons_of_length_eq_add_one h4
    have hstep : ∀ (body : Nat → Exec App Unit),
        (forRange body pub.length (n + 1)).run s =
          (body pub.length >>= fun _ => forRange body (pub.length + 1) n).run s :=
      fun _ => rfl
    rw [hstep]
    have hbody : ((do
          let uniformBuffer ← index (pub ++ a :: ub') pub.length "uniformBuffers[i]"
          call (.vkDestroy .buffer uniformBuffer)
          let uniformMemory ← index (pum ++ b :: um') pub.length "uniformBuffersMemory[i]"
          call (.vkDestroy .memory uniformMemory)
          let lightingBuffer ← index (plb ++ c :: lb') pub.length "lightingBuffers[i]"
          call (.vkDestroy .buffer lightingBuffer)
          let lightingMemory ← index (plm ++ d :: lm') pub.length "lightingBuffersMemory[i]"
          call (.vkDestroy .memory lightingMemory) : Exec App Unit)).run s =
        ⟨.ok (), s, [.vkDestroy .buffer a, .vkDestroy .memory b, .vkDestroy .buffer c,
          .vkDestroy .memory d]⟩ := by
      rw [run_index_bind, getElem?_append_cons]
      dsimp only
      rw [run_call_bind, run_index_bind, ← g2, getElem?_append_cons]
      dsimp only
      rw [run_call_bind, run_index_bind, g2, ← g3, getElem?_append_cons]
      dsimp only
      rw [run_call_bind, run_index_bind, g3, ← g4, getElem?_append_cons]
      rfl
    rw [run_bind_of_eq hbody]
    have hih := ih ub' um' lb' lm' (pub ++ [a]) (pum ++ [b]) (plb ++ [c]) (plm ++ [d])
      (by simpa using h1) (by simpa using h2) (by simpa using h3) (by simpa using h4)
      (by simp [g2]) (by simp [g3]) (by simp [g4])
    simp only [List.length_append, List.length_singleton, List.append_assoc,
      List.singleton_append] at hih
    rw [hih]
    rfl

theorem cleanupSwapChain_run (s : App)
    (h1 : s.uniformBuffers.length = s.swapChainImages.length)
    (h2 : s.uniformBuffersMemory.length = s.swapChainImages.length)
    (h3 : s.lightingBuffers.length = s.swapChainImages.length)
    (h4 : s.lightingBuffersMemory.length = s.swapChainImages.length) :
    cleanupSwapChain.run s =
      ⟨.ok (), s,
        [.vkDestroy .imageView s.depthImageView, .vkDestroy .image s.depthImage,
          .vkDestroy .memory s.depthImageMemory] ++
        s.swapChainFramebuffers.map (.vkDestroy .framebuffer) ++
        [.vkDestroy .pipeline s.graphicsPipeline,
          .vkDestroy .pipelineLayout s.pipelineLayout,
          .vkDestroy .renderPass s.renderPass] ++
        s.swapChainImageViews.map (.vkDestroy .imageView) ++
        [.vkDestroy .swapchain s.swapChain] ++
        perImageDestroys s.uniformBuffers s.uniformBuffersMemory s.lightingBuffers
          s.lightingBuffersMemory ++
        [.vkDestroy .descriptorPool s.descriptorPool]⟩ := by
  unfold cleanupSwapChain
  rw [run_getState_bind, run_call_bind, run_call_bind, run_call_bind]
  have hframes := forRange_index_call (Call.vkDestroy .framebuffer)
    "swapChainFramebuffers" s s.swapChainFramebuffers []
  have hviews := forRange_index_call (Call.vkDestroy .imageView)
    "swapChainImageViews" s s.swapChainImageViews []
  have hper := forRange_perImageDestroys s s.swapChainImages.length s.uniformBuffers
    s.uniformBuffersMemory s.lightingBuffers s.lightingBuffersMemory [] [] [] []
    h1 h2 h3 h4 rfl rfl rfl
  simp only [List.nil_append, List.length_nil] at hframes hviews hper
  rw [run_bind_of_eq hframes, run_call_bind, run_call_bind, run_call_bind,
    run_bind_of_eq hviews, run_call_bind, run_bind_of_eq hper]
  simp only [Run.prepend, call, Exec.run, List.append_assoc, List.cons_append,
    List.nil_append, List.append_nil]

theorem bind_pure_unit {σ : Type} (m : Exec σ Unit) :
    (m >>= fun _ => (pure () : Exec σ Unit)) = m := by
  funext s
  show Exec.bind m (fun _ => Exec.pure ()) s = m s
  unfold Exec.bind
  cases hres : (m s).result with
  | ok a =>
    show (⟨.ok (), (m s).state, (m s).trace ++ []⟩ : Run σ Unit) = m s
    rw [List.append_nil]
    cases hm : m s with
    | mk r st t =>
      rw [hm] at hres
      simp only at hres
      rw [hres]
  | error e =>
    show (⟨.error e, (m s).state, (m s).trace⟩ : Run σ Unit) = m s
    cases hm : m s with
    | mk r st t =>
      rw [hm] at hres
      simp only at hres
      rw [hres]

theorem recreationPass_stages (env : CreationEnv) (ctx : StaticHandles) :
    recreationPass env ctx =
      runStages [createSwapChain env ctx, createImageViews env, createRenderPass env,
        createGraphicsPipeline env, createDepthResources env, createFramebuffers env,
        createUniformBuffers env, createDescriptorPool env, createDescriptorSets env ctx,
        createCommandBuffers env ctx] := by
  unfold recreationPass
  simp only [runStages]
  rw [bind_pure_unit]

theorem recreateSwapChain_destroys_after_wait (env : RecreateEnv) (s : App)
    (before after : List Call) (c : Call)
    (hsplit : ((recreateSwapChain env).run s).trace = before ++ c :: after)
    (hdestroy : c.isDestroy = true) :
    Call.vkDeviceWaitIdle ∈ before ∧
    ∃ final, exitSize env.framebufferSize env.polls = some final ∧
      final.1 ≠ 0 ∧ final.2 ≠ 0 := by
  obtain ⟨hcalls, hreturned, hnonzero, -, -⟩ :=
    waitWhileMinimized_exit env.polls env.framebufferSize s
  unfold recreateSwapChain at hsplit
  rw [run_call_bind, run_call_bind, prepend_trace, prepend_trace] at hsplit
  have hquiet : ∀ d ∈ [Call.enter "recreateSwapChain", Call.glfwGetFramebufferSize] ++
      ((waitWhileMinimized env.framebufferSize env.polls).run s).trace,
      d.isDestroy = false := by
    intro d hd
    simp only [List.cons_append, List.nil_append, List.mem_cons] at hd
    rcases hd with rfl | rfl | hd
    · rfl
    · rfl
    · rcases hcalls d hd with rfl | rfl <;> rfl
  rcases run_bind_cases (waitWhileMinimized env.framebufferSize env.polls)
    (fun _ => do
      call .vkDeviceWaitIdle
      cleanupSwapChain
      let s ← getState
      liftObjects (recreationPass env.creation s.toStaticHandles)) s with
    ⟨a, hres, heq⟩ | ⟨e, hres, heq⟩
  · rw [heq, prepend_trace, run_call_bind, prepend_trace] at hsplit
    have hret : ((waitWhileMinimized env.framebufferSize env.polls).run s).returned = true := by
      unfold Run.returned
      rw [hres]
    obtain ⟨final, hfinal⟩ := hreturned.1 hret
    refine ⟨?_, final, hfinal, hnonzero final hfinal⟩
    have key : ∀ rest : List Call,
        [Call.enter "recreateSwapChain"] ++ ([Call.glfwGetFramebufferSize] ++
          (((waitWhileMinimized env.framebufferSize env.polls).run s).trace ++
            ([Call.vkDeviceWaitIdle] ++ rest))) = before ++ c :: after →
        Call.vkDeviceWaitIdle ∈ before := by
      intro rest h
      refine mem_before_of_prefix (P := Call.isDestroy) Call.vkDeviceWaitIdle c rest after
        ([Call.enter "recreateSwapChain", Call.glfwGetFramebufferSize] ++
          ((waitWhileMinimized env.framebufferSize env.polls).run s).trace) before ?_
        hquiet rfl hdestroy
      rw [← h]
      simp only [List.append_assoc, List.cons_append, List.nil_append]
    exact key _ hsplit
  · rw [heq] at hsplit
    have hmem : c ∈ [Call.enter "recreateSwapChain", Call.glfwGetFramebufferSize] ++
        ((waitWhileMinimized env.framebufferSize env.polls).run s).trace := by
      have : c ∈ before ++ c :: after := by simp
      rw [← hsplit] at this
      simpa using this
    rw [hquiet c hmem] at hdestroy
    cases hdestroy

theorem recreateSwapChain_closed (env : RecreateEnv) (s : App)
    (hwait : ((waitWhileMinimized env.framebufferSize env.polls).run s).returned = true)
    (h1 : s.uniformBuffers.length = s.swapChainImages.length)
    (h2 : s.uniformBuffersMemory.length = s.swapChainImages.length)
    (h3 : s.lightingBuffers.length = s.swapChainImages.length)
    (h4 : s.lightingBuffersMemory.length = s.swapChainImages.length) :
    ((recreateSwapChain env).run s).trace =
      [.enter "recreateSwapChain", .glfwGetFramebufferSize] ++
      ((waitWhileMinimized env.framebufferSize env.polls).run s).trace ++
      [.vkDeviceWaitIdle] ++
      ([.vkDestroy .imageView s.depthImageView, .vkDestroy .image s.depthImage,
          .vkDestroy .memory s.depthImageMemory] ++
        s.swapChainFramebuffers.map (.vkDestroy .framebuffer) ++
        [.vkDestroy .pipeline s.graphicsPipeline,
          .vkDestroy .pipelineLayout s.pipelineLayout,
          .vkDestroy .renderPass s.renderPass] ++
        s.swapChainImageViews.map (.vkDestroy .imageView) ++
        [.vkDestroy .swapchain s.swapChain] ++
        perImageDestroys s.uniformBuffers s.uniformBuffersMemory s.lightingBuffers
          s.lightingBuffersMemory ++
        [.vkDestroy .descriptorPool s.descriptorPool]) ++
      ((recreationPass env.creation s.toStaticHandles).run s.toSwapChainObjects).trace ∧
    ((recreateSwapChain env).run s).returned =
      ((recreationPass env.creation s.toStaticHandles).run s.toSwapChainObjects).returned := by
  obtain ⟨-, -, -, hobjects, hhandles⟩ :=
    waitWhileMinimized_exit env.polls env.framebufferSize s
  unfold recreateSwapChain
  rw [run_call_bind, run_call_bind]
  cases hres : ((waitWhileMinimized env.framebufferSize env.polls).run s).result with
  | error e =>
    unfold Run.returned at hwait
    rw [hres] at hwait
    cases hwait
  | ok a =>
  rw [run_bind_ok hres]
  generalize hs1 : ((waitWhileMinimized env.framebufferSize env.polls).run s).state = s1
    at hobjects hhandles ⊢
  generalize ((waitWhileMinimized env.framebufferSize env.polls).run s).trace = waited
  have hfields : s1.depthImageView = s.depthImageView ∧ s1.depthImage = s.depthImage ∧
      s1.depthImageMemory = s.depthImageMemory ∧
      s1.swapChainFramebuffers = s.swapChainFramebuffers ∧
      s1.graphicsPipeline = s.graphicsPipeline ∧ s1.pipelineLayout = s.pipelineLayout ∧
      s1.renderPass = s.renderPass ∧ s1.swapChainImageViews = s.swapChainImageViews ∧
      s1.swapChain = s.swapChain ∧ s1.uniformBuffers = s.uniformBuffers ∧
      s1.uniformBuffersMemory = s.uniformBuffersMemory ∧
      s1.lightingBuffers = s.lightingBuffers ∧
      s1.lightingBuffersMemory = s.lightingBuffersMemory ∧
      s1.descriptorPool = s.descriptorPool ∧ s1.swapChainImages = s.swapChainImages := by
    have hf : ∀ {β : Type} (g : SwapChainObjects → β),
        g s1.toSwapChainObjects = g s.toSwapChainObjects := fun g => congrArg g hobjects
    exact ⟨hf (·.depthImageView), hf (·.depthImage), hf (·.depthImageMemory),
      hf (·.swapChainFramebuffers), hf (·.graphicsPipeline), hf (·.pipelineLayout),
      hf (·.renderPass), hf (·.swapChainImageViews), hf (·.swapChain),
      hf (·.uniformBuffers), hf (·.uniformBuffersMemory), hf (·.lightingBuffers),
      hf (·.lightingBuffersMemory), hf (·.descriptorPool), hf (·.swapChainImages)⟩
  obtain ⟨f1, f2, f3, f4, f5, f6, f7, f8, f9, f10, f11, f12, f13, f14, f15⟩ := hfields
  have hclean := cleanupSwapChain_run s1 (by rw [f10, f15]; exact h1)
    (by rw [f11, f15]; exact h2) (by rw [f12, f15]; exact h3) (by rw [f13, f15]; exact h4)
  rw [f1, f2, f3, f4, f5, f6, f7, f8, f9, f10, f11, f12, f13, f14] at hclean
  have htrace : ((liftObjects (recreationPass env.creation s1.toStaticHandles)).run s1).trace =
      ((recreationPass env.creation s.toStaticHandles).run s.toSwapChainObjects).trace := by
    rw [hhandles, ← hobjects]
    unfold Exec.run liftObjects
    rcases recreationPass env.creation s.toStaticHandles s1.toSwapChainObjects with ⟨r, o, t⟩
    rfl
  have hreturned := liftObjects_returned (recreationPass env.creation s1.toStaticHandles) s1
  rw [hhandles, hobjects] at hreturned
  rw [run_call_bind, run_bind_of_eq hclean, run_getState_bind]
  constructor
  · simp only [prepend_trace, htrace, List.append_assoc, List.cons_append, List.nil_append]
  · rw [← hreturned, hhandles]
    rfl

/-- C23 (counterexample): in the sample startup the framebuffers 50, 51 and 52 are created
with the depth image view 47 as their second attachment. The recreation that follows
destroys view 47 first, then the depth image and its memory, and only then the three
framebuffers: an object (the depth view) is destroyed before the objects created from it. -/
theorem recreateSwapChain_depth_view_counterexample :
    ((initVulkanFromSwapChain sampleStartup).run blankApp).returned = true ∧
    ((initVulkanFromSwapChain sampleStartup).run blankApp).trace.filter
        (fun c => c.isFramebufferCreate) =
      [.vkCreateFramebuffer 40 [30, 47] 800 600 VK_SUCCESS 50,
        .vkCreateFramebuffer 40 [31, 47] 800 600 VK_SUCCESS 51,
        .vkCreateFramebuffer 40 [32, 47] 800 600 VK_SUCCESS 52] ∧
    afterStartup.depthImageView = 47 ∧
    afterStartup.swapChainFramebuffers = [50, 51, 52] ∧
    ((recreateSwapChain sampleRecreate).run afterStartup).returned = true ∧
    ((recreateSwapChain sampleRecreate).run afterStartup).trace.take 9 =
      [.enter "recreateSwapChain", .glfwGetFramebufferSize, .vkDeviceWaitIdle,
        .vkDestroy .imageView 47, .vkDestroy .image 45, .vkDestroy .memory 46,
        .vkDestroy .framebuffer 50, .vkDestroy .framebuffer 51,
        .vkDestroy .framebuffer 52] :=
  ⟨rfl, rfl, rfl, rfl, rfl, rfl⟩

/-- C23 (amended): in every `recreateSwapChain` call, a call that destroys an object comes
after `vkDeviceWaitIdle`, and the loop on the window size has then exited with a size read
whose two dimensions are nonzero. When that loop exits (the per-image uniform arrays having
one entry per image), the calls are: entry, the first size query, the size queries and
event waits of the loop, `vkDeviceWaitIdle`, then the destroy calls in the order depth
image view, depth image, depth memory, every framebuffer, pipeline, pipeline layout, render
pass, every swapchain image view, swapchain, per image the transform buffer, its memory,
the lighting buffer, its memory, and the descriptor pool, then the calls of the creation
pass. So the framebuffers are destroyed before the render pass and the swapchain image
views, the pipeline before the pipeline layout and the render pass, the image views before
the swapchain and every buffer before its memory; the depth image view is destroyed before
the framebuffers. The creation pass runs `createSwapChain`, `createImageViews`,
`createRenderPass`, `createGraphicsPipeline`, `createDepthResources`, `createFramebuffers`,
`createUniformBuffers`, `createDescriptorPool`, `createDescriptorSets`,
`createCommandBuffers` in this order, ending at the first that fails. -/
theorem recreateSwapChain_order (env : RecreateEnv) (s : App) :
    (∀ (before after : List Call) (c : Call),
      ((recreateSwapChain env).run s).trace = before ++ c :: after → c.isDestroy = true →
      Call.vkDeviceWaitIdle ∈ before ∧
      ∃ final, exitSize env.framebufferSize env.polls = some final ∧
        final.1 ≠ 0 ∧ final.2 ≠ 0) ∧
    (∀ final, exitSize env.framebufferSize env.polls = some final →
      s.uniformBuffers.length = s.swapChainImages.length →
      s.uniformBuffersMemory.length = s.swapChainImages.length →
      s.lightingBuffers.length = s.swapChainImages.length →
      s.lightingBuffersMemory.length = s.swapChainImages.length →
      (∀ c ∈ ((waitWhileMinimized env.framebufferSize env.polls).run s).trace,
        c = .glfwGetFramebufferSize ∨ c = .glfwWaitEvents) ∧
      ((recreateSwapChain env).run s).trace =
        [.enter "recreateSwapChain", .glfwGetFramebufferSize] ++
        ((waitWhileMinimized env.framebufferSize env.polls).run s).trace ++
        [.vkDeviceWaitIdle] ++
        ([.vkDestroy .imageView s.depthImageView, .vkDestroy .image s.depthImage,
            .vkDestroy .memory s.depthImageMemory] ++
          s.swapChainFramebuffers.map (.vkDestroy .framebuffer) ++
          [.vkDestroy .pipeline s.graphicsPipeline,
            .vkDestroy .pipelineLayout s.pipelineLayout,
            .vkDestroy .renderPass s.renderPass] ++
          s.swapChainImageViews.map (.vkDestroy .imageView) ++
          [.vkDestroy .swapchain s.swapChain] ++
          perImageDestroys s.uniformBuffers s.uniformBuffersMemory s.lightingBuffers
            s.lightingBuffersMemory ++
          [.vkDestroy .descriptorPool s.descriptorPool]) ++
        ((recreationPass env.creation s.toStaticHandles).run s.toSwapChainObjects).trace ∧
      ((recreateSwapChain env).run s).returned =
        ((recreationPass env.creation s.toStaticHandles).run
          s.toSwapChainObjects).returned) ∧
    (∀ ctx : StaticHandles,
      recreationPass env.creation ctx =
        runStages [createSwapChain env.creation ctx, createImageViews env.creation,
          createRenderPass env.creation, createGraphicsPipeline env.creation,
          createDepthResources env.creation, createFramebuffers env.creation,
          createUniformBuffers env.creation, createDescriptorPool env.creation,
          createDescriptorSets env.creation ctx, createCommandBuffers env.creation ctx]) := by
  refine ⟨fun before after c hsplit hdestroy =>
    recreateSwapChain_destroys_after_wait env s before after c hsplit hdestroy, ?_,
    fun ctx => recreationPass_stages env.creation ctx⟩
  intro final hfinal h1 h2 h3 h4
  obtain ⟨hcalls, hreturned, -, -, -⟩ :=
    waitWhileMinimized_exit env.polls env.framebufferSize s
  exact ⟨hcalls, recreateSwapChain_closed env s (hreturned.2 ⟨final, hfinal⟩) h1 h2 h3 h4⟩

/-- Witness for the amended C23: a recreation of the sample state with the window at
800 x 600 destroys, after `vkDeviceWaitIdle`, depth view 112, depth image 110, its memory
111, framebuffers 51 to 53, pipeline 42, layout 41, render pass 40, views 31 to 33,
swapchain 20, the uniform and lighting buffers with their memories, and pool 100. -/
theorem recreateSwapChain_order_witness :
    exitSize sampleRecreate.framebufferSize sampleRecreate.polls = some (800, 600) ∧
    ((recreateSwapChain sampleRecreate).run sampleApp).trace.take 26 =
      [.enter "recreateSwapChain", .glfwGetFramebufferSize, .vkDeviceWaitIdle,
        .vkDestroy .imageView 112, .vkDestroy .image 110, .vkDestroy .memory 111,
        .vkDestroy .framebuffer 51, .vkDestroy .framebuffer 52, .vkDestroy .framebuffer 53,
        .vkDestroy .pipeline 42, .vkDestroy .pipelineLayout 41, .vkDestroy .renderPass 40,
        .vkDestroy .imageView 31, .vkDestroy .imageView 32, .vkDestroy .imageView 33,
        .vkDestroy .swapchain 20,
        .vkDestroy .buffer 61, .vkDestroy .memory 71, .vkDestroy .buffer 81,
        .vkDestroy .memory 91,
        .vkDestroy .buffer 62, .vkDestroy .memory 72, .vkDestroy .buffer 82,
        .vkDestroy .memory 92,
        .vkDestroy .buffer 63, .vkDestroy .memory 73] ∧
    (Call.vkDeviceWaitIdle ∈
      [Call.enter "recreateSwapChain", .glfwGetFramebufferSize, .vkDeviceWaitIdle]) ∧
    ((recreateSwapChain sampleRecreate).run sampleApp).returned =
      ((recreationPass sampleRecreate.creation sampleApp.toStaticHandles).run
        sampleApp.toSwapChainObjects).returned :=
  ⟨rfl, rfl,
    ((recreateSwapChain_order sampleRecreate sampleApp).1
      [.enter "recreateSwapChain", .glfwGetFramebufferSize, .vkDeviceWaitIdle]
      (((recreateSwapChain sampleRecreate).run sampleApp).trace.drop 4)
      (.vkDestroy .imageView 112) rfl rfl).1,
    ((recreateSwapChain_order sampleRecreate sampleApp).2.1 (800, 600) rfl rfl rfl rfl
      rfl).2.2⟩

/-! ## Swapchain creation: the record handed to `vkCreateSwapchainKHR` -/

theorem createSwapChain_run (env : CreationEnv) (ctx : StaticHandles) (o : SwapChainObjects)
    (createInfo : VkSwapchainCreateInfoKHR)
    (h : createSwapChainInfo ctx.surface env.swapChainSupport env.framebufferSize env.indices =
      .ok createInfo) :
    (createSwapChain env ctx).run o =
      if env.swapChain.1 ≠ VK_SUCCESS then
        ⟨.error (.thrown "failed to create swap chain!"), o,
          [.vkCreateSwapchainKHR createInfo env.swapChain.1 env.swapChain.2]⟩
      else
        ⟨.ok (), { o with
            swapChain := env.swapChain.2
            swapChainImages := env.swapChainImages
            swapChainImageFormat := createInfo.imageFormat
            swapChainExtent := createInfo.imageExtent },
          [.vkCreateSwapchainKHR createInfo env.swapChain.1 env.swapChain.2]⟩ := by
  unfold createSwapChain
  rw [h]
  dsimp only
  rw [run_call_bind]
  by_cases hfail : env.swapChain.1 ≠ VK_SUCCESS
  · rw [if_pos hfail, if_pos hfail]
    rfl
  · rw [if_neg hfail, if_neg hfail]
    rfl

theorem createSwapChain_trace (env : CreationEnv) (ctx : StaticHandles) (o : SwapChainObjects)
    (createInfo : VkSwapchainCreateInfoKHR)
    (h : createSwapChainInfo ctx.surface env.swapChainSupport env.framebufferSize env.indices =
      .ok createInfo) :
    ((createSwapChain env ctx).run o).trace =
        [.vkCreateSwapchainKHR createInfo env.swapChain.1 env.swapChain.2] ∧
    (((createSwapChain env ctx).run o).returned = true ↔ env.swapChain.1 = VK_SUCCESS) ∧
    (((createSwapChain env ctx).run o).returned = true →
      ((createSwapChain env ctx).run o).state.swapChain = env.swapChain.2) := by
  rw [createSwapChain_run env ctx o createInfo h]
  by_cases hfail : env.swapChain.1 ≠ VK_SUCCESS
  · rw [if_pos hfail]
    exact ⟨rfl, ⟨(fun hr => by cases hr), fun hs => absurd hs hfail⟩, (fun hr => by cases hr)⟩
  · rw [if_neg hfail]
    exact ⟨rfl, ⟨fun _ => not_not.1 hfail, fun _ => rfl⟩, fun _ => rfl⟩

theorem createSwapChain_no_record (env : CreationEnv) (ctx : StaticHandles)
    (o : SwapChainObjects) (e : Fault)
    (h : createSwapChainInfo ctx.surface env.swapChainSupport env.framebufferSize env.indices =
      .error e) :
    (createSwapChain env ctx).run o = ⟨.error e, o, []⟩ := by
  unfold createSwapChain
  rw [h]
  rfl

/-- C6, the claim as stated fails: with `minImageCount = maxImageCount = UINT32_MAX` the
32-bit sum `minImageCount + 1` wraps to 0, the cap is not exceeded, and the count requested
is 0, below `minImageCount`, although `0 < minImageCount <= maxImageCount`: the one call
`createSwapChain` makes for such a surface is `vkCreateSwapchainKHR` with
`minImageCount = 0` in its create-info record. -/
theorem createSwapChain_imageCount_wraps :
    (0 < (4294967295 : Nat) ∧ (4294967295 : Nat) ≤ 4294967295 ∧ 4294967295 ≤ UINT32_MAX) ∧
    createSwapChainImageCount
      ⟨4294967295, 4294967295, ⟨800, 600⟩, ⟨1, 1⟩, ⟨4096, 4096⟩, 1⟩ = 0 ∧
    (∀ createInfo, createSwapChainInfo 1
        ⟨⟨4294967295, 4294967295, ⟨800, 600⟩, ⟨1, 1⟩, ⟨4096, 4096⟩, 1⟩, [⟨44, 0⟩], [2]⟩
        (800, 600) ⟨some 0, some 0⟩ = .ok createInfo → createInfo.minImageCount = 0) ∧
    ¬ ((4294967295 : Nat) ≤ createSwapChainImageCount
      ⟨4294967295, 4294967295, ⟨800, 600⟩, ⟨1, 1⟩, ⟨4096, 4096⟩, 1⟩) ∧
    ((createSwapChain
        { sampleCreation 300 with
          swapChainSupport :=
            ⟨⟨4294967295, 4294967295, ⟨800, 600⟩, ⟨1, 1⟩, ⟨4096, 4096⟩, 1⟩, [⟨44, 0⟩], [2]⟩ }
        sampleApp.toStaticHandles).run sampleApp.toSwapChainObjects).trace =
      [.vkCreateSwapchainKHR ⟨1, 0, 44, 0, ⟨800, 600⟩, 1, 16, 0, 0, none, 1, 1, 2, true, 0⟩
        VK_SUCCESS 300] := by
  refine ⟨by decide, by decide, ?_, by decide, rfl⟩
  intro createInfo h
  obtain ⟨_, _, _, -, -, -, hcount, -⟩ := createSwapChainInfo_ok _ _ _ _ _ h
  rw [hcount]
  decide

/-- C6 as amended: for a surface offering at least one format, with both queue families
found and 32-bit `minImageCount` and `maxImageCount`, `createSwapChain` makes exactly one
call, `vkCreateSwapchainKHR`, and the `minImageCount` of the create-info record it hands over
is `minImageCount + 1` in 32-bit arithmetic, except that it is `maxImageCount` when that is
nonzero and smaller than the sum; with `maxImageCount == 0` it is never capped; with
`0 < minImageCount <= maxImageCount` and `minImageCount` below `UINT32_MAX` it lies in
`[minImageCount, maxImageCount]`; with both equal to `UINT32_MAX` it is 0. -/
theorem createSwapChain_imageCount (env : CreationEnv) (ctx : StaticHandles)
    (o : SwapChainObjects) (graphicsFamily presentFamily : Nat)
    (hmin : env.swapChainSupport.capabilities.minImageCount ≤ UINT32_MAX)
    (hmax : env.swapChainSupport.capabilities.maxImageCount ≤ UINT32_MAX)
    (hformats : env.swapChainSupport.formats ≠ [])
    (hindices : env.indices = ⟨some graphicsFamily, some presentFamily⟩) :
    ∃ createInfo,
      ((createSwapChain env ctx).run o).trace =
        [.vkCreateSwapchainKHR createInfo env.swapChain.1 env.swapChain.2] ∧
      createSwapChainInfo ctx.surface env.swapChainSupport env.framebufferSize env.indices =
        .ok createInfo ∧
      createInfo.minImageCount =
        (if env.swapChainSupport.capabilities.maxImageCount ≠ 0 ∧
            env.swapChainSupport.capabilities.maxImageCount <
              (env.swapChainSupport.capabilities.minImageCount + 1) % 4294967296
          then env.swapChainSupport.capabilities.maxImageCount
          else (env.swapChainSupport.capabilities.minImageCount + 1) % 4294967296) ∧
      (env.swapChainSupport.capabilities.maxImageCount = 0 →
        createInfo.minImageCount =
          (env.swapChainSupport.capabilities.minImageCount + 1) % 4294967296) ∧
      (0 < env.swapChainSupport.capabilities.minImageCount →
        env.swapChainSupport.capabilities.minImageCount ≤
          env.swapChainSupport.capabilities.maxImageCount →
        env.swapChainSupport.capabilities.minImageCount ≠ UINT32_MAX →
        env.swapChainSupport.capabilities.minImageCount ≤ createInfo.minImageCount ∧
          createInfo.minImageCount ≤ env.swapChainSupport.capabilities.maxImageCount) ∧
      (env.swapChainSupport.capabilities.minImageCount = UINT32_MAX →
        env.swapChainSupport.capabilities.maxImageCount = UINT32_MAX →
        createInfo.minImageCount = 0) := by
  obtain ⟨createInfo, hinfo⟩ := createSwapChainInfo_defined ctx.surface env.swapChainSupport
    env.framebufferSize graphicsFamily presentFamily hformats
  rw [← hindices] at hinfo
  refine ⟨createInfo, (createSwapChain_trace env ctx o createInfo hinfo).1, hinfo, ?_⟩
  obtain ⟨_, _, _, -, -, -, hcount, -⟩ := createSwapChainInfo_ok _ _ _ _ _ hinfo
  rw [hcount]
  unfold UINT32_MAX at hmin hmax ⊢
  unfold createSwapChainImageCount
  generalize env.swapChainSupport.capabilities.minImageCount = lo at hmin ⊢
  generalize env.swapChainSupport.capabilities.maxImageCount = hi at hmax ⊢
  simp only []
  refine ⟨?_, ?_, ?_, ?_⟩
  · by_cases hc : hi > 0 ∧ (lo + 1) % 4294967296 > hi
    · rw [if_pos hc, if_pos ⟨by omega, hc.2⟩]
    · rw [if_neg hc, if_neg (by intro h; exact hc ⟨by omega, h.2⟩)]
  · intro h0
    rw [if_neg (by omega)]
  · intro h1 h2 h3
    have hs : (lo + 1) % 4294967296 = lo + 1 := Nat.mod_eq_of_lt (by omega)
    rw [hs]
    split_ifs <;> omega
  · intro h1 h2
    subst h1 h2
    decide

/-- Witness for C6 as amended: for a surface with `minImageCount = 2` and
`maxImageCount = 2` the one call of `createSwapChain` is `vkCreateSwapchainKHR` with the
capped count 2 in its create-info record. -/
theorem createSwapChain_imageCount_witness :
    (2 : Nat) ≤ UINT32_MAX ∧ ([⟨44, 0⟩] : List VkSurfaceFormatKHR) ≠ [] ∧
    ((createSwapChain
        { sampleCreation 300 with
          swapChainSupport := ⟨⟨2, 2, ⟨800, 600⟩, ⟨1, 1⟩, ⟨4096, 4096⟩, 1⟩, [⟨44, 0⟩], [2]⟩ }
        sampleApp.toStaticHandles).run sampleApp.toSwapChainObjects).trace =
      [.vkCreateSwapchainKHR ⟨1, 2, 44, 0, ⟨800, 600⟩, 1, 16, 0, 0, none, 1, 1, 2, true, 0⟩
        VK_SUCCESS 300] ∧
    ∃ createInfo,
      ((createSwapChain
          { sampleCreation 300 with
            swapChainSupport := ⟨⟨2, 2, ⟨800, 600⟩, ⟨1, 1⟩, ⟨4096, 4096⟩, 1⟩, [⟨44, 0⟩], [2]⟩ }
          sampleApp.toStaticHandles).run sampleApp.toSwapChainObjects).trace =
        [.vkCreateSwapchainKHR createInfo VK_SUCCESS 300] ∧
      createInfo.minImageCount =
        (if (2 : Nat) ≠ 0 ∧ 2 < (2 + 1) % 4294967296 then 2 else (2 + 1) % 4294967296) :=
  ⟨by decide, by decide, rfl,
    (createSwapChain_imageCount
      { sampleCreation 300 with
        swapChainSupport := ⟨⟨2, 2, ⟨800, 600⟩, ⟨1, 1⟩, ⟨4096, 4096⟩, 1⟩, [⟨44, 0⟩], [2]⟩ }
      sampleApp.toStaticHandles sampleApp.toSwapChainObjects 0 0
      (by decide) (by decide) (by decide) rfl).imp (fun _ h => ⟨h.1, h.2.2.1⟩)⟩

/-- C7: for a surface offering at least one format and with both queue families found,
`createSwapChain` makes exactly one call, `vkCreateSwapchainKHR`, and the create-info record
it hands over asks for concurrent sharing if and only if the graphics and presentation
family indices differ, and then lists exactly the two indices (graphics, present); when the
indices are equal it asks for exclusive sharing with count 0 and a null family pointer, an
empty family list. The swapchain handle the call writes is stored if and only if the call
reports success. -/
theorem createSwapChain_sharing_mode (env : CreationEnv) (ctx : StaticHandles)
    (o : SwapChainObjects) (graphicsFamily presentFamily : Nat)
    (hformats : env.swapChainSupport.formats ≠ [])
    (hindices : env.indices = ⟨some graphicsFamily, some presentFamily⟩) :
    ∃ createInfo,
      ((createSwapChain env ctx).run o).trace =
        [.vkCreateSwapchainKHR createInfo env.swapChain.1 env.swapChain.2] ∧
      createSwapChainInfo ctx.surface env.swapChainSupport env.framebufferSize
        ⟨some graphicsFamily, some presentFamily⟩ = .ok createInfo ∧
      (createInfo.imageSharingMode = VK_SHARING_MODE_CONCURRENT ↔
        graphicsFamily ≠ presentFamily) ∧
      (createInfo.familyList = [graphicsFamily, presentFamily] ↔
        graphicsFamily ≠ presentFamily) ∧
      (graphicsFamily ≠ presentFamily →
        createInfo.queueFamilyIndexCount = 2 ∧
        createInfo.pQueueFamilyIndices = some [graphicsFamily, presentFamily]) ∧
      (graphicsFamily = presentFamily →
        createInfo.imageSharingMode = VK_SHARING_MODE_EXCLUSIVE ∧
        createInfo.queueFamilyIndexCount = 0 ∧
        createInfo.pQueueFamilyIndices = none ∧
        createInfo.familyList = []) ∧
      (((createSwapChain env ctx).run o).returned = true ↔ env.swapChain.1 = VK_SUCCESS) ∧
      (((createSwapChain env ctx).run o).returned = true →
        ((createSwapChain env ctx).run o).state.swapChain = env.swapChain.2) := by
  obtain ⟨createInfo, hinfo⟩ := createSwapChainInfo_defined ctx.surface env.swapChainSupport
    env.framebufferSize graphicsFamily presentFamily hformats
  obtain ⟨_, g, p, -, hg, hp, -, hmode, hcnt, hptr⟩ := createSwapChainInfo_ok _ _ _ _ _ hinfo
  simp only [Option.some.injEq] at hg hp
  subst hg hp
  have hrun := createSwapChain_trace env ctx o createInfo (by rw [hindices]; exact hinfo)
  refine ⟨createInfo, hrun.1, hinfo, ?_, ?_, ?_, ?_, hrun.2.1, hrun.2.2⟩
  · rw [hmode]
    by_cases hgp : graphicsFamily = presentFamily
    · simp [hgp, VK_SHARING_MODE_CONCURRENT, VK_SHARING_MODE_EXCLUSIVE]
    · simp [hgp]
  · unfold VkSwapchainCreateInfoKHR.familyList
    rw [hcnt, hptr]
    by_cases hgp : graphicsFamily = presentFamily
    · simp [hgp]
    · simp [hgp]
  · intro hgp
    rw [hcnt, hptr]
    simp [hgp]
  · intro hgp
    unfold VkSwapchainCreateInfoKHR.familyList
    rw [hmode, hcnt, hptr]
    simp [hgp]

/-- Witness for C7: with graphics family 0 and presentation family 1 the one call of
`createSwapChain` is `vkCreateSwapchainKHR` with concurrent sharing over the list [0, 1];
with both families 0 it is the call with exclusive sharing and no family list. -/
theorem createSwapChain_sharing_mode_witness :
    ([⟨44, 0⟩] : List VkSurfaceFormatKHR) ≠ [] ∧
    ((createSwapChain { sampleCreation 300 with indices := ⟨some 0, some 1⟩ }
        sampleApp.toStaticHandles).run sampleApp.toSwapChainObjects).trace =
      [.vkCreateSwapchainKHR
        ⟨1, 3, 44, 0, ⟨800, 600⟩, 1, 16, VK_SHARING_MODE_CONCURRENT, 2, some [0, 1], 1, 1, 2,
          true, 0⟩
        VK_SUCCESS 300] ∧
    ((createSwapChain (sampleCreation 300)
        sampleApp.toStaticHandles).run sampleApp.toSwapChainObjects).trace =
      [.vkCreateSwapchainKHR
        ⟨1, 3, 44, 0, ⟨800, 600⟩, 1, 16, VK_SHARING_MODE_EXCLUSIVE, 0, none, 1, 1, 2,
          true, 0⟩
        VK_SUCCESS 300] ∧
    ∃ createInfo,
      ((createSwapChain { sampleCreation 300 with indices := ⟨some 0, some 1⟩ }
          sampleApp.toStaticHandles).run sampleApp.toSwapChainObjects).trace =
        [.vkCreateSwapchainKHR createInfo VK_SUCCESS 300] ∧
      (createInfo.imageSharingMode = VK_SHARING_MODE_CONCURRENT ↔ 0 ≠ 1) ∧
      (createInfo.familyList = [0, 1] ↔ 0 ≠ 1) :=
  ⟨by decide, rfl, rfl,
    (createSwapChain_sharing_mode { sampleCreation 300 with indices := ⟨some 0, some 1⟩ }
      sampleApp.toStaticHandles sampleApp.toSwapChainObjects 0 1
      (by decide) rfl).imp (fun _ h => ⟨h.1, h.2.2.1, h.2.2.2.1⟩)⟩

/-! ## One-shot command buffers: release -/

/-- C18, the claim as stated fails: the pair (transfer-destination, undefined) is outside
the table of `transitionImageLayout`, and for it the call ends in the throw
"unsupported layout transition!" after exactly two calls, the allocation of the one-shot
command buffer and `vkBeginCommandBuffer`: `endSingleTimeCommands` is never reached and no
call frees the command buffer by the time the call ends. -/
theorem transitionImageLayout_unsupported_keeps_commandBuffer :
    transitionMasks VK_IMAGE_LAYOUT_TRANSFER_DST_OPTIMAL VK_IMAGE_LAYOUT_UNDEFINED = none ∧
    (transitionImageLayout 500 10 37 VK_IMAGE_LAYOUT_TRANSFER_DST_OPTIMAL
        VK_IMAGE_LAYOUT_UNDEFINED).run sampleApp =
      ⟨.error (.thrown "unsupported layout transition!"), sampleApp,
        [.vkAllocateCommandBuffers 5 VK_COMMAND_BUFFER_LEVEL_PRIMARY 1 [500],
          .vkBeginCommandBuffer 500 VK_COMMAND_BUFFER_USAGE_ONE_TIME_SUBMIT_BIT]⟩ ∧
    ((transitionImageLayout 500 10 37 VK_IMAGE_LAYOUT_TRANSFER_DST_OPTIMAL
        VK_IMAGE_LAYOUT_UNDEFINED).run sampleApp).trace.any
      (Call.freesCommandBuffer 500) = false :=
  ⟨rfl, rfl, rfl⟩

/-- C18 as amended: `copyBuffer` and `copyBufferToImage` always return normally, and so
does `transitionImageLayout` for each of the two layout pairs of its table; each of these
calls starts by allocating its one-shot command buffer from the command pool and ends with
the call that frees that command buffer back to the pool. For every other layout pair
`transitionImageLayout` ends in the throw "unsupported layout transition!" right after
allocating and beginning the command buffer, which no call frees. `createTextureImage`,
the caller of `transitionImageLayout`, passes the two pairs of the table: no run of it ends
in that throw. -/
theorem oneShot_commandBuffer_freed (s : App)
    (commandBuffer srcBuffer dstBuffer size buffer image width height format oldLayout
      newLayout : Nat) :
    (((copyBuffer commandBuffer srcBuffer dstBuffer size).run s).result = .ok () ∧
      ((copyBuffer commandBuffer srcBuffer dstBuffer size).run s).trace.head? =
        some (.vkAllocateCommandBuffers s.commandPool VK_COMMAND_BUFFER_LEVEL_PRIMARY 1
          [commandBuffer]) ∧
      ((copyBuffer commandBuffer srcBuffer dstBuffer size).run s).trace.getLast? =
        some (.vkFreeCommandBuffers s.commandPool [commandBuffer])) ∧
    (((copyBufferToImage commandBuffer buffer image width height).run s).result = .ok () ∧
      ((copyBufferToImage commandBuffer buffer image width height).run s).trace.head? =
        some (.vkAllocateCommandBuffers s.commandPool VK_COMMAND_BUFFER_LEVEL_PRIMARY 1
          [commandBuffer]) ∧
      ((copyBufferToImage commandBuffer buffer image width height).run s).trace.getLast? =
        some (.vkFreeCommandBuffers s.commandPool [commandBuffer])) ∧
    ((oldLayout = VK_IMAGE_LAYOUT_UNDEFINED ∧
          newLayout = VK_IMAGE_LAYOUT_TRANSFER_DST_OPTIMAL) ∨
        (oldLayout = VK_IMAGE_LAYOUT_TRANSFER_DST_OPTIMAL ∧
          newLayout = VK_IMAGE_LAYOUT_SHADER_READ_ONLY_OPTIMAL) →
      ((transitionImageLayout commandBuffer image format oldLayout newLayout).run s).result =
        .ok () ∧
      ((transitionImageLayout commandBuffer image format oldLayout newLayout).run s).trace.head? =
        some (.vkAllocateCommandBuffers s.commandPool VK_COMMAND_BUFFER_LEVEL_PRIMARY 1
          [commandBuffer]) ∧
      ((transitionImageLayout commandBuffer image format oldLayout
          newLayout).run s).trace.getLast? =
        some (.vkFreeCommandBuffers s.commandPool [commandBuffer])) ∧
    (¬ ((oldLayout = VK_IMAGE_LAYOUT_UNDEFINED ∧
          newLayout = VK_IMAGE_LAYOUT_TRANSFER_DST_OPTIMAL) ∨
        (oldLayout = VK_IMAGE_LAYOUT_TRANSFER_DST_OPTIMAL ∧
          newLayout = VK_IMAGE_LAYOUT_SHADER_READ_ONLY_OPTIMAL)) →
      (transitionImageLayout commandBuffer image format oldLayout newLayout).run s =
        ⟨.error (.thrown "unsupported layout transition!"), s,
          [.vkAllocateCommandBuffers s.commandPool VK_COMMAND_BUFFER_LEVEL_PRIMARY 1
              [commandBuffer],
            .vkBeginCommandBuffer commandBuffer VK_COMMAND_BUFFER_USAGE_ONE_TIME_SUBMIT_BIT]⟩ ∧
      ((transitionImageLayout commandBuffer image format oldLayout newLayout).run s).trace.any
        (Call.freesCommandBuffer commandBuffer) = false) ∧
    (∀ (env : TextureEnv) (t : App),
      ((createTextureImage env).run t).result ≠
        .error (.thrown "unsupported layout transition!")) := by
  refine ⟨?_, ?_, ?_, ?_, ?_⟩
  · rw [copyBuffer_run]
    exact ⟨rfl, rfl, rfl⟩
  · rw [copyBufferToImage_run]
    exact ⟨rfl, rfl, rfl⟩
  · rintro (⟨h1, h2⟩ | ⟨h1, h2⟩)
    · rw [h1, h2, transitionImageLayout_run_supported s commandBuffer image format
        VK_IMAGE_LAYOUT_UNDEFINED VK_IMAGE_LAYOUT_TRANSFER_DST_OPTIMAL 0
        VK_ACCESS_TRANSFER_WRITE_BIT VK_PIPELINE_STAGE_TOP_OF_PIPE_BIT
        VK_PIPELINE_STAGE_TRANSFER_BIT rfl]
      exact ⟨rfl, rfl, rfl⟩
    · rw [h1, h2, transitionImageLayout_run_supported s commandBuffer image format
        VK_IMAGE_LAYOUT_TRANSFER_DST_OPTIMAL VK_IMAGE_LAYOUT_SHADER_READ_ONLY_OPTIMAL
        VK_ACCESS_TRANSFER_WRITE_BIT VK_ACCESS_SHADER_READ_BIT VK_PIPELINE_STAGE_TRANSFER_BIT
        VK_PIPELINE_STAGE_FRAGMENT_SHADER_BIT rfl]
      exact ⟨rfl, rfl, rfl⟩
  · intro h
    rw [transitionImageLayout_run_none s commandBuffer image format oldLayout newLayout
      ((transitionMasks_eq_none oldLayout newLayout).2 h)]
    exact ⟨rfl, rfl⟩
  · intro env t h
    exact (supported_createTextureImage env).holds t _ h rfl

/-- Witness for C18 as amended: from the sample state the transition of image 10 from
transfer-destination to shader-read-only with command buffer 500 returns normally and ends
by freeing command buffer 500 to pool 5. -/
theorem oneShot_commandBuffer_freed_witness :
    ((VK_IMAGE_LAYOUT_TRANSFER_DST_OPTIMAL = VK_IMAGE_LAYOUT_UNDEFINED ∧
        VK_IMAGE_LAYOUT_SHADER_READ_ONLY_OPTIMAL = VK_IMAGE_LAYOUT_TRANSFER_DST_OPTIMAL) ∨
      (VK_IMAGE_LAYOUT_TRANSFER_DST_OPTIMAL = VK_IMAGE_LAYOUT_TRANSFER_DST_OPTIMAL ∧
        VK_IMAGE_LAYOUT_SHADER_READ_ONLY_OPTIMAL = VK_IMAGE_LAYOUT_SHADER_READ_ONLY_OPTIMAL)) ∧
    ((transitionImageLayout 500 10 43 VK_IMAGE_LAYOUT_TRANSFER_DST_OPTIMAL
        VK_IMAGE_LAYOUT_SHADER_READ_ONLY_OPTIMAL).run sampleApp).result = .ok () ∧
    ((transitionImageLayout 500 10 43 VK_IMAGE_LAYOUT_TRANSFER_DST_OPTIMAL
        VK_IMAGE_LAYOUT_SHADER_READ_ONLY_OPTIMAL).run sampleApp).trace.head? =
      some (.vkAllocateCommandBuffers 5 VK_COMMAND_BUFFER_LEVEL_PRIMARY 1 [500]) ∧
    ((transitionImageLayout 500 10 43 VK_IMAGE_LAYOUT_TRANSFER_DST_OPTIMAL
        VK_IMAGE_LAYOUT_SHADER_READ_ONLY_OPTIMAL).run sampleApp).trace.getLast? =
      some (.vkFreeCommandBuffers 5 [500]) :=
  ⟨Or.inr ⟨rfl, rfl⟩,
    (oneShot_commandBuffer_freed sampleApp 500 0 0 0 0 10 0 0 43
      VK_IMAGE_LAYOUT_TRANSFER_DST_OPTIMAL VK_IMAGE_LAYOUT_SHADER_READ_ONLY_OPTIMAL).2.2.1
      (Or.inr ⟨rfl, rfl⟩)⟩

/-! ## The image-in-flight table after the swapchain has grown -/

/-- C20 (evaluation of the code at the failing input): the state `afterGrowth` is reachable,
its swapchain has four images and its image-in-flight table the three entries
`createSyncObjects` gave it, all `VK_NULL_HANDLE`; slot 0 is current and its in-flight fence
is 221. A frame whose acquisition succeeds with image index 3 waits on the slot fence,
acquires, and then reads `imagesInFlight[3]` outside the table: the call ends there, before
any write of uniform data and before any submission, the table is what it was, it has no
entry for image 3, and no entry names fence 221. -/
theorem drawFrame_image_table_outgrown :
    Reachable afterGrowth ∧
    afterGrowth.swapChainImages = [401, 402, 403, 404] ∧
    afterGrowth.imagesInFlight = [0, 0, 0] ∧
    afterGrowth.inFlightFences[afterGrowth.currentFrame]? = some 221 ∧
    (frameOn 3).acquireResult = VK_SUCCESS ∧
    (frameOn 3).imageIndex = 3 ∧
    (frameOn 3).imageIndex < afterGrowth.swapChainImages.length ∧
    ((drawFrame (frameOn 3)).run afterGrowth).result =
      .error (.undefinedBehaviour "imagesInFlight[imageIndex]") ∧
    ((drawFrame (frameOn 3)).run afterGrowth).trace =
      [.vkWaitForFences [221], .vkAcquireNextImageKHR 400 201 VK_NULL_HANDLE] ∧
    ((drawFrame (frameOn 3)).run afterGrowth).trace.any Call.isHostWrite = false ∧
    ((drawFrame (frameOn 3)).run afterGrowth).trace.any Call.isSubmit = false ∧
    ((drawFrame (frameOn 3)).run afterGrowth).state.imagesInFlight = [0, 0, 0] ∧
    ((drawFrame (frameOn 3)).run afterGrowth).state.imagesInFlight[3]? = none ∧
    221 ∉ ((drawFrame (frameOn 3)).run afterGrowth).state.imagesInFlight :=
  ⟨Reachable.frame (outOfDateFrame fourImageRecreate) sampleApp reachable_sampleApp,
    rfl, rfl, rfl, rfl, rfl, by decide, rfl, rfl, rfl, rfl, rfl, rfl, by decide⟩

end VulkanPhong
